import Mathlib

/-! # Section cutting dialog (`Mod/Part/Gui/SectionCutting.cpp`)

A shallow embedding of the event handlers of the `SectionCut` dialog.

* Numbers (`double`, `float`) are exact rationals.
* A pointer to a document object is the object's name in the document; a
  pointer that does not resolve in the document is a dangling pointer.
* A widget is the record of its properties; a setter stores its argument.
  What the widget toolkit does on top of that (clamping a value into the
  range, rounding to the number of decimals, delivering signals to the
  connected slots) is outside the embedding: every handler is modelled as
  the function it is in the source, from the state in which it is called to
  the state in which it returns.
* What the host application computes (type hierarchy, object creation,
  scene bounding box, unit settings) is a field of `Env`.
-/

namespace SectionCut

/-! ## Data model -/

/-- A vector of three coordinates (`Base::Vector3d`, `SbVec3f`). -/
structure Vector3d where
  x : ℚ
  y : ℚ
  z : ℚ
  deriving DecidableEq

/-- Modelled from the spec: the bounding box of the 3D viewer (`SbBox3f`), the
axis-aligned extent given by its minimum and maximum corner. -/
structure SbBox3f where
  min : Vector3d
  max : Vector3d
  deriving DecidableEq

/-- The largest finite `float`. -/
def FLT_MAX : ℚ := 340282346638528859811704183484516925440

/-- The default constructed `SbBox3f Box;` is the empty box. -/
def SbBox3f.empty : SbBox3f :=
  { min := ⟨FLT_MAX, FLT_MAX, FLT_MAX⟩, max := ⟨-FLT_MAX, -FLT_MAX, -FLT_MAX⟩ }

/-- A box is marked empty when its maximum lies below its minimum. -/
def SbBox3f.isEmpty (b : SbBox3f) : Bool := decide (b.max.x < b.min.x)

/-- Centre of the box: `(min + max) / 2` on every axis. -/
def SbBox3f.getCenter (b : SbBox3f) : Vector3d :=
  ⟨(b.min.x + b.max.x) / 2, (b.min.y + b.max.y) / 2, (b.min.z + b.max.z) / 2⟩

/-- Size of the box: `max - min` on every axis. -/
def SbBox3f.getSize (b : SbBox3f) : Vector3d :=
  ⟨b.max.x - b.min.x, b.max.y - b.min.y, b.max.z - b.min.z⟩

/-- Origin of the box: its minimum corner. -/
def SbBox3f.getOrigin (b : SbBox3f) : Vector3d := b.min

/-- A document object with the properties the dialog reads or writes.
References to other objects are names. -/
structure DocumentObject where
  /-- Returned by `getNameInDocument` -/
  name : String
  /-- Name of the type returned by `getTypeId` -/
  typeId : String
  Visibility : Bool := true
  /-- Whether `getPropertyByName("Shape")` is not null -/
  hasShape : Bool := false
  /-- Returned by `isValid` -/
  isValid : Bool := true
  /-- The properties of `Part::Box` -/
  Length : ℚ := 0
  Width : ℚ := 0
  Height : ℚ := 0
  /-- The position of `Placement` -/
  Placement : Vector3d := ⟨0, 0, 0⟩
  /-- The properties of `Part::Cut` -/
  Base : Option String := none
  Tool : Option String := none
  /-- The property of `Part::Compound` -/
  Links : List String := []
  /-- The properties of `App::Link` -/
  LinkedObject : Option String := none
  LinkTransform : Bool := false
  /-- The property of `App::Part` -/
  Group : List String := []
  /-- Objects referenced by the link properties not listed above -/
  otherLinks : List String := []
  deriving DecidableEq

/-- The objects an object references through its link properties. -/
def DocumentObject.getOutList (o : DocumentObject) : List String :=
  o.Base.toList ++ o.Tool.toList ++ o.Links ++ o.LinkedObject.toList ++ o.Group ++ o.otherLinks

/-- The document: its objects in document order, and the calls of
`recomputeFeature(recursive)` made so far (the geometry they compute is not
modelled; the scene bounding box may depend on them). -/
structure Document where
  objects : List DocumentObject := []
  recomputed : List (String × Bool) := []
  deriving DecidableEq

/-- A `QDoubleSpinBox`. -/
structure QDoubleSpinBox where
  minimum : ℚ := 0
  maximum : ℚ := 0
  value : ℚ := 0
  singleStep : ℚ := 1
  decimals : ℤ := 2
  deriving DecidableEq

/-- A tool tip: none, `QString::number(v, 'g', decimals)`, or the notice for
assemblies. -/
inductive ToolTip where
  | unset
  | number (v : ℚ) (decimals : ℤ)
  | slidersDisabled
  deriving DecidableEq

/-- A `QSlider`. -/
structure QSlider where
  minimum : ℤ := 0
  maximum : ℤ := 100
  singleStep : ℤ := 1
  value : ℤ := 0
  enabled : Bool := true
  toolTip : ToolTip := ToolTip.unset
  deriving DecidableEq

/-- The widgets of `Ui_SectionCut`. -/
structure Ui where
  cutX : QDoubleSpinBox := {}
  cutY : QDoubleSpinBox := {}
  cutZ : QDoubleSpinBox := {}
  cutXHS : QSlider := {}
  cutYHS : QSlider := {}
  cutZHS : QSlider := {}
  /-- Whether `groupBoxX->isChecked()` -/
  groupBoxX : Bool := false
  groupBoxY : Bool := false
  groupBoxZ : Bool := false
  /-- Whether `flipX->isChecked()` -/
  flipX : Bool := false
  flipY : Bool := false
  flipZ : Bool := false
  /-- Whether `RefreshCutPB` is enabled -/
  RefreshCutPB : Bool := true
  /-- Whether `keepOnlyCutCB->isChecked()` -/
  keepOnlyCutCB : Bool := false
  deriving DecidableEq

/-- The dialog together with the application state it works on. -/
structure State where
  /-- Whether `Gui::Application::Instance->activeDocument()` is not null -/
  activeDocument : Bool := true
  /-- Whether the member `doc` is the document of the active document -/
  docIsActive : Bool := true
  /-- The contents of the active document -/
  doc : Document := {}
  ObjectsListVisible : List String := []
  hasBoxX : Bool := false
  hasBoxY : Bool := false
  hasBoxZ : Bool := false
  hasBoxCustom : Bool := false
  ui : Ui := {}
  /-- Set by `blockSignals` of the dialog -/
  signalsBlocked : Bool := false
  /-- Messages written to `Base::Console()` -/
  console : List String := []
  /-- Set when a null pointer is dereferenced -/
  nullDeref : Bool := false
  deriving DecidableEq

/-- What the handlers take from the host application and from
`SectionCutting.h`. -/
structure Env where
  /-- `Base::Type::isDerivedFrom`, on type names: child, parent -/
  isDerivedFrom : String → String → Bool
  /-- Whether `App::Document::addObject` can create an object of this type -/
  canCreate : String → Bool
  /-- The name `addObject` gives an object whose requested name is taken,
  from the names in the document and the requested name -/
  uniqueName : List String → String → String
  /-- Whether the viewer has a camera and it is orthographic -/
  orthographicCamera : Bool
  /-- The bounding box of the scene graph -/
  sceneBoundingBox : Document → SbBox3f
  /-- `Base::UnitsApi::getDecimals()` -/
  getDecimals : ℤ
  /-- `pow(10.0, static_cast<int>(log10(len)))` -/
  pow10log10 : ℚ → ℚ
  CompoundName : String
  BoxXName : String
  BoxYName : String
  BoxZName : String
  CutXName : String
  CutYName : String
  CutZName : String

/-! ## The document interface -/

/-- `doc->getObject(name)`: the object of that name, if there is one. -/
def Document.getObject (d : Document) (name : String) : Option DocumentObject :=
  d.objects.find? (fun o => o.name == name)

/-- `doc->getObjects()`, as references. -/
def Document.getObjects (d : Document) : List String :=
  d.objects.map (fun o => o.name)

/-- `doc->removeObject(name)`. -/
def Document.removeObject (d : Document) (name : String) : Document :=
  { d with objects := d.objects.filter (fun o => o.name != name) }

/-- A write to properties of the object `name` points to. -/
def Document.modify (d : Document) (name : String)
    (f : DocumentObject → DocumentObject) : Document :=
  { d with objects := d.objects.map (fun o => if o.name == name then f o else o) }

/-- `obj->recomputeFeature(recursive)`. -/
def Document.recomputeFeature (d : Document) (name : String) (recursive : Bool) : Document :=
  { d with recomputed := d.recomputed ++ [(name, recursive)] }

/-- `doc->addObject(type, name)`: null when the type cannot be created,
otherwise the new object, appended to the document under the requested
name, or under a unique one when the requested name is taken. -/
def Document.addObject (e : Env) (d : Document) (type name : String) :
    Option (String × Document) :=
  if e.canCreate type then
    let n := if (d.getObject name).isSome then e.uniqueName d.getObjects name else name
    some (n, { d with objects := d.objects ++
      [{ name := n, typeId := type, hasShape := e.isDerivedFrom type "Part::Feature" }] })
  else none

/-- `(*it)->isValid()`; an object that is no longer in the document is not
valid. -/
def Document.isValid (d : Document) (name : String) : Bool :=
  match d.getObject name with
  | some o => o.isValid
  | none => false

/-- `obj->Visibility.setValue(v)`. -/
def Document.setVisibility (d : Document) (name : String) (v : Bool) : Document :=
  d.modify name (fun o => { o with Visibility := v })

/-- `SectionCut::getViewBoundingBox`: the empty box without an orthographic
camera, otherwise the bounding box of the scene. -/
def getViewBoundingBox (e : Env) (s : State) : SbBox3f :=
  if !e.orthographicCamera then SbBox3f.empty else e.sceneBoundingBox s.doc

/-- `Base::Console().Error` and `Warning`. -/
def State.log (s : State) (msg : String) : State :=
  { s with console := s.console ++ [msg] }

/-! ## Helpers of the dialog -/

/-- `blockSignals(b)` of the dialog. -/
def blockSignals (b : Bool) (s : State) : State :=
  { s with signalsBlocked := b }

/-- `SectionCut::noDocumentActions`: actions to be done when the document
was closed. -/
def noDocumentActions (s : State) : State :=
  let s := blockSignals true s
  let s := { s with docIsActive := false }
  let s := { s with ui.groupBoxX := false }
  let s := { s with ui.groupBoxY := false }
  let s := { s with ui.groupBoxZ := false }
  let s := { s with ui.RefreshCutPB := true }
  blockSignals false s

/-- `SectionCut::onRefreshCutPBclicked`: refreshes the list of document
objects and the visible objects. This is the handler as it runs when no
`toggled` signal of a group box is delivered; `onRefreshCutPBclickedToggled`
has the signals. -/
def onRefreshCutPBclicked (e : Env) (s : State) : State :=
  if !s.activeDocument then { s with nullDeref := true } else
  let s := { s with docIsActive := true }
  let ObjectsList : List DocumentObject := s.doc.objects
  if ObjectsList.isEmpty then
    s.log "SectionCut error: there are no objects in the document\n"
  else
  let visible : List DocumentObject := ObjectsList.filter (fun o : DocumentObject => o.Visibility)
  let s := { s with ObjectsListVisible := visible.map (fun o : DocumentObject => o.name) }
  let s := { s with hasBoxX := false, hasBoxY := false, hasBoxZ := false }
  let s := if (s.doc.getObject e.CutZName).isSome then
      blockSignals false { blockSignals true { s with hasBoxZ := true } with ui.groupBoxZ := true }
    else s
  let s := if (s.doc.getObject e.CutYName).isSome then
      blockSignals false { blockSignals true { s with hasBoxY := true } with ui.groupBoxY := true }
    else s
  let s := if (s.doc.getObject e.CutXName).isSome then
      blockSignals false { blockSignals true { s with hasBoxX := true } with ui.groupBoxX := true }
    else s
  if s.hasBoxX || s.hasBoxY || s.hasBoxZ then { s with ui.RefreshCutPB := false } else s

/-- The range and single step `refreshCutRanges` gives a spin box: centre
minus and plus half the length, and the step from a hundredth of the
length. The limits are those of exact arithmetic; `floatRange` has them with
the rounding of the type `float`. -/
def setRangeAndStep (e : Env) (cnt len : ℚ) (b : QDoubleSpinBox) : QDoubleSpinBox :=
  { b with minimum := cnt - len / 2, maximum := cnt + len / 2,
           singleStep := e.pow10log10 (len / 100) }

/-- The body of `refreshCutRanges`, which works on the widgets only: the
ranges and single steps, then the values and sliders, then the decimals. -/
def refreshCutWidgets (e : Env) (BoundingBox : SbBox3f)
    (forXValue forYValue forZValue forXRange forYRange forZRange : Bool) (ui : Ui) : Ui :=
  let cnt := BoundingBox.getCenter
  let minDecimals := e.getDecimals
  let len := BoundingBox.getSize
  let ui := if forXRange then { ui with cutX := setRangeAndStep e cnt.x len.x ui.cutX } else ui
  let ui := if forYRange then { ui with cutY := setRangeAndStep e cnt.y len.y ui.cutY } else ui
  let ui := if forZRange then { ui with cutZ := setRangeAndStep e cnt.z len.z ui.cutZ } else ui
  let ui := if forXValue then { ui with cutX.value := cnt.x, cutXHS.value := 50 } else ui
  let ui := if forYValue then { ui with cutY.value := cnt.y, cutYHS.value := 50 } else ui
  let ui := if forZValue then { ui with cutZ.value := cnt.z, cutZHS.value := 50 } else ui
  { ui with cutX.decimals := minDecimals, cutY.decimals := minDecimals,
            cutZ.decimals := minDecimals }

/-- `SectionCut::refreshCutRanges`: nothing is done for an empty bounding
box. -/
def refreshCutRanges (e : Env) (BoundingBox : SbBox3f)
    (forXValue forYValue forZValue forXRange forYRange forZRange : Bool) (s : State) : State :=
  if !BoundingBox.isEmpty then
    let ui := refreshCutWidgets e BoundingBox forXValue forYValue forZValue
      forXRange forYRange forZRange s.ui
    { s with ui := ui }
  else s

/-! ## `SectionCut::startCutting` -/

/-- The loop that deletes `anObject` from `ObjectsListVisible`: the first
entry equal to it is erased. An uninitialised `anObject` equals no entry. -/
def eraseVisible (anObject : Option String) (s : State) : State :=
  match anObject with
  | some n => { s with ObjectsListVisible := s.ObjectsListVisible.erase n }
  | none => s

/-- One of the six blocks of lines 216 to 276: if the document has an object
of that name, it becomes `anObject`, is deleted from the list of visible
objects and removed from the document. -/
def removeGenerated (name : String) (p : State × Option String) : State × Option String :=
  if (p.1.doc.getObject name).isSome then
    let anObject := some name
    let s := eraseVisible anObject p.1
    ({ s with doc := s.doc.removeObject name }, anObject)
  else p

/-- Lines 277 to 300: the compound and the objects in its `Links` are
removed. The loop before `removeObject(CompoundName)` compares with
`anObject`, which the blocks before have set. -/
def removeCompound (e : Env) (p : State × Option String) : State :=
  match p.1.doc.getObject e.CompoundName with
  | none => p.1
  | some compoundObject =>
    let compoundObjects := compoundObject.Links
    let s := eraseVisible p.2 p.1
    let s := { s with doc := s.doc.removeObject e.CompoundName }
    compoundObjects.foldl (fun s it =>
      let s := if (s.doc.getObject it).isSome then eraseVisible (some it) s else s
      { s with doc := s.doc.removeObject it }) s

/-- Lines 210 to 300: delete the objects the dialog might have created, in
the order Z cut, Z box, Y cut, Y box, X cut, X box, compound. -/
def cleanup (e : Env) (s : State) : State :=
  removeCompound e
    (removeGenerated e.BoxXName (removeGenerated e.CutXName
      (removeGenerated e.BoxYName (removeGenerated e.CutYName
        (removeGenerated e.BoxZName (removeGenerated e.CutZName (s, none)))))))

/-- Lines 304 to 311 from position `i` on: a valid object is made visible,
for any other the list is refreshed; the loop goes on at the next position
of the list as it then is. -/
def restoreVisibilityFrom (e : Env) : Nat → Nat → State → State
  | 0, _, s => s
  | fuel + 1, i, s =>
    match s.ObjectsListVisible.get? i with
    | none => s
    | some it =>
      let s := if s.doc.isValid it then { s with doc := s.doc.setVisibility it true }
        else onRefreshCutPBclicked e s
      restoreVisibilityFrom e fuel (i + 1) s

/-- Lines 302 to 311: make all objects visible that have been visible when
the dialog was called. No pass of the loop adds an object to the document,
so the list never gets longer than the larger of its length and the number
of objects, which bounds the number of passes. -/
def restoreVisibility (e : Env) (s : State) : State :=
  restoreVisibilityFrom e (s.ObjectsListVisible.length + s.doc.objects.length) 0 s

/-- Whether the object `n` points to has exactly the type `App::Link`. -/
def isAppLink (d : Document) (n : String) : Bool :=
  match d.getObject n with
  | some o => o.typeId == "App::Link"
  | none => false

/-- Lines 337 to 343: the sliders are disabled for assemblies. -/
def disableSliders (s : State) : State :=
  { s with ui.cutXHS.enabled := false, ui.cutXHS.toolTip := ToolTip.slidersDisabled,
           ui.cutYHS.enabled := false, ui.cutYHS.toolTip := ToolTip.slidersDisabled,
           ui.cutZHS.enabled := false, ui.cutZHS.toolTip := ToolTip.slidersDisabled }

/-- The test of lines 347 to 354: a shape that is a `Part::Feature` and is
no 2D object, datum, part of a PartDesign body, compound or `App::Part`. -/
def isCuttable (e : Env) (o : DocumentObject) : Bool :=
  (o.hasShape && e.isDerivedFrom o.typeId "Part::Feature")
    && (!e.isDerivedFrom o.typeId "Part::Part2DObject"
      && !e.isDerivedFrom o.typeId "Part::Datum"
      && !e.isDerivedFrom o.typeId "PartDesign::Feature"
      && !e.isDerivedFrom o.typeId "Part::Compound"
      && o.typeId != "App::Part")

/-- One pass of the loop of lines 321 to 357 over `ObjectsListVisible`, on
the cut list and the dialog. An entry that is no longer in the document is
passed over. -/
def collectStep (e : Env) (p : List String × State) (it : String) : List String × State :=
  match p.2.doc.getObject it with
  | none => p
  | some o =>
    let p := if o.typeId == "App::Part" then
        let links := o.Group.filter (isAppLink p.2.doc)
        (p.1 ++ links, if links.isEmpty then p.2 else disableSliders p.2)
      else p
    if isCuttable e o then (p.1 ++ [it], p.2) else p

/-- Lines 318 to 357: the cut list `ObjectsListCut` built from the visible
objects, and the dialog with the sliders disabled for an assembly. -/
def collectObjectsListCut (e : Env) (s : State) : List String × State :=
  s.ObjectsListVisible.foldl (collectStep e) ([], s)

/-- The test of lines 365 to 369. -/
def isBooleanLike (e : Env) (o : DocumentObject) : Bool :=
  e.isDerivedFrom o.typeId "Part::Boolean"
    || e.isDerivedFrom o.typeId "Part::MultiCommon"
    || e.isDerivedFrom o.typeId "Part::MultiFuse"
    || e.isDerivedFrom o.typeId "Part::Thickness"
    || e.isDerivedFrom o.typeId "Part::FilletBase"

/-- One pass of the loop of lines 364 to 384: for a visible object of one of
the five kinds, each object of its out list is erased from the cut list
once. -/
def sortOutStep (e : Env) (d : Document) (ObjectsListCut : List String) (it : String) :
    List String :=
  match d.getObject it with
  | none => ObjectsListCut
  | some o =>
    if isBooleanLike e o then
      o.getOutList.foldl (fun cut it2 => cut.erase it2) ObjectsListCut
    else ObjectsListCut

/-- Lines 359 to 384: sort out objects that are part of `Part::Boolean`,
`Part::MultiCommon`, `Part::MultiFuse`, `Part::Thickness` and
`Part::FilletBase`. -/
def sortOut (e : Env) (s : State) (ObjectsListCut : List String) : List String :=
  s.ObjectsListVisible.foldl (sortOutStep e s.doc) ObjectsListCut

/-- Either the handler has returned, in the given state, or it goes on. -/
inductive Flow where
  | returned (s : State)
  | running (s : State)
  deriving DecidableEq

/-- `Links.set1Value(i, obj)`: entry `i` of the list becomes `obj`. -/
def set1Value (l : List String) (i : Nat) (obj : String) : List String :=
  l.take i ++ [obj] ++ l.drop (i + 1)

/-- Lines 429 to 449: fill the compound with a link to every object of the
cut list; `i` counts the objects done. -/
def fillCompound (e : Env) (CutCompound : String) : List String → Nat → State → Flow
  | [], _, s => Flow.running s
  | it :: rest, i, s =>
    let newName := it ++ "_CutLink"
    match s.doc.addObject e "App::Link" newName with
    | none => Flow.returned (s.log "SectionCut error: 'App::Link' could not be added\n")
    | some (newObject, d) =>
      let d := d.modify newObject (fun o => { o with LinkedObject := some it })
      let d := d.modify newObject (fun o => { o with LinkTransform := true })
      let d := d.modify CutCompound (fun o => { o with Links := set1Value o.Links i newObject })
      let d := d.setVisibility it false
      fillCompound e CutCompound rest (i + 1) { s with doc := d }

/-- Lines 455 to 457: make all objects invisible so that only the compound
remains. -/
def hideVisible (s : State) : State :=
  { s with doc := s.ObjectsListVisible.foldl (fun d it => d.setVisibility it false) s.doc }

/-- The message when `addObject` returns null. -/
def couldNotBeAdded (name : String) : String :=
  "SectionCut error: " ++ name ++ " could not be added\n"

/-- What lines 195 to 465 hand over to the creation of the cut boxes. -/
inductive Prepared where
  | returned (s : State)
  | compound (CutCompound : String) (CompoundBoundingBox : SbBox3f) (s : State)
  deriving DecidableEq

/-- Lines 313 to 316: the sliders are enabled. -/
def enableSliders (s : State) : State :=
  { s with ui.cutXHS.enabled := true, ui.cutYHS.enabled := true, ui.cutZHS.enabled := true }

/-- Lines 202 to 384 of `startCutting`: refresh the lists when the document
has changed, clean up, restore the visibility, enable the sliders, collect
the objects to cut and sort out. Gives the cut list and the dialog. -/
def collectCutList (e : Env) (s : State) : List String × State :=
  let s := if !s.docIsActive then onRefreshCutPBclicked e s else s
  let s := cleanup e s
  let s := restoreVisibility e s
  let s := enableSliders s
  let p := collectObjectsListCut e s
  (sortOut e p.2 p.1, p.2)

/-- Lines 387 to 399: there are no objects that can be cut. -/
def nothingToCut (isInitial : Bool) (s : State) : State :=
  let s := if isInitial
    then s.log "SectionCut error: there are no visible objects to be cut\n"
    else s.log "SectionCut error: there are no objects in the document that can be cut\n"
  let s := blockSignals true s
  let s := { s with ui.groupBoxX := false }
  let s := { s with ui.groupBoxY := false }
  let s := { s with ui.groupBoxZ := false }
  let s := { s with ui.RefreshCutPB := true }
  blockSignals false s

/-- Lines 416 to 465: disable the refresh button, create the compound, fill
it, recompute it, hide the visible objects and take the bounding box. -/
def buildCompound (e : Env) (ObjectsListCut : List String) (s : State) : Prepared :=
  let s := { s with ui.RefreshCutPB := false }
  match s.doc.addObject e "Part::Compound" e.CompoundName with
  | none => Prepared.returned (s.log (couldNotBeAdded e.CompoundName))
  | some (CutCompound, d) =>
    match fillCompound e CutCompound ObjectsListCut 0 { s with doc := d } with
    | Flow.returned s => Prepared.returned s
    | Flow.running s =>
      let s := { s with doc := s.doc.recomputeFeature CutCompound false }
      let s := hideVisible s
      let CompoundBoundingBox := getViewBoundingBox e s
      if CompoundBoundingBox.isEmpty then
        Prepared.returned (s.log "SectionCut error: the CompoundBoundingBox is empty\n")
      else Prepared.compound CutCompound CompoundBoundingBox s

/-- Lines 195 to 465 of `startCutting`: up to the bounding box of the
compound. -/
def prepareCompound (e : Env) (isInitial : Bool) (s : State) : Prepared :=
  if !s.activeDocument then Prepared.returned (noDocumentActions s) else
  let p := collectCutList e s
  if p.1.isEmpty then Prepared.returned (nothingToCut isInitial p.2)
  else if !p.2.ui.groupBoxX && !p.2.ui.groupBoxY && !p.2.ui.groupBoxZ then
    Prepared.returned { p.2 with ui.RefreshCutPB := true }
  else buildCompound e p.1 p.2

/-- The pointer `doc->getObject(name)` as a reference: null when there is
no such object. -/
def Document.pointer (d : Document) (name : String) : Option String :=
  (d.getObject name).map (fun o => o.name)

/-- The reset of the previous cut value in lines 508 to 513 (568 to 574,
623 to 629): short below the maximum, or short above the minimum. -/
def resetCutPos (CutPos maximum minimum : ℚ) : ℚ :=
  if CutPos ≥ maximum then maximum - 0.1
  else if CutPos ≤ minimum then minimum + 0.1
  else CutPos

/-- Lines 491 to 548: the box and the cut for X. -/
def cutAxisX (e : Env) (CutCompound : String) (BoundingBoxSize BoundingBoxOrigin : Vector3d)
    (CutPosX : ℚ) (s : State) : Flow :=
  if s.ui.groupBoxX then
    match s.doc.addObject e "Part::Box" e.BoxXName with
    | none => Flow.returned (s.log (couldNotBeAdded e.BoxXName))
    | some (CutBox, d) =>
      let d := d.modify CutBox (fun o => { o with Length := BoundingBoxSize.x + 1.0 })
      let d := d.modify CutBox (fun o => { o with Width := BoundingBoxSize.y + 1.0 })
      let d := d.modify CutBox (fun o => { o with Height := BoundingBoxSize.z + 1.0 })
      let CutPosX := resetCutPos CutPosX s.ui.cutX.maximum s.ui.cutX.minimum
      let BoxOriginSet : Vector3d :=
        { x := if !s.ui.flipX then CutPosX - (BoundingBoxSize.x + 1.0) else CutPosX,
          y := BoundingBoxOrigin.y - 0.5,
          z := BoundingBoxOrigin.z - 0.5 }
      let d := d.modify CutBox (fun o => { o with Placement := BoxOriginSet })
      match d.addObject e "Part::Cut" e.CutXName with
      | none => Flow.returned ({ s with doc := d }.log (couldNotBeAdded e.CutXName))
      | some (CutFeature, d) =>
        let d := d.modify CutFeature (fun o => { o with Base := some CutCompound })
        let d := d.modify CutFeature (fun o => { o with Tool := some CutBox })
        let s := { s with doc := d, ui.cutX.value := CutPosX }
        let recursive := if !s.ui.groupBoxY && !s.ui.groupBoxZ then true else false
        let s := { s with doc := s.doc.recomputeFeature CutFeature recursive }
        Flow.running { s with hasBoxX := true }
  else Flow.running s

/-- Lines 549 to 606: the box and the cut for Y. -/
def cutAxisY (e : Env) (CutCompound : String) (BoundingBoxSize BoundingBoxOrigin : Vector3d)
    (CutPosY : ℚ) (s : State) : Flow :=
  if s.ui.groupBoxY then
    let s := if s.hasBoxX then
        refreshCutRanges e (getViewBoundingBox e s) false false false false true false s
      else s
    match s.doc.addObject e "Part::Box" e.BoxYName with
    | none => Flow.returned (s.log (couldNotBeAdded e.BoxYName))
    | some (CutBox, d) =>
      let d := d.modify CutBox (fun o => { o with Length := BoundingBoxSize.x + 1.0 })
      let d := d.modify CutBox (fun o => { o with Width := BoundingBoxSize.y + 1.0 })
      let d := d.modify CutBox (fun o => { o with Height := BoundingBoxSize.z + 1.0 })
      let CutPosY := resetCutPos CutPosY s.ui.cutY.maximum s.ui.cutY.minimum
      let BoxOriginSet : Vector3d :=
        { x := BoundingBoxOrigin.x - 0.5,
          y := if !s.ui.flipY then CutPosY - (BoundingBoxSize.y + 1.0) else CutPosY,
          z := BoundingBoxOrigin.z - 0.5 }
      let d := d.modify CutBox (fun o => { o with Placement := BoxOriginSet })
      match d.addObject e "Part::Cut" e.CutYName with
      | none => Flow.returned ({ s with doc := d }.log (couldNotBeAdded e.CutYName))
      | some (CutFeature, d) =>
        let d := if s.hasBoxX
          then d.modify CutFeature (fun o => { o with Base := d.pointer e.CutXName })
          else d.modify CutFeature (fun o => { o with Base := some CutCompound })
        let d := d.modify CutFeature (fun o => { o with Tool := some CutBox })
        let s := { s with doc := d, ui.cutY.value := CutPosY }
        let recursive := if !s.ui.groupBoxZ then true else false
        let s := { s with doc := s.doc.recomputeFeature CutFeature recursive }
        Flow.running { s with hasBoxY := true }
  else Flow.running s

/-- Lines 607 to 663: the box and the cut for Z. The position of the box is
chosen by the state of `flipY`, as in line 633. -/
def cutAxisZ (e : Env) (CutCompound : String) (BoundingBoxSize BoundingBoxOrigin : Vector3d)
    (CutPosZ : ℚ) (s : State) : Flow :=
  if s.ui.groupBoxZ then
    let s := if s.hasBoxX || s.hasBoxY then
        refreshCutRanges e (getViewBoundingBox e s) false false false false false true s
      else s
    match s.doc.addObject e "Part::Box" e.BoxZName with
    | none => Flow.returned (s.log (couldNotBeAdded e.BoxZName))
    | some (CutBox, d) =>
      let d := d.modify CutBox (fun o => { o with Length := BoundingBoxSize.x + 1.0 })
      let d := d.modify CutBox (fun o => { o with Width := BoundingBoxSize.y + 1.0 })
      let d := d.modify CutBox (fun o => { o with Height := BoundingBoxSize.z + 1.0 })
      let CutPosZ := resetCutPos CutPosZ s.ui.cutZ.maximum s.ui.cutZ.minimum
      let BoxOriginSet : Vector3d :=
        { x := BoundingBoxOrigin.x - 0.5,
          y := BoundingBoxOrigin.y - 0.5,
          z := if !s.ui.flipY then CutPosZ - (BoundingBoxSize.z + 1.0) else CutPosZ }
      let d := d.modify CutBox (fun o => { o with Placement := BoxOriginSet })
      match d.addObject e "Part::Cut" e.CutZName with
      | none => Flow.returned ({ s with doc := d }.log (couldNotBeAdded e.CutZName))
      | some (CutFeature, d) =>
        let d := if s.hasBoxY
          then d.modify CutFeature (fun o => { o with Base := d.pointer e.CutYName })
          else if s.hasBoxX && !s.hasBoxY
          then d.modify CutFeature (fun o => { o with Base := d.pointer e.CutXName })
          else d.modify CutFeature (fun o => { o with Base := some CutCompound })
        let d := d.modify CutFeature (fun o => { o with Tool := some CutBox })
        let s := { s with doc := d, ui.cutZ.value := CutPosZ }
        let s := { s with doc := s.doc.recomputeFeature CutFeature true }
        Flow.running { s with hasBoxZ := true }
  else Flow.running s

/-- Lines 467 to 664 of `startCutting`: store the cut positions, refresh all
cut limits from the bounding box of the compound and create the cut boxes
and cuts. `refreshCutRanges(CompoundBoundingBox)` is the call with all six
flags at their default, true. -/
def createCuts (e : Env) (CutCompound : String) (CompoundBoundingBox : SbBox3f)
    (s : State) : State :=
  let CutPosX := s.ui.cutX.value
  let CutPosY := s.ui.cutY.value
  let CutPosZ := s.ui.cutZ.value
  let s := refreshCutRanges e CompoundBoundingBox true true true true true true s
  let BoundingBoxSize := CompoundBoundingBox.getSize
  let BoundingBoxOrigin := CompoundBoundingBox.getOrigin
  let s := { s with hasBoxX := false, hasBoxY := false, hasBoxZ := false,
                    hasBoxCustom := false }
  match cutAxisX e CutCompound BoundingBoxSize BoundingBoxOrigin CutPosX s with
  | Flow.returned s => s
  | Flow.running s =>
    match cutAxisY e CutCompound BoundingBoxSize BoundingBoxOrigin CutPosY s with
    | Flow.returned s => s
    | Flow.running s =>
      match cutAxisZ e CutCompound BoundingBoxSize BoundingBoxOrigin CutPosZ s with
      | Flow.returned s => s
      | Flow.running s => s

/-- `SectionCut::startCutting`. -/
def startCutting (e : Env) (isInitial : Bool) (s : State) : State :=
  match prepareCompound e isInitial s with
  | Prepared.returned s => s
  | Prepared.compound CutCompound CompoundBoundingBox s =>
    createCuts e CutCompound CompoundBoundingBox s

/-! ## The handlers of the spin boxes and sliders -/

/-- The conversion `int(x)` of a `double`: towards zero. -/
def truncate (x : ℚ) : ℤ := if 0 ≤ x then ⌊x⌋ else ⌈x⌉

/-- The slider position for a cut value, in percent of the cut range (lines
737 to 739). A division by zero, for a range of length zero, comes out as
zero here. -/
def sliderPosition (val minimum maximum : ℚ) : ℤ :=
  truncate ((val - minimum) / (maximum - minimum) * 100.0)

/-- The slider position of lines 737 to 739 with the division made explicit:
there is none when the divisor, the length of the range, is zero. -/
def sliderPosition? (val minimum maximum : ℚ) : Option ℤ :=
  if maximum - minimum = 0 then none else some (sliderPosition val minimum maximum)

/-- The message when a cut the handler expects is not there. -/
def thereIsNo (kind name ending : String) : String :=
  "SectionCut " ++ kind ++ ": there is no " ++ name ++ ending

/-- Whether the value of the spin box is at or beyond a limit of its
range. -/
def atLimit (b : QDoubleSpinBox) : Bool :=
  decide (b.value ≥ b.maximum) || decide (b.value ≤ b.minimum)

/-- Lines 781 to 870 of `onCutXvalueChanged`: refresh the limits of the
other axes and recompute the cut at the top of the chain. -/
def recomputeAfterX (e : Env) (s : State) : State :=
  if s.hasBoxY && !s.hasBoxZ then
    match s.doc.pointer e.CutYName with
    | none => startCutting e false
        (s.log (thereIsNo "warning" e.CutYName ", trying to recreate it\n"))
    | some CutFeatureY =>
      let s := { s with doc := s.doc.setVisibility CutFeatureY false }
      let s := { s with doc := s.doc.setVisibility e.CutXName true }
      let CutBoundingBox := getViewBoundingBox e s
      let s := refreshCutRanges e CutBoundingBox false false true false true true s
      let s := if atLimit s.ui.cutY
        then refreshCutRanges e CutBoundingBox false true true false true true s else s
      let s := { s with doc := s.doc.setVisibility CutFeatureY true }
      let s := { s with doc := s.doc.setVisibility e.CutXName false }
      { s with doc := s.doc.recomputeFeature CutFeatureY true }
  else if s.hasBoxZ then
    match s.doc.pointer e.CutZName with
    | none => s.log (thereIsNo "error" e.CutZName "\n")
    | some CutFeatureZ =>
      let s := { s with doc := s.doc.setVisibility CutFeatureZ false }
      let s := { s with doc := s.doc.setVisibility e.CutXName true }
      let CutBoundingBox := getViewBoundingBox e s
      let s := if s.hasBoxY then
          let s := refreshCutRanges e CutBoundingBox false false false false true true s
          let s := if atLimit s.ui.cutY
            then refreshCutRanges e CutBoundingBox false true false false true true s else s
          if atLimit s.ui.cutZ
            then refreshCutRanges e CutBoundingBox false false true false true true s else s
        else
          let s := refreshCutRanges e CutBoundingBox false true false false true true s
          if atLimit s.ui.cutZ
            then refreshCutRanges e CutBoundingBox false true true false true true s else s
      let s := { s with doc := s.doc.setVisibility CutFeatureZ true }
      let s := { s with doc := s.doc.setVisibility e.CutXName false }
      { s with doc := s.doc.recomputeFeature CutFeatureZ true }
  else
    let CutBoundingBox := getViewBoundingBox e s
    let s := refreshCutRanges e CutBoundingBox false true true false true true s
    { s with doc := s.doc.recomputeFeature e.CutXName true }

/-- `SectionCut::onCutXvalueChanged`. -/
def onCutXvalueChanged (e : Env) (val : ℚ) (s : State) : State :=
  if !s.activeDocument then noDocumentActions s else
  if !s.docIsActive then onRefreshCutPBclicked e s else
  let pos := sliderPosition val s.ui.cutX.minimum s.ui.cutX.maximum
  let s := { s with ui.cutXHS.value := pos }
  let s := { s with ui.cutXHS.toolTip := ToolTip.number val e.getDecimals }
  if s.ui.cutX.value = s.ui.cutX.maximum then
    { s with ui.cutX.value := s.ui.cutX.maximum - 0.1 }
  else if s.ui.cutX.value = s.ui.cutX.minimum then
    { s with ui.cutX.value := s.ui.cutX.minimum + 0.1 }
  else
  match s.doc.getObject e.BoxXName with
  | none => s
  | some pcBox =>
    let BoxPosition := pcBox.Placement
    let BoxPosition := if !s.ui.flipX
      then { BoxPosition with x := s.ui.cutX.value - pcBox.Length }
      else { BoxPosition with x := s.ui.cutX.value }
    let s := { s with doc := s.doc.modify e.BoxXName (fun o => { o with Placement := BoxPosition }) }
    match s.doc.getObject e.CutXName with
    | none => startCutting e false
        (s.log (thereIsNo "warning" e.CutXName ", trying to recreate it\n"))
    | some _ => recomputeAfterX e s

/-- `SectionCut::onCutXHSsliderMoved`. -/
def onCutXHSsliderMoved (e : Env) (val : ℤ) (s : State) : State :=
  if val = s.ui.cutXHS.maximum then
    { s with ui.cutXHS.value := s.ui.cutXHS.maximum - s.ui.cutXHS.singleStep }
  else if val = s.ui.cutXHS.minimum then
    { s with ui.cutXHS.value := s.ui.cutXHS.minimum + s.ui.cutXHS.singleStep }
  else
  let NewCutValue : ℚ := s.ui.cutX.minimum
    + val / 100.0 * (s.ui.cutX.maximum - s.ui.cutX.minimum)
  let s := { s with ui.cutXHS.toolTip := ToolTip.number NewCutValue e.getDecimals }
  { s with ui.cutX.value := NewCutValue }

/-- Lines 987 to 1013 and 1090 to 1116: the X range is set from the bounding
box with the X box shown, and the limit on the side of the box is put back
if the stored one is tighter. When the box is missing the handler
returns. -/
def refreshXLimits (e : Env) (s : State) : Flow :=
  match s.doc.pointer e.BoxXName with
  | none => Flow.returned s
  | some CutBoxX =>
    let storedX := if !s.ui.flipX then s.ui.cutX.minimum else s.ui.cutX.maximum
    let s := { s with doc := s.doc.setVisibility CutBoxX true }
    let CutBoundingBox := getViewBoundingBox e s
    let s := refreshCutRanges e CutBoundingBox false false false true false false s
    let s := { s with doc := s.doc.setVisibility CutBoxX false }
    if !s.ui.flipX then
      if storedX > s.ui.cutX.minimum
      then Flow.running { s with ui.cutX.minimum := storedX } else Flow.running s
    else
      if storedX < s.ui.cutX.maximum
      then Flow.running { s with ui.cutX.maximum := storedX } else Flow.running s

/-- Lines 1118 to 1138: the same for the Y range. -/
def refreshYLimits (e : Env) (s : State) : Flow :=
  match s.doc.pointer e.BoxYName with
  | none => Flow.returned s
  | some CutBoxY =>
    let storedY := if !s.ui.flipY then s.ui.cutY.minimum else s.ui.cutY.maximum
    let s := { s with doc := s.doc.setVisibility CutBoxY true }
    let CutBoundingBox := getViewBoundingBox e s
    let s := refreshCutRanges e CutBoundingBox false false false false true false s
    let s := { s with doc := s.doc.setVisibility CutBoxY false }
    if !s.ui.flipY then
      if storedY > s.ui.cutY.minimum
      then Flow.running { s with ui.cutY.minimum := storedY } else Flow.running s
    else
      if storedY < s.ui.cutY.maximum
      then Flow.running { s with ui.cutY.maximum := storedY } else Flow.running s

/-- The state in which the handler returns. -/
def Flow.state : Flow → State
  | Flow.returned s => s
  | Flow.running s => s

/-- Lines 942 to 1014 of `onCutYvalueChanged`. -/
def recomputeAfterY (e : Env) (s : State) : State :=
  if s.hasBoxZ then
    match s.doc.pointer e.CutZName with
    | none => s.log (thereIsNo "error" e.CutZName "\n")
    | some CutFeatureZ =>
      let s := { s with doc := s.doc.setVisibility CutFeatureZ false }
      let s := { s with doc := s.doc.setVisibility e.CutYName true }
      let CutBoundingBox := getViewBoundingBox e s
      let s := refreshCutRanges e CutBoundingBox false false false false false true s
      let s := if atLimit s.ui.cutZ
        then refreshCutRanges e CutBoundingBox false false true false false true s else s
      let s := { s with doc := s.doc.setVisibility CutFeatureZ true }
      let s := { s with doc := s.doc.setVisibility e.CutYName false }
      { s with doc := s.doc.recomputeFeature CutFeatureZ true }
  else
    let CutBoundingBox := getViewBoundingBox e s
    let s := refreshCutRanges e CutBoundingBox false false true false false true s
    let s := { s with doc := s.doc.recomputeFeature e.CutYName true }
    if s.hasBoxX then (refreshXLimits e s).state else s

/-- `SectionCut::onCutYvalueChanged`. -/
def onCutYvalueChanged (e : Env) (val : ℚ) (s : State) : State :=
  if !s.activeDocument then noDocumentActions s else
  if !s.docIsActive then onRefreshCutPBclicked e s else
  let pos := sliderPosition val s.ui.cutY.minimum s.ui.cutY.maximum
  let s := { s with ui.cutYHS.value := pos }
  let s := { s with ui.cutYHS.toolTip := ToolTip.number val e.getDecimals }
  if s.ui.cutY.value = s.ui.cutY.maximum then
    { s with ui.cutY.value := s.ui.cutY.maximum - 0.1 }
  else if s.ui.cutY.value = s.ui.cutY.minimum then
    { s with ui.cutY.value := s.ui.cutY.minimum + 0.1 }
  else
  match s.doc.getObject e.BoxYName with
  | none => s
  | some pcBox =>
    let BoxPosition := pcBox.Placement
    let BoxPosition := if !s.ui.flipY
      then { BoxPosition with y := s.ui.cutY.value - pcBox.Width }
      else { BoxPosition with y := s.ui.cutY.value }
    let s := { s with doc := s.doc.modify e.BoxYName (fun o => { o with Placement := BoxPosition }) }
    match s.doc.getObject e.CutYName with
    | none => startCutting e false
        (s.log (thereIsNo "warning" e.CutYName ", trying to recreate it\n"))
    | some _ => recomputeAfterY e s

/-- `SectionCut::onCutYHSsliderMoved`. -/
def onCutYHSsliderMoved (e : Env) (val : ℤ) (s : State) : State :=
  if val = s.ui.cutYHS.maximum then
    { s with ui.cutYHS.value := s.ui.cutYHS.maximum - s.ui.cutYHS.singleStep }
  else if val = s.ui.cutYHS.minimum then
    { s with ui.cutYHS.value := s.ui.cutYHS.minimum + s.ui.cutYHS.singleStep }
  else
  let NewCutValue : ℚ := s.ui.cutY.minimum
    + val / 100.0 * (s.ui.cutY.maximum - s.ui.cutY.minimum)
  let s := { s with ui.cutYHS.toolTip := ToolTip.number NewCutValue e.getDecimals }
  { s with ui.cutY.value := NewCutValue }

/-- Lines 1083 to 1139 of `onCutZvalueChanged`. -/
def recomputeAfterZ (e : Env) (s : State) : State :=
  let s := { s with doc := s.doc.recomputeFeature e.CutZName true }
  match (if s.hasBoxX then refreshXLimits e s else Flow.running s) with
  | Flow.returned s => s
  | Flow.running s => if s.hasBoxY then (refreshYLimits e s).state else s

/-- `SectionCut::onCutZvalueChanged`. -/
def onCutZvalueChanged (e : Env) (val : ℚ) (s : State) : State :=
  if !s.activeDocument then noDocumentActions s else
  if !s.docIsActive then onRefreshCutPBclicked e s else
  let pos := sliderPosition val s.ui.cutZ.minimum s.ui.cutZ.maximum
  let s := { s with ui.cutZHS.value := pos }
  let s := { s with ui.cutZHS.toolTip := ToolTip.number val e.getDecimals }
  if s.ui.cutZ.value = s.ui.cutZ.maximum then
    { s with ui.cutZ.value := s.ui.cutZ.maximum - 0.1 }
  else if s.ui.cutZ.value = s.ui.cutZ.minimum then
    { s with ui.cutZ.value := s.ui.cutZ.minimum + 0.1 }
  else
  match s.doc.getObject e.BoxZName with
  | none => s
  | some pcBox =>
    let BoxPosition := pcBox.Placement
    let BoxPosition := if !s.ui.flipZ
      then { BoxPosition with z := s.ui.cutZ.value - pcBox.Height }
      else { BoxPosition with z := s.ui.cutZ.value }
    let s := { s with doc := s.doc.modify e.BoxZName (fun o => { o with Placement := BoxPosition }) }
    match s.doc.getObject e.CutZName with
    | none => startCutting e false
        (s.log (thereIsNo "warning" e.CutZName ", trying to recreate it\n"))
    | some _ => recomputeAfterZ e s

/-- `SectionCut::onCutZHSsliderMoved`. -/
def onCutZHSsliderMoved (e : Env) (val : ℤ) (s : State) : State :=
  if val = s.ui.cutZHS.maximum then
    { s with ui.cutZHS.value := s.ui.cutZHS.maximum - s.ui.cutZHS.singleStep }
  else if val = s.ui.cutZHS.minimum then
    { s with ui.cutZHS.value := s.ui.cutZHS.minimum + s.ui.cutZHS.singleStep }
  else
  let NewCutValue : ℚ := s.ui.cutZ.minimum
    + val / 100.0 * (s.ui.cutZ.maximum - s.ui.cutZ.minimum)
  let s := { s with ui.cutZHS.toolTip := ToolTip.number NewCutValue e.getDecimals }
  { s with ui.cutZ.value := NewCutValue }

/-! ## The handlers of the flip buttons -/

/-- The message when an expected cut is missing. -/
def expectedIsMissing (name : String) : String :=
  "SectionCut warning: the expected " ++ name ++ " is missing, trying to recreate it\n"

/-- `SectionCut::onFlipXclicked`. -/
def onFlipXclicked (e : Env) (s : State) : State :=
  if !s.activeDocument then noDocumentActions s else
  if !s.docIsActive then onRefreshCutPBclicked e s else
  match s.doc.getObject e.BoxXName with
  | none => startCutting e false
      (s.log (thereIsNo "warning" e.BoxXName ", trying to recreate it\n"))
  | some pcBox =>
    let BoxPosition := pcBox.Placement
    let BoxPosition := if s.ui.flipX
      then { BoxPosition with x := BoxPosition.x + pcBox.Length }
      else { BoxPosition with x := BoxPosition.x - pcBox.Length }
    let s := { s with doc := s.doc.modify e.BoxXName (fun o => { o with Placement := BoxPosition }) }
    match s.doc.getObject e.CutXName with
    | none => startCutting e false
        (s.log (thereIsNo "warning" e.CutXName ", trying to recreate it\n"))
    | some _ =>
      if s.hasBoxY && !s.hasBoxZ then
        match s.doc.pointer e.CutYName with
        | none => startCutting e false (s.log (expectedIsMissing e.CutYName))
        | some CutFeatureY => { s with doc := s.doc.recomputeFeature CutFeatureY true }
      else if (!s.hasBoxY && s.hasBoxZ) || (s.hasBoxY && s.hasBoxZ) then
        match s.doc.pointer e.CutZName with
        | none => startCutting e false (s.log (expectedIsMissing e.CutZName))
        | some CutFeatureZ => { s with doc := s.doc.recomputeFeature CutFeatureZ true }
      else { s with doc := s.doc.recomputeFeature e.CutXName true }

/-- `SectionCut::onFlipYclicked`. The Z cut is recomputed without a test
whether it is there. -/
def onFlipYclicked (e : Env) (s : State) : State :=
  if !s.activeDocument then noDocumentActions s else
  if !s.docIsActive then onRefreshCutPBclicked e s else
  match s.doc.getObject e.BoxYName with
  | none => startCutting e false
      (s.log (thereIsNo "warning" e.BoxYName ", trying to recreate it\n"))
  | some pcBox =>
    let BoxPosition := pcBox.Placement
    let BoxPosition := if s.ui.flipY
      then { BoxPosition with y := BoxPosition.y + pcBox.Width }
      else { BoxPosition with y := BoxPosition.y - pcBox.Width }
    let s := { s with doc := s.doc.modify e.BoxYName (fun o => { o with Placement := BoxPosition }) }
    match s.doc.getObject e.CutYName with
    | none => startCutting e false
        (s.log (thereIsNo "warning" e.CutYName ", trying to recreate it\n"))
    | some _ =>
      if s.hasBoxZ then
        match s.doc.pointer e.CutZName with
        | none => { s with nullDeref := true }
        | some CutFeatureZ => { s with doc := s.doc.recomputeFeature CutFeatureZ true }
      else { s with doc := s.doc.recomputeFeature e.CutYName true }

/-- `SectionCut::onFlipZclicked`. -/
def onFlipZclicked (e : Env) (s : State) : State :=
  if !s.activeDocument then noDocumentActions s else
  if !s.docIsActive then onRefreshCutPBclicked e s else
  match s.doc.getObject e.BoxZName with
  | none => startCutting e false
      (s.log (thereIsNo "warning" e.BoxZName ", trying to recreate it\n"))
  | some pcBox =>
    let BoxPosition := pcBox.Placement
    let BoxPosition := if s.ui.flipZ
      then { BoxPosition with z := BoxPosition.z + pcBox.Height }
      else { BoxPosition with z := BoxPosition.z - pcBox.Height }
    let s := { s with doc := s.doc.modify e.BoxZName (fun o => { o with Placement := BoxPosition }) }
    match s.doc.getObject e.CutZName with
    | none => startCutting e false
        (s.log (thereIsNo "warning" e.CutZName ", trying to recreate it\n"))
    | some _ => { s with doc := s.doc.recomputeFeature e.CutZName true }

/-! ## The constructor and the destructor -/

/-- `INT_MAX` of `<climits>`. -/
def INT_MAX : ℚ := 2147483647

/-- `fabs` of `<cmath>`. -/
def fabs (x : ℚ) : ℚ := if 0 ≤ x then x else -x

/-- Lines 108 to 117 of the constructor: an existing Z box checks the group
box and gives the cut value, read as if the box was unflipped. The test of
`pcBox` after the cast cannot fail for an object that was found. -/
def readBoxZ (e : Env) (s : State) : State :=
  match s.doc.getObject e.BoxZName with
  | none => s
  | some pcBox =>
    let s := { s with hasBoxZ := true }
    let s := { s with ui.groupBoxZ := true }
    { s with ui.cutZ.value := pcBox.Height - fabs pcBox.Placement.z }

/-- Lines 118 to 127 of the constructor: the same for an existing Y box. -/
def readBoxY (e : Env) (s : State) : State :=
  match s.doc.getObject e.BoxYName with
  | none => s
  | some pcBox =>
    let s := { s with hasBoxY := true }
    let s := { s with ui.groupBoxY := true }
    { s with ui.cutY.value := pcBox.Width - fabs pcBox.Placement.y }

/-- Lines 128 to 137 of the constructor: the same for an existing X box. -/
def readBoxX (e : Env) (s : State) : State :=
  match s.doc.getObject e.BoxXName with
  | none => s
  | some pcBox =>
    let s := { s with hasBoxX := true }
    let s := { s with ui.groupBoxX := true }
    { s with ui.cutX.value := pcBox.Length - fabs pcBox.Placement.x }

/-- Lines 105 to 137 of the constructor: existing cut boxes give their
values, Z first, then Y, then X. -/
def readCutBoxes (e : Env) (s : State) : State :=
  readBoxX e (readBoxY e (readBoxZ e s))

/-- One of the three tests of lines 140 to 145: an existing cut is hidden. -/
def hideCut (name : String) (d : Document) : Document :=
  if (d.getObject name).isSome then d.setVisibility name false else d

/-- The constructor `SectionCut::SectionCut`, from the dialog as `setupUi`
has made it. The signals are connected after the values have been read, so
no handler runs before `startCutting(true)`. -/
def newSectionCut (e : Env) (s : State) : State :=
  let s := { s with ui.cutX.minimum := -INT_MAX, ui.cutX.maximum := INT_MAX }
  let s := { s with ui.cutY.minimum := -INT_MAX, ui.cutY.maximum := INT_MAX }
  let s := { s with ui.cutZ.minimum := -INT_MAX, ui.cutZ.maximum := INT_MAX }
  if !s.activeDocument then { s with nullDeref := true } else
  let s := { s with docIsActive := true }
  let ObjectsList : List DocumentObject := s.doc.objects
  if ObjectsList.isEmpty then
    s.log "SectionCut error: there are no objects in the document\n"
  else
  let visible : List DocumentObject := ObjectsList.filter (fun o : DocumentObject => o.Visibility)
  let s := { s with ObjectsListVisible := visible.map (fun o : DocumentObject => o.name) }
  let s := readCutBoxes e s
  let d := hideCut e.CutZName (hideCut e.CutYName (hideCut e.CutXName s.doc))
  let s := { s with doc := d }
  let box := getViewBoundingBox e s
  let s := if !box.isEmpty then
      if s.hasBoxX || s.hasBoxY || s.hasBoxZ
      then refreshCutRanges e box false false false true true true s
      else refreshCutRanges e box true true true true true true s
    else s
  if s.hasBoxX || s.hasBoxY || s.hasBoxZ then
    startCutting e true { s with ui.RefreshCutPB := false }
  else s

/-- The loop of lines 690 to 693: every object of the list that is valid is
made visible. -/
def showValid (l : List String) (d : Document) : Document :=
  l.foldl (fun d it => if d.isValid it then d.setVisibility it true else d) d

/-- The destructor of `SectionCut`: without an active document the actions
for a closed document, otherwise, unless only the cut is to be kept, all
objects are made visible that have been visible when the dialog was
called. -/
def deleteSectionCut (s : State) : State :=
  if !s.activeDocument then noDocumentActions s else
  if !s.ui.keepOnlyCutCB then { s with doc := showValid s.ObjectsListVisible s.doc }
  else s

/-! ## The calls of `removeObject` in the cleanup of `startCutting` -/

/-- One of the six blocks of lines 216 to 276 on the document, with the calls
of `removeObject` made so far: if the document has an object of that name,
`removeObject` is called for it. A call is recorded as the name passed and
the document the call is made on. -/
def removeGeneratedCall (name : String) (p : List (String × Document) × Document) :
    List (String × Document) × Document :=
  if (p.2.getObject name).isSome then (p.1 ++ [(name, p.2)], p.2.removeObject name) else p

/-- The loop of lines 291 to 299 on the document: `removeObject` is called
for every object that was in the `Links` of the compound. -/
def removeLinksCalls : List String → Document → List (String × Document)
  | [], _ => []
  | it :: rest, d => (it, d) :: removeLinksCalls rest (d.removeObject it)

/-- The calls of `removeObject` that lines 210 to 300 make on the document
`d`, in the order in which they are made: the six blocks for Z cut, Z box, Y
cut, Y box, X cut and X box, then the compound and then what was in its
`Links`. -/
def cleanupCalls (e : Env) (d : Document) : List (String × Document) :=
  let p := removeGeneratedCall e.BoxXName (removeGeneratedCall e.CutXName
    (removeGeneratedCall e.BoxYName (removeGeneratedCall e.CutYName
      (removeGeneratedCall e.BoxZName (removeGeneratedCall e.CutZName ([], d))))))
  match p.2.getObject e.CompoundName with
  | none => p.1
  | some compoundObject =>
    p.1 ++ (e.CompoundName, p.2) ::
      removeLinksCalls compoundObject.Links (p.2.removeObject e.CompoundName)

/-! ## The `toggled` signal of the group boxes -/

/-- The slots of the dialog that lines 161 to 163 connect to `toggled` of
the three group boxes. Each of them calls `startCutting()` (lines 707 to
721). -/
inductive Slot where
  | onGroupBoxXtoggled
  | onGroupBoxYtoggled
  | onGroupBoxZtoggled
  deriving DecidableEq

/-- What the reset of the group boxes takes from the widget toolkit: whether
`blockSignals(true)` of the dialog also blocks the signals that its child
widgets emit. -/
structure Toolkit where
  dialogBlocksChildren : Bool
  deriving DecidableEq

/-- The dialog and the slots that have been called through `toggled`. -/
structure Run where
  state : State
  called : List Slot := []
  deriving DecidableEq

/-- A group box emits `toggled` after `setChecked` has changed its checked
state: unless the signal is blocked, the slot connected to it is called.
The source calls `blockSignals` of the dialog only, never of a group box, so
the signal is blocked only when the dialog blocks its signals and that
reaches the child widgets. `run` is what a slot does to the dialog. -/
def emitToggled (k : Toolkit) (run : Slot → State → State) (slot : Slot) (changed : Bool)
    (r : Run) : Run :=
  if changed && !(k.dialogBlocksChildren && r.state.signalsBlocked) then
    { state := run slot r.state, called := r.called ++ [slot] }
  else r

/-- `ui->groupBoxX->setChecked(b)` with the connection of line 161. -/
def setCheckedGroupBoxX (k : Toolkit) (run : Slot → State → State) (b : Bool) (r : Run) : Run :=
  let changed := r.state.ui.groupBoxX != b
  let s := r.state
  emitToggled k run Slot.onGroupBoxXtoggled changed
    { r with state := { s with ui.groupBoxX := b } }

/-- `ui->groupBoxY->setChecked(b)` with the connection of line 162. -/
def setCheckedGroupBoxY (k : Toolkit) (run : Slot → State → State) (b : Bool) (r : Run) : Run :=
  let changed := r.state.ui.groupBoxY != b
  let s := r.state
  emitToggled k run Slot.onGroupBoxYtoggled changed
    { r with state := { s with ui.groupBoxY := b } }

/-- `ui->groupBoxZ->setChecked(b)` with the connection of line 163. -/
def setCheckedGroupBoxZ (k : Toolkit) (run : Slot → State → State) (b : Bool) (r : Run) : Run :=
  let changed := r.state.ui.groupBoxZ != b
  let s := r.state
  emitToggled k run Slot.onGroupBoxZtoggled changed
    { r with state := { s with ui.groupBoxZ := b } }

/-- Lines 387 to 399 with the `toggled` signals of the group boxes: there
are no objects that can be cut. -/
def nothingToCutToggled (k : Toolkit) (run : Slot → State → State) (isInitial : Bool)
    (s : State) : Run :=
  let s := if isInitial
    then s.log "SectionCut error: there are no visible objects to be cut\n"
    else s.log "SectionCut error: there are no objects in the document that can be cut\n"
  let s := blockSignals true s
  let r : Run := { state := s }
  let r := setCheckedGroupBoxX k run false r
  let r := setCheckedGroupBoxY k run false r
  let r := setCheckedGroupBoxZ k run false r
  let s := r.state
  let s := { s with ui.RefreshCutPB := true }
  { r with state := blockSignals false s }

/-- Lines 1372 to 1377 of `onRefreshCutPBclicked` with the `toggled` signal
of the Z group box: there is a Z cut. -/
def refreshGroupBoxZ (k : Toolkit) (run : Slot → State → State) (e : Env) (r : Run) : Run :=
  if (r.state.doc.getObject e.CutZName).isSome then
    let s := r.state
    let r := { r with state := blockSignals true { s with hasBoxZ := true } }
    let r := setCheckedGroupBoxZ k run true r
    let s := r.state
    { r with state := blockSignals false s }
  else r

/-- Lines 1378 to 1383 with the `toggled` signal of the Y group box: there
is a Y cut. -/
def refreshGroupBoxY (k : Toolkit) (run : Slot → State → State) (e : Env) (r : Run) : Run :=
  if (r.state.doc.getObject e.CutYName).isSome then
    let s := r.state
    let r := { r with state := blockSignals true { s with hasBoxY := true } }
    let r := setCheckedGroupBoxY k run true r
    let s := r.state
    { r with state := blockSignals false s }
  else r

/-- Lines 1384 to 1389 with the `toggled` signal of the X group box: there
is an X cut. -/
def refreshGroupBoxX (k : Toolkit) (run : Slot → State → State) (e : Env) (r : Run) : Run :=
  if (r.state.doc.getObject e.CutXName).isSome then
    let s := r.state
    let r := { r with state := blockSignals true { s with hasBoxX := true } }
    let r := setCheckedGroupBoxX k run true r
    let s := r.state
    { r with state := blockSignals false s }
  else r

/-- `SectionCut::onRefreshCutPBclicked` with the `toggled` signals of the
group boxes: `setChecked(true)` of lines 1375, 1381 and 1387 emits `toggled`
when it changes the group box, and the slot connected to it runs before the
handler goes on. -/
def onRefreshCutPBclickedToggled (k : Toolkit) (run : Slot → State → State) (e : Env)
    (s : State) : Run :=
  if !s.activeDocument then { state := { s with nullDeref := true } } else
  let s := { s with docIsActive := true }
  let ObjectsList : List DocumentObject := s.doc.objects
  if ObjectsList.isEmpty then
    { state := s.log "SectionCut error: there are no objects in the document\n" }
  else
  let visible : List DocumentObject := ObjectsList.filter (fun o : DocumentObject => o.Visibility)
  let s := { s with ObjectsListVisible := visible.map (fun o : DocumentObject => o.name) }
  let s := { s with hasBoxX := false, hasBoxY := false, hasBoxZ := false }
  let r : Run := { state := s }
  let r := refreshGroupBoxZ k run e r
  let r := refreshGroupBoxY k run e r
  let r := refreshGroupBoxX k run e r
  let s := r.state
  if s.hasBoxX || s.hasBoxY || s.hasBoxZ then
    { r with state := { s with ui.RefreshCutPB := false } }
  else r

/-! ## The range limits in `float` -/

/-- Two to the power `e`. -/
def pow2 (e : ℤ) : ℚ :=
  if 0 ≤ e then ((2 ^ e.toNat : ℕ) : ℚ) else 1 / ((2 ^ (-e).toNat : ℕ) : ℚ)

/-- The number of times `n` can be halved before it is below 2, the binary
logarithm of a positive `n` rounded down; `fuel` bounds the number of
steps. -/
def log2Floor : Nat → Nat → Nat
  | 0, _ => 0
  | fuel + 1, n => if n < 2 then 0 else log2Floor fuel (n / 2) + 1

/-- The binary exponent of a positive number `a`: the `e` with
`2 ^ e ≤ a < 2 ^ (e + 1)`. -/
def binaryExponent (a : ℚ) : ℤ :=
  let e0 : ℤ := (log2Floor a.num.natAbs a.num.natAbs : ℤ) - (log2Floor a.den a.den : ℤ)
  if a < pow2 e0 then e0 - 1 else e0

/-- The value of the type `float` (IEEE 754 binary32) that is nearest to
`x`: 24 significant binary digits, and of two values equally near the one
with the even significand. Overflow and subnormal values are left out. -/
def roundToFloat (x : ℚ) : ℚ :=
  if x = 0 then 0 else
  let ulp := pow2 (binaryExponent |x| - 23)
  let q := |x| / ulp
  let n : ℤ := ⌊q⌋
  let m : ℤ := if q - n < 1 / 2 then n else if 1 / 2 < q - n then n + 1
    else if n % 2 = 0 then n else n + 1
  (if x < 0 then -1 else 1) * (m : ℚ) * ulp

/-- Modelled from the spec: the centre of the bounding box on an axis as
`SbBox3f::getCenter` gives it in `float`, half the sum of `lo` and `hi`,
where `fl` rounds the result of an operation to `float`. -/
def floatCenter (fl : ℚ → ℚ) (lo hi : ℚ) : ℚ :=
  fl (fl (hi + lo) * (1 / 2))

/-- Modelled from the spec: the length of the bounding box on an axis as
`SbBox3f::getSize` gives it in `float`. -/
def floatSize (fl : ℚ → ℚ) (lo hi : ℚ) : ℚ :=
  fl (hi - lo)

/-- Lines 1425 and 1426 (likewise 1435, 1436 and 1444, 1445): `rangeMin` and
`rangeMax` from the centre and the length on the axis, all of type `float`;
`fl` rounds the result of an operation to `float`. -/
def floatRange (fl : ℚ → ℚ) (cnt len : ℚ) : ℚ × ℚ :=
  (fl (cnt - fl (len / 2)), fl (cnt + fl (len / 2)))

/-! ## A document to run the handlers on -/

/-- A host with the part of the type hierarchy the dialog asks about, a scene
that spans `[0, 10] x [0, 20] x [0, 30]` and the names of
`SectionCutting.h`. -/
def demoEnv : Env :=
  { isDerivedFrom := fun c p => c == p ||
      (p == "Part::Feature" && (c == "Part::Box" || c == "Part::Cut" || c == "Part::Compound"))
      || (p == "Part::Boolean" && c == "Part::Cut"),
    canCreate := fun _ => true,
    uniqueName := fun _ n => n ++ "001",
    orthographicCamera := true,
    sceneBoundingBox := fun _ => ⟨⟨0, 0, 0⟩, ⟨10, 20, 30⟩⟩,
    getDecimals := 2,
    pow10log10 := fun _ => 1,
    CompoundName := "SectionCutCompound",
    BoxXName := "SectionCutBoxX",
    BoxYName := "SectionCutBoxY",
    BoxZName := "SectionCutBoxZ",
    CutXName := "SectionCutX",
    CutYName := "SectionCutY",
    CutZName := "SectionCutZ" }

/-- The bounding box of the scene of `demoEnv`. -/
def demoBox : SbBox3f := ⟨⟨0, 0, 0⟩, ⟨10, 20, 30⟩⟩

/-- A document with one visible solid, `Box`. -/
def demoDoc : Document :=
  { objects := [{ name := "Box", typeId := "Part::Box", hasShape := true }] }

/-- The dialog over `demoDoc` with all three cut ranges `[0, 40]`. -/
def sliderState : State :=
  { doc := demoDoc,
    ui := { cutX := { minimum := 0, maximum := 40, value := 7 },
            cutY := { minimum := 0, maximum := 40, value := 7 },
            cutZ := { minimum := 0, maximum := 40, value := 7 } } }

/-- The dialog with the X value at the maximum and the Y value at the
minimum of the range `[0, 40]`. -/
def edgeState : State :=
  { doc := demoDoc,
    ui := { cutX := { minimum := 0, maximum := 40, value := 40 },
            cutY := { minimum := 0, maximum := 40, value := 0 },
            cutZ := { minimum := 0, maximum := 40, value := 7 } } }

/-- The dialog over `demoDoc` with all three axes checked. -/
def chainState : State :=
  { doc := demoDoc,
    ObjectsListVisible := ["Box"],
    ui := { groupBoxX := true, groupBoxY := true, groupBoxZ := true,
            cutX := { value := 5 }, cutY := { value := 5 }, cutZ := { value := 5 } } }

/-- The dialog over `demoDoc` with the Z axis checked, the flip button of Z
checked and the flip button of Y unchecked, and the Z cut value 15. -/
def flipZState : State :=
  { doc := demoDoc,
    ObjectsListVisible := ["Box"],
    ui := { groupBoxZ := true, flipZ := true, flipY := false, cutZ := { value := 15 } } }

/-- A document with a solid and an X box of length 5 at x = 4, but no X
cut. -/
def boxOnlyDoc : Document :=
  { objects := [{ name := "Box", typeId := "Part::Box", hasShape := true },
      { name := "SectionCutBoxX", typeId := "Part::Box", hasShape := true, Visibility := false,
        Length := 5, Width := 21, Height := 31, Placement := ⟨4, -1 / 2, -1 / 2⟩ }] }

/-- The dialog over `boxOnlyDoc` with X checked and flipped and the cut
value 3. -/
def boxOnlyState : State :=
  { doc := boxOnlyDoc,
    ObjectsListVisible := ["Box"],
    hasBoxX := true,
    ui := { groupBoxX := true, flipX := true,
            cutX := { minimum := 0, maximum := 10, value := 3 } } }

/-- A document with a solid, the boxes and the cuts of X, Y and Z. -/
def cutDoc : Document :=
  { objects := [{ name := "Box", typeId := "Part::Box", hasShape := true, Visibility := false },
      { name := "SectionCutBoxX", typeId := "Part::Box", hasShape := true,
        Length := 11, Width := 21, Height := 31, Placement := ⟨-6, -1 / 2, -1 / 2⟩ },
      { name := "SectionCutX", typeId := "Part::Cut", hasShape := true,
        Base := some "SectionCutCompound", Tool := some "SectionCutBoxX" },
      { name := "SectionCutBoxY", typeId := "Part::Box", hasShape := true,
        Length := 11, Width := 21, Height := 31, Placement := ⟨-1 / 2, -16, -1 / 2⟩ },
      { name := "SectionCutY", typeId := "Part::Cut", hasShape := true,
        Base := some "SectionCutX", Tool := some "SectionCutBoxY" },
      { name := "SectionCutBoxZ", typeId := "Part::Box", hasShape := true,
        Length := 11, Width := 21, Height := 31, Placement := ⟨-1 / 2, -1 / 2, -26⟩ },
      { name := "SectionCutZ", typeId := "Part::Cut", hasShape := true,
        Base := some "SectionCutY", Tool := some "SectionCutBoxZ" }] }

/-- The dialog over `cutDoc` with the three axes checked and the flip button
of X checked. -/
def cutState : State :=
  { doc := cutDoc,
    ObjectsListVisible := ["Box"],
    hasBoxX := true, hasBoxY := true, hasBoxZ := true,
    ui := { groupBoxX := true, groupBoxY := true, groupBoxZ := true, flipX := true,
            cutX := { minimum := 0, maximum := 10, value := 5 },
            cutY := { minimum := 0, maximum := 20, value := 5 },
            cutZ := { minimum := 0, maximum := 30, value := 5 } } }

/-- The dialog after the user has changed to a document that holds a solid
and an X cut left by an earlier run: the document is not yet the one of the
dialog, and no group box is checked. -/
def staleState : State :=
  { docIsActive := false,
    doc := { objects := [{ name := "Box", typeId := "Part::Box", hasShape := true },
      { name := "SectionCutX", typeId := "Part::Cut", hasShape := true }] },
    ObjectsListVisible := [] }

/-- The dialog over a document with a solid and what an earlier run has
left: a link, the compound of the link, and the box and cut of X. No group
box is checked. -/
def uncheckedState : State :=
  { doc := { objects := [{ name := "Box", typeId := "Part::Box", hasShape := true },
      { name := "Box_CutLink", typeId := "App::Link", LinkedObject := some "Box" },
      { name := "SectionCutCompound", typeId := "Part::Compound", hasShape := true,
        Links := ["Box_CutLink"] },
      { name := "SectionCutBoxX", typeId := "Part::Box", hasShape := true },
      { name := "SectionCutX", typeId := "Part::Cut", hasShape := true,
        Base := some "SectionCutCompound", Tool := some "SectionCutBoxX" }] },
    ObjectsListVisible := ["Box"],
    hasBoxX := true,
    ui := { RefreshCutPB := false } }

/-- The dialog over a document whose only visible object is a sketch, which
cannot be cut; the X group box is checked. -/
def sketchState : State :=
  { doc := { objects :=
      [{ name := "Sketch", typeId := "Sketcher::SketchObject", hasShape := true }] },
    ObjectsListVisible := ["Sketch"],
    ui := { groupBoxX := true, RefreshCutPB := false } }

/-- An empty document in which the dialog still lists an object as visible. -/
def emptiedState : State :=
  { doc := { objects := [] },
    ObjectsListVisible := ["Box"] }

/-- The dialog over a document in which `Box` has been hidden by a cut and
`Gone` has been deleted by the user. -/
def closingState : State :=
  { doc := { objects := [{ name := "Box", typeId := "Part::Box", hasShape := true,
                           Visibility := false },
      { name := "Hidden", typeId := "Part::Box", hasShape := true, Visibility := false },
      { name := "SectionCutX", typeId := "Part::Cut", hasShape := true }] },
    ObjectsListVisible := ["Box", "Gone"],
    hasBoxX := true,
    ui := { groupBoxX := true, RefreshCutPB := false } }

/-- The host of `demoEnv` with a scene that spans `[100, 110]` on z. -/
def farEnv : Env :=
  { demoEnv with sceneBoundingBox := fun _ => ⟨⟨0, 0, 100⟩, ⟨10, 20, 110⟩⟩ }

/-- The dialog over `demoDoc` with the Z axis checked and the cut value 105
in the range `[100, 110]`. -/
def farState : State :=
  { doc := demoDoc,
    ObjectsListVisible := ["Box"],
    ui := { groupBoxZ := true, cutZ := { minimum := 100, maximum := 110, value := 105 } } }

/-- A new dialog over the document `d`. -/
def freshState (d : Document) : State := { doc := d }

/-- The bounding box of a flat scene: a face in the plane z = 5. -/
def flatBox : SbBox3f := ⟨⟨0, 0, 5⟩, ⟨10, 20, 5⟩⟩

/-- The dialog over a document in which the X box was placed unflipped for
the cut value 20 when the scene spanned `[0, 40]` on x: the box has the
length 41 and is at 20 minus 41. The user has deleted the X cut and has then
checked the flip button of X. -/
def lostCutState : State :=
  { doc := { objects := [{ name := "Box", typeId := "Part::Box", hasShape := true,
                           Visibility := false },
      { name := "SectionCutBoxX", typeId := "Part::Box", hasShape := true,
        Length := 41, Width := 21, Height := 31, Placement := ⟨20 - 41, -1 / 2, -1 / 2⟩ }] },
    ObjectsListVisible := ["Box"],
    hasBoxX := true,
    ui := { groupBoxX := true, flipX := true,
            cutX := { minimum := 0, maximum := 40, value := 20 } } }

/-- The dialog over `demoDoc` with the Z axis checked, the flip button of Y
checked and that of Z unchecked, and the cut value 15 in the range
`[0, 30]`. -/
def yFlippedState : State :=
  { doc := demoDoc,
    ObjectsListVisible := ["Box"],
    ui := { groupBoxZ := true, flipY := true,
            cutZ := { minimum := 0, maximum := 30, value := 15 } } }

/-- The dialog over a document with a solid and a link named `Box_CutLink`
that an earlier run has left: its compound has been deleted by the user. The
X axis is checked. -/
def strayLinkState : State :=
  { doc := { objects := [{ name := "Box", typeId := "Part::Box", hasShape := true },
      { name := "Box_CutLink", typeId := "App::Link", Visibility := false }] },
    ObjectsListVisible := ["Box"],
    ui := { groupBoxX := true } }

/-- The dialog over a document with two visible solids, the X axis
checked. -/
def twoSolidsState : State :=
  { doc := { objects := [{ name := "Box", typeId := "Part::Box", hasShape := true },
      { name := "Cylinder", typeId := "Part::Box", hasShape := true }] },
    ObjectsListVisible := ["Box", "Cylinder"],
    ui := { groupBoxX := true } }

/-- The dialog over a document with a solid and the cuts of Y and Z left by
an earlier run, the X group box checked by the user, no flag set and the
Refresh button enabled. -/
def refreshState : State :=
  { doc := { objects := [{ name := "Box", typeId := "Part::Box", hasShape := true },
      { name := "SectionCutY", typeId := "Part::Cut", hasShape := true },
      { name := "SectionCutZ", typeId := "Part::Cut", hasShape := true }] },
    hasBoxX := true,
    ui := { groupBoxX := true } }

/-- The host of `demoEnv` with a scene that spans `[2, 8]` on x and
`[3, 17]` on y. -/
def tightEnv : Env :=
  { demoEnv with sceneBoundingBox := fun _ => ⟨⟨2, 3, 0⟩, ⟨8, 17, 30⟩⟩ }

/-- The dialog over `cutDoc` with the X range `[4, 10]`, the Y range
`[0, 15]`, the flip button of Y checked and that of X unchecked. -/
def limitState : State :=
  { doc := cutDoc,
    ObjectsListVisible := ["Box"],
    hasBoxX := true, hasBoxY := true, hasBoxZ := true,
    ui := { groupBoxX := true, groupBoxY := true, groupBoxZ := true, flipY := true,
            cutX := { minimum := 4, maximum := 10, value := 5 },
            cutY := { minimum := 0, maximum := 15, value := 5 },
            cutZ := { minimum := 0, maximum := 30, value := 5 } } }

/-- The dialog over a document with three solids and a visible cut of `A` by
`B`, all four of them visible. -/
def booleanState : State :=
  { doc := { objects := [{ name := "A", typeId := "Part::Box", hasShape := true },
      { name := "B", typeId := "Part::Box", hasShape := true },
      { name := "Cut", typeId := "Part::Cut", hasShape := true,
        Base := some "A", Tool := some "B" },
      { name := "C", typeId := "Part::Box", hasShape := true }] },
    ObjectsListVisible := ["A", "B", "Cut", "C"],
    ui := { groupBoxX := true } }

/-- The dialog over a document with the boxes and cuts of Y and Z from which
the user has deleted the Z cut. -/
def lostZState : State :=
  { doc := { objects := [{ name := "Box", typeId := "Part::Box", hasShape := true,
                           Visibility := false },
      { name := "SectionCutBoxY", typeId := "Part::Box", hasShape := true,
        Length := 11, Width := 21, Height := 31, Placement := ⟨-1 / 2, -16, -1 / 2⟩ },
      { name := "SectionCutY", typeId := "Part::Cut", hasShape := true,
        Base := some "SectionCutCompound", Tool := some "SectionCutBoxY" },
      { name := "SectionCutBoxZ", typeId := "Part::Box", hasShape := true,
        Length := 11, Width := 21, Height := 31, Placement := ⟨-1 / 2, -1 / 2, -26⟩ }] },
    ObjectsListVisible := ["Box"],
    hasBoxY := true, hasBoxZ := true,
    ui := { groupBoxY := true, groupBoxZ := true,
            cutY := { minimum := 0, maximum := 20, value := 5 },
            cutZ := { minimum := 0, maximum := 30, value := 5 } } }

/-- The host of `demoEnv` in which no `Part::Cut` can be created. -/
def noCutEnv : Env :=
  { demoEnv with canCreate := fun t => t != "Part::Cut" }

/-- The dialog over a document that an earlier run has left with the X axis
cut, in which the user has made the compound visible: the list of the visible
objects, as the constructor or the Refresh button fills it, holds the
compound and the X cut. -/
def visibleCompoundState : State :=
  { doc := { objects := [{ name := "Box", typeId := "Part::Box", hasShape := true,
                           Visibility := false },
      { name := "SectionCutCompound", typeId := "Part::Compound", hasShape := true,
        Links := ["Box_CutLink"] },
      { name := "Box_CutLink", typeId := "App::Link", LinkedObject := some "Box",
        LinkTransform := true, Visibility := false },
      { name := "SectionCutBoxX", typeId := "Part::Box", hasShape := true, Visibility := false,
        Length := 11, Width := 21, Height := 31, Placement := ⟨-6, -1 / 2, -1 / 2⟩ },
      { name := "SectionCutX", typeId := "Part::Cut", hasShape := true,
        Base := some "SectionCutCompound", Tool := some "SectionCutBoxX" }] },
    ObjectsListVisible := ["SectionCutCompound", "SectionCutX"],
    hasBoxX := true,
    ui := { groupBoxX := true, RefreshCutPB := false,
            cutX := { minimum := 0, maximum := 10, value := 5 } } }

/-- The dialog after the user has changed to a document that an earlier run
has left with only the cut kept: the solid `Box` is hidden, the Z cut is the
one visible object. No group box is checked, no flag is set and the Refresh
button is enabled. -/
def keptCutState : State :=
  { docIsActive := false,
    doc := { objects := [{ name := "Box", typeId := "Part::Box", hasShape := true,
                           Visibility := false },
      { name := "SectionCutCompound", typeId := "Part::Compound", hasShape := true,
        Visibility := false, Links := ["Box_CutLink"] },
      { name := "Box_CutLink", typeId := "App::Link", LinkedObject := some "Box",
        LinkTransform := true, Visibility := false },
      { name := "SectionCutBoxZ", typeId := "Part::Box", hasShape := true, Visibility := false,
        Length := 11, Width := 21, Height := 31, Placement := ⟨-1 / 2, -1 / 2, -16⟩ },
      { name := "SectionCutZ", typeId := "Part::Cut", hasShape := true,
        Base := some "SectionCutCompound", Tool := some "SectionCutBoxZ" }] },
    ui := { RefreshCutPB := true } }

/-! ## Properties claimed by the specification -/

/-- The six names of the boxes and cuts. -/
def Env.cutNames (e : Env) : List String :=
  [e.BoxXName, e.CutXName, e.BoxYName, e.CutYName, e.BoxZName, e.CutZName]

/-- What is claimed of a slider handler for one axis: from the slider and the
spin box before, the position `val` and the slider and spin box after. -/
def SliderMovedSpec (hs : QSlider) (cut : QDoubleSpinBox) (val : ℤ)
    (hs1 : QSlider) (cut1 : QDoubleSpinBox) : Prop :=
  (val = hs.maximum →
    hs1.value = hs.maximum - hs.singleStep ∧ cut1.value = cut.value) ∧
  (val ≠ hs.maximum → val = hs.minimum →
    hs1.value = hs.minimum + hs.singleStep ∧ cut1.value = cut.value) ∧
  (val ≠ hs.maximum → val ≠ hs.minimum →
    cut1.value = cut.minimum + val / 100 * (cut.maximum - cut.minimum) ∧
    (0 < val → val < 100 → cut.minimum < cut.maximum →
      cut.minimum < cut1.value ∧ cut1.value < cut.maximum))

/-- What is claimed of a value-changed handler at the edge of the range: from
the spin box and the document before, the spin box and the document after.
At the maximum the value is set short below it, otherwise at the minimum short
above it, and the document (box placements, recomputed cuts) stays as it is;
so the document changes only for a value that differs from both. -/
def EdgeValueSpec (cut : QDoubleSpinBox) (doc : Document) (cut1 : QDoubleSpinBox)
    (doc1 : Document) : Prop :=
  (cut.value = cut.maximum → cut1.value = cut.maximum - 0.1 ∧ doc1 = doc) ∧
  (cut.value ≠ cut.maximum → cut.value = cut.minimum →
    cut1.value = cut.minimum + 0.1 ∧ doc1 = doc) ∧
  (doc1 ≠ doc → cut.value ≠ cut.maximum ∧ cut.value ≠ cut.minimum)

/-- The range of a spin box is the extent `[lo, hi]` of a bounding box with
centre `cnt` and length `len` on that axis. -/
def RangeIsExtent (b : QDoubleSpinBox) (cnt len lo hi : ℚ) : Prop :=
  b.minimum = cnt - len / 2 ∧ b.maximum = cnt + len / 2 ∧
    b.minimum = lo ∧ b.maximum = hi

/-- The state of a `Prepared`. -/
def Prepared.state : Prepared → State
  | Prepared.returned s => s
  | Prepared.compound _ _ s => s

/-- The document has an object of that name and type. -/
def Document.HasType (d : Document) (n t : String) : Prop :=
  ∃ o, d.getObject n = some o ∧ o.typeId = t

/-- The chain of the cuts in state `r`, for the compound `c`: every cut has
the box of its axis as `Tool`, the X cut has the compound as `Base`, the Y
cut the X cut if X is checked and the compound otherwise, the Z cut the Y cut
if Y is checked, otherwise the X cut if X is checked, otherwise the compound;
and the objects so referred to are in the document. -/
def CutChain (e : Env) (c : String) (r : State) : Prop :=
  (∀ o, r.doc.getObject e.CutXName = some o →
    o.typeId = "Part::Cut" ∧ o.Tool = some e.BoxXName ∧ o.Base = some c ∧
    r.doc.HasType e.BoxXName "Part::Box") ∧
  (∀ o, r.doc.getObject e.CutYName = some o →
    o.typeId = "Part::Cut" ∧ o.Tool = some e.BoxYName ∧
    o.Base = some (if r.ui.groupBoxX then e.CutXName else c) ∧
    r.doc.HasType e.BoxYName "Part::Box" ∧
    (r.ui.groupBoxX = true → r.doc.HasType e.CutXName "Part::Cut")) ∧
  (∀ o, r.doc.getObject e.CutZName = some o →
    o.typeId = "Part::Cut" ∧ o.Tool = some e.BoxZName ∧
    o.Base = some (if r.ui.groupBoxY then e.CutYName
      else if r.ui.groupBoxX then e.CutXName else c) ∧
    r.doc.HasType e.BoxZName "Part::Box" ∧
    (r.ui.groupBoxY = true → r.doc.HasType e.CutYName "Part::Cut") ∧
    (r.ui.groupBoxX = true → r.doc.HasType e.CutXName "Part::Cut"))

/-- Every checked axis has its cut in the document. -/
def CutsCreated (e : Env) (r : State) : Prop :=
  (r.ui.groupBoxX = true → r.doc.HasType e.CutXName "Part::Cut") ∧
  (r.ui.groupBoxY = true → r.doc.HasType e.CutYName "Part::Cut") ∧
  (r.ui.groupBoxZ = true → r.doc.HasType e.CutZName "Part::Cut")

/-- A box with the size of the bounding box plus 1.0 on every axis. -/
def BoxDims (bb : SbBox3f) (b : DocumentObject) : Prop :=
  b.Length = bb.getSize.x + 1.0 ∧ b.Width = bb.getSize.y + 1.0 ∧
    b.Height = bb.getSize.z + 1.0

/-- On an axis on which the bounding box has the origin `origin` and spans
`[lo, hi]`, a box at `pos` of length `len` is placed at the origin minus 0.5
and extends 0.5 beyond the bounding box on both sides. -/
def ExtendsHalf (origin lo hi pos len : ℚ) : Prop :=
  pos = origin - 0.5 ∧ pos = lo - 0.5 ∧ pos + len = hi + 0.5

/-- What is claimed of the cut boxes in state `r` for the bounding box `bb`
of the compound. -/
def CutBoxes (e : Env) (bb : SbBox3f) (r : State) : Prop :=
  (∀ b, r.doc.getObject e.BoxXName = some b → BoxDims bb b ∧
    ExtendsHalf bb.getOrigin.y bb.min.y bb.max.y b.Placement.y b.Width ∧
    ExtendsHalf bb.getOrigin.z bb.min.z bb.max.z b.Placement.z b.Height) ∧
  (∀ b, r.doc.getObject e.BoxYName = some b → BoxDims bb b ∧
    ExtendsHalf bb.getOrigin.x bb.min.x bb.max.x b.Placement.x b.Length ∧
    ExtendsHalf bb.getOrigin.z bb.min.z bb.max.z b.Placement.z b.Height) ∧
  (∀ b, r.doc.getObject e.BoxZName = some b → BoxDims bb b ∧
    ExtendsHalf bb.getOrigin.x bb.min.x bb.max.x b.Placement.x b.Length ∧
    ExtendsHalf bb.getOrigin.y bb.min.y bb.max.y b.Placement.y b.Width)

/-- What one visible object adds to the cut list: the links in its group
when it is an `App::Part`, and the object itself when it can be cut. -/
def cutCandidates (e : Env) (d : Document) (it : String) : List String :=
  match d.getObject it with
  | none => []
  | some o =>
    (if o.typeId == "App::Part" then o.Group.filter (isAppLink d) else []) ++
      (if isCuttable e o then [it] else [])

/-- The cases in which the shape filter of `startCutting` puts `x` into the
cut list: `x` is a visible object with a `Shape` property whose type derives
from `Part::Feature` and from none of `Part::Part2DObject`, `Part::Datum`,
`PartDesign::Feature`, `Part::Compound` and is not `App::Part`; or `x`, of
type `App::Link`, is in the `Group` of a visible object of type
`App::Part`. -/
def InCutList (e : Env) (s : State) (x : String) : Prop :=
  (x ∈ s.ObjectsListVisible ∧ ∃ o, s.doc.getObject x = some o ∧
    o.hasShape = true ∧ e.isDerivedFrom o.typeId "Part::Feature" = true ∧
    e.isDerivedFrom o.typeId "Part::Part2DObject" = false ∧
    e.isDerivedFrom o.typeId "Part::Datum" = false ∧
    e.isDerivedFrom o.typeId "PartDesign::Feature" = false ∧
    e.isDerivedFrom o.typeId "Part::Compound" = false ∧
    o.typeId ≠ "App::Part") ∨
  (∃ p ∈ s.ObjectsListVisible, ∃ po, s.doc.getObject p = some po ∧
    po.typeId = "App::Part" ∧ x ∈ po.Group ∧
    ∃ xo, s.doc.getObject x = some xo ∧ xo.typeId = "App::Link")

/-- No group box is checked. -/
def Ui.noneChecked (u : Ui) : Prop :=
  u.groupBoxX = false ∧ u.groupBoxY = false ∧ u.groupBoxZ = false

/-- The document has no object under the name of a cut. -/
def Document.NoCuts (e : Env) (d : Document) : Prop :=
  d.getObject e.CutXName = none ∧ d.getObject e.CutYName = none ∧
    d.getObject e.CutZName = none

/-- The spin box and slider of an axis that `refreshCutRanges` leaves alone:
minimum, maximum, single step and value of the spin box and the position of
the slider are as before. -/
def AxisKept (b b1 : QDoubleSpinBox) (hs hs1 : QSlider) : Prop :=
  b1.minimum = b.minimum ∧ b1.maximum = b.maximum ∧ b1.singleStep = b.singleStep ∧
    b1.value = b.value ∧ hs1.value = hs.value

/-- The spin box and slider of an axis whose value `refreshCutRanges` sets:
the value is the centre `cnt` and the slider is at 50. -/
def AxisCentred (cnt : ℚ) (b1 : QDoubleSpinBox) (hs1 : QSlider) : Prop :=
  b1.value = cnt ∧ hs1.value = 50

/-- Placement and size of an object. -/
def DocumentObject.geometry (o : DocumentObject) : Vector3d × ℚ × ℚ × ℚ :=
  (o.Placement, o.Length, o.Width, o.Height)

/-- Placement and size of the object of that name, if there is one. -/
def Document.geometry (d : Document) (n : String) : Option (Vector3d × ℚ × ℚ × ℚ) :=
  (d.getObject n).map DocumentObject.geometry

/-- The state in which `onCutXvalueChanged` goes on to the cuts to recompute:
slider and tool tip are set and the X box, found as `b`, is placed for the
cut value. -/
def placedX (e : Env) (val : ℚ) (s : State) (b : DocumentObject) : State :=
  let pos := sliderPosition val s.ui.cutX.minimum s.ui.cutX.maximum
  let s := { s with ui.cutXHS.value := pos }
  let s := { s with ui.cutXHS.toolTip := ToolTip.number val e.getDecimals }
  let BoxPosition := b.Placement
  let BoxPosition := if !s.ui.flipX
    then { BoxPosition with x := s.ui.cutX.value - b.Length }
    else { BoxPosition with x := s.ui.cutX.value }
  { s with doc := s.doc.modify e.BoxXName (fun o => { o with Placement := BoxPosition }) }

/-- The same for `onCutYvalueChanged`. -/
def placedY (e : Env) (val : ℚ) (s : State) (b : DocumentObject) : State :=
  let pos := sliderPosition val s.ui.cutY.minimum s.ui.cutY.maximum
  let s := { s with ui.cutYHS.value := pos }
  let s := { s with ui.cutYHS.toolTip := ToolTip.number val e.getDecimals }
  let BoxPosition := b.Placement
  let BoxPosition := if !s.ui.flipY
    then { BoxPosition with y := s.ui.cutY.value - b.Width }
    else { BoxPosition with y := s.ui.cutY.value }
  { s with doc := s.doc.modify e.BoxYName (fun o => { o with Placement := BoxPosition }) }

/-- The same for `onCutZvalueChanged`. -/
def placedZ (e : Env) (val : ℚ) (s : State) (b : DocumentObject) : State :=
  let pos := sliderPosition val s.ui.cutZ.minimum s.ui.cutZ.maximum
  let s := { s with ui.cutZHS.value := pos }
  let s := { s with ui.cutZHS.toolTip := ToolTip.number val e.getDecimals }
  let BoxPosition := b.Placement
  let BoxPosition := if !s.ui.flipZ
    then { BoxPosition with z := s.ui.cutZ.value - b.Height }
    else { BoxPosition with z := s.ui.cutZ.value }
  { s with doc := s.doc.modify e.BoxZName (fun o => { o with Placement := BoxPosition }) }

/-- In state `r` the X box, if there is one, is where the cut value puts it:
at the value minus its length when the flip button is unchecked and at the
value when it is checked. -/
def FollowsX (e : Env) (r : State) : Prop :=
  ∀ p l w h, r.doc.geometry e.BoxXName = some (p, l, w, h) →
    p.x = if r.ui.flipX then r.ui.cutX.value else r.ui.cutX.value - l

/-- The same for the Y box, with its width. -/
def FollowsY (e : Env) (r : State) : Prop :=
  ∀ p l w h, r.doc.geometry e.BoxYName = some (p, l, w, h) →
    p.y = if r.ui.flipY then r.ui.cutY.value else r.ui.cutY.value - w

/-- The same for the Z box, with its height. -/
def FollowsZ (e : Env) (r : State) : Prop :=
  ∀ p l w h, r.doc.geometry e.BoxZName = some (p, l, w, h) →
    p.z = if r.ui.flipZ then r.ui.cutZ.value else r.ui.cutZ.value - h

/-- On an axis on which the bounding box spans `[o, o + s]`, a box at `pos`
of length `len` covers the side of the cut position `p` that is to be
removed: unflipped it occupies `[p - (s + 1), p]`, which contains `[o, p]`;
flipped it occupies `[p, p + s + 1]`, which contains `[p, o + s]`. -/
def CoversSide (flipped : Bool) (o s p pos len : ℚ) : Prop :=
  if flipped then (pos = p ∧ pos + len = p + s + 1) ∧ (pos ≤ p ∧ o + s ≤ pos + len)
  else (pos = p - (s + 1) ∧ pos + len = p) ∧ (pos ≤ o ∧ p ≤ pos + len)

/-- The limit on the side of the box is not relaxed. From the spin box
before, `b`, and after, `b1`, the state of the flip button and the extent
`[lo, hi]` of the new bounding box on the axis: unflipped, the minimum after
is the larger of the minimum before and `lo`, so it is not below the minimum
before; flipped, the maximum after is the smaller of the maximum before and
`hi`, so it is not above the maximum before. -/
def LimitKept (flipped : Bool) (b b1 : QDoubleSpinBox) (lo hi : ℚ) : Prop :=
  if flipped then b1.maximum = min b.maximum hi ∧ b1.maximum ≤ b.maximum
  else b1.minimum = max b.minimum lo ∧ b.minimum ≤ b1.minimum

/-- The bounding box a handler takes to refresh the range of an axis: that of
the view of document `d` with the box `n` of the axis shown. -/
def boundingBoxWith (e : Env) (n : String) (d : Document) : SbBox3f :=
  getViewBoundingBox e { doc := d.setVisibility n true }

/-- The document after the X box has been shown and hidden again. -/
def shownAndHidden (n : String) (d : Document) : Document :=
  (d.setVisibility n true).setVisibility n false

/-- The objects the sort-out step is to remove from the cut list: `x` is in
the out-list of a visible object whose type derives from `Part::Boolean`,
`Part::MultiCommon`, `Part::MultiFuse`, `Part::Thickness` or
`Part::FilletBase`. -/
def PartOfBoolean (e : Env) (s : State) (x : String) : Prop :=
  ∃ it ∈ s.ObjectsListVisible, ∃ o, s.doc.getObject it = some o ∧
    (e.isDerivedFrom o.typeId "Part::Boolean" = true ∨
      e.isDerivedFrom o.typeId "Part::MultiCommon" = true ∨
      e.isDerivedFrom o.typeId "Part::MultiFuse" = true ∨
      e.isDerivedFrom o.typeId "Part::Thickness" = true ∨
      e.isDerivedFrom o.typeId "Part::FilletBase" = true) ∧
    x ∈ o.getOutList

/-- The state in which `startCutting` collects the cut list: after the
refresh for a changed document, the cleanup, the restoring of the visibility
and the enabling of the sliders. -/
def beforeCollect (e : Env) (s : State) : State :=
  enableSliders (restoreVisibility e (cleanup e
    (if !s.docIsActive then onRefreshCutPBclicked e s else s)))

/-- In state `r`, for each axis the flag `hasBox` is true exactly when the
document contains both the box and the cut of the axis. -/
def FlagsExact (e : Env) (r : State) : Prop :=
  (r.hasBoxX = true ↔ (r.doc.getObject e.BoxXName).isSome = true ∧
    (r.doc.getObject e.CutXName).isSome = true) ∧
  (r.hasBoxY = true ↔ (r.doc.getObject e.BoxYName).isSome = true ∧
    (r.doc.getObject e.CutYName).isSome = true) ∧
  (r.hasBoxZ = true ↔ (r.doc.getObject e.BoxZName).isSome = true ∧
    (r.doc.getObject e.CutZName).isSome = true)

/-- Whether the object refers to `n` as `Base`, as `Tool` or in its
`Links`. -/
def DocumentObject.refersTo (o : DocumentObject) (n : String) : Bool :=
  o.Base == some n || o.Tool == some n || o.Links.contains n

/-- Whether the object of that name, if the document has one, satisfies
`p`. -/
def Document.allAt (d : Document) (n : String) (p : DocumentObject → Bool) : Bool :=
  match d.getObject n with
  | some o => p o
  | none => true

/-- Whether the object has no `Base`, no `Tool` and no `Links`. -/
def DocumentObject.refersToNone (o : DocumentObject) : Bool :=
  o.Base == none && o.Tool == none && o.Links.isEmpty

/-- The names of the objects `startCutting` generates, for the document `d`:
the cuts and boxes, the compound and the objects in the `Links` of the
compound of `d`. -/
def generatedNames (e : Env) (d : Document) : List String :=
  [e.CutZName, e.BoxZName, e.CutYName, e.BoxYName, e.CutXName, e.BoxXName, e.CompoundName] ++
    (match d.getObject e.CompoundName with
     | some c => c.Links
     | none => [])

/-- Whether the generated objects of `d` have the dependency structure that
`startCutting` creates: a cut has the box of its axis as `Tool` and a cut
below it in the chain Z, Y, X or the compound as `Base`; a box refers to
nothing; the compound refers to its links, which are none of the cuts, boxes
and the compound and refer to nothing as `Base`, `Tool` or link. -/
def GeneratedStructure (e : Env) (d : Document) : Bool :=
  d.allAt e.CutZName (fun o => o.Tool == some e.BoxZName &&
    (o.Base == some e.CutYName || o.Base == some e.CutXName ||
      o.Base == some e.CompoundName) && o.Links.isEmpty) &&
  d.allAt e.CutYName (fun o => o.Tool == some e.BoxYName &&
    (o.Base == some e.CutXName || o.Base == some e.CompoundName) && o.Links.isEmpty) &&
  d.allAt e.CutXName (fun o => o.Tool == some e.BoxXName &&
    o.Base == some e.CompoundName && o.Links.isEmpty) &&
  d.allAt e.BoxZName DocumentObject.refersToNone &&
  d.allAt e.BoxYName DocumentObject.refersToNone &&
  d.allAt e.BoxXName DocumentObject.refersToNone &&
  d.allAt e.CompoundName (fun c => c.Base == none && c.Tool == none &&
    c.Links.all (fun l => !(e.CompoundName :: e.cutNames).contains l &&
      d.allAt l DocumentObject.refersToNone))

/-- Every cut that the document has belongs to an axis whose group box is
checked, so that the refresh changes no group box. -/
def CutsAlreadyChecked (e : Env) (s : State) : Prop :=
  ((s.doc.getObject e.CutXName).isSome = true → s.ui.groupBoxX = true) ∧
  ((s.doc.getObject e.CutYName).isSome = true → s.ui.groupBoxY = true) ∧
  ((s.doc.getObject e.CutZName).isSome = true → s.ui.groupBoxZ = true)

/-- What is claimed of the flags, the group boxes and the Refresh button after
a refresh from `s` that has ended in `s1`: the document is as it was; a flag
is set exactly when the document has the cut of the axis; the group box of an
axis whose cut exists is checked and a group box that was checked stays
checked; the Refresh button is disabled if a cut exists and otherwise is as
it was. -/
def RefreshedFlags (e : Env) (s s1 : State) : Prop :=
  s1.doc = s.doc ∧
  ((s1.hasBoxX = true ↔ (s1.doc.getObject e.CutXName).isSome = true) ∧
    (s1.hasBoxY = true ↔ (s1.doc.getObject e.CutYName).isSome = true) ∧
    (s1.hasBoxZ = true ↔ (s1.doc.getObject e.CutZName).isSome = true)) ∧
  (((s1.doc.getObject e.CutXName).isSome = true → s1.ui.groupBoxX = true) ∧
    ((s1.doc.getObject e.CutYName).isSome = true → s1.ui.groupBoxY = true) ∧
    ((s1.doc.getObject e.CutZName).isSome = true → s1.ui.groupBoxZ = true)) ∧
  ((s.ui.groupBoxX = true → s1.ui.groupBoxX = true) ∧
    (s.ui.groupBoxY = true → s1.ui.groupBoxY = true) ∧
    (s.ui.groupBoxZ = true → s1.ui.groupBoxZ = true)) ∧
  (((s1.doc.getObject e.CutXName).isSome = true ∨ (s1.doc.getObject e.CutYName).isSome = true ∨
      (s1.doc.getObject e.CutZName).isSome = true) → s1.ui.RefreshCutPB = false) ∧
  ((s1.doc.getObject e.CutXName).isSome = false → (s1.doc.getObject e.CutYName).isSome = false →
    (s1.doc.getObject e.CutZName).isSome = false → s1.ui.RefreshCutPB = s.ui.RefreshCutPB)

/-! ## Predicates used in the proofs -/

/-- The check boxes and buttons of two states of the widgets agree. -/
def SameButtons (u v : Ui) : Prop :=
  v.groupBoxX = u.groupBoxX ∧ v.groupBoxY = u.groupBoxY ∧ v.groupBoxZ = u.groupBoxZ ∧
  v.flipX = u.flipX ∧ v.flipY = u.flipY ∧ v.flipZ = u.flipZ ∧
  v.RefreshCutPB = u.RefreshCutPB ∧ v.keepOnlyCutCB = u.keepOnlyCutCB

/-- The second state differs from the first in widgets at most, and not in
the check boxes and buttons. -/
def UiOnly (s s1 : State) : Prop :=
  ∃ u, s1 = { s with ui := u } ∧ SameButtons s.ui u

/-- What holds of the boxes and cuts after `createCuts` has run from state
`s` to state `s1`, with the compound `c` and the size and origin of its
bounding box. -/
structure CutsPost (e : Env) (c : String) (size origin : Vector3d) (s s1 : State) : Prop where
  buttons : SameButtons s.ui s1.ui
  frame : ∀ m, m ∉ e.cutNames → s1.doc.getObject m = s.doc.getObject m
  cutX : ∀ o, s1.doc.getObject e.CutXName = some o →
    s.ui.groupBoxX = true ∧ o.Tool = some e.BoxXName ∧ o.Base = some c ∧
    o.typeId = "Part::Cut" ∧ (s1.doc.getObject e.BoxXName).isSome = true
  cutY : ∀ o, s1.doc.getObject e.CutYName = some o →
    s.ui.groupBoxY = true ∧ o.Tool = some e.BoxYName ∧
    o.Base = some (if s.ui.groupBoxX then e.CutXName else c) ∧
    o.typeId = "Part::Cut" ∧ (s1.doc.getObject e.BoxYName).isSome = true ∧
    (s.ui.groupBoxX = true → (s1.doc.getObject e.CutXName).isSome = true)
  cutZ : ∀ o, s1.doc.getObject e.CutZName = some o →
    s.ui.groupBoxZ = true ∧ o.Tool = some e.BoxZName ∧
    o.Base = some (if s.ui.groupBoxY then e.CutYName
      else if s.ui.groupBoxX then e.CutXName else c) ∧
    o.typeId = "Part::Cut" ∧ (s1.doc.getObject e.BoxZName).isSome = true ∧
    (s.ui.groupBoxY = true → (s1.doc.getObject e.CutYName).isSome = true) ∧
    (s.ui.groupBoxX = true → (s1.doc.getObject e.CutXName).isSome = true)
  boxX : ∀ b, s1.doc.getObject e.BoxXName = some b →
    b.typeId = "Part::Box" ∧ b.Length = size.x + 1 ∧ b.Width = size.y + 1 ∧
    b.Height = size.z + 1 ∧ b.Placement.y = origin.y - 0.5 ∧ b.Placement.z = origin.z - 0.5
  boxY : ∀ b, s1.doc.getObject e.BoxYName = some b →
    b.typeId = "Part::Box" ∧ b.Length = size.x + 1 ∧ b.Width = size.y + 1 ∧
    b.Height = size.z + 1 ∧ b.Placement.x = origin.x - 0.5 ∧ b.Placement.z = origin.z - 0.5
  boxZ : ∀ b, s1.doc.getObject e.BoxZName = some b →
    b.typeId = "Part::Box" ∧ b.Length = size.x + 1 ∧ b.Width = size.y + 1 ∧
    b.Height = size.z + 1 ∧ b.Placement.x = origin.x - 0.5 ∧ b.Placement.y = origin.y - 0.5
  progress : e.canCreate "Part::Box" = true → e.canCreate "Part::Cut" = true →
    (s.ui.groupBoxX = true → (s1.doc.getObject e.CutXName).isSome = true) ∧
    (s.ui.groupBoxY = true → (s1.doc.getObject e.CutYName).isSome = true) ∧
    (s.ui.groupBoxZ = true → (s1.doc.getObject e.CutZName).isSome = true)



/-- The names of `SectionCutting.h` differ from each other, none of them is
the name of a link, which ends in `_CutLink`, and none of them is a name the
document makes up for an object whose name is taken. -/
def Env.WellNamed (e : Env) : Prop :=
  (e.CompoundName :: e.cutNames).Nodup ∧
  (∀ n, n ++ "_CutLink" ∉ e.CompoundName :: e.cutNames) ∧
  (∀ l n, e.uniqueName l n ∉ e.CompoundName :: e.cutNames)


/-- What the rest of a value-changed handler keeps of the state: placement
and size of every object, the check boxes and buttons, and the three cut
values selected by the flags. -/
def Keeps (kx ky kz : Bool) (s s1 : State) : Prop :=
  (∀ n, s1.doc.geometry n = s.doc.geometry n) ∧ SameButtons s.ui s1.ui ∧
  (kx = true → s1.ui.cutX.value = s.ui.cutX.value) ∧
  (ky = true → s1.ui.cutY.value = s.ui.cutY.value) ∧
  (kz = true → s1.ui.cutZ.value = s.ui.cutZ.value)

/-- The document after one pass of the loop of lines 429 to 449, for the
object `it` at position `i`, when the link is created under the name asked
for. -/
def linkStep (e : Env) (c : String) (i : Nat) (d : Document) (it : String) : Document :=
  let d : Document := { d with objects := d.objects ++
    [{ name := it ++ "_CutLink", typeId := "App::Link",
       hasShape := e.isDerivedFrom "App::Link" "Part::Feature" }] }
  let d := d.modify (it ++ "_CutLink") (fun o => { o with LinkedObject := some it })
  let d := d.modify (it ++ "_CutLink") (fun o => { o with LinkTransform := true })
  let d := d.modify c (fun o => { o with Links := set1Value o.Links i (it ++ "_CutLink") })
  d.setVisibility it false

/-- The second state has the same calls of `recomputeFeature` on record as the
first. -/
def SameRecomputed (s s1 : State) : Prop := s1.doc.recomputed = s.doc.recomputed

/-- The second state has dereferenced a null pointer exactly if the first
has. -/
def SameNull (s s1 : State) : Prop := s1.nullDeref = s.nullDeref

/-- The calls of the blocks for the names `ns` on the document `d`. -/
def blockCalls : List String → Document → List (String × Document)
  | [], _ => []
  | n :: ns, d =>
    if (d.getObject n).isSome then (n, d) :: blockCalls ns (d.removeObject n)
    else blockCalls ns d

/-- The document after the blocks for the names `ns`. -/
def blockDoc : List String → Document → Document
  | [], d => d
  | n :: ns, d => if (d.getObject n).isSome then blockDoc ns (d.removeObject n) else blockDoc ns d

/-- The place of a name in the order of the cleanup. -/
def cleanupRank (e : Env) (n : String) : Nat :=
  if n = e.CutZName then 0 else if n = e.BoxZName then 1
  else if n = e.CutYName then 2 else if n = e.BoxYName then 3
  else if n = e.CutXName then 4 else if n = e.BoxXName then 5
  else if n = e.CompoundName then 6 else 7

/-! ## Lemmas -/

theorem percent_inside (mn mx : ℚ) (val : ℤ) (h0 : 0 < val) (h100 : val < 100)
    (hr : mn < mx) :
    mn < mn + val / 100 * (mx - mn) ∧ mn + val / 100 * (mx - mn) < mx := by
  have a0 : (0 : ℚ) < val := by exact_mod_cast h0
  have a1 : (val : ℚ) < 100 := by exact_mod_cast h100
  have hd : 0 < mx - mn := by linarith
  constructor
  · have : 0 < (val : ℚ) / 100 * (mx - mn) := by positivity
    linarith
  · have : (val : ℚ) / 100 * (mx - mn) < 1 * (mx - mn) := by
      apply mul_lt_mul_of_pos_right _ hd
      rw [div_lt_one (by norm_num)]
      exact a1
    linarith

theorem edgeValueSpec_of (cut : QDoubleSpinBox) (doc : Document) (cut1 : QDoubleSpinBox)
    (doc1 : Document)
    (h1 : cut.value = cut.maximum → cut1.value = cut.maximum - 0.1 ∧ doc1 = doc)
    (h2 : cut.value ≠ cut.maximum → cut.value = cut.minimum →
      cut1.value = cut.minimum + 0.1 ∧ doc1 = doc) :
    EdgeValueSpec cut doc cut1 doc1 := by
  refine ⟨h1, h2, fun hne => ?_⟩
  by_cases hmax : cut.value = cut.maximum
  · exact absurd (h1 hmax).2 hne
  · refine ⟨hmax, fun hmin => ?_⟩
    exact absurd (h2 hmax hmin).2 hne

theorem refreshCutRanges_of_nonempty (e : Env) (BoundingBox : SbBox3f)
    (fxv fyv fzv fxr fyr fzr : Bool) (s : State) (hb : BoundingBox.isEmpty = false) :
    refreshCutRanges e BoundingBox fxv fyv fzv fxr fyr fzr s =
      { s with ui := refreshCutWidgets e BoundingBox fxv fyv fzv fxr fyr fzr s.ui } := by
  unfold refreshCutRanges
  rw [hb]
  rfl

/-! ### The document interface -/

theorem getObject_name {d : Document} {n : String} {o : DocumentObject}
    (h : d.getObject n = some o) : o.name = n := by
  have := List.find?_some h
  simpa using this

theorem getObject_eq_none_iff (d : Document) (n : String) :
    d.getObject n = none ↔ n ∉ d.getObjects := by
  unfold Document.getObject Document.getObjects
  rw [List.find?_eq_none]
  simp only [List.mem_map, not_exists, not_and, beq_iff_eq]

theorem getObject_mem {d : Document} {n : String} {o : DocumentObject}
    (h : d.getObject n = some o) : n ∈ d.getObjects := by
  by_contra hn
  rw [← getObject_eq_none_iff] at hn
  rw [hn] at h
  cases h

theorem getObject_modify (d : Document) (n m : String) (f : DocumentObject → DocumentObject)
    (hf : ∀ o, (f o).name = o.name) :
    (d.modify n f).getObject m = if m = n then (d.getObject m).map f else d.getObject m := by
  unfold Document.modify Document.getObject
  simp only [List.find?_map]
  have hp : ((fun o : DocumentObject => o.name == m) ∘
      fun o => if (o.name == n) = true then f o else o) = fun o => o.name == m := by
    funext o
    simp only [Function.comp]
    split <;> simp [hf]
  rw [hp]
  cases hfind : List.find? (fun o : DocumentObject => o.name == m) d.objects with
  | none => simp
  | some o =>
    have hn : o.name = m := by simpa using List.find?_some hfind
    by_cases hmn : m = n
    · simp [hmn, hn ▸ hmn]
    · simp [hmn, hn]

theorem getObjects_modify (d : Document) (n : String) (f : DocumentObject → DocumentObject)
    (hf : ∀ o, (f o).name = o.name) : (d.modify n f).getObjects = d.getObjects := by
  unfold Document.modify Document.getObjects
  simp only [List.map_map]
  apply List.map_congr_left
  intro o _
  simp only [Function.comp]
  split <;> simp [hf]

theorem getObjects_setVisibility (d : Document) (n : String) (v : Bool) :
    (d.setVisibility n v).getObjects = d.getObjects :=
  getObjects_modify d n _ (fun _ => rfl)

theorem getObject_setVisibility (d : Document) (n m : String) (v : Bool) :
    (d.setVisibility n v).getObject m =
      if m = n then (d.getObject m).map (fun o => { o with Visibility := v })
      else d.getObject m :=
  getObject_modify d n m _ (fun _ => rfl)

theorem getObjects_removeObject (d : Document) (n : String) :
    (d.removeObject n).getObjects = d.getObjects.filter (fun m => m != n) := by
  unfold Document.removeObject Document.getObjects
  rw [List.filter_map]
  rfl

theorem getObject_recomputeFeature (d : Document) (n m : String) (r : Bool) :
    (d.recomputeFeature n r).getObject m = d.getObject m := rfl

theorem getObject_push (d : Document) (o : DocumentObject) (m : String) :
    ({ d with objects := d.objects ++ [o] } : Document).getObject m =
      (d.getObject m).or (if o.name = m then some o else none) := by
  unfold Document.getObject
  simp only [List.find?_append, List.find?_cons, List.find?_nil]
  congr 1
  by_cases h : o.name = m
  · simp [h]
  · have hb : (o.name == m) = false := by simpa using h
    simp [h, hb]

theorem getObject_mk_push (l : List DocumentObject) (r : List (String × Bool))
    (o : DocumentObject) (m : String) :
    (Document.mk (l ++ [o]) r).getObject m =
      ((Document.mk l r).getObject m).or (if o.name = m then some o else none) :=
  getObject_push (Document.mk l r) o m

theorem getObject_eta (d : Document) (m : String) :
    (Document.mk d.objects d.recomputed).getObject m = d.getObject m := rfl

theorem addObject_of_free (e : Env) (d : Document) (type name : String)
    (h : d.getObject name = none) :
    d.addObject e type name = if e.canCreate type then
      some (name, { d with objects := d.objects ++
        [{ name := name, typeId := type, hasShape := e.isDerivedFrom type "Part::Feature" }] })
      else none := by
  unfold Document.addObject
  simp [h]

/-! ### `refreshCutRanges` changes widgets of the cut values only -/

theorem sameButtons_rfl (u : Ui) : SameButtons u u :=
  ⟨Eq.refl _, Eq.refl _, Eq.refl _, Eq.refl _, Eq.refl _, Eq.refl _, Eq.refl _, Eq.refl _⟩

theorem uiOnly_refl (s : State) : UiOnly s s := ⟨s.ui, Eq.refl _, sameButtons_rfl _⟩

theorem uiOnly_trans {a b c : State} (h1 : UiOnly a b) (h2 : UiOnly b c) : UiOnly a c := by
  obtain ⟨u, hu, hb⟩ := h1
  obtain ⟨v, hv, hc⟩ := h2
  subst hu
  subst hv
  refine ⟨v, Eq.refl _, ?_⟩
  obtain ⟨b1, b2, b3, b4, b5, b6, b7, b8⟩ := hb
  obtain ⟨c1, c2, c3, c4, c5, c6, c7, c8⟩ := hc
  exact ⟨c1.trans b1, c2.trans b2, c3.trans b3, c4.trans b4, c5.trans b5, c6.trans b6,
    c7.trans b7, c8.trans b8⟩

theorem refreshCutWidgets_buttons (e : Env) (BoundingBox : SbBox3f)
    (fxv fyv fzv fxr fyr fzr : Bool) (ui : Ui) :
    SameButtons ui (refreshCutWidgets e BoundingBox fxv fyv fzv fxr fyr fzr ui) := by
  unfold refreshCutWidgets
  cases fxv <;> cases fyv <;> cases fzv <;> cases fxr <;> cases fyr <;> cases fzr <;>
    exact sameButtons_rfl _

theorem refreshCutRanges_frame (e : Env) (BoundingBox : SbBox3f)
    (fxv fyv fzv fxr fyr fzr : Bool) (s : State) :
    UiOnly s (refreshCutRanges e BoundingBox fxv fyv fzv fxr fyr fzr s) := by
  unfold refreshCutRanges
  split
  · exact ⟨_, Eq.refl _, refreshCutWidgets_buttons _ _ _ _ _ _ _ _ _⟩
  · exact uiOnly_refl s

/-! ### The three blocks that create a box and a cut -/

theorem cutAxisX_spec (e : Env) (c : String) (size origin : Vector3d) (pos : ℚ) (s : State)
    (hb : s.doc.getObject e.BoxXName = none) (hc : s.doc.getObject e.CutXName = none)
    (hne : e.BoxXName ≠ e.CutXName) :
    (∀ m, m ≠ e.BoxXName → m ≠ e.CutXName →
      (cutAxisX e c size origin pos s).state.doc.getObject m = s.doc.getObject m) ∧
    (∀ o, (cutAxisX e c size origin pos s).state.doc.getObject e.CutXName = some o →
      s.ui.groupBoxX = true ∧ o.Tool = some e.BoxXName ∧ o.Base = some c ∧
      o.typeId = "Part::Cut" ∧
      ((cutAxisX e c size origin pos s).state.doc.getObject e.BoxXName).isSome = true) ∧
    (∀ b, (cutAxisX e c size origin pos s).state.doc.getObject e.BoxXName = some b →
      b.typeId = "Part::Box" ∧ b.Length = size.x + 1 ∧ b.Width = size.y + 1 ∧
      b.Height = size.z + 1 ∧ b.Placement.y = origin.y - 0.5 ∧
      b.Placement.z = origin.z - 0.5) ∧
    SameButtons s.ui (cutAxisX e c size origin pos s).state.ui ∧
    (∀ s1, cutAxisX e c size origin pos s = Flow.running s1 →
      s1.hasBoxX = (s.ui.groupBoxX || s.hasBoxX) ∧ s1.hasBoxY = s.hasBoxY ∧
      s1.hasBoxZ = s.hasBoxZ ∧
      (s.ui.groupBoxX = true → (s1.doc.getObject e.CutXName).isSome = true)) ∧
    (e.canCreate "Part::Box" = true → e.canCreate "Part::Cut" = true →
      ∃ s1, cutAxisX e c size origin pos s = Flow.running s1) := by
  have hne2 : e.CutXName ≠ e.BoxXName := fun h => hne h.symm
  unfold cutAxisX
  by_cases hg : s.ui.groupBoxX = true
  · simp only [hg, if_true]
    rw [addObject_of_free e s.doc _ _ hb]
    by_cases hcb : e.canCreate "Part::Box" = true
    · simp only [hcb, if_true]
      rw [addObject_of_free]
      · by_cases hcc : e.canCreate "Part::Cut" = true
        · simp only [hcc, if_true, Flow.state, getObject_recomputeFeature]
          refine ⟨?_, ?_, ?_, ?_, ?_, ?_⟩
          · intro m h1 h2
            simp [getObject_modify, getObject_mk_push, getObject_eta, h1, h2, Ne.symm h1, Ne.symm h2]
          · intro o
            simp [getObject_modify, getObject_mk_push, getObject_eta, hb, hc, hne, hne2]
            intro h
            subst h
            simp
          · intro o
            simp [getObject_modify, getObject_mk_push, getObject_eta, hb, hc, hne, hne2]
            intro h
            subst h
            norm_num
          · simp [SameButtons, hg]
          · intro s1 h
            cases h
            simp [getObject_modify, getObject_mk_push, getObject_eta, hb, hc, hne, hne2,
              getObject_recomputeFeature]
          · intro _ _
            exact ⟨_, rfl⟩
        · have hcc2 : e.canCreate "Part::Cut" = false := by simpa using hcc
          simp only [hcc2, Bool.false_eq_true, if_false, Flow.state, State.log]
          refine ⟨?_, ?_, ?_, ?_, ?_, ?_⟩
          · intro m h1 h2
            simp [getObject_modify, getObject_mk_push, getObject_eta, h1, h2, Ne.symm h1, Ne.symm h2]
          · intro o
            simp [getObject_modify, getObject_mk_push, getObject_eta, hb, hc, hne, hne2]
          · intro o
            simp [getObject_modify, getObject_mk_push, getObject_eta, hb, hc, hne, hne2]
            intro h
            subst h
            norm_num
          · simp [SameButtons, hg]
          · intro s1 h
            simp at h
          · intro _ h
            simp [hcc2] at h
      · simp [getObject_modify, getObject_mk_push, getObject_eta, hc, hne, hne2]
    · have hcb2 : e.canCreate "Part::Box" = false := by simpa using hcb
      simp only [hcb2, Bool.false_eq_true, if_false, Flow.state, State.log]
      refine ⟨?_, ?_, ?_, ?_, ?_, ?_⟩
      · intro m _ _
        trivial
      · intro o h
        simp [hc] at h
      · intro o h
        simp [hb] at h
      · simp [SameButtons, hg]
      · intro s1 h
        simp at h
      · intro h
        simp [hcb2] at h
  · have hg2 : s.ui.groupBoxX = false := by simpa using hg
    simp only [hg2, Bool.false_eq_true, if_false, Flow.state]
    refine ⟨?_, ?_, ?_, ?_, ?_, ?_⟩
    · intro m _ _
      trivial
    · intro o h
      simp [hc] at h
    · intro o h
      simp [hb] at h
    · exact sameButtons_rfl _
    · intro s1 h
      simp at h
      subst h
      simp [hg2]
    · intro _ _
      exact ⟨_, rfl⟩


theorem pointer_eq (d : Document) (n : String) :
    d.pointer n = if (d.getObject n).isSome then some n else none := by
  unfold Document.pointer
  cases h : d.getObject n with
  | none => simp
  | some o => simp [getObject_name h]

theorem cutAxisY_spec (e : Env) (c : String) (size origin : Vector3d) (pos : ℚ) (s : State)
    (hb : s.doc.getObject e.BoxYName = none) (hc : s.doc.getObject e.CutYName = none)
    (hne : e.BoxYName ≠ e.CutYName) (hxb : e.CutXName ≠ e.BoxYName)
    (hxc : e.CutXName ≠ e.CutYName) :
    (∀ m, m ≠ e.BoxYName → m ≠ e.CutYName →
      (cutAxisY e c size origin pos s).state.doc.getObject m = s.doc.getObject m) ∧
    (∀ o, (cutAxisY e c size origin pos s).state.doc.getObject e.CutYName = some o →
      s.ui.groupBoxY = true ∧ o.Tool = some e.BoxYName ∧
      o.Base = (if s.hasBoxX then s.doc.pointer e.CutXName else some c) ∧
      o.typeId = "Part::Cut" ∧
      ((cutAxisY e c size origin pos s).state.doc.getObject e.BoxYName).isSome = true) ∧
    (∀ b, (cutAxisY e c size origin pos s).state.doc.getObject e.BoxYName = some b →
      b.typeId = "Part::Box" ∧ b.Length = size.x + 1 ∧ b.Width = size.y + 1 ∧
      b.Height = size.z + 1 ∧ b.Placement.x = origin.x - 0.5 ∧
      b.Placement.z = origin.z - 0.5) ∧
    SameButtons s.ui (cutAxisY e c size origin pos s).state.ui ∧
    (∀ s1, cutAxisY e c size origin pos s = Flow.running s1 →
      s1.hasBoxY = (s.ui.groupBoxY || s.hasBoxY) ∧ s1.hasBoxX = s.hasBoxX ∧
      s1.hasBoxZ = s.hasBoxZ ∧
      (s.ui.groupBoxY = true → (s1.doc.getObject e.CutYName).isSome = true)) ∧
    (e.canCreate "Part::Box" = true → e.canCreate "Part::Cut" = true →
      ∃ s1, cutAxisY e c size origin pos s = Flow.running s1) := by
  have hne2 : e.CutYName ≠ e.BoxYName := fun h => hne h.symm
  unfold cutAxisY
  by_cases hg : s.ui.groupBoxY = true
  · simp only [hg, if_true]
    generalize hs1 : (if s.hasBoxX = true then
      refreshCutRanges e (getViewBoundingBox e s) false false false false true false s
      else s) = s1
    have hU : UiOnly s s1 := by
      rw [← hs1]
      split
      · exact refreshCutRanges_frame _ _ _ _ _ _ _ _ _
      · exact uiOnly_refl s
    obtain ⟨u, hu, hbtn⟩ := hU
    subst hu
    clear hs1
    simp only []
    rw [addObject_of_free e s.doc _ _ hb]
    by_cases hcb : e.canCreate "Part::Box" = true
    · simp only [hcb, if_true]
      rw [addObject_of_free]
      · by_cases hcc : e.canCreate "Part::Cut" = true
        · simp only [hcc, if_true, Flow.state, getObject_recomputeFeature]
          by_cases hx : s.hasBoxX = true
          · simp only [hx, if_true]
            refine ⟨?_, ?_, ?_, ?_, ?_, ?_⟩
            · intro m h1 h2
              simp [getObject_modify, getObject_mk_push, getObject_eta, h1, h2, Ne.symm h1,
                Ne.symm h2]
            · intro o
              simp [getObject_modify, getObject_mk_push, getObject_eta, hb, hc, hne, hne2,
                pointer_eq, hxb, hxc, Ne.symm hxb, Ne.symm hxc]
              intro h
              subst h
              simp
            · intro o
              simp [getObject_modify, getObject_mk_push, getObject_eta, hb, hc, hne, hne2]
              intro h
              subst h
              norm_num
            · exact hbtn
            · intro s1 h
              cases h
              simp [getObject_modify, getObject_mk_push, getObject_eta, hb, hc, hne, hne2,
                getObject_recomputeFeature]
            · intro _ _
              exact ⟨_, rfl⟩
          · have hx2 : s.hasBoxX = false := by simpa using hx
            simp only [hx2, Bool.false_eq_true, if_false]
            refine ⟨?_, ?_, ?_, ?_, ?_, ?_⟩
            · intro m h1 h2
              simp [getObject_modify, getObject_mk_push, getObject_eta, h1, h2, Ne.symm h1,
                Ne.symm h2]
            · intro o
              simp [getObject_modify, getObject_mk_push, getObject_eta, hb, hc, hne, hne2]
              intro h
              subst h
              simp
            · intro o
              simp [getObject_modify, getObject_mk_push, getObject_eta, hb, hc, hne, hne2]
              intro h
              subst h
              norm_num
            · exact hbtn
            · intro s1 h
              cases h
              simp [getObject_modify, getObject_mk_push, getObject_eta, hb, hc, hne, hne2,
                getObject_recomputeFeature]
            · intro _ _
              exact ⟨_, rfl⟩
        · have hcc2 : e.canCreate "Part::Cut" = false := by simpa using hcc
          simp only [hcc2, Bool.false_eq_true, if_false, Flow.state, State.log]
          refine ⟨?_, ?_, ?_, ?_, ?_, ?_⟩
          · intro m h1 h2
            simp [getObject_modify, getObject_mk_push, getObject_eta, h1, h2, Ne.symm h1,
              Ne.symm h2]
          · intro o
            simp [getObject_modify, getObject_mk_push, getObject_eta, hb, hc, hne, hne2]
          · intro o
            simp [getObject_modify, getObject_mk_push, getObject_eta, hb, hc, hne, hne2]
            intro h
            subst h
            norm_num
          · exact hbtn
          · intro s1 h
            simp at h
          · intro _ h
            simp [hcc2] at h
      · simp [getObject_modify, getObject_mk_push, getObject_eta, hc, hne, hne2]
    · have hcb2 : e.canCreate "Part::Box" = false := by simpa using hcb
      simp only [hcb2, Bool.false_eq_true, if_false, Flow.state, State.log]
      refine ⟨?_, ?_, ?_, ?_, ?_, ?_⟩
      · intro m _ _
        trivial
      · intro o h
        simp [hc] at h
      · intro o h
        simp [hb] at h
      · exact hbtn
      · intro s1 h
        simp at h
      · intro h
        simp [hcb2] at h
  · have hg2 : s.ui.groupBoxY = false := by simpa using hg
    simp only [hg2, Bool.false_eq_true, if_false, Flow.state]
    refine ⟨?_, ?_, ?_, ?_, ?_, ?_⟩
    · intro m _ _
      trivial
    · intro o h
      simp [hc] at h
    · intro o h
      simp [hb] at h
    · exact sameButtons_rfl _
    · intro s1 h
      simp at h
      subst h
      simp [hg2]
    · intro _ _
      exact ⟨_, rfl⟩


theorem cutAxisZ_spec (e : Env) (c : String) (size origin : Vector3d) (pos : ℚ) (s : State)
    (hb : s.doc.getObject e.BoxZName = none) (hc : s.doc.getObject e.CutZName = none)
    (hne : e.BoxZName ≠ e.CutZName) (hxb : e.CutXName ≠ e.BoxZName)
    (hxc : e.CutXName ≠ e.CutZName) (hyb : e.CutYName ≠ e.BoxZName)
    (hyc : e.CutYName ≠ e.CutZName) :
    (∀ m, m ≠ e.BoxZName → m ≠ e.CutZName →
      (cutAxisZ e c size origin pos s).state.doc.getObject m = s.doc.getObject m) ∧
    (∀ o, (cutAxisZ e c size origin pos s).state.doc.getObject e.CutZName = some o →
      s.ui.groupBoxZ = true ∧ o.Tool = some e.BoxZName ∧
      o.Base = (if s.hasBoxY then s.doc.pointer e.CutYName
        else if s.hasBoxX then s.doc.pointer e.CutXName else some c) ∧
      o.typeId = "Part::Cut" ∧
      ((cutAxisZ e c size origin pos s).state.doc.getObject e.BoxZName).isSome = true) ∧
    (∀ b, (cutAxisZ e c size origin pos s).state.doc.getObject e.BoxZName = some b →
      b.typeId = "Part::Box" ∧ b.Length = size.x + 1 ∧ b.Width = size.y + 1 ∧
      b.Height = size.z + 1 ∧ b.Placement.x = origin.x - 0.5 ∧
      b.Placement.y = origin.y - 0.5) ∧
    SameButtons s.ui (cutAxisZ e c size origin pos s).state.ui ∧
    (∀ s1, cutAxisZ e c size origin pos s = Flow.running s1 →
      s1.hasBoxZ = (s.ui.groupBoxZ || s.hasBoxZ) ∧ s1.hasBoxX = s.hasBoxX ∧
      s1.hasBoxY = s.hasBoxY ∧
      (s.ui.groupBoxZ = true → (s1.doc.getObject e.CutZName).isSome = true)) ∧
    (e.canCreate "Part::Box" = true → e.canCreate "Part::Cut" = true →
      ∃ s1, cutAxisZ e c size origin pos s = Flow.running s1) := by
  have hne2 : e.CutZName ≠ e.BoxZName := fun h => hne h.symm
  unfold cutAxisZ
  by_cases hg : s.ui.groupBoxZ = true
  · simp only [hg, if_true]
    generalize hs1 : (if (s.hasBoxX || s.hasBoxY) = true then
      refreshCutRanges e (getViewBoundingBox e s) false false false false false true s
      else s) = s1
    have hU : UiOnly s s1 := by
      rw [← hs1]
      split
      · exact refreshCutRanges_frame _ _ _ _ _ _ _ _ _
      · exact uiOnly_refl s
    obtain ⟨u, hu, hbtn⟩ := hU
    subst hu
    clear hs1
    simp only []
    rw [addObject_of_free e s.doc _ _ hb]
    by_cases hcb : e.canCreate "Part::Box" = true
    · simp only [hcb, if_true]
      rw [addObject_of_free]
      · by_cases hcc : e.canCreate "Part::Cut" = true
        · simp only [hcc, if_true, Flow.state, getObject_recomputeFeature]
          refine ⟨?_, ?_, ?_, ?_, ?_, ?_⟩
          · intro m h1 h2
            cases s.hasBoxX <;> cases s.hasBoxY <;>
              simp [getObject_modify, getObject_mk_push, getObject_eta, h1, h2, Ne.symm h1,
                Ne.symm h2]
          · intro o
            cases s.hasBoxX <;> cases s.hasBoxY <;>
              simp [getObject_modify, getObject_mk_push, getObject_eta, hb, hc, hne, hne2,
                pointer_eq, hxb, hxc, Ne.symm hxb, Ne.symm hxc,
                hyb, hyc, Ne.symm hyb, Ne.symm hyc] <;>
              intro h <;> subst h <;> simp
          · intro o
            cases s.hasBoxX <;> cases s.hasBoxY <;>
              simp [getObject_modify, getObject_mk_push, getObject_eta, hb, hc, hne, hne2] <;>
              intro h <;> subst h <;> norm_num
          · exact hbtn
          · intro s1 h
            cases h
            cases s.hasBoxX <;> cases s.hasBoxY <;>
              simp [getObject_modify, getObject_mk_push, getObject_eta, hb, hc, hne, hne2,
                getObject_recomputeFeature]
          · intro _ _
            exact ⟨_, rfl⟩
        · have hcc2 : e.canCreate "Part::Cut" = false := by simpa using hcc
          simp only [hcc2, Bool.false_eq_true, if_false, Flow.state, State.log]
          refine ⟨?_, ?_, ?_, ?_, ?_, ?_⟩
          · intro m h1 h2
            simp [getObject_modify, getObject_mk_push, getObject_eta, h1, h2, Ne.symm h1,
              Ne.symm h2]
          · intro o
            simp [getObject_modify, getObject_mk_push, getObject_eta, hb, hc, hne, hne2]
          · intro o
            simp [getObject_modify, getObject_mk_push, getObject_eta, hb, hc, hne, hne2]
            intro h
            subst h
            norm_num
          · exact hbtn
          · intro s1 h
            simp at h
          · intro _ h
            simp [hcc2] at h
      · simp [getObject_modify, getObject_mk_push, getObject_eta, hc, hne, hne2]
    · have hcb2 : e.canCreate "Part::Box" = false := by simpa using hcb
      simp only [hcb2, Bool.false_eq_true, if_false, Flow.state, State.log]
      refine ⟨?_, ?_, ?_, ?_, ?_, ?_⟩
      · intro m _ _
        trivial
      · intro o h
        simp [hc] at h
      · intro o h
        simp [hb] at h
      · exact hbtn
      · intro s1 h
        simp at h
      · intro h
        simp [hcb2] at h
  · have hg2 : s.ui.groupBoxZ = false := by simpa using hg
    simp only [hg2, Bool.false_eq_true, if_false, Flow.state]
    refine ⟨?_, ?_, ?_, ?_, ?_, ?_⟩
    · intro m _ _
      trivial
    · intro o h
      simp [hc] at h
    · intro o h
      simp [hb] at h
    · exact sameButtons_rfl _
    · intro s1 h
      simp at h
      subst h
      simp [hg2]
    · intro _ _
      exact ⟨_, rfl⟩

/-! ### The boxes and cuts after createCuts -/

theorem sameButtons_trans {u v w : Ui} (h1 : SameButtons u v) (h2 : SameButtons v w) :
    SameButtons u w := by
  obtain ⟨b1, b2, b3, b4, b5, b6, b7, b8⟩ := h1
  obtain ⟨c1, c2, c3, c4, c5, c6, c7, c8⟩ := h2
  exact ⟨c1.trans b1, c2.trans b2, c3.trans b3, c4.trans b4, c5.trans b5, c6.trans b6,
    c7.trans b7, c8.trans b8⟩

theorem isSome_of_eq_some {α : Type} {x : Option α} {a : α} (h : x = some a) :
    x.isSome = true := by
  rw [h]
  rfl

theorem cutsPost_of_flows (e : Env) (c : String) (size origin : Vector3d) (s s0 : State)
    (px py pz : ℚ)
    (hd : e.cutNames.Nodup) (hfree : ∀ n ∈ e.cutNames, s.doc.getObject n = none)
    (hdoc : s0.doc = s.doc) (hX0 : s0.hasBoxX = false) (hY0 : s0.hasBoxY = false)
    (hbtn : SameButtons s.ui s0.ui) :
    CutsPost e c size origin s
      (match cutAxisX e c size origin px s0 with
      | Flow.returned s => s
      | Flow.running s1 =>
        match cutAxisY e c size origin py s1 with
        | Flow.returned s => s
        | Flow.running s2 =>
          match cutAxisZ e c size origin pz s2 with
          | Flow.returned s => s
          | Flow.running s => s) := by
  simp only [Env.cutNames, List.nodup_cons, List.mem_cons, List.mem_singleton, not_or,
    List.not_mem_nil, not_false_eq_true, List.nodup_nil, and_true] at hd
  obtain ⟨⟨n12, n13, n14, n15, n16⟩, ⟨n23, n24, n25, n26⟩, ⟨n34, n35, n36⟩, ⟨n45, n46⟩, n56⟩ := hd
  have f1 := hfree e.BoxXName (by simp [Env.cutNames])
  have f2 := hfree e.CutXName (by simp [Env.cutNames])
  have f3 := hfree e.BoxYName (by simp [Env.cutNames])
  have f4 := hfree e.CutYName (by simp [Env.cutNames])
  have f5 := hfree e.BoxZName (by simp [Env.cutNames])
  have f6 := hfree e.CutZName (by simp [Env.cutNames])
  have gX : s0.ui.groupBoxX = s.ui.groupBoxX := hbtn.1
  have gY : s0.ui.groupBoxY = s.ui.groupBoxY := hbtn.2.1
  have gZ : s0.ui.groupBoxZ = s.ui.groupBoxZ := hbtn.2.2.1
  rw [← hdoc] at f1 f2 f3 f4 f5 f6
  obtain ⟨x1, x2, x3, x4, x5, x6⟩ := cutAxisX_spec e c size origin px s0 f1 f2 n12
  rw [gX] at x2 x5
  cases hfX : cutAxisX e c size origin px s0 with
  | returned sx =>
    rw [hfX] at x1 x2 x3 x4 x6
    simp only [Flow.state] at x1 x2 x3 x4
    have a3 := (x1 e.BoxYName (Ne.symm n13) (Ne.symm n23)).trans f3
    have a4 := (x1 e.CutYName (Ne.symm n14) (Ne.symm n24)).trans f4
    have a5 := (x1 e.BoxZName (Ne.symm n15) (Ne.symm n25)).trans f5
    have a6 := (x1 e.CutZName (Ne.symm n16) (Ne.symm n26)).trans f6
    refine ⟨sameButtons_trans hbtn x4, ?_, x2, ?_, ?_, x3, ?_, ?_, ?_⟩
    · intro m hm
      simp only [Env.cutNames, List.mem_cons, List.mem_singleton, not_or, List.not_mem_nil,
        not_false_eq_true, and_true] at hm
      rw [x1 m hm.1 hm.2.1, hdoc]
    · intro o h
      rw [a4] at h
      cases h
    · intro o h
      rw [a6] at h
      cases h
    · intro o h
      rw [a3] at h
      cases h
    · intro o h
      rw [a5] at h
      cases h
    · intro hb hc
      obtain ⟨_, h⟩ := x6 hb hc
      cases h
  | running sx =>
    rw [hfX] at x1 x2 x3 x4
    simp only [Flow.state] at x1 x2 x3 x4
    obtain ⟨x5a, x5b, x5c, x5d⟩ := x5 sx hfX
    simp only [hX0, Bool.or_false] at x5a
    have a3 := (x1 e.BoxYName (Ne.symm n13) (Ne.symm n23)).trans f3
    have a4 := (x1 e.CutYName (Ne.symm n14) (Ne.symm n24)).trans f4
    have a5 := (x1 e.BoxZName (Ne.symm n15) (Ne.symm n25)).trans f5
    have a6 := (x1 e.CutZName (Ne.symm n16) (Ne.symm n26)).trans f6
    have gY1 : sx.ui.groupBoxY = s.ui.groupBoxY := x4.2.1.trans gY
    have gZ1 : sx.ui.groupBoxZ = s.ui.groupBoxZ := x4.2.2.1.trans gZ
    obtain ⟨y1, y2, y3, y4, y5, y6⟩ := cutAxisY_spec e c size origin py sx a3 a4 n34 n23 n24
    rw [gY1] at y2 y5
    have baseY : (if sx.hasBoxX = true then sx.doc.pointer e.CutXName else some c) =
        some (if s.ui.groupBoxX = true then e.CutXName else c) := by
      rw [x5a]
      by_cases hg : s.ui.groupBoxX = true
      · simp [hg, pointer_eq, x5d hg]
      · simp [hg]
    rw [baseY] at y2
    simp only []
    cases hfY : cutAxisY e c size origin py sx with
    | returned sy =>
      rw [hfY] at y1 y2 y3 y4 y6
      simp only [Flow.state] at y1 y2 y3 y4
      have b1 := y1 e.BoxXName n13 n14
      have b2 := y1 e.CutXName n23 n24
      have b5 := (y1 e.BoxZName (Ne.symm n35) (Ne.symm n45)).trans a5
      have b6 := (y1 e.CutZName (Ne.symm n36) (Ne.symm n46)).trans a6
      refine ⟨sameButtons_trans (sameButtons_trans hbtn x4) y4, ?_, ?_, ?_, ?_, ?_, y3, ?_, ?_⟩
      · intro m hm
        simp only [Env.cutNames, List.mem_cons, List.mem_singleton, not_or, List.not_mem_nil,
          not_false_eq_true, and_true] at hm
        rw [y1 m hm.2.2.1 hm.2.2.2.1, x1 m hm.1 hm.2.1, hdoc]
      · intro o h
        rw [b2] at h
        rw [b1]
        exact x2 o h
      · intro o h
        obtain ⟨h1, h2, h3, h4, h5⟩ := y2 o h
        refine ⟨h1, h2, h3, h4, h5, fun hg => ?_⟩
        rw [b2]
        exact x5d hg
      · intro o h
        rw [b6] at h
        cases h
      · intro b h
        rw [b1] at h
        exact x3 b h
      · intro o h
        rw [b5] at h
        cases h
      · intro hb hc
        obtain ⟨_, h⟩ := y6 hb hc
        cases h
    | running sy =>
      rw [hfY] at y1 y2 y3 y4
      simp only [Flow.state] at y1 y2 y3 y4
      obtain ⟨y5a, y5b, y5c, y5d⟩ := y5 sy hfY
      simp only [x5b, hY0, Bool.or_false] at y5a
      rw [x5a] at y5b
      have b1 := y1 e.BoxXName n13 n14
      have b2 := y1 e.CutXName n23 n24
      have b5 := (y1 e.BoxZName (Ne.symm n35) (Ne.symm n45)).trans a5
      have b6 := (y1 e.CutZName (Ne.symm n36) (Ne.symm n46)).trans a6
      have gZ2 : sy.ui.groupBoxZ = s.ui.groupBoxZ := y4.2.2.1.trans gZ1
      obtain ⟨z1, z2, z3, z4, z5, z6⟩ :=
        cutAxisZ_spec e c size origin pz sy b5 b6 n56 n25 n26 n45 n46
      rw [gZ2] at z2 z5
      have hcx : s.ui.groupBoxX = true → (sy.doc.getObject e.CutXName).isSome = true := by
        intro hg
        rw [b2]
        exact x5d hg
      have baseZ : (if sy.hasBoxY = true then sy.doc.pointer e.CutYName
          else if sy.hasBoxX = true then sy.doc.pointer e.CutXName else some c) =
          some (if s.ui.groupBoxY = true then e.CutYName
            else if s.ui.groupBoxX = true then e.CutXName else c) := by
        rw [y5a, y5b]
        by_cases hgy : s.ui.groupBoxY = true
        · simp [hgy, pointer_eq, y5d hgy]
        · by_cases hgx : s.ui.groupBoxX = true
          · simp [hgy, hgx, pointer_eq, hcx hgx]
          · simp [hgy, hgx]
      rw [baseZ] at z2
      have hfin : (match cutAxisZ e c size origin pz sy with
          | Flow.returned s => s
          | Flow.running s => s) = (cutAxisZ e c size origin pz sy).state := by
        cases cutAxisZ e c size origin pz sy <;> rfl
      simp only []
      rw [hfin]
      have c1 := z1 e.BoxXName n15 n16
      have c2 := z1 e.CutXName n25 n26
      have c3 := z1 e.BoxYName n35 n36
      have c4 := z1 e.CutYName n45 n46
      refine ⟨sameButtons_trans (sameButtons_trans (sameButtons_trans hbtn x4) y4) z4, ?_, ?_, ?_, ?_, ?_, ?_, z3, ?_⟩
      · intro m hm
        simp only [Env.cutNames, List.mem_cons, List.mem_singleton, not_or, List.not_mem_nil,
          not_false_eq_true, and_true] at hm
        rw [z1 m hm.2.2.2.2.1 hm.2.2.2.2.2, y1 m hm.2.2.1 hm.2.2.2.1, x1 m hm.1 hm.2.1, hdoc]
      · intro o h
        rw [c2, b2] at h
        rw [c1, b1]
        exact x2 o h
      · intro o h
        rw [c4] at h
        obtain ⟨h1, h2, h3, h4, h5⟩ := y2 o h
        refine ⟨h1, h2, h3, h4, ?_, fun hg => ?_⟩
        · rw [c3]
          exact h5
        · rw [c2]
          exact hcx hg
      · intro o h
        obtain ⟨h1, h2, h3, h4, h5⟩ := z2 o h
        refine ⟨h1, h2, h3, h4, h5, fun hg => ?_, fun hg => ?_⟩
        · rw [c4]
          exact y5d hg
        · rw [c2]
          exact hcx hg
      · intro b h
        rw [c1, b1] at h
        exact x3 b h
      · intro b h
        rw [c3] at h
        exact y3 b h
      · intro hb hc
        obtain ⟨sz, hz⟩ := z6 hb hc
        obtain ⟨_, _, _, z5d⟩ := z5 sz hz
        rw [hz]
        simp only [Flow.state]
        refine ⟨fun hg => ?_, fun hg => ?_, z5d⟩
        · have := z1 e.CutXName n25 n26
          rw [hz] at this
          simp only [Flow.state] at this
          rw [this]
          exact hcx hg
        · have := z1 e.CutYName n45 n46
          rw [hz] at this
          simp only [Flow.state] at this
          rw [this]
          exact y5d hg

theorem createCuts_post (e : Env) (c : String) (bb : SbBox3f) (s : State)
    (hd : e.cutNames.Nodup) (hfree : ∀ n ∈ e.cutNames, s.doc.getObject n = none) :
    CutsPost e c bb.getSize bb.getOrigin s (createCuts e c bb s) := by
  unfold createCuts
  obtain ⟨u, hu, hbtn⟩ := refreshCutRanges_frame e bb true true true true true true s
  simp only []
  rw [hu]
  exact cutsPost_of_flows e c bb.getSize bb.getOrigin s _ _ _ _ hd hfree rfl rfl rfl hbtn

/-! ### Names of the objects through the phases of startCutting -/

theorem onRefreshCutPBclicked_doc (e : Env) (s : State) :
    (onRefreshCutPBclicked e s).doc = s.doc := by
  unfold onRefreshCutPBclicked blockSignals State.log
  simp only []
  split_ifs <;> rfl

theorem eraseVisible_doc (a : Option String) (s : State) : (eraseVisible a s).doc = s.doc := by
  cases a <;> rfl

theorem filter_ne_of_not_mem (l : List String) (n : String) (h : n ∉ l) :
    l.filter (fun m => m != n) = l := by
  rw [List.filter_eq_self]
  intro a ha
  simp only [bne_iff_ne, ne_eq]
  intro hh
  exact h (hh ▸ ha)

theorem removeGenerated_getObjects (n : String) (p : State × Option String) :
    (removeGenerated n p).1.doc.getObjects = p.1.doc.getObjects.filter (fun m => m != n) := by
  unfold removeGenerated
  split
  · simp only [eraseVisible_doc, eraseVisible, getObjects_removeObject]
  · rename_i h
    have hn : p.1.doc.getObject n = none := by
      cases hh : p.1.doc.getObject n with
      | none => rfl
      | some o => simp [hh] at h
    rw [getObject_eq_none_iff] at hn
    rw [filter_ne_of_not_mem _ _ hn]

theorem removeLinks_getObjects (links : List String) (s : State) :
    (links.foldl (fun s it =>
      let s := if (s.doc.getObject it).isSome then eraseVisible (some it) s else s
      { s with doc := s.doc.removeObject it }) s).doc.getObjects =
      s.doc.getObjects.filter (fun m => !links.contains m) := by
  induction links generalizing s with
  | nil => simp
  | cons a l ih =>
    rw [List.foldl_cons, ih]
    have hd : (if (s.doc.getObject a).isSome = true then eraseVisible (some a) s else s).doc
        = s.doc := by
      split
      · rfl
      · rfl
    simp only [hd, getObjects_removeObject, List.filter_filter]
    apply List.filter_congr
    intro m _
    simp only [List.contains_cons, Bool.not_or, bne, Bool.and_comm]

theorem removeCompound_sublist (e : Env) (p : State × Option String) :
    (removeCompound e p).doc.getObjects.Sublist p.1.doc.getObjects := by
  unfold removeCompound
  split
  · exact List.Sublist.refl _
  · rw [removeLinks_getObjects]
    refine (List.filter_sublist _).trans ?_
    simp only [eraseVisible_doc, getObjects_removeObject]
    exact List.filter_sublist _

theorem removeCompound_free (e : Env) (p : State × Option String) :
    e.CompoundName ∉ (removeCompound e p).doc.getObjects := by
  unfold removeCompound
  split
  · rename_i h
    exact (getObject_eq_none_iff _ _).mp h
  · rw [removeLinks_getObjects]
    intro hm
    have := (List.mem_filter.mp hm).1
    simp only [eraseVisible_doc, getObjects_removeObject, List.mem_filter, bne_self_eq_false,
      Bool.false_eq_true, and_false] at this

theorem removeGenerated_sublist (n : String) (p : State × Option String) :
    (removeGenerated n p).1.doc.getObjects.Sublist p.1.doc.getObjects := by
  rw [removeGenerated_getObjects]
  exact List.filter_sublist _

theorem removeGenerated_free (n : String) (p : State × Option String) :
    n ∉ (removeGenerated n p).1.doc.getObjects := by
  rw [removeGenerated_getObjects]
  simp

theorem cleanup_sublist (e : Env) (s : State) :
    (cleanup e s).doc.getObjects.Sublist s.doc.getObjects := by
  unfold cleanup
  exact (removeCompound_sublist e _).trans ((removeGenerated_sublist _ _).trans
    ((removeGenerated_sublist _ _).trans ((removeGenerated_sublist _ _).trans
    ((removeGenerated_sublist _ _).trans ((removeGenerated_sublist _ _).trans
    (removeGenerated_sublist _ _))))))

theorem cleanup_free (e : Env) (s : State) :
    ∀ n ∈ e.CompoundName :: e.cutNames, n ∉ (cleanup e s).doc.getObjects := by
  have hz := removeGenerated_free e.CutZName (s, none)
  have hbz := removeGenerated_free e.BoxZName (removeGenerated e.CutZName (s, none))
  have hy := removeGenerated_free e.CutYName
    (removeGenerated e.BoxZName (removeGenerated e.CutZName (s, none)))
  have hby := removeGenerated_free e.BoxYName (removeGenerated e.CutYName
    (removeGenerated e.BoxZName (removeGenerated e.CutZName (s, none))))
  have hx := removeGenerated_free e.CutXName (removeGenerated e.BoxYName
    (removeGenerated e.CutYName
    (removeGenerated e.BoxZName (removeGenerated e.CutZName (s, none)))))
  have hbx := removeGenerated_free e.BoxXName (removeGenerated e.CutXName
    (removeGenerated e.BoxYName (removeGenerated e.CutYName
    (removeGenerated e.BoxZName (removeGenerated e.CutZName (s, none))))))
  have sc := removeCompound_sublist e (removeGenerated e.BoxXName (removeGenerated e.CutXName
    (removeGenerated e.BoxYName (removeGenerated e.CutYName
    (removeGenerated e.BoxZName (removeGenerated e.CutZName (s, none)))))))
  have s6 := removeGenerated_sublist e.BoxXName (removeGenerated e.CutXName
    (removeGenerated e.BoxYName (removeGenerated e.CutYName
    (removeGenerated e.BoxZName (removeGenerated e.CutZName (s, none))))))
  have s5 := removeGenerated_sublist e.CutXName
    (removeGenerated e.BoxYName (removeGenerated e.CutYName
    (removeGenerated e.BoxZName (removeGenerated e.CutZName (s, none)))))
  have s4 := removeGenerated_sublist e.BoxYName (removeGenerated e.CutYName
    (removeGenerated e.BoxZName (removeGenerated e.CutZName (s, none))))
  have s3 := removeGenerated_sublist e.CutYName
    (removeGenerated e.BoxZName (removeGenerated e.CutZName (s, none)))
  have s2 := removeGenerated_sublist e.BoxZName (removeGenerated e.CutZName (s, none))
  intro n hn
  simp only [Env.cutNames, List.mem_cons, List.mem_singleton, List.not_mem_nil, or_false] at hn
  unfold cleanup
  rcases hn with h | h | h | h | h | h | h <;> subst h
  · exact removeCompound_free e _
  · exact fun hm => hbx (sc.subset hm)
  · exact fun hm => hx ((sc.trans s6).subset hm)
  · exact fun hm => hby ((sc.trans (s6.trans s5)).subset hm)
  · exact fun hm => hy ((sc.trans (s6.trans (s5.trans s4))).subset hm)
  · exact fun hm => hbz ((sc.trans (s6.trans (s5.trans (s4.trans s3)))).subset hm)
  · exact fun hm => hz ((sc.trans (s6.trans (s5.trans (s4.trans (s3.trans s2))))).subset hm)

theorem restoreVisibilityFrom_getObjects (e : Env) (fuel i : Nat) (s : State) :
    (restoreVisibilityFrom e fuel i s).doc.getObjects = s.doc.getObjects := by
  induction fuel generalizing i s with
  | zero => rfl
  | succ k ih =>
    unfold restoreVisibilityFrom
    split
    · rfl
    · rw [ih]
      split
      · exact getObjects_setVisibility _ _ _
      · rw [onRefreshCutPBclicked_doc]

theorem restoreVisibility_getObjects (e : Env) (s : State) :
    (restoreVisibility e s).doc.getObjects = s.doc.getObjects :=
  restoreVisibilityFrom_getObjects e _ _ s

theorem collectStep_doc (e : Env) (p : List String × State) (it : String) :
    (collectStep e p it).2.doc = p.2.doc := by
  unfold collectStep
  split
  · rfl
  · simp only []
    split_ifs <;> rfl

theorem collect_foldl_doc (e : Env) (l : List String) (p : List String × State) :
    (l.foldl (collectStep e) p).2.doc = p.2.doc := by
  induction l generalizing p with
  | nil => rfl
  | cons a l ih => rw [List.foldl_cons, ih, collectStep_doc]

theorem collectObjectsListCut_doc (e : Env) (s : State) :
    (collectObjectsListCut e s).2.doc = s.doc :=
  collect_foldl_doc e _ _

theorem addObject_getObjects (e : Env) (d d1 : Document) (type name r : String)
    (h : d.addObject e type name = some (r, d1)) :
    d1.getObjects = d.getObjects ++ [r] ∧
      (r = name ∨ r = e.uniqueName d.getObjects name) := by
  unfold Document.addObject at h
  split at h
  · simp only [Option.some.injEq, Prod.mk.injEq] at h
    obtain ⟨h1, h2⟩ := h
    subst h2
    subst h1
    constructor
    · simp [Document.getObjects]
    · split
      · exact Or.inr rfl
      · exact Or.inl rfl
  · cases h

/-! ### The compound -/

theorem fillCompound_free (e : Env) (c : String) (l : List String) (i : Nat) (s s1 : State)
    (h : fillCompound e c l i s = Flow.running s1) (hw : e.WellNamed)
    (hf : ∀ n ∈ e.cutNames, n ∉ s.doc.getObjects) :
    ∀ n ∈ e.cutNames, n ∉ s1.doc.getObjects := by
  induction l generalizing i s with
  | nil =>
    unfold fillCompound at h
    cases h
    exact hf
  | cons it rest ih =>
    unfold fillCompound at h
    simp only [] at h
    split at h
    · cases h
    · rename_i r d hadd
      obtain ⟨hnames, hr⟩ := addObject_getObjects e _ _ _ _ _ hadd
      apply ih _ _ h
      intro n hn
      simp only [getObjects_setVisibility]
      simp only [getObjects_modify, implies_true, hnames, List.mem_append,
        List.mem_singleton, not_or]
      refine ⟨hf n hn, ?_⟩
      intro hnr
      rcases hr with hr | hr
      · exact hw.2.1 it (List.mem_cons_of_mem _ (hr ▸ hnr ▸ hn))
      · exact hw.2.2 _ _ (List.mem_cons_of_mem _ (hr ▸ hnr ▸ hn))

theorem hideVisible_getObjects (s : State) :
    (hideVisible s).doc.getObjects = s.doc.getObjects := by
  unfold hideVisible
  simp only []
  generalize s.doc = d
  induction s.ObjectsListVisible generalizing d with
  | nil => rfl
  | cons a l ih => rw [List.foldl_cons, ih, getObjects_setVisibility]

theorem enableSliders_doc (s : State) : (enableSliders s).doc = s.doc := rfl

theorem collectCutList_sublist (e : Env) (s : State) :
    (collectCutList e s).2.doc.getObjects.Sublist s.doc.getObjects := by
  unfold collectCutList
  simp only [collectObjectsListCut_doc, enableSliders_doc, restoreVisibility_getObjects]
  refine (cleanup_sublist e _).trans ?_
  split
  · rw [onRefreshCutPBclicked_doc]
  · exact List.Sublist.refl _

theorem collectCutList_free (e : Env) (s : State) :
    ∀ n ∈ e.CompoundName :: e.cutNames, n ∉ (collectCutList e s).2.doc.getObjects := by
  unfold collectCutList
  simp only [collectObjectsListCut_doc, enableSliders_doc, restoreVisibility_getObjects]
  exact cleanup_free e _

theorem buildCompound_free (e : Env) (l : List String) (s s1 : State) (c : String)
    (bb : SbBox3f) (h : buildCompound e l s = Prepared.compound c bb s1)
    (hw : e.WellNamed) (hf : ∀ n ∈ e.CompoundName :: e.cutNames, n ∉ s.doc.getObjects) :
    c = e.CompoundName ∧ bb.isEmpty = false ∧ ∀ n ∈ e.cutNames, s1.doc.getObject n = none := by
  unfold buildCompound at h
  simp only [] at h
  split at h
  · cases h
  · rename_i r d hadd
    have hfree : s.doc.getObject e.CompoundName = none :=
      (getObject_eq_none_iff _ _).mpr (hf _ (List.mem_cons_self _ _))
    rw [addObject_of_free e _ _ _ hfree] at hadd
    split at hadd
    · simp only [Option.some.injEq, Prod.mk.injEq] at hadd
      obtain ⟨hr, hd⟩ := hadd
      subst hr
      subst hd
      split at h
      · cases h
      · rename_i s2 hfill
        split at h
        · cases h
        · rename_i hbb
          simp only [Prepared.compound.injEq] at h
          obtain ⟨h1, h2, h3⟩ := h
          subst h1
          subst h2
          subst h3
          refine ⟨rfl, by simpa using hbb, ?_⟩
          intro n hn
          rw [getObject_eq_none_iff, hideVisible_getObjects]
          simp only [Document.recomputeFeature, Document.getObjects]
          refine fillCompound_free e _ _ _ _ s2 hfill hw ?_ n hn
          intro m hm
          simp only [Document.getObjects, List.map_append, List.map_cons, List.map_nil,
            List.mem_append, List.mem_singleton, not_or]
          refine ⟨hf m (List.mem_cons_of_mem _ hm), ?_⟩
          intro hmc
          have := hw.1
          rw [List.nodup_cons] at this
          exact this.1 (hmc ▸ hm)
    · cases hadd

theorem prepareCompound_free (e : Env) (isInitial : Bool) (s s1 : State) (c : String)
    (bb : SbBox3f) (h : prepareCompound e isInitial s = Prepared.compound c bb s1)
    (hw : e.WellNamed) :
    c = e.CompoundName ∧ bb.isEmpty = false ∧ ∀ n ∈ e.cutNames, s1.doc.getObject n = none := by
  unfold prepareCompound at h
  split at h
  · cases h
  · simp only [] at h
    split at h
    · cases h
    · split at h
      · cases h
      · exact buildCompound_free e _ _ _ _ _ h hw (collectCutList_free e s)



theorem HasType_push (l : List DocumentObject) (r : List (String × Bool)) (o : DocumentObject)
    (n t : String) (h : (Document.mk l r).HasType n t) :
    (Document.mk (l ++ [o]) r).HasType n t := by
  obtain ⟨x, hx, ht⟩ := h
  exact ⟨x, by rw [getObject_mk_push, hx]; rfl, ht⟩

theorem HasType_modify (d : Document) (m : String) (f : DocumentObject → DocumentObject)
    (hf : ∀ o, (f o).name = o.name) (hft : ∀ o, (f o).typeId = o.typeId)
    (n t : String) (h : d.HasType n t) : (d.modify m f).HasType n t := by
  obtain ⟨x, hx, ht⟩ := h
  rw [Document.HasType, getObject_modify d m n f hf, hx]
  split
  · exact ⟨f x, rfl, (hft x).trans ht⟩
  · exact ⟨x, rfl, ht⟩

theorem HasType_setVisibility (d : Document) (m : String) (v : Bool) (n t : String)
    (h : d.HasType n t) : (d.setVisibility m v).HasType n t := by
  unfold Document.setVisibility
  refine HasType_modify d m _ ?_ ?_ n t h
  · intro _
    rfl
  · intro _
    rfl

theorem getObject_push_new (d : Document) (o : DocumentObject)
    (h : d.getObject o.name = none) :
    (Document.mk (d.objects ++ [o]) d.recomputed).getObject o.name = some o := by
  rw [getObject_mk_push, getObject_eta, h]
  simp

theorem fillCompound_hasType (e : Env) (c : String) (l : List String) (i : Nat) (s s1 : State)
    (h : fillCompound e c l i s = Flow.running s1) (n t : String) (hc : s.doc.HasType n t) :
    s1.doc.HasType n t := by
  induction l generalizing i s with
  | nil =>
    unfold fillCompound at h
    cases h
    exact hc
  | cons it rest ih =>
    unfold fillCompound at h
    simp only [] at h
    split at h
    · cases h
    · rename_i r d hadd
      apply ih _ _ h
      apply HasType_setVisibility
      refine HasType_modify _ _ _ ?_ ?_ _ _ ?_
      · intro _
        rfl
      · intro _
        rfl
      refine HasType_modify _ _ _ ?_ ?_ _ _ ?_
      · intro _
        rfl
      · intro _
        rfl
      refine HasType_modify _ _ _ ?_ ?_ _ _ ?_
      · intro _
        rfl
      · intro _
        rfl
      unfold Document.addObject at hadd
      split at hadd
      · simp only [Option.some.injEq, Prod.mk.injEq] at hadd
        rw [← hadd.2]
        exact HasType_push _ _ _ _ _ hc
      · cases hadd

theorem hideVisible_hasType (s : State) (n t : String) (h : s.doc.HasType n t) :
    (hideVisible s).doc.HasType n t := by
  unfold hideVisible
  simp only []
  revert h
  generalize s.doc = d
  induction s.ObjectsListVisible generalizing d with
  | nil => exact fun h => h
  | cons a l ih =>
    intro h
    rw [List.foldl_cons]
    exact ih _ (HasType_setVisibility _ _ _ _ _ h)

theorem buildCompound_hasType (e : Env) (l : List String) (s s1 : State) (c : String)
    (bb : SbBox3f) (h : buildCompound e l s = Prepared.compound c bb s1)
    (hf : s.doc.getObject e.CompoundName = none) :
    s1.doc.HasType c "Part::Compound" := by
  unfold buildCompound at h
  simp only [] at h
  split at h
  · cases h
  · rename_i r d hadd
    rw [addObject_of_free e _ _ _ hf] at hadd
    split at hadd
    · simp only [Option.some.injEq, Prod.mk.injEq] at hadd
      obtain ⟨hr, hd⟩ := hadd
      subst hr
      subst hd
      split at h
      · cases h
      · rename_i s2 hfill
        split at h
        · cases h
        · simp only [Prepared.compound.injEq] at h
          obtain ⟨h1, h2, h3⟩ := h
          subst h1
          subst h3
          apply hideVisible_hasType
          exact fillCompound_hasType e _ _ _ _ s2 hfill e.CompoundName "Part::Compound"
            ⟨_, getObject_push_new s.doc _ hf, rfl⟩
    · cases hadd

theorem prepareCompound_hasType (e : Env) (isInitial : Bool) (s s1 : State) (c : String)
    (bb : SbBox3f) (h : prepareCompound e isInitial s = Prepared.compound c bb s1) :
    s1.doc.HasType c "Part::Compound" := by
  unfold prepareCompound at h
  split at h
  · cases h
  · simp only [] at h
    split at h
    · cases h
    · split at h
      · cases h
      · exact buildCompound_hasType e _ _ _ _ _ h
          ((getObject_eq_none_iff _ _).mpr (collectCutList_free e s _ (List.mem_cons_self _ _)))

theorem wellNamed_cutNames {e : Env} (hw : e.WellNamed) : e.cutNames.Nodup :=
  (List.nodup_cons.mp hw.1).2

theorem startCutting_cutsPost (e : Env) (isInitial : Bool) (s s1 : State) (c : String)
    (bb : SbBox3f) (hw : e.WellNamed)
    (hp : prepareCompound e isInitial s = Prepared.compound c bb s1) :
    CutsPost e c bb.getSize bb.getOrigin s1 (startCutting e isInitial s) := by
  unfold startCutting
  rw [hp]
  exact createCuts_post e c bb s1 (wellNamed_cutNames hw)
    (prepareCompound_free e isInitial s s1 c bb hp hw).2.2


/-! ### The names of `demoEnv` -/

theorem append_ne_of_last (n suffix target : String) (c d : Char)
    (hs : suffix.data.getLast? = some c) (ht : target.data.getLast? = some d)
    (hcd : c ≠ d) : n ++ suffix ≠ target := by
  intro h
  have h2 := congrArg (fun s : String => s.data.getLast?) h
  simp [List.getLast?_append, hs, ht] at h2
  exact hcd h2

theorem demoEnv_wellNamed : demoEnv.WellNamed := by
  refine ⟨by decide, ?_, ?_⟩
  · intro n h
    simp only [Env.cutNames, demoEnv, List.mem_cons, List.mem_singleton, List.not_mem_nil,
      or_false] at h
    rcases h with h | h | h | h | h | h | h
    · exact append_ne_of_last n "_CutLink" "SectionCutCompound" 'k' 'd' rfl rfl (by decide) h
    · exact append_ne_of_last n "_CutLink" "SectionCutBoxX" 'k' 'X' rfl rfl (by decide) h
    · exact append_ne_of_last n "_CutLink" "SectionCutX" 'k' 'X' rfl rfl (by decide) h
    · exact append_ne_of_last n "_CutLink" "SectionCutBoxY" 'k' 'Y' rfl rfl (by decide) h
    · exact append_ne_of_last n "_CutLink" "SectionCutY" 'k' 'Y' rfl rfl (by decide) h
    · exact append_ne_of_last n "_CutLink" "SectionCutBoxZ" 'k' 'Z' rfl rfl (by decide) h
    · exact append_ne_of_last n "_CutLink" "SectionCutZ" 'k' 'Z' rfl rfl (by decide) h
  · intro l n h
    simp only [Env.cutNames, demoEnv, List.mem_cons, List.mem_singleton, List.not_mem_nil,
      or_false] at h
    rcases h with h | h | h | h | h | h | h
    · exact append_ne_of_last n "001" "SectionCutCompound" '1' 'd' rfl rfl (by decide) h
    · exact append_ne_of_last n "001" "SectionCutBoxX" '1' 'X' rfl rfl (by decide) h
    · exact append_ne_of_last n "001" "SectionCutX" '1' 'X' rfl rfl (by decide) h
    · exact append_ne_of_last n "001" "SectionCutBoxY" '1' 'Y' rfl rfl (by decide) h
    · exact append_ne_of_last n "001" "SectionCutY" '1' 'Y' rfl rfl (by decide) h
    · exact append_ne_of_last n "001" "SectionCutBoxZ" '1' 'Z' rfl rfl (by decide) h
    · exact append_ne_of_last n "001" "SectionCutZ" '1' 'Z' rfl rfl (by decide) h


theorem hasType_of_isSome {d : Document} {n t : String}
    (hs : (d.getObject n).isSome = true) (ht : ∀ o, d.getObject n = some o → o.typeId = t) :
    d.HasType n t := by
  cases h : d.getObject n with
  | none => simp [h] at hs
  | some o => exact ⟨o, h, ht o h⟩


theorem extendsHalf_of (lo hi pos len : ℚ) (hp : pos = lo - 0.5) (hl : len = hi - lo + 1) :
    ExtendsHalf lo lo hi pos len := by
  refine ⟨hp, hp, ?_⟩
  rw [hp, hl]
  norm_num
  ring


/-! ### The shape filter -/

theorem collectStep_fst (e : Env) (p : List String × State) (it : String) :
    (collectStep e p it).1 = p.1 ++ cutCandidates e p.2.doc it := by
  unfold collectStep cutCandidates
  cases h : p.2.doc.getObject it with
  | none => simp
  | some o =>
    simp only []
    split_ifs <;> simp_all

theorem collect_foldl_fst (e : Env) (l : List String) (p : List String × State) :
    (l.foldl (collectStep e) p).1 = p.1 ++ l.flatMap (cutCandidates e p.2.doc) := by
  induction l generalizing p with
  | nil => simp
  | cons a l ih =>
    rw [List.foldl_cons, ih, collectStep_fst, collectStep_doc]
    simp [List.flatMap_cons, List.append_assoc]

theorem mem_cutCandidates (e : Env) (d : Document) (it x : String) :
    x ∈ cutCandidates e d it ↔
      ∃ o, d.getObject it = some o ∧
        ((o.typeId = "App::Part" ∧ x ∈ o.Group ∧
            ∃ xo, d.getObject x = some xo ∧ xo.typeId = "App::Link") ∨
          (x = it ∧ isCuttable e o = true)) := by
  unfold cutCandidates
  cases h : d.getObject it with
  | none => simp
  | some o =>
    simp only [Option.some.injEq, exists_eq_left', List.mem_append]
    apply or_congr
    · by_cases ht : o.typeId = "App::Part"
      · simp only [ht, beq_self_eq_true, if_true, List.mem_filter, true_and]
        apply and_congr_right
        intro _
        unfold isAppLink
        cases hx : d.getObject x with
        | none => simp
        | some xo => simp
      · simp [ht]
    · by_cases hc : isCuttable e o = true
      · simp [hc]
      · simp [hc]

/-! ### The flip handlers -/

theorem isSome_getObject_modify (d : Document) (n m : String)
    (f : DocumentObject → DocumentObject) (hf : ∀ o, (f o).name = o.name) :
    ((d.modify n f).getObject m).isSome = (d.getObject m).isSome := by
  rw [getObject_modify d n m f hf]
  split
  · cases d.getObject m <;> rfl
  · rfl

/-! ### `startCutting` with no group box checked -/

theorem removeGenerated_ui (n : String) (p : State × Option String) :
    (removeGenerated n p).1.ui = p.1.ui := by
  unfold removeGenerated
  split
  · cases p.1
    rfl
  · rfl

theorem eraseVisible_ui (a : Option String) (s : State) : (eraseVisible a s).ui = s.ui := by
  cases a <;> rfl

theorem removeLinks_ui (links : List String) (s : State) :
    (links.foldl (fun s it =>
      let s := if (s.doc.getObject it).isSome then eraseVisible (some it) s else s
      { s with doc := s.doc.removeObject it }) s).ui = s.ui := by
  induction links generalizing s with
  | nil => rfl
  | cons a l ih =>
    rw [List.foldl_cons, ih]
    simp only []
    split <;> rfl

theorem removeCompound_ui (e : Env) (p : State × Option String) :
    (removeCompound e p).ui = p.1.ui := by
  unfold removeCompound
  split
  · rfl
  · rw [removeLinks_ui]
    simp only [eraseVisible_ui]

theorem cleanup_ui (e : Env) (s : State) : (cleanup e s).ui = s.ui := by
  unfold cleanup
  simp only [removeCompound_ui, removeGenerated_ui]

theorem removeGenerated_activeDocument (n : String) (p : State × Option String) :
    (removeGenerated n p).1.activeDocument = p.1.activeDocument := by
  unfold removeGenerated
  split
  · cases p.1
    rfl
  · rfl

theorem eraseVisible_activeDocument (a : Option String) (s : State) :
    (eraseVisible a s).activeDocument = s.activeDocument := by
  cases a <;> rfl

theorem removeLinks_activeDocument (links : List String) (s : State) :
    (links.foldl (fun s it =>
      let s := if (s.doc.getObject it).isSome then eraseVisible (some it) s else s
      { s with doc := s.doc.removeObject it }) s).activeDocument = s.activeDocument := by
  induction links generalizing s with
  | nil => rfl
  | cons a l ih =>
    rw [List.foldl_cons, ih]
    simp only []
    split <;> rfl

theorem removeCompound_activeDocument (e : Env) (p : State × Option String) :
    (removeCompound e p).activeDocument = p.1.activeDocument := by
  unfold removeCompound
  split
  · rfl
  · rw [removeLinks_activeDocument]
    simp only [eraseVisible_activeDocument]

theorem cleanup_activeDocument (e : Env) (s : State) :
    (cleanup e s).activeDocument = s.activeDocument := by
  unfold cleanup
  simp only [removeCompound_activeDocument, removeGenerated_activeDocument]

theorem onRefreshCutPBclicked_ui (e : Env) (s : State) (ha : s.activeDocument = true)
    (hn : s.doc.NoCuts e) : (onRefreshCutPBclicked e s).ui = s.ui := by
  obtain ⟨hx, hy, hz⟩ := hn
  unfold onRefreshCutPBclicked blockSignals State.log
  simp only [ha, hx, hy, hz, Option.isSome_none, Bool.not_true, Bool.false_eq_true, if_false,
    Bool.or_self]
  split <;> rfl

theorem onRefreshCutPBclicked_activeDocument (e : Env) (s : State) :
    (onRefreshCutPBclicked e s).activeDocument = s.activeDocument := by
  unfold onRefreshCutPBclicked blockSignals State.log
  simp only []
  split_ifs <;> rfl

theorem noCuts_of_getObjects (e : Env) {d d1 : Document} (h : d1.getObjects = d.getObjects)
    (hn : d.NoCuts e) : d1.NoCuts e := by
  unfold Document.NoCuts at hn ⊢
  simp only [getObject_eq_none_iff] at hn ⊢
  rw [h]
  exact hn

theorem restoreVisibilityFrom_ui (e : Env) (fuel i : Nat) (s : State)
    (ha : s.activeDocument = true) (hn : s.doc.NoCuts e) :
    (restoreVisibilityFrom e fuel i s).ui = s.ui := by
  induction fuel generalizing i s with
  | zero => rfl
  | succ k ih =>
    unfold restoreVisibilityFrom
    split
    · rfl
    · have key : ∀ s1 : State, s1.activeDocument = true → s1.doc.NoCuts e → s1.ui = s.ui →
          (restoreVisibilityFrom e k (i + 1) s1).ui = s.ui :=
        fun s1 h1 h2 h3 => (ih _ _ h1 h2).trans h3
      apply key
      · split
        · exact ha
        · exact (onRefreshCutPBclicked_activeDocument e s).trans ha
      · split
        · exact noCuts_of_getObjects e (getObjects_setVisibility _ _ _) hn
        · exact noCuts_of_getObjects e (congrArg _ (onRefreshCutPBclicked_doc e s)) hn
      · split
        · rfl
        · exact onRefreshCutPBclicked_ui e s ha hn

theorem restoreVisibility_ui (e : Env) (s : State)
    (ha : s.activeDocument = true) (hn : s.doc.NoCuts e) :
    (restoreVisibility e s).ui = s.ui :=
  restoreVisibilityFrom_ui e _ _ s ha hn

theorem collectStep_buttons (e : Env) (p : List String × State) (it : String) :
    SameButtons p.2.ui (collectStep e p it).2.ui := by
  unfold collectStep
  split
  · exact sameButtons_rfl _
  · simp only []
    split_ifs <;> exact sameButtons_rfl _

theorem collect_foldl_buttons (e : Env) (l : List String) (p : List String × State) :
    SameButtons p.2.ui (l.foldl (collectStep e) p).2.ui := by
  induction l generalizing p with
  | nil => exact sameButtons_rfl _
  | cons a l ih =>
    rw [List.foldl_cons]
    exact sameButtons_trans (collectStep_buttons e p a) (ih _)

theorem collectObjectsListCut_buttons (e : Env) (s : State) :
    SameButtons s.ui (collectObjectsListCut e s).2.ui :=
  collect_foldl_buttons e _ _

theorem enableSliders_buttons (s : State) : SameButtons s.ui (enableSliders s).ui :=
  sameButtons_rfl _

theorem noCuts_cleanup (e : Env) (s : State) : (cleanup e s).doc.NoCuts e := by
  have h := cleanup_free e s
  unfold Document.NoCuts
  simp only [getObject_eq_none_iff]
  refine ⟨h _ ?_, h _ ?_, h _ ?_⟩ <;> simp [Env.cutNames]

theorem refreshed_ui (e : Env) (s : State) (ha : s.activeDocument = true)
    (hd : s.docIsActive = false → s.doc.NoCuts e) :
    (if (!s.docIsActive) = true then onRefreshCutPBclicked e s else s).ui = s.ui := by
  cases hda : s.docIsActive
  · simp only [Bool.not_false, if_true]
    exact onRefreshCutPBclicked_ui e s ha (hd hda)
  · rfl

theorem refreshed_activeDocument (e : Env) (s : State) :
    (if (!s.docIsActive) = true then onRefreshCutPBclicked e s else s).activeDocument =
      s.activeDocument := by
  split
  · exact onRefreshCutPBclicked_activeDocument e s
  · rfl

theorem collectCutList_buttons (e : Env) (s : State) (ha : s.activeDocument = true)
    (hd : s.docIsActive = false → s.doc.NoCuts e) :
    SameButtons s.ui (collectCutList e s).2.ui := by
  unfold collectCutList
  simp only []
  refine sameButtons_trans ?_ (collectObjectsListCut_buttons e _)
  refine sameButtons_trans ?_ (enableSliders_buttons _)
  rw [restoreVisibility_ui e _ ((cleanup_activeDocument e _).trans
    ((refreshed_activeDocument e s).trans ha)) (noCuts_cleanup e _), cleanup_ui,
    refreshed_ui e s ha hd]
  exact sameButtons_rfl _

theorem getObject_removeObject (d : Document) (n m : String) (h : m ≠ n) :
    (d.removeObject n).getObject m = d.getObject m := by
  unfold Document.removeObject Document.getObject
  simp only []
  induction d.objects with
  | nil => rfl
  | cons o l ih =>
    rw [List.filter_cons]
    by_cases ho : o.name = n
    · have hm : (o.name == m) = false := by
        rw [beq_eq_false_iff_ne, ho]
        exact fun hh => h hh.symm
      have hb : (o.name != n) = false := by
        rw [ho]
        exact bne_self_eq_false n
      rw [hb, List.find?_cons, hm]
      exact ih
    · have hb : (o.name != n) = true := by
        rw [bne_iff_ne]
        exact ho
      rw [hb, if_pos rfl, List.find?_cons, List.find?_cons, ih]

theorem removeGenerated_getObject (n m : String) (p : State × Option String) (h : m ≠ n) :
    (removeGenerated n p).1.doc.getObject m = p.1.doc.getObject m := by
  unfold removeGenerated
  split
  · simp only [eraseVisible_doc, getObject_removeObject _ _ _ h]
  · rfl

theorem removeCompound_links (e : Env) (p : State × Option String) (c : DocumentObject)
    (h : p.1.doc.getObject e.CompoundName = some c) :
    ∀ l ∈ c.Links, l ∉ (removeCompound e p).doc.getObjects := by
  intro l hl
  unfold removeCompound
  rw [h]
  simp only []
  rw [removeLinks_getObjects]
  intro hm
  have := (List.mem_filter.mp hm).2
  simp [hl] at this

theorem cleanup_links (e : Env) (s : State) (c : DocumentObject)
    (hc : e.CompoundName ∉ e.cutNames) (h : s.doc.getObject e.CompoundName = some c) :
    ∀ l ∈ c.Links, l ∉ (cleanup e s).doc.getObjects := by
  simp only [Env.cutNames, List.mem_cons, List.mem_singleton, List.not_mem_nil, or_false,
    not_or] at hc
  obtain ⟨h1, h2, h3, h4, h5, h6⟩ := hc
  unfold cleanup
  apply removeCompound_links
  rw [removeGenerated_getObject _ _ _ h1, removeGenerated_getObject _ _ _ h2,
    removeGenerated_getObject _ _ _ h3, removeGenerated_getObject _ _ _ h4,
    removeGenerated_getObject _ _ _ h5, removeGenerated_getObject _ _ _ h6]
  exact h

theorem collectCutList_links (e : Env) (s : State) (c : DocumentObject)
    (hc : e.CompoundName ∉ e.cutNames) (h : s.doc.getObject e.CompoundName = some c) :
    ∀ l ∈ c.Links, l ∉ (collectCutList e s).2.doc.getObjects := by
  unfold collectCutList
  simp only [collectObjectsListCut_doc, enableSliders_doc, restoreVisibility_getObjects]
  apply cleanup_links e _ c hc
  split
  · rw [onRefreshCutPBclicked_doc]
    exact h
  · exact h

theorem startCutting_of_noneChecked (e : Env) (isInitial : Bool) (s : State)
    (ha : s.activeDocument = true) (hg : (collectCutList e s).2.ui.noneChecked) :
    (startCutting e isInitial s).doc = (collectCutList e s).2.doc ∧
      (startCutting e isInitial s).ui.RefreshCutPB = true := by
  unfold startCutting prepareCompound
  rw [ha]
  revert hg
  generalize collectCutList e s = p
  intro hg
  obtain ⟨hx, hy, hz⟩ := hg
  simp only [Bool.not_true, Bool.false_eq_true, if_false]
  by_cases hp : p.1.isEmpty = true
  · rw [if_pos hp]
    cases isInitial <;> exact ⟨rfl, rfl⟩
  · rw [if_neg hp, hx, hy, hz]
    exact ⟨rfl, rfl⟩

/-! ### `startCutting` with nothing to cut, and the refresh -/

theorem startCutting_of_empty (e : Env) (isInitial : Bool) (s : State)
    (ha : s.activeDocument = true) (hl : (collectCutList e s).1 = []) :
    startCutting e isInitial s = nothingToCut isInitial (collectCutList e s).2 := by
  unfold startCutting prepareCompound
  rw [ha]
  revert hl
  generalize collectCutList e s = p
  intro hl
  simp only [Bool.not_true, Bool.false_eq_true, if_false, hl, List.isEmpty_nil, if_true]

theorem nothingToCut_doc (b : Bool) (s : State) : (nothingToCut b s).doc = s.doc := by
  cases b <;> rfl

theorem nothingToCut_ui (b : Bool) (s : State) :
    (nothingToCut b s).ui.noneChecked ∧ (nothingToCut b s).ui.RefreshCutPB = true := by
  cases b <;> exact ⟨⟨rfl, rfl, rfl⟩, rfl⟩

theorem nothingToCut_console (s : State) :
    nothingToCut true s = { nothingToCut false s with
      console := s.console ++ ["SectionCut error: there are no visible objects to be cut\n"] } ∧
    (nothingToCut false s).console = s.console ++
      ["SectionCut error: there are no objects in the document that can be cut\n"] :=
  ⟨rfl, rfl⟩

/-! ### The destructor -/

theorem isValid_setVisibility (d : Document) (n m : String) (v : Bool) :
    (d.setVisibility n v).isValid m = d.isValid m := by
  unfold Document.isValid
  rw [getObject_setVisibility]
  split_ifs
  · cases d.getObject m <;> rfl
  · rfl

theorem showValid_getObject (l : List String) (d : Document) (n : String) :
    (showValid l d).getObject n =
      if n ∈ l ∧ d.isValid n = true
      then (d.getObject n).map (fun o => { o with Visibility := true })
      else d.getObject n := by
  unfold showValid
  induction l generalizing d with
  | nil => simp
  | cons a l ih =>
    rw [List.foldl_cons, ih]
    by_cases hv : d.isValid a = true
    · simp only [hv, if_true, isValid_setVisibility, getObject_setVisibility, List.mem_cons]
      by_cases hna : n = a
      · subst hna
        simp only [hv, and_true, true_or, if_true]
        split_ifs
        · cases d.getObject n <;> rfl
        · rfl
      · simp only [hna, false_or, if_false]
    · simp only [hv, Bool.false_eq_true, if_false, List.mem_cons]
      by_cases hna : n = a
      · subst hna
        simp [hv]
      · simp only [hna, false_or]

theorem showValid_getObjects (l : List String) (d : Document) :
    (showValid l d).getObjects = d.getObjects := by
  unfold showValid
  induction l generalizing d with
  | nil => rfl
  | cons a l ih =>
    rw [List.foldl_cons, ih]
    split
    · exact getObjects_setVisibility _ _ _
    · rfl

/-! ### The constructor -/

theorem readBoxZ_doc (e : Env) (s : State) : (readBoxZ e s).doc = s.doc := by
  unfold readBoxZ
  split <;> rfl

theorem readBoxY_doc (e : Env) (s : State) : (readBoxY e s).doc = s.doc := by
  unfold readBoxY
  split <;> rfl

theorem readBoxY_cutZ (e : Env) (s : State) : (readBoxY e s).ui.cutZ = s.ui.cutZ := by
  unfold readBoxY
  split <;> rfl

theorem readBoxX_cutZ (e : Env) (s : State) : (readBoxX e s).ui.cutZ = s.ui.cutZ := by
  unfold readBoxX
  split <;> rfl

theorem readBoxX_cutY (e : Env) (s : State) : (readBoxX e s).ui.cutY = s.ui.cutY := by
  unfold readBoxX
  split <;> rfl

theorem readBoxZ_value (e : Env) (s : State) (b : DocumentObject)
    (h : s.doc.getObject e.BoxZName = some b) :
    (readBoxZ e s).ui.cutZ.value = b.Height - fabs b.Placement.z := by
  unfold readBoxZ
  rw [h]

theorem readBoxY_value (e : Env) (s : State) (b : DocumentObject)
    (h : s.doc.getObject e.BoxYName = some b) :
    (readBoxY e s).ui.cutY.value = b.Width - fabs b.Placement.y := by
  unfold readBoxY
  rw [h]

theorem readBoxX_value (e : Env) (s : State) (b : DocumentObject)
    (h : s.doc.getObject e.BoxXName = some b) :
    (readBoxX e s).ui.cutX.value = b.Length - fabs b.Placement.x := by
  unfold readBoxX
  rw [h]

theorem fabs_eq_abs (x : ℚ) : fabs x = |x| := by
  unfold fabs
  split_ifs with h
  · exact (abs_of_nonneg h).symm
  · exact (abs_of_neg (not_le.mp h)).symm

theorem readBack_eq_iff (v size : ℚ) : size - fabs (v - size) = v ↔ v ≤ size := by
  rw [fabs_eq_abs]
  constructor
  · intro h
    by_contra hn
    push_neg at hn
    rw [abs_of_pos (by linarith)] at h
    linarith
  · intro h
    rw [abs_of_nonpos (by linarith)]
    ring

/-! ### Slider position and cut value -/

theorem truncate_intCast (n : ℤ) : truncate (n : ℚ) = n := by
  unfold truncate
  split_ifs
  · exact Int.floor_intCast n
  · exact Int.ceil_intCast n

theorem sliderPosition_of_percent (mn mx : ℚ) (val : ℤ) (hr : mn < mx) :
    sliderPosition (mn + val / 100.0 * (mx - mn)) mn mx = val := by
  unfold sliderPosition
  have hne : mx - mn ≠ 0 := by
    intro h
    linarith
  have : (mn + val / 100.0 * (mx - mn) - mn) / (mx - mn) * 100.0 = (val : ℚ) := by
    field_simp
    ring
  rw [this]
  exact truncate_intCast val

theorem sliderPosition_bounds (val mn mx : ℚ) (hr : mn < mx) (h1 : mn ≤ val) (h2 : val ≤ mx) :
    0 ≤ sliderPosition val mn mx ∧ sliderPosition val mn mx ≤ 100 := by
  unfold sliderPosition truncate
  have hpos : 0 < mx - mn := by linarith
  have h0 : 0 ≤ (val - mn) / (mx - mn) * 100.0 := by
    apply mul_nonneg
    · exact div_nonneg (by linarith) hpos.le
    · norm_num
  have h100 : (val - mn) / (mx - mn) * 100.0 ≤ 100 := by
    have : (val - mn) / (mx - mn) ≤ 1 := by
      rw [div_le_one hpos]
      linarith
    norm_num
    linarith
  rw [if_pos h0]
  constructor
  · exact Int.floor_nonneg.mpr h0
  · have := Int.floor_le ((val - mn) / (mx - mn) * 100.0)
    have h3 : ((⌊(val - mn) / (mx - mn) * 100.0⌋ : ℤ) : ℚ) ≤ (100 : ℤ) := by
      push_cast
      linarith
    exact_mod_cast h3

theorem refreshCutWidgets_kept_X (e : Env) (bb : SbBox3f) (fyv fzv fyr fzr : Bool) (ui : Ui) :
    AxisKept ui.cutX (refreshCutWidgets e bb false fyv fzv false fyr fzr ui).cutX
      ui.cutXHS (refreshCutWidgets e bb false fyv fzv false fyr fzr ui).cutXHS := by
  unfold refreshCutWidgets
  cases fyv <;> cases fzv <;> cases fyr <;> cases fzr <;> exact ⟨rfl, rfl, rfl, rfl, rfl⟩

theorem refreshCutWidgets_kept_Y (e : Env) (bb : SbBox3f) (fxv fzv fxr fzr : Bool) (ui : Ui) :
    AxisKept ui.cutY (refreshCutWidgets e bb fxv false fzv fxr false fzr ui).cutY
      ui.cutYHS (refreshCutWidgets e bb fxv false fzv fxr false fzr ui).cutYHS := by
  unfold refreshCutWidgets
  cases fxv <;> cases fzv <;> cases fxr <;> cases fzr <;> exact ⟨rfl, rfl, rfl, rfl, rfl⟩

theorem refreshCutWidgets_kept_Z (e : Env) (bb : SbBox3f) (fxv fyv fxr fyr : Bool) (ui : Ui) :
    AxisKept ui.cutZ (refreshCutWidgets e bb fxv fyv false fxr fyr false ui).cutZ
      ui.cutZHS (refreshCutWidgets e bb fxv fyv false fxr fyr false ui).cutZHS := by
  unfold refreshCutWidgets
  cases fxv <;> cases fyv <;> cases fxr <;> cases fyr <;> exact ⟨rfl, rfl, rfl, rfl, rfl⟩

theorem refreshCutWidgets_centred_X (e : Env) (bb : SbBox3f) (fyv fzv fxr fyr fzr : Bool)
    (ui : Ui) :
    AxisCentred bb.getCenter.x (refreshCutWidgets e bb true fyv fzv fxr fyr fzr ui).cutX
      (refreshCutWidgets e bb true fyv fzv fxr fyr fzr ui).cutXHS := by
  unfold refreshCutWidgets
  cases fyv <;> cases fzv <;> cases fxr <;> cases fyr <;> cases fzr <;> exact ⟨rfl, rfl⟩

theorem refreshCutWidgets_centred_Y (e : Env) (bb : SbBox3f) (fxv fzv fxr fyr fzr : Bool)
    (ui : Ui) :
    AxisCentred bb.getCenter.y (refreshCutWidgets e bb fxv true fzv fxr fyr fzr ui).cutY
      (refreshCutWidgets e bb fxv true fzv fxr fyr fzr ui).cutYHS := by
  unfold refreshCutWidgets
  cases fxv <;> cases fzv <;> cases fxr <;> cases fyr <;> cases fzr <;> exact ⟨rfl, rfl⟩

theorem refreshCutWidgets_centred_Z (e : Env) (bb : SbBox3f) (fxv fyv fxr fyr fzr : Bool)
    (ui : Ui) :
    AxisCentred bb.getCenter.z (refreshCutWidgets e bb fxv fyv true fxr fyr fzr ui).cutZ
      (refreshCutWidgets e bb fxv fyv true fxr fyr fzr ui).cutZHS := by
  unfold refreshCutWidgets
  cases fxv <;> cases fyv <;> cases fxr <;> cases fyr <;> cases fzr <;> exact ⟨rfl, rfl⟩

/-! ### The box after a value-changed handler -/

theorem geometry_setVisibility (d : Document) (n m : String) (v : Bool) :
    (d.setVisibility n v).geometry m = d.geometry m := by
  unfold Document.geometry
  rw [getObject_setVisibility]
  split_ifs
  · cases d.getObject m <;> rfl
  · rfl

theorem geometry_recomputeFeature (d : Document) (n m : String) (r : Bool) :
    (d.recomputeFeature n r).geometry m = d.geometry m := rfl

theorem refreshCutRanges_doc (e : Env) (bb : SbBox3f) (fxv fyv fzv fxr fyr fzr : Bool)
    (s : State) : (refreshCutRanges e bb fxv fyv fzv fxr fyr fzr s).doc = s.doc := by
  obtain ⟨u, hu, -⟩ := refreshCutRanges_frame e bb fxv fyv fzv fxr fyr fzr s
  rw [hu]

theorem refreshCutRanges_hasBox (e : Env) (bb : SbBox3f) (fxv fyv fzv fxr fyr fzr : Bool)
    (s : State) :
    (refreshCutRanges e bb fxv fyv fzv fxr fyr fzr s).hasBoxX = s.hasBoxX ∧
    (refreshCutRanges e bb fxv fyv fzv fxr fyr fzr s).hasBoxY = s.hasBoxY ∧
    (refreshCutRanges e bb fxv fyv fzv fxr fyr fzr s).hasBoxZ = s.hasBoxZ := by
  obtain ⟨u, hu, -⟩ := refreshCutRanges_frame e bb fxv fyv fzv fxr fyr fzr s
  rw [hu]
  exact ⟨rfl, rfl, rfl⟩

theorem refreshCutRanges_buttons (e : Env) (bb : SbBox3f) (fxv fyv fzv fxr fyr fzr : Bool)
    (s : State) : SameButtons s.ui (refreshCutRanges e bb fxv fyv fzv fxr fyr fzr s).ui := by
  obtain ⟨u, hu, hb⟩ := refreshCutRanges_frame e bb fxv fyv fzv fxr fyr fzr s
  rw [hu]
  exact hb

theorem keeps_refl (kx ky kz : Bool) (s : State) : Keeps kx ky kz s s :=
  ⟨fun _ => rfl, sameButtons_rfl _, fun _ => rfl, fun _ => rfl, fun _ => rfl⟩

theorem keeps_trans {kx ky kz : Bool} {a b c : State} (h1 : Keeps kx ky kz a b)
    (h2 : Keeps kx ky kz b c) : Keeps kx ky kz a c :=
  ⟨fun n => (h2.1 n).trans (h1.1 n), sameButtons_trans h1.2.1 h2.2.1,
    fun h => (h2.2.2.1 h).trans (h1.2.2.1 h), fun h => (h2.2.2.2.1 h).trans (h1.2.2.2.1 h),
    fun h => (h2.2.2.2.2 h).trans (h1.2.2.2.2 h)⟩

theorem keeps_setVisibility (kx ky kz : Bool) (s : State) (n : String) (v : Bool) :
    Keeps kx ky kz s { s with doc := s.doc.setVisibility n v } :=
  ⟨fun _ => geometry_setVisibility _ _ _ _, sameButtons_rfl _, fun _ => rfl, fun _ => rfl,
    fun _ => rfl⟩

theorem keeps_recomputeFeature (kx ky kz : Bool) (s : State) (n : String) (r : Bool) :
    Keeps kx ky kz s { s with doc := s.doc.recomputeFeature n r } :=
  ⟨fun _ => rfl, sameButtons_rfl _, fun _ => rfl, fun _ => rfl, fun _ => rfl⟩

theorem keeps_log (kx ky kz : Bool) (s : State) (msg : String) :
    Keeps kx ky kz s (s.log msg) :=
  ⟨fun _ => rfl, sameButtons_rfl _, fun _ => rfl, fun _ => rfl, fun _ => rfl⟩

theorem refreshCutWidgets_value_X (e : Env) (bb : SbBox3f) (fyv fzv fxr fyr fzr : Bool)
    (ui : Ui) :
    (refreshCutWidgets e bb false fyv fzv fxr fyr fzr ui).cutX.value = ui.cutX.value := by
  unfold refreshCutWidgets
  cases fyv <;> cases fzv <;> cases fxr <;> cases fyr <;> cases fzr <;> rfl

theorem refreshCutWidgets_value_Y (e : Env) (bb : SbBox3f) (fxv fzv fxr fyr fzr : Bool)
    (ui : Ui) :
    (refreshCutWidgets e bb fxv false fzv fxr fyr fzr ui).cutY.value = ui.cutY.value := by
  unfold refreshCutWidgets
  cases fxv <;> cases fzv <;> cases fxr <;> cases fyr <;> cases fzr <;> rfl

theorem refreshCutWidgets_value_Z (e : Env) (bb : SbBox3f) (fxv fyv fxr fyr fzr : Bool)
    (ui : Ui) :
    (refreshCutWidgets e bb fxv fyv false fxr fyr fzr ui).cutZ.value = ui.cutZ.value := by
  unfold refreshCutWidgets
  cases fxv <;> cases fyv <;> cases fxr <;> cases fyr <;> cases fzr <;> rfl

theorem keeps_refreshCutRanges (e : Env) (bb : SbBox3f) (fxv fyv fzv fxr fyr fzr : Bool)
    (s : State) :
    Keeps (!fxv) (!fyv) (!fzv) s (refreshCutRanges e bb fxv fyv fzv fxr fyr fzr s) := by
  refine ⟨fun n => ?_, refreshCutRanges_buttons _ _ _ _ _ _ _ _ _, ?_, ?_, ?_⟩
  · rw [refreshCutRanges_doc]
  · intro h
    have hf : fxv = false := by simpa using h
    subst hf
    unfold refreshCutRanges
    split
    · exact refreshCutWidgets_value_X _ _ _ _ _ _ _ _
    · rfl
  · intro h
    have hf : fyv = false := by simpa using h
    subst hf
    unfold refreshCutRanges
    split
    · exact refreshCutWidgets_value_Y _ _ _ _ _ _ _ _
    · rfl
  · intro h
    have hf : fzv = false := by simpa using h
    subst hf
    unfold refreshCutRanges
    split
    · exact refreshCutWidgets_value_Z _ _ _ _ _ _ _ _
    · rfl

theorem keeps_weaken {kx ky kz kx1 ky1 kz1 : Bool} {s s1 : State} (h : Keeps kx1 ky1 kz1 s s1)
    (hx : kx = true → kx1 = true) (hy : ky = true → ky1 = true) (hz : kz = true → kz1 = true) :
    Keeps kx ky kz s s1 :=
  ⟨h.1, h.2.1, fun k => h.2.2.1 (hx k), fun k => h.2.2.2.1 (hy k), fun k => h.2.2.2.2 (hz k)⟩

theorem pointer_isSome (d : Document) (n : String) :
    (d.pointer n).isSome = (d.getObject n).isSome := by
  unfold Document.pointer
  cases d.getObject n <;> rfl

theorem keeps_ite (kx ky kz : Bool) (s a b : State) (c : Prop) [Decidable c]
    (h1 : Keeps kx ky kz s a) (h2 : Keeps kx ky kz s b) :
    Keeps kx ky kz s (if c then a else b) := by
  split
  · exact h1
  · exact h2

theorem keepsX_refresh (e : Env) (bb : SbBox3f) (fyv fzv fxr fyr fzr : Bool) (s : State) :
    Keeps true false false s (refreshCutRanges e bb false fyv fzv fxr fyr fzr s) :=
  keeps_weaken (keeps_refreshCutRanges _ _ _ _ _ _ _ _ _) (fun _ => rfl)
    (fun h => by cases h) (fun h => by cases h)

theorem keepsY_refresh (e : Env) (bb : SbBox3f) (fxv fzv fxr fyr fzr : Bool) (s : State) :
    Keeps false true false s (refreshCutRanges e bb fxv false fzv fxr fyr fzr s) :=
  keeps_weaken (keeps_refreshCutRanges _ _ _ _ _ _ _ _ _) (fun h => by cases h)
    (fun _ => rfl) (fun h => by cases h)

theorem keepsZ_refresh (e : Env) (bb : SbBox3f) (fxv fyv fxr fyr fzr : Bool) (s : State) :
    Keeps false false true s (refreshCutRanges e bb fxv fyv false fxr fyr fzr s) :=
  keeps_weaken (keeps_refreshCutRanges _ _ _ _ _ _ _ _ _) (fun h => by cases h)
    (fun h => by cases h) (fun _ => rfl)

theorem keeps_refreshXLimits (e : Env) (s : State) :
    Keeps true true true s (refreshXLimits e s).state := by
  unfold refreshXLimits
  split
  · exact keeps_refl _ _ _ _
  · lift_lets
    intro storedX s1 bb s2 s3
    have k1 : Keeps true true true s s1 := keeps_setVisibility _ _ _ _ _ _
    have k2 : Keeps true true true s1 s2 := keeps_refreshCutRanges _ _ _ _ _ _ _ _ _
    have k3 : Keeps true true true s2 s3 := keeps_setVisibility _ _ _ _ _ _
    have k : Keeps true true true s s3 := keeps_trans (keeps_trans k1 k2) k3
    have km : ∀ v, Keeps true true true s3 { s3 with ui.cutX.minimum := v } := fun v =>
      ⟨fun _ => rfl, sameButtons_rfl _, fun _ => rfl, fun _ => rfl, fun _ => rfl⟩
    have kM : ∀ v, Keeps true true true s3 { s3 with ui.cutX.maximum := v } := fun v =>
      ⟨fun _ => rfl, sameButtons_rfl _, fun _ => rfl, fun _ => rfl, fun _ => rfl⟩
    split_ifs
    · exact keeps_trans k (km _)
    · exact k
    · exact keeps_trans k (kM _)
    · exact k

theorem keeps_refreshYLimits (e : Env) (s : State) :
    Keeps true true true s (refreshYLimits e s).state := by
  unfold refreshYLimits
  split
  · exact keeps_refl _ _ _ _
  · lift_lets
    intro storedY s1 bb s2 s3
    have k1 : Keeps true true true s s1 := keeps_setVisibility _ _ _ _ _ _
    have k2 : Keeps true true true s1 s2 := keeps_refreshCutRanges _ _ _ _ _ _ _ _ _
    have k3 : Keeps true true true s2 s3 := keeps_setVisibility _ _ _ _ _ _
    have k : Keeps true true true s s3 := keeps_trans (keeps_trans k1 k2) k3
    have km : ∀ v, Keeps true true true s3 { s3 with ui.cutY.minimum := v } := fun v =>
      ⟨fun _ => rfl, sameButtons_rfl _, fun _ => rfl, fun _ => rfl, fun _ => rfl⟩
    have kM : ∀ v, Keeps true true true s3 { s3 with ui.cutY.maximum := v } := fun v =>
      ⟨fun _ => rfl, sameButtons_rfl _, fun _ => rfl, fun _ => rfl, fun _ => rfl⟩
    split_ifs
    · exact keeps_trans k (km _)
    · exact k
    · exact keeps_trans k (kM _)
    · exact k

theorem keeps_recomputeAfterX (e : Env) (s : State)
    (hy : s.hasBoxY = true → s.hasBoxZ = false → (s.doc.getObject e.CutYName).isSome = true) :
    Keeps true false false s (recomputeAfterX e s) := by
  unfold recomputeAfterX
  split
  · rename_i h
    simp only [Bool.and_eq_true, Bool.not_eq_true'] at h
    split
    · rename_i hp
      have := pointer_isSome s.doc e.CutYName
      rw [hp, hy h.1 h.2] at this
      cases this
    · lift_lets
      intro s1 s2 bb s3 s4 s5 s6
      have k1 : Keeps true false false s s1 := keeps_setVisibility _ _ _ _ _ _
      have k2 : Keeps true false false s1 s2 := keeps_setVisibility _ _ _ _ _ _
      have k3 : Keeps true false false s2 s3 := keepsX_refresh _ _ _ _ _ _ _ _
      have k4 : Keeps true false false s3 s4 :=
        keeps_ite _ _ _ _ _ _ _ (keepsX_refresh _ _ _ _ _ _ _ _) (keeps_refl _ _ _ _)
      have k5 : Keeps true false false s4 s5 := keeps_setVisibility _ _ _ _ _ _
      have k6 : Keeps true false false s5 s6 := keeps_setVisibility _ _ _ _ _ _
      exact keeps_trans (keeps_trans (keeps_trans (keeps_trans (keeps_trans (keeps_trans k1 k2)
        k3) k4) k5) k6) (keeps_recomputeFeature _ _ _ _ _ _)
  · split
    · split
      · exact keeps_log _ _ _ _ _
      · lift_lets
        intro s1 s2 bb t1 t2 u1 s3 s4 s5
        have k1 : Keeps true false false s s1 := keeps_setVisibility _ _ _ _ _ _
        have k2 : Keeps true false false s1 s2 := keeps_setVisibility _ _ _ _ _ _
        have j1 : Keeps true false false s2 t1 := keepsX_refresh _ _ _ _ _ _ _ _
        have j2 : Keeps true false false t1 t2 :=
          keeps_ite _ _ _ _ _ _ _ (keepsX_refresh _ _ _ _ _ _ _ _) (keeps_refl _ _ _ _)
        have j3 : Keeps true false false s2 u1 := keepsX_refresh _ _ _ _ _ _ _ _
        have k3 : Keeps true false false s2 s3 :=
          keeps_ite _ _ _ _ _ _ _
            (keeps_trans (keeps_trans j1 j2)
              (keeps_ite _ _ _ _ _ _ _ (keepsX_refresh _ _ _ _ _ _ _ _) (keeps_refl _ _ _ _)))
            (keeps_trans j3
              (keeps_ite _ _ _ _ _ _ _ (keepsX_refresh _ _ _ _ _ _ _ _) (keeps_refl _ _ _ _)))
        have k4 : Keeps true false false s3 s4 := keeps_setVisibility _ _ _ _ _ _
        have k5 : Keeps true false false s4 s5 := keeps_setVisibility _ _ _ _ _ _
        exact keeps_trans (keeps_trans (keeps_trans (keeps_trans (keeps_trans k1 k2) k3) k4) k5)
          (keeps_recomputeFeature _ _ _ _ _ _)
    · lift_lets
      intro bb s1
      have k1 : Keeps true false false s s1 := keepsX_refresh _ _ _ _ _ _ _ _
      exact keeps_trans k1 (keeps_recomputeFeature _ _ _ _ _ _)

theorem keeps_recomputeAfterY (e : Env) (s : State) :
    Keeps false true false s (recomputeAfterY e s) := by
  unfold recomputeAfterY
  split
  · split
    · exact keeps_log _ _ _ _ _
    · lift_lets
      intro s1 s2 bb s3 s4 s5 s6
      have k1 : Keeps false true false s s1 := keeps_setVisibility _ _ _ _ _ _
      have k2 : Keeps false true false s1 s2 := keeps_setVisibility _ _ _ _ _ _
      have k3 : Keeps false true false s2 s3 := keepsY_refresh _ _ _ _ _ _ _ _
      have k4 : Keeps false true false s3 s4 :=
        keeps_ite _ _ _ _ _ _ _ (keepsY_refresh _ _ _ _ _ _ _ _) (keeps_refl _ _ _ _)
      have k5 : Keeps false true false s4 s5 := keeps_setVisibility _ _ _ _ _ _
      have k6 : Keeps false true false s5 s6 := keeps_setVisibility _ _ _ _ _ _
      exact keeps_trans (keeps_trans (keeps_trans (keeps_trans (keeps_trans (keeps_trans k1 k2)
        k3) k4) k5) k6) (keeps_recomputeFeature _ _ _ _ _ _)
  · lift_lets
    intro bb s1 s2
    have k1 : Keeps false true false s s1 := keepsY_refresh _ _ _ _ _ _ _ _
    have k2 : Keeps false true false s1 s2 := keeps_recomputeFeature _ _ _ _ _ _
    refine keeps_trans (keeps_trans k1 k2) ?_
    exact keeps_ite _ _ _ _ _ _ _
      (keeps_weaken (keeps_refreshXLimits e s2) (fun h => by cases h) (fun _ => rfl)
        (fun h => by cases h)) (keeps_refl _ _ _ _)

theorem keeps_recomputeAfterZ (e : Env) (s : State) :
    Keeps false false true s (recomputeAfterZ e s) := by
  have k : Keeps true true true s (recomputeAfterZ e s) := by
    unfold recomputeAfterZ
    lift_lets
    intro s1
    have k1 : Keeps true true true s s1 := keeps_recomputeFeature _ _ _ _ _ _
    have k2 : Keeps true true true s1
        (if s1.hasBoxX = true then refreshXLimits e s1 else Flow.running s1).state := by
      split
      · exact keeps_refreshXLimits e s1
      · exact keeps_refl _ _ _ _
    cases hf : (if s1.hasBoxX = true then refreshXLimits e s1 else Flow.running s1) with
    | returned s2 =>
      rw [hf] at k2
      exact keeps_trans k1 k2
    | running s2 =>
      rw [hf] at k2
      exact keeps_trans (keeps_trans k1 k2)
        (keeps_ite _ _ _ _ _ _ _ (keeps_refreshYLimits e s2) (keeps_refl _ _ _ _))
  exact keeps_weaken k (fun h => by cases h) (fun h => by cases h) (fun _ => rfl)

theorem geometry_modify_placement (d : Document) (n : String) (b : DocumentObject)
    (p : Vector3d) (hb : d.getObject n = some b) :
    (d.modify n (fun o => { o with Placement := p })).geometry n =
      some (p, b.Length, b.Width, b.Height) := by
  unfold Document.geometry
  rw [getObject_modify, if_pos rfl, hb]
  · rfl
  · intro _
    rfl

theorem onCutXvalueChanged_eq (e : Env) (val : ℚ) (s : State) (b : DocumentObject)
    (ha : s.activeDocument = true) (hd : s.docIsActive = true)
    (hmax : s.ui.cutX.value ≠ s.ui.cutX.maximum) (hmin : s.ui.cutX.value ≠ s.ui.cutX.minimum)
    (hb : s.doc.getObject e.BoxXName = some b)
    (hc : (s.doc.getObject e.CutXName).isSome = true) :
    onCutXvalueChanged e val s = recomputeAfterX e (placedX e val s b) := by
  unfold onCutXvalueChanged placedX
  simp only [ha, hd, Bool.not_true, Bool.false_eq_true, if_false, hmax, hmin, hb]
  split
  · rename_i h
    have hi := congrArg Option.isSome h
    rw [isSome_getObject_modify, hc] at hi
    · cases hi
    · intro _
      rfl
  · rfl

theorem onCutXvalueChanged_box (e : Env) (val : ℚ) (s : State) (b : DocumentObject)
    (ha : s.activeDocument = true) (hd : s.docIsActive = true)
    (hmax : s.ui.cutX.value ≠ s.ui.cutX.maximum) (hmin : s.ui.cutX.value ≠ s.ui.cutX.minimum)
    (hb : s.doc.getObject e.BoxXName = some b)
    (hc : (s.doc.getObject e.CutXName).isSome = true)
    (hy : s.hasBoxY = true → s.hasBoxZ = false →
      (s.doc.getObject e.CutYName).isSome = true) :
    (onCutXvalueChanged e val s).doc.geometry e.BoxXName =
      some ({ b.Placement with x := if s.ui.flipX then s.ui.cutX.value
                else s.ui.cutX.value - b.Length }, b.Length, b.Width, b.Height) ∧
    (onCutXvalueChanged e val s).ui.cutX.value = s.ui.cutX.value ∧
    SameButtons s.ui (onCutXvalueChanged e val s).ui := by
  rw [onCutXvalueChanged_eq e val s b ha hd hmax hmin hb hc]
  have hy2 : (placedX e val s b).hasBoxY = true → (placedX e val s b).hasBoxZ = false →
      ((placedX e val s b).doc.getObject e.CutYName).isSome = true := by
    intro h1 h2
    have := hy h1 h2
    unfold placedX
    simp only []
    rw [isSome_getObject_modify]
    · exact this
    · intro _
      rfl
  obtain ⟨kg, kb, kv, -, -⟩ := keeps_recomputeAfterX e (placedX e val s b) hy2
  refine ⟨?_, (kv rfl).trans rfl, sameButtons_trans (sameButtons_rfl _) kb⟩
  rw [kg]
  unfold placedX
  simp only []
  rw [geometry_modify_placement _ _ b _ hb]
  cases s.ui.flipX <;> rfl

theorem onCutYvalueChanged_eq (e : Env) (val : ℚ) (s : State) (b : DocumentObject)
    (ha : s.activeDocument = true) (hd : s.docIsActive = true)
    (hmax : s.ui.cutY.value ≠ s.ui.cutY.maximum) (hmin : s.ui.cutY.value ≠ s.ui.cutY.minimum)
    (hb : s.doc.getObject e.BoxYName = some b)
    (hc : (s.doc.getObject e.CutYName).isSome = true) :
    onCutYvalueChanged e val s = recomputeAfterY e (placedY e val s b) := by
  unfold onCutYvalueChanged placedY
  simp only [ha, hd, Bool.not_true, Bool.false_eq_true, if_false, hmax, hmin, hb]
  split
  · rename_i h
    have hi := congrArg Option.isSome h
    rw [isSome_getObject_modify, hc] at hi
    · cases hi
    · intro _
      rfl
  · rfl

theorem onCutYvalueChanged_box (e : Env) (val : ℚ) (s : State) (b : DocumentObject)
    (ha : s.activeDocument = true) (hd : s.docIsActive = true)
    (hmax : s.ui.cutY.value ≠ s.ui.cutY.maximum) (hmin : s.ui.cutY.value ≠ s.ui.cutY.minimum)
    (hb : s.doc.getObject e.BoxYName = some b)
    (hc : (s.doc.getObject e.CutYName).isSome = true) :
    (onCutYvalueChanged e val s).doc.geometry e.BoxYName =
      some ({ b.Placement with y := if s.ui.flipY then s.ui.cutY.value
                else s.ui.cutY.value - b.Width }, b.Length, b.Width, b.Height) ∧
    (onCutYvalueChanged e val s).ui.cutY.value = s.ui.cutY.value ∧
    SameButtons s.ui (onCutYvalueChanged e val s).ui := by
  rw [onCutYvalueChanged_eq e val s b ha hd hmax hmin hb hc]
  obtain ⟨kg, kb, -, kv, -⟩ := keeps_recomputeAfterY e (placedY e val s b)
  refine ⟨?_, (kv rfl).trans rfl, sameButtons_trans (sameButtons_rfl _) kb⟩
  rw [kg]
  unfold placedY
  simp only []
  rw [geometry_modify_placement _ _ b _ hb]
  cases s.ui.flipY <;> rfl

theorem onCutZvalueChanged_eq (e : Env) (val : ℚ) (s : State) (b : DocumentObject)
    (ha : s.activeDocument = true) (hd : s.docIsActive = true)
    (hmax : s.ui.cutZ.value ≠ s.ui.cutZ.maximum) (hmin : s.ui.cutZ.value ≠ s.ui.cutZ.minimum)
    (hb : s.doc.getObject e.BoxZName = some b)
    (hc : (s.doc.getObject e.CutZName).isSome = true) :
    onCutZvalueChanged e val s = recomputeAfterZ e (placedZ e val s b) := by
  unfold onCutZvalueChanged placedZ
  simp only [ha, hd, Bool.not_true, Bool.false_eq_true, if_false, hmax, hmin, hb]
  split
  · rename_i h
    have hi := congrArg Option.isSome h
    rw [isSome_getObject_modify, hc] at hi
    · cases hi
    · intro _
      rfl
  · rfl

theorem onCutZvalueChanged_box (e : Env) (val : ℚ) (s : State) (b : DocumentObject)
    (ha : s.activeDocument = true) (hd : s.docIsActive = true)
    (hmax : s.ui.cutZ.value ≠ s.ui.cutZ.maximum) (hmin : s.ui.cutZ.value ≠ s.ui.cutZ.minimum)
    (hb : s.doc.getObject e.BoxZName = some b)
    (hc : (s.doc.getObject e.CutZName).isSome = true) :
    (onCutZvalueChanged e val s).doc.geometry e.BoxZName =
      some ({ b.Placement with z := if s.ui.flipZ then s.ui.cutZ.value
                else s.ui.cutZ.value - b.Height }, b.Length, b.Width, b.Height) ∧
    (onCutZvalueChanged e val s).ui.cutZ.value = s.ui.cutZ.value ∧
    SameButtons s.ui (onCutZvalueChanged e val s).ui := by
  rw [onCutZvalueChanged_eq e val s b ha hd hmax hmin hb hc]
  obtain ⟨kg, kb, -, -, kv⟩ := keeps_recomputeAfterZ e (placedZ e val s b)
  refine ⟨?_, (kv rfl).trans rfl, sameButtons_trans (sameButtons_rfl _) kb⟩
  rw [kg]
  unfold placedZ
  simp only []
  rw [geometry_modify_placement _ _ b _ hb]
  cases s.ui.flipZ <;> rfl

/-! ### The box after a flip handler -/

theorem onFlipXclicked_box (e : Env) (s : State) (b : DocumentObject)
    (ha : s.activeDocument = true) (hd : s.docIsActive = true)
    (hb : s.doc.getObject e.BoxXName = some b)
    (hc : (s.doc.getObject e.CutXName).isSome = true)
    (hy : s.hasBoxY = true → s.hasBoxZ = false → (s.doc.getObject e.CutYName).isSome = true)
    (hz : s.hasBoxZ = true → (s.doc.getObject e.CutZName).isSome = true) :
    (onFlipXclicked e s).doc.getObject e.BoxXName = some { b with Placement :=
      { b.Placement with x := if s.ui.flipX then b.Placement.x + b.Length
          else b.Placement.x - b.Length } } ∧
    (onFlipXclicked e s).ui = s.ui := by
  unfold onFlipXclicked
  simp only [ha, hd, Bool.not_true, Bool.false_eq_true, if_false, hb]
  generalize hd1 : s.doc.modify e.BoxXName (fun o => { o with Placement :=
    if s.ui.flipX = true then { b.Placement with x := b.Placement.x + b.Length }
    else { b.Placement with x := b.Placement.x - b.Length } }) = d1
  have hb1 : d1.getObject e.BoxXName = some { b with Placement :=
      { b.Placement with x := if s.ui.flipX then b.Placement.x + b.Length
          else b.Placement.x - b.Length } } := by
    rw [← hd1, getObject_modify, hb]
    · cases s.ui.flipX <;> simp
    · intro _
      rfl
  have hiso : ∀ m, (d1.getObject m).isSome = (s.doc.getObject m).isSome := by
    intro m
    rw [← hd1]
    apply isSome_getObject_modify
    intro _
    rfl
  clear hd1
  cases hcx : d1.getObject e.CutXName with
  | none =>
    have := hiso e.CutXName
    rw [hcx, hc] at this
    cases this
  | some cx =>
    simp only []
    cases hY : s.hasBoxY <;> cases hZ : s.hasBoxZ <;>
      simp only [Bool.false_eq_true, if_false, if_true, Bool.not_true, Bool.not_false,
        Bool.and_true, Bool.and_false, Bool.false_and, Bool.true_and, Bool.or_false,
        Bool.or_true, Bool.or_self, Bool.and_self, pointer_eq, hiso,
        hy, hz, hY, hZ, getObject_recomputeFeature, hb1, and_self]

theorem onFlipYclicked_box (e : Env) (s : State) (b : DocumentObject)
    (ha : s.activeDocument = true) (hd : s.docIsActive = true)
    (hb : s.doc.getObject e.BoxYName = some b)
    (hc : (s.doc.getObject e.CutYName).isSome = true) :
    (onFlipYclicked e s).doc.getObject e.BoxYName = some { b with Placement :=
      { b.Placement with y := if s.ui.flipY then b.Placement.y + b.Width
          else b.Placement.y - b.Width } } ∧
    (onFlipYclicked e s).ui = s.ui := by
  unfold onFlipYclicked
  simp only [ha, hd, Bool.not_true, Bool.false_eq_true, if_false, hb]
  generalize hd1 : s.doc.modify e.BoxYName (fun o => { o with Placement :=
    if s.ui.flipY = true then { b.Placement with y := b.Placement.y + b.Width }
    else { b.Placement with y := b.Placement.y - b.Width } }) = d1
  have hb1 : d1.getObject e.BoxYName = some { b with Placement :=
      { b.Placement with y := if s.ui.flipY then b.Placement.y + b.Width
          else b.Placement.y - b.Width } } := by
    rw [← hd1, getObject_modify, hb]
    · cases s.ui.flipY <;> simp
    · intro _
      rfl
  have hiso : ∀ m, (d1.getObject m).isSome = (s.doc.getObject m).isSome := by
    intro m
    rw [← hd1]
    apply isSome_getObject_modify
    intro _
    rfl
  clear hd1
  cases hcx : d1.getObject e.CutYName with
  | none =>
    have := hiso e.CutYName
    rw [hcx, hc] at this
    cases this
  | some cx =>
    simp only []
    cases hZ : s.hasBoxZ
    · simp only [Bool.false_eq_true, if_false, getObject_recomputeFeature, hb1, and_self]
    · simp only [if_true]
      cases d1.pointer e.CutZName <;>
        simp only [getObject_recomputeFeature, hb1, and_self]

theorem onFlipZclicked_box (e : Env) (s : State) (b : DocumentObject)
    (ha : s.activeDocument = true) (hd : s.docIsActive = true)
    (hb : s.doc.getObject e.BoxZName = some b)
    (hc : (s.doc.getObject e.CutZName).isSome = true) :
    (onFlipZclicked e s).doc.getObject e.BoxZName = some { b with Placement :=
      { b.Placement with z := if s.ui.flipZ then b.Placement.z + b.Height
          else b.Placement.z - b.Height } } ∧
    (onFlipZclicked e s).ui = s.ui := by
  unfold onFlipZclicked
  simp only [ha, hd, Bool.not_true, Bool.false_eq_true, if_false, hb]
  generalize hd1 : s.doc.modify e.BoxZName (fun o => { o with Placement :=
    if s.ui.flipZ = true then { b.Placement with z := b.Placement.z + b.Height }
    else { b.Placement with z := b.Placement.z - b.Height } }) = d1
  have hb1 : d1.getObject e.BoxZName = some { b with Placement :=
      { b.Placement with z := if s.ui.flipZ then b.Placement.z + b.Height
          else b.Placement.z - b.Height } } := by
    rw [← hd1, getObject_modify, hb]
    · cases s.ui.flipZ <;> simp
    · intro _
      rfl
  have hiso : ∀ m, (d1.getObject m).isSome = (s.doc.getObject m).isSome := by
    intro m
    rw [← hd1]
    apply isSome_getObject_modify
    intro _
    rfl
  clear hd1
  cases hcx : d1.getObject e.CutZName with
  | none =>
    have := hiso e.CutZName
    rw [hcx, hc] at this
    cases this
  | some cx =>
    simp only [getObject_recomputeFeature, hb1, and_self]

/-! ### The position of a box on its cut axis -/

theorem cutAxisX_position (e : Env) (c : String) (size origin : Vector3d) (pos : ℚ) (s : State)
    (hb : s.doc.getObject e.BoxXName = none) (hc : s.doc.getObject e.CutXName = none)
    (hne : e.BoxXName ≠ e.CutXName) :
    ∀ s1, cutAxisX e c size origin pos s = Flow.running s1 →
      ∀ b, s1.doc.getObject e.BoxXName = some b →
        b.Length = size.x + 1 ∧
        b.Placement.x = (if s1.ui.flipX then s1.ui.cutX.value
          else s1.ui.cutX.value - (size.x + 1)) ∧
        s1.ui.cutX.value = resetCutPos pos s1.ui.cutX.maximum s1.ui.cutX.minimum := by
  have hne2 : e.CutXName ≠ e.BoxXName := fun h => hne h.symm
  unfold cutAxisX
  by_cases hg : s.ui.groupBoxX = true
  · simp only [hg, if_true]
    rw [addObject_of_free e s.doc _ _ hb]
    by_cases hcb : e.canCreate "Part::Box" = true
    · simp only [hcb, if_true]
      rw [addObject_of_free]
      · by_cases hcc : e.canCreate "Part::Cut" = true
        · simp only [hcc, if_true, getObject_recomputeFeature]
          intro s1 h1
          simp only [Flow.running.injEq] at h1
          subst h1
          intro b
          simp only [getObject_recomputeFeature]
          simp [getObject_modify, getObject_mk_push, getObject_eta, hb, hc, hne, hne2]
          intro h
          subst h
          cases s.ui.flipX <;> norm_num
        · have hcc2 : e.canCreate "Part::Cut" = false := by simpa using hcc
          simp only [hcc2, Bool.false_eq_true, if_false]
          intro s1 h1
          cases h1
      · simp [getObject_modify, getObject_mk_push, getObject_eta, hc, hne, hne2]
    · have hcb2 : e.canCreate "Part::Box" = false := by simpa using hcb
      simp only [hcb2, Bool.false_eq_true, if_false]
      intro s1 h1
      cases h1
  · have hg2 : s.ui.groupBoxX = false := by simpa using hg
    simp only [hg2, Bool.false_eq_true, if_false]
    intro s1 h1
    cases h1
    intro b hb2
    rw [hb] at hb2
    cases hb2

theorem cutAxisY_position (e : Env) (c : String) (size origin : Vector3d) (pos : ℚ) (s : State)
    (hb : s.doc.getObject e.BoxYName = none) (hc : s.doc.getObject e.CutYName = none)
    (hne : e.BoxYName ≠ e.CutYName) :
    ∀ s1, cutAxisY e c size origin pos s = Flow.running s1 →
      ∀ b, s1.doc.getObject e.BoxYName = some b →
        b.Width = size.y + 1 ∧
        b.Placement.y = (if s1.ui.flipY then s1.ui.cutY.value
          else s1.ui.cutY.value - (size.y + 1)) ∧
        s1.ui.cutY.value = resetCutPos pos s1.ui.cutY.maximum s1.ui.cutY.minimum := by
  have hne2 : e.CutYName ≠ e.BoxYName := fun h => hne h.symm
  unfold cutAxisY
  by_cases hg : s.ui.groupBoxY = true
  · simp only [hg, if_true]
    generalize hs1 : (if s.hasBoxX = true then
      refreshCutRanges e (getViewBoundingBox e s) false false false false true false s
      else s) = s1
    have hU : UiOnly s s1 := by
      rw [← hs1]
      split
      · exact refreshCutRanges_frame _ _ _ _ _ _ _ _ _
      · exact uiOnly_refl s
    obtain ⟨u, hu, hbtn⟩ := hU
    subst hu
    clear hs1
    simp only []
    rw [addObject_of_free e s.doc _ _ hb]
    by_cases hcb : e.canCreate "Part::Box" = true
    · simp only [hcb, if_true]
      rw [addObject_of_free]
      · by_cases hcc : e.canCreate "Part::Cut" = true
        · simp only [hcc, if_true, getObject_recomputeFeature]
          intro s1 h1
          simp only [Flow.running.injEq] at h1
          subst h1
          intro b
          simp only [getObject_recomputeFeature]
          cases s.hasBoxX <;>
            simp [getObject_modify, getObject_mk_push, getObject_eta, hb, hc, hne, hne2] <;>
            (intro h
             subst h
             cases u.flipY <;> norm_num)
        · have hcc2 : e.canCreate "Part::Cut" = false := by simpa using hcc
          simp only [hcc2, Bool.false_eq_true, if_false]
          intro s1 h1
          cases h1
      · simp [getObject_modify, getObject_mk_push, getObject_eta, hc, hne, hne2]
    · have hcb2 : e.canCreate "Part::Box" = false := by simpa using hcb
      simp only [hcb2, Bool.false_eq_true, if_false]
      intro s1 h1
      cases h1
  · have hg2 : s.ui.groupBoxY = false := by simpa using hg
    simp only [hg2, Bool.false_eq_true, if_false]
    intro s1 h1
    cases h1
    intro b hb2
    rw [hb] at hb2
    cases hb2

theorem cutAxisZ_position (e : Env) (c : String) (size origin : Vector3d) (pos : ℚ) (s : State)
    (hb : s.doc.getObject e.BoxZName = none) (hc : s.doc.getObject e.CutZName = none)
    (hne : e.BoxZName ≠ e.CutZName) :
    ∀ s1, cutAxisZ e c size origin pos s = Flow.running s1 →
      ∀ b, s1.doc.getObject e.BoxZName = some b →
        b.Height = size.z + 1 ∧
        b.Placement.z = (if s1.ui.flipY then s1.ui.cutZ.value
          else s1.ui.cutZ.value - (size.z + 1)) ∧
        s1.ui.cutZ.value = resetCutPos pos s1.ui.cutZ.maximum s1.ui.cutZ.minimum := by
  have hne2 : e.CutZName ≠ e.BoxZName := fun h => hne h.symm
  unfold cutAxisZ
  by_cases hg : s.ui.groupBoxZ = true
  · simp only [hg, if_true]
    generalize hs1 : (if (s.hasBoxX || s.hasBoxY) = true then
      refreshCutRanges e (getViewBoundingBox e s) false false false false false true s
      else s) = s1
    have hU : UiOnly s s1 := by
      rw [← hs1]
      split
      · exact refreshCutRanges_frame _ _ _ _ _ _ _ _ _
      · exact uiOnly_refl s
    obtain ⟨u, hu, hbtn⟩ := hU
    subst hu
    clear hs1
    simp only []
    rw [addObject_of_free e s.doc _ _ hb]
    by_cases hcb : e.canCreate "Part::Box" = true
    · simp only [hcb, if_true]
      rw [addObject_of_free]
      · by_cases hcc : e.canCreate "Part::Cut" = true
        · simp only [hcc, if_true, getObject_recomputeFeature]
          intro s1 h1
          simp only [Flow.running.injEq] at h1
          subst h1
          intro b
          simp only [getObject_recomputeFeature]
          cases s.hasBoxX <;> cases s.hasBoxY <;>
            simp [getObject_modify, getObject_mk_push, getObject_eta, hb, hc, hne, hne2] <;>
            (intro h
             subst h
             cases u.flipY <;> norm_num)
        · have hcc2 : e.canCreate "Part::Cut" = false := by simpa using hcc
          simp only [hcc2, Bool.false_eq_true, if_false]
          intro s1 h1
          cases h1
      · simp [getObject_modify, getObject_mk_push, getObject_eta, hc, hne, hne2]
    · have hcb2 : e.canCreate "Part::Box" = false := by simpa using hcb
      simp only [hcb2, Bool.false_eq_true, if_false]
      intro s1 h1
      cases h1
  · have hg2 : s.ui.groupBoxZ = false := by simpa using hg
    simp only [hg2, Bool.false_eq_true, if_false]
    intro s1 h1
    cases h1
    intro b hb2
    rw [hb] at hb2
    cases hb2

theorem coversSide_of (flipped : Bool) (o s p pos len : ℚ) (hl : len = s + 1)
    (hp : pos = if flipped then p else p - (s + 1)) (h1 : o ≤ p) (h2 : p ≤ o + s) :
    CoversSide flipped o s p pos len := by
  unfold CoversSide
  cases flipped
  · simp only [Bool.false_eq_true, if_false] at hp ⊢
    subst hl
    subst hp
    refine ⟨⟨rfl, by ring⟩, by linarith, by linarith⟩
  · simp only [if_true] at hp ⊢
    subst hl
    subst hp
    refine ⟨⟨rfl, by ring⟩, le_refl _, by linarith⟩

/-! ### The links of the compound -/

theorem append_right_cancel (a b t : String) (h : a ++ t = b ++ t) : a = b := by
  have h2 := congrArg String.data h
  simp only [String.data_append] at h2
  exact String.ext (List.append_cancel_right h2)

theorem set1Value_length (l : List String) (x : String) :
    set1Value l l.length x = l ++ [x] := by
  unfold set1Value
  simp

theorem fillCompound_cons (e : Env) (c it : String) (rest : List String) (i : Nat) (s : State)
    (hcl : e.canCreate "App::Link" = true)
    (hf : s.doc.getObject (it ++ "_CutLink") = none) :
    fillCompound e c (it :: rest) i s =
      fillCompound e c rest (i + 1) { s with doc := linkStep e c i s.doc it } := by
  rw [fillCompound]
  simp only []
  rw [addObject_of_free e s.doc _ _ hf, if_pos hcl]
  rfl

theorem linkStep_getObject (e : Env) (c it : String) (i : Nat) (d : Document) (m : String)
    (hf : d.getObject (it ++ "_CutLink") = none) (hc : it ++ "_CutLink" ≠ c)
    (hi : it ≠ it ++ "_CutLink") :
    (linkStep e c i d it).getObject m =
      if m = it ++ "_CutLink" then
        some { name := it ++ "_CutLink", typeId := "App::Link",
               hasShape := e.isDerivedFrom "App::Link" "Part::Feature",
               LinkedObject := some it, LinkTransform := true }
      else if m = it then (d.getObject m).map (fun o =>
        { (if m = c then { o with Links := set1Value o.Links i (it ++ "_CutLink") } else o)
          with Visibility := false })
      else if m = c then
        (d.getObject m).map (fun o => { o with Links := set1Value o.Links i (it ++ "_CutLink") })
      else d.getObject m := by
  unfold linkStep
  simp only []
  rw [getObject_setVisibility]
  by_cases h1 : m = it ++ "_CutLink"
  · subst h1
    have hne : it ++ "_CutLink" ≠ it := fun h => hi h.symm
    rw [if_neg hne, if_pos rfl, getObject_modify, if_neg hc, getObject_modify, if_pos rfl,
      getObject_modify, if_pos rfl, getObject_mk_push, getObject_eta, hf]
    · simp
    · intro _
      rfl
    · intro _
      rfl
    · intro _
      rfl
  · rw [if_neg h1]
    have key : ((((Document.mk (d.objects ++
        [{ name := it ++ "_CutLink", typeId := "App::Link",
           hasShape := e.isDerivedFrom "App::Link" "Part::Feature" }]) d.recomputed).modify
          (it ++ "_CutLink") (fun o => { o with LinkedObject := some it })).modify
          (it ++ "_CutLink") (fun o => { o with LinkTransform := true })).modify c
          (fun o => { o with Links := set1Value o.Links i (it ++ "_CutLink") })).getObject m =
        if m = c then (d.getObject m).map
          (fun o => { o with Links := set1Value o.Links i (it ++ "_CutLink") })
        else d.getObject m := by
      rw [getObject_modify, getObject_modify, if_neg h1, getObject_modify, if_neg h1,
        getObject_mk_push, getObject_eta]
      · have : (if (it ++ "_CutLink") = m then some
            ({ name := it ++ "_CutLink", typeId := "App::Link",
               hasShape := e.isDerivedFrom "App::Link" "Part::Feature" } : DocumentObject)
            else none) = none := by
          rw [if_neg (fun h => h1 h.symm)]
        rw [this]
        simp
      · intro _
        rfl
      · intro _
        rfl
      · intro _
        rfl
    rw [key]
    by_cases h2 : m = it
    · rw [if_pos h2, if_pos h2]
      by_cases h3 : m = c
      · simp only [h3, if_true]
        cases d.getObject c <;> rfl
      · simp only [h3, if_false]
    · rw [if_neg h2, if_neg h2]

theorem fillCompound_links (e : Env) (c : String) (hcl : e.canCreate "App::Link" = true)
    (rest : List String) :
    ∀ (i : Nat) (s : State) (done : List String) (co : DocumentObject),
      s.doc.getObject c = some co → co.Links = done.map (fun it => it ++ "_CutLink") →
      done.length = i → rest.Nodup →
      (∀ it ∈ rest, s.doc.getObject (it ++ "_CutLink") = none) →
      (∀ it ∈ rest, s.doc.getObject it ≠ none) →
      (∀ it ∈ rest, it ++ "_CutLink" ≠ c) → (∀ it ∈ rest, it ≠ c) →
      ∃ s1, fillCompound e c rest i s = Flow.running s1 ∧
        s1.ui = s.ui ∧ s1.ObjectsListVisible = s.ObjectsListVisible ∧
        s1.doc.recomputed = s.doc.recomputed ∧
        (∃ co1, s1.doc.getObject c = some co1 ∧ co1.typeId = co.typeId ∧
          co1.Links = (done ++ rest).map (fun it => it ++ "_CutLink")) ∧
        (∀ it ∈ rest, ∃ k, s1.doc.getObject (it ++ "_CutLink") = some k ∧
          k.typeId = "App::Link" ∧ k.LinkedObject = some it ∧ k.LinkTransform = true) ∧
        (∀ it ∈ rest, ∀ o, s1.doc.getObject it = some o → o.Visibility = false) ∧
        (∀ m, m ≠ c → m ∉ rest → (∀ it ∈ rest, m ≠ it ++ "_CutLink") →
          s1.doc.getObject m = s.doc.getObject m) := by
  induction rest with
  | nil =>
    intro i s done co hco hl _ _ _ _ _ _
    refine ⟨s, rfl, rfl, rfl, rfl, ⟨co, hco, rfl, ?_⟩, ?_, ?_, ?_⟩
    · rw [hl, List.append_nil]
    · intro it h
      cases h
    · intro it h
      cases h
    · intro m _ _ _
      rfl
  | cons it rest ih =>
    intro i s done co hco hl hi hnd hfree hex hcn hic
    have hnd2 := List.nodup_cons.mp hnd
    have hf := hfree it (List.mem_cons_self _ _)
    have hc := hcn it (List.mem_cons_self _ _)
    have hit : it ≠ it ++ "_CutLink" := by
      intro h
      apply hex it (List.mem_cons_self _ _)
      rw [h]
      exact hf
    have hne : ∀ it2 ∈ rest, it2 ++ "_CutLink" ≠ it ++ "_CutLink" := by
      intro it2 h2 h
      have := append_right_cancel _ _ _ h
      subst this
      exact hnd2.1 h2
    have hmem : ∀ it2 ∈ it :: rest, ∀ it3 ∈ it :: rest, it2 ≠ it3 ++ "_CutLink" := by
      intro it2 h2 it3 h3 h
      apply hex it2 h2
      rw [h]
      exact hfree it3 h3
    rw [fillCompound_cons e c it rest i s hcl hf]
    have hstep := linkStep_getObject e c it i s.doc
    obtain ⟨s1, h1, hui, hov, hrec, ⟨co1, hco1, hty, hl1⟩, hlinks, hvis, hframe⟩ :=
      ih (i + 1) { s with doc := linkStep e c i s.doc it } (done ++ [it])
        { co with Links := set1Value co.Links i (it ++ "_CutLink") }
        (by
          show (linkStep e c i s.doc it).getObject c = _
          rw [hstep c hf hc hit, if_neg (Ne.symm hc),
            if_neg (Ne.symm (hic it (List.mem_cons_self _ _))), if_pos rfl, hco]
          rfl)
        (by
          show set1Value co.Links i (it ++ "_CutLink") = _
          rw [hl, ← hi, List.map_append, ← List.length_map done (fun it => it ++ "_CutLink"),
            set1Value_length]
          rfl)
        (by rw [List.length_append, hi]; rfl)
        hnd2.2
        (by
          intro it2 h2
          show (linkStep e c i s.doc it).getObject _ = none
          rw [hstep _ hf hc hit, if_neg (hne it2 h2),
            if_neg (Ne.symm (hmem it (List.mem_cons_self _ _) it2 (List.mem_cons_of_mem _ h2))),
            if_neg (hcn it2 (List.mem_cons_of_mem _ h2))]
          exact hfree it2 (List.mem_cons_of_mem _ h2))
        (by
          intro it2 h2
          show (linkStep e c i s.doc it).getObject _ ≠ none
          have hne2 : it2 ≠ it := fun h => hnd2.1 (h ▸ h2)
          rw [hstep _ hf hc hit,
            if_neg (hmem it2 (List.mem_cons_of_mem _ h2) it (List.mem_cons_self _ _)),
            if_neg hne2, if_neg (hic it2 (List.mem_cons_of_mem _ h2))]
          exact hex it2 (List.mem_cons_of_mem _ h2))
        (fun it2 h2 => hcn it2 (List.mem_cons_of_mem _ h2))
        (fun it2 h2 => hic it2 (List.mem_cons_of_mem _ h2))
    refine ⟨s1, h1, hui, hov, ?_, ⟨co1, hco1, hty, ?_⟩, ?_, ?_, ?_⟩
    · rw [hrec]
      rfl
    · rw [hl1, List.append_assoc]
      rfl
    · intro it2 h2
      rcases List.mem_cons.mp h2 with h | h
      · subst h
        have hk : s1.doc.getObject (it2 ++ "_CutLink") =
            (linkStep e c i s.doc it2).getObject (it2 ++ "_CutLink") :=
          hframe _ hc (fun h3 => hex _ (List.mem_cons_of_mem _ h3) hf)
            (fun it3 h3 => (hne it3 h3).symm)
        rw [hstep _ hf hc hit, if_pos rfl] at hk
        exact ⟨_, hk, rfl, rfl, rfl⟩
      · exact hlinks it2 h
    · intro it2 h2
      rcases List.mem_cons.mp h2 with h | h
      · subst h
        intro o ho
        rw [hframe _ (hic it2 (List.mem_cons_self _ _)) hnd2.1
          (fun it3 h3 => hmem it2 (List.mem_cons_self _ _) it3 (List.mem_cons_of_mem _ h3))]
          at ho
        change (linkStep e c i s.doc it2).getObject _ = _ at ho
        rw [hstep _ hf hc hit, if_neg hit, if_pos rfl] at ho
        cases hd : s.doc.getObject it2 with
        | none =>
          rw [hd] at ho
          cases ho
        | some o2 =>
          rw [hd] at ho
          simp only [Option.map_some', Option.some.injEq] at ho
          rw [← ho]
      · exact hvis it2 h
    · intro m hmc hmr hml
      rw [hframe m hmc (fun h => hmr (List.mem_cons_of_mem _ h))
        (fun it3 h3 => hml it3 (List.mem_cons_of_mem _ h3))]
      show (linkStep e c i s.doc it).getObject _ = _
      rw [hstep _ hf hc hit, if_neg (hml it (List.mem_cons_self _ _)),
        if_neg (fun h => hmr (by rw [h]; exact List.mem_cons_self _ _)), if_neg hmc]

theorem hideLoop_getObject (l : List String) (d : Document) (m : String) :
    (l.foldl (fun d it => d.setVisibility it false) d).getObject m =
      if m ∈ l then (d.getObject m).map (fun o => { o with Visibility := false })
      else d.getObject m := by
  induction l generalizing d with
  | nil => simp
  | cons a l ih =>
    rw [List.foldl_cons, ih, getObject_setVisibility]
    by_cases hma : m = a
    · subst hma
      simp only [List.mem_cons, true_or, if_true]
      split_ifs
      · cases d.getObject m <;> rfl
      · rfl
    · simp only [List.mem_cons, hma, false_or, if_false]

theorem hideVisible_getObject (s : State) (m : String) :
    (hideVisible s).doc.getObject m =
      if m ∈ s.ObjectsListVisible
      then (s.doc.getObject m).map (fun o => { o with Visibility := false })
      else s.doc.getObject m :=
  hideLoop_getObject _ _ _

theorem hideLoop_recomputed (l : List String) (d : Document) :
    (l.foldl (fun d it => d.setVisibility it false) d).recomputed = d.recomputed := by
  induction l generalizing d with
  | nil => rfl
  | cons a l ih =>
    rw [List.foldl_cons, ih]
    rfl

theorem sortOutStep_subset (e : Env) (d : Document) (l : List String) (it x : String)
    (h : x ∈ sortOutStep e d l it) : x ∈ l := by
  unfold sortOutStep at h
  split at h
  · exact h
  · split at h
    · rename_i o _ _
      revert h
      generalize o.getOutList = out
      induction out generalizing l with
      | nil => exact fun h => h
      | cons a out ih =>
        intro h
        rw [List.foldl_cons] at h
        exact List.mem_of_mem_erase (ih _ h)
    · exact h

theorem sortOut_subset (e : Env) (s : State) (l : List String) (x : String)
    (h : x ∈ sortOut e s l) : x ∈ l := by
  unfold sortOut at h
  revert h
  generalize s.ObjectsListVisible = vis
  induction vis generalizing l with
  | nil => exact fun h => h
  | cons a vis ih =>
    intro h
    rw [List.foldl_cons] at h
    exact sortOutStep_subset e s.doc l a x (ih _ h)

theorem collectObjectsListCut_exists (e : Env) (s : State) (x : String)
    (h : x ∈ (collectObjectsListCut e s).1) : s.doc.getObject x ≠ none := by
  unfold collectObjectsListCut at h
  rw [collect_foldl_fst, List.nil_append, List.mem_flatMap] at h
  obtain ⟨it, _, hx⟩ := h
  rw [mem_cutCandidates] at hx
  obtain ⟨o, ho, h1 | h2⟩ := hx
  · obtain ⟨_, _, xo, hxo, _⟩ := h1
    simp only [] at hxo
    rw [hxo]
    exact fun h => by cases h
  · simp only [] at ho
    rw [h2.1, ho]
    exact fun h => by cases h

theorem collectCutList_exists (e : Env) (s : State) (x : String)
    (h : x ∈ (collectCutList e s).1) : (collectCutList e s).2.doc.getObject x ≠ none := by
  unfold collectCutList at h ⊢
  simp only [] at h ⊢
  have h2 := sortOut_subset e _ _ x h
  have h3 := collectObjectsListCut_exists e _ x h2
  rw [collectObjectsListCut_doc]
  exact h3

theorem buildCompound_links (e : Env) (l : List String) (s : State) (hw : e.WellNamed)
    (hcc : e.canCreate "Part::Compound" = true) (hcl : e.canCreate "App::Link" = true)
    (hfc : s.doc.getObject e.CompoundName = none) (hnd : l.Nodup)
    (hfree : ∀ it ∈ l, s.doc.getObject (it ++ "_CutLink") = none)
    (hex : ∀ it ∈ l, s.doc.getObject it ≠ none) :
    (∃ c, (buildCompound e l s).state.doc.getObject e.CompoundName = some c ∧
      c.typeId = "Part::Compound" ∧ c.Links = l.map (fun it => it ++ "_CutLink")) ∧
    (∀ it ∈ l, ∃ k, (buildCompound e l s).state.doc.getObject (it ++ "_CutLink") = some k ∧
      k.typeId = "App::Link" ∧ k.LinkedObject = some it ∧ k.LinkTransform = true) ∧
    (buildCompound e l s).state.doc.recomputed =
      s.doc.recomputed ++ [(e.CompoundName, false)] ∧
    (∀ n, n ∈ l ∨ n ∈ s.ObjectsListVisible →
      ∀ o, (buildCompound e l s).state.doc.getObject n = some o → o.Visibility = false) := by
  have hcn : ∀ it ∈ l, it ++ "_CutLink" ≠ e.CompoundName := fun it _ h =>
    hw.2.1 it (h ▸ List.mem_cons_self _ _)
  have hic : ∀ it ∈ l, it ≠ e.CompoundName := fun it hit h => hex it hit (h ▸ hfc)
  obtain ⟨s1, h1, -, hov, hrec, ⟨co1, hco1, hty, hl1⟩, hlinks, hvis, -⟩ :=
    fillCompound_links e e.CompoundName hcl l 0
      { s with ui.RefreshCutPB := false, doc := { s.doc with objects := s.doc.objects ++
          [{ name := e.CompoundName, typeId := "Part::Compound",
             hasShape := e.isDerivedFrom "Part::Compound" "Part::Feature" }] } } []
      { name := e.CompoundName, typeId := "Part::Compound",
        hasShape := e.isDerivedFrom "Part::Compound" "Part::Feature" }
      (getObject_push_new s.doc _ hfc) rfl rfl hnd
      (by
        intro it hit
        show (Document.mk _ _).getObject _ = none
        rw [getObject_mk_push, getObject_eta, hfree it hit, if_neg (Ne.symm (hcn it hit))]
        rfl)
      (by
        intro it hit
        show (Document.mk _ _).getObject _ ≠ none
        rw [getObject_mk_push, getObject_eta]
        cases h : s.doc.getObject it with
        | none => exact absurd h (hex it hit)
        | some o => exact fun h2 => by cases h2)
      hcn hic
  have hstate : (buildCompound e l s).state.doc =
      (hideVisible { s1 with doc := s1.doc.recomputeFeature e.CompoundName false }).doc := by
    unfold buildCompound
    simp only []
    rw [addObject_of_free e _ _ _ hfc, if_pos hcc]
    simp only []
    rw [h1]
    simp only []
    split <;> rfl
  rw [hstate]
  refine ⟨?_, ?_, ?_, ?_⟩
  · rw [hideVisible_getObject]
    simp only [getObject_recomputeFeature, hco1, Option.map_some']
    split_ifs
    · exact ⟨_, rfl, hty, hl1⟩
    · exact ⟨_, rfl, hty, hl1⟩
  · intro it hit
    obtain ⟨k, hk, h2, h3, h4⟩ := hlinks it hit
    rw [hideVisible_getObject]
    simp only [getObject_recomputeFeature, hk, Option.map_some']
    split_ifs
    · exact ⟨_, rfl, h2, h3, h4⟩
    · exact ⟨_, rfl, h2, h3, h4⟩
  · unfold hideVisible
    simp only []
    rw [hideLoop_recomputed]
    show s1.doc.recomputed ++ _ = _
    rw [hrec]
  · intro n hn o ho
    rw [hideVisible_getObject] at ho
    simp only [getObject_recomputeFeature] at ho
    by_cases hm : n ∈ s.ObjectsListVisible
    · have hm1 : n ∈ s1.ObjectsListVisible := by
        rw [hov]
        exact hm
      rw [if_pos hm1] at ho
      cases hg : s1.doc.getObject n with
      | none =>
        rw [hg] at ho
        cases ho
      | some o2 =>
        rw [hg] at ho
        simp only [Option.map_some', Option.some.injEq] at ho
        rw [← ho]
    · have hm1 : n ∉ s1.ObjectsListVisible := by
        rw [hov]
        exact hm
      rw [if_neg hm1] at ho
      rcases hn with hn | hn
      · exact hvis n hn o ho
      · exact absurd hn hm

theorem prepareCompound_of_checked (e : Env) (isInitial : Bool) (s : State)
    (ha : s.activeDocument = true) (hne : (collectCutList e s).1 ≠ [])
    (hg : ¬ (collectCutList e s).2.ui.noneChecked) :
    prepareCompound e isInitial s =
      buildCompound e (collectCutList e s).1 (collectCutList e s).2 := by
  unfold prepareCompound
  rw [ha]
  revert hne hg
  generalize collectCutList e s = p
  intro hne hg
  have hemp : p.1.isEmpty = false := by
    cases h : p.1 with
    | nil => exact absurd h hne
    | cons a l => rfl
  have hchk : (!p.2.ui.groupBoxX && !p.2.ui.groupBoxY && !p.2.ui.groupBoxZ) = false := by
    unfold Ui.noneChecked at hg
    cases hx : p.2.ui.groupBoxX <;> cases hy : p.2.ui.groupBoxY <;>
      cases hz : p.2.ui.groupBoxZ <;> simp [hx, hy, hz] at hg ⊢
  simp only [Bool.not_true, Bool.false_eq_true, if_false, hemp, hchk]

/-! ### The limits on the side of a box -/

theorem getViewBoundingBox_doc (e : Env) (s t : State) (h : s.doc = t.doc) :
    getViewBoundingBox e s = getViewBoundingBox e t := by
  unfold getViewBoundingBox
  rw [h]

theorem refreshCutWidgets_rangeX (e : Env) (bb : SbBox3f) (ui : Ui) :
    (refreshCutWidgets e bb false false false true false false ui).cutX.minimum = bb.min.x ∧
    (refreshCutWidgets e bb false false false true false false ui).cutX.maximum = bb.max.x ∧
    (refreshCutWidgets e bb false false false true false false ui).cutY.minimum
      = ui.cutY.minimum ∧
    (refreshCutWidgets e bb false false false true false false ui).cutY.maximum
      = ui.cutY.maximum := by
  unfold refreshCutWidgets setRangeAndStep SbBox3f.getCenter SbBox3f.getSize
  simp only [if_true, Bool.false_eq_true, if_false]
  refine ⟨?_, ?_, ?_, ?_⟩
  · show (bb.min.x + bb.max.x) / 2 - (bb.max.x - bb.min.x) / 2 = bb.min.x
    ring
  · show (bb.min.x + bb.max.x) / 2 + (bb.max.x - bb.min.x) / 2 = bb.max.x
    ring
  · trivial
  · trivial

theorem refreshCutWidgets_rangeY (e : Env) (bb : SbBox3f) (ui : Ui) :
    (refreshCutWidgets e bb false false false false true false ui).cutY.minimum = bb.min.y ∧
    (refreshCutWidgets e bb false false false false true false ui).cutY.maximum = bb.max.y ∧
    (refreshCutWidgets e bb false false false false true false ui).cutX.minimum
      = ui.cutX.minimum ∧
    (refreshCutWidgets e bb false false false false true false ui).cutX.maximum
      = ui.cutX.maximum := by
  unfold refreshCutWidgets setRangeAndStep SbBox3f.getCenter SbBox3f.getSize
  simp only [if_true, Bool.false_eq_true, if_false]
  refine ⟨?_, ?_, ?_, ?_⟩
  · show (bb.min.y + bb.max.y) / 2 - (bb.max.y - bb.min.y) / 2 = bb.min.y
    ring
  · show (bb.min.y + bb.max.y) / 2 + (bb.max.y - bb.min.y) / 2 = bb.max.y
    ring
  · trivial
  · trivial

theorem limitKept_of (flipped : Bool) (b b1 : QDoubleSpinBox) (lo hi : ℚ)
    (h1 : flipped = false → b1.minimum = max b.minimum lo)
    (h2 : flipped = true → b1.maximum = min b.maximum hi) :
    LimitKept flipped b b1 lo hi := by
  unfold LimitKept
  cases flipped with
  | false =>
    simp only [Bool.false_eq_true, if_false]
    exact ⟨h1 rfl, by rw [h1 rfl]; exact le_max_left _ _⟩
  | true =>
    simp only [if_true]
    exact ⟨h2 rfl, by rw [h2 rfl]; exact min_le_left _ _⟩

/-- The block of lines 1090 to 1116 (987 to 1013) when the X box is there. -/
theorem refreshXLimits_spec (e : Env) (s : State)
    (hb : (s.doc.getObject e.BoxXName).isSome = true) :
    ∃ s1, refreshXLimits e s = Flow.running s1 ∧
      s1.doc = shownAndHidden e.BoxXName s.doc ∧
      s1.hasBoxY = s.hasBoxY ∧ s1.ui.flipY = s.ui.flipY ∧
      s1.ui.cutY.minimum = s.ui.cutY.minimum ∧ s1.ui.cutY.maximum = s.ui.cutY.maximum ∧
      ((boundingBoxWith e e.BoxXName s.doc).isEmpty = false →
        LimitKept s.ui.flipX s.ui.cutX s1.ui.cutX
          (boundingBoxWith e e.BoxXName s.doc).min.x
          (boundingBoxWith e e.BoxXName s.doc).max.x) := by
  have hbx : boundingBoxWith e e.BoxXName s.doc =
      getViewBoundingBox e { s with doc := s.doc.setVisibility e.BoxXName true } :=
    getViewBoundingBox_doc e _ _ rfl
  rw [hbx]
  unfold refreshXLimits
  rw [pointer_eq, hb]
  simp only [if_true]
  generalize getViewBoundingBox e { s with doc := s.doc.setVisibility e.BoxXName true } = bb
  cases hbe : bb.isEmpty with
  | true =>
    have hr : ∀ t : State, refreshCutRanges e bb false false false true false false t = t := by
      intro t
      unfold refreshCutRanges
      rw [hbe]
      rfl
    rw [hr]
    split_ifs <;> exact ⟨_, rfl, rfl, rfl, rfl, rfl, rfl, fun h => by cases h⟩
  | false =>
    rw [refreshCutRanges_of_nonempty _ _ _ _ _ _ _ _ _ hbe]
    obtain ⟨r1, r2, r3, r4⟩ := refreshCutWidgets_rangeX e bb s.ui
    have hf : (refreshCutWidgets e bb false false false true false false s.ui).flipX = s.ui.flipX :=
      (refreshCutWidgets_buttons e _ _ _ _ _ _ _ s.ui).2.2.2.1
    have hfy : (refreshCutWidgets e bb false false false true false false s.ui).flipY = s.ui.flipY :=
      (refreshCutWidgets_buttons e _ _ _ _ _ _ _ s.ui).2.2.2.2.1
    simp only [hf]
    cases hfl : s.ui.flipX with
    | false =>
      simp only [Bool.not_false, if_true, r1, gt_iff_lt]
      split_ifs with hlt
      · refine ⟨_, rfl, rfl, rfl, hfy, r3, r4, fun _ => limitKept_of _ _ _ _ _ (fun _ => ?_)
          (fun h => by cases h)⟩
        exact (max_eq_left (le_of_lt hlt)).symm
      · refine ⟨_, rfl, rfl, rfl, hfy, r3, r4, fun _ => limitKept_of _ _ _ _ _ (fun _ => ?_)
          (fun h => by cases h)⟩
        exact r1.trans (max_eq_right (not_lt.mp hlt)).symm
    | true =>
      simp only [Bool.not_true, Bool.false_eq_true, if_false, r2]
      split_ifs with hlt
      · refine ⟨_, rfl, rfl, rfl, hfy, r3, r4, fun _ => limitKept_of _ _ _ _ _
          (fun h => by cases h) (fun _ => ?_)⟩
        exact (min_eq_left (le_of_lt hlt)).symm
      · refine ⟨_, rfl, rfl, rfl, hfy, r3, r4, fun _ => limitKept_of _ _ _ _ _
          (fun h => by cases h) (fun _ => ?_)⟩
        exact r2.trans (min_eq_right (not_lt.mp hlt)).symm

/-- The block of lines 1090 to 1116 (987 to 1013) when the Y box is there. -/
theorem refreshYLimits_spec (e : Env) (s : State)
    (hb : (s.doc.getObject e.BoxYName).isSome = true) :
    ∃ s1, refreshYLimits e s = Flow.running s1 ∧
      s1.doc = shownAndHidden e.BoxYName s.doc ∧
      s1.hasBoxX = s.hasBoxX ∧ s1.ui.flipX = s.ui.flipX ∧
      s1.ui.cutX.minimum = s.ui.cutX.minimum ∧ s1.ui.cutX.maximum = s.ui.cutX.maximum ∧
      ((boundingBoxWith e e.BoxYName s.doc).isEmpty = false →
        LimitKept s.ui.flipY s.ui.cutY s1.ui.cutY
          (boundingBoxWith e e.BoxYName s.doc).min.y
          (boundingBoxWith e e.BoxYName s.doc).max.y) := by
  have hbx : boundingBoxWith e e.BoxYName s.doc =
      getViewBoundingBox e { s with doc := s.doc.setVisibility e.BoxYName true } :=
    getViewBoundingBox_doc e _ _ rfl
  rw [hbx]
  unfold refreshYLimits
  rw [pointer_eq, hb]
  simp only [if_true]
  generalize getViewBoundingBox e { s with doc := s.doc.setVisibility e.BoxYName true } = bb
  cases hbe : bb.isEmpty with
  | true =>
    have hr : ∀ t : State, refreshCutRanges e bb false false false false true false t = t := by
      intro t
      unfold refreshCutRanges
      rw [hbe]
      rfl
    rw [hr]
    split_ifs <;> exact ⟨_, rfl, rfl, rfl, rfl, rfl, rfl, fun h => by cases h⟩
  | false =>
    rw [refreshCutRanges_of_nonempty _ _ _ _ _ _ _ _ _ hbe]
    obtain ⟨r1, r2, r3, r4⟩ := refreshCutWidgets_rangeY e bb s.ui
    have hf : (refreshCutWidgets e bb false false false false true false s.ui).flipY = s.ui.flipY :=
      (refreshCutWidgets_buttons e _ _ _ _ _ _ _ s.ui).2.2.2.2.1
    have hfy : (refreshCutWidgets e bb false false false false true false s.ui).flipX = s.ui.flipX :=
      (refreshCutWidgets_buttons e _ _ _ _ _ _ _ s.ui).2.2.2.1
    simp only [hf]
    cases hfl : s.ui.flipY with
    | false =>
      simp only [Bool.not_false, if_true, r1, gt_iff_lt]
      split_ifs with hlt
      · refine ⟨_, rfl, rfl, rfl, hfy, r3, r4, fun _ => limitKept_of _ _ _ _ _ (fun _ => ?_)
          (fun h => by cases h)⟩
        exact (max_eq_left (le_of_lt hlt)).symm
      · refine ⟨_, rfl, rfl, rfl, hfy, r3, r4, fun _ => limitKept_of _ _ _ _ _ (fun _ => ?_)
          (fun h => by cases h)⟩
        exact r1.trans (max_eq_right (not_lt.mp hlt)).symm
    | true =>
      simp only [Bool.not_true, Bool.false_eq_true, if_false, r2]
      split_ifs with hlt
      · refine ⟨_, rfl, rfl, rfl, hfy, r3, r4, fun _ => limitKept_of _ _ _ _ _
          (fun h => by cases h) (fun _ => ?_)⟩
        exact (min_eq_left (le_of_lt hlt)).symm
      · refine ⟨_, rfl, rfl, rfl, hfy, r3, r4, fun _ => limitKept_of _ _ _ _ _
          (fun h => by cases h) (fun _ => ?_)⟩
        exact r2.trans (min_eq_right (not_lt.mp hlt)).symm

theorem limitKept_congr (flipped : Bool) (b b1 b2 : QDoubleSpinBox) (lo hi : ℚ)
    (h1 : b2.minimum = b1.minimum) (h2 : b2.maximum = b1.maximum)
    (h : LimitKept flipped b b1 lo hi) : LimitKept flipped b b2 lo hi := by
  unfold LimitKept at h ⊢
  rw [h1, h2]
  exact h

theorem refreshYLimits_cutX (e : Env) (s : State) :
    (refreshYLimits e s).state.ui.cutX.minimum = s.ui.cutX.minimum ∧
    (refreshYLimits e s).state.ui.cutX.maximum = s.ui.cutX.maximum := by
  cases hb : (s.doc.getObject e.BoxYName).isSome with
  | true =>
    obtain ⟨s1, h1, -, -, -, h4, h5, -⟩ := refreshYLimits_spec e s hb
    rw [h1]
    exact ⟨h4, h5⟩
  | false =>
    unfold refreshYLimits
    rw [pointer_eq, hb]
    exact ⟨rfl, rfl⟩

theorem isSome_getObject_recomputeFeature (d : Document) (n m : String) (r : Bool) :
    ((d.recomputeFeature n r).getObject m).isSome = (d.getObject m).isSome := by
  rw [getObject_recomputeFeature]

theorem recomputeAfterZ_limits (e : Env) (s : State) :
    (s.hasBoxX = true → (s.doc.getObject e.BoxXName).isSome = true →
      (boundingBoxWith e e.BoxXName (s.doc.recomputeFeature e.CutZName true)).isEmpty = false →
      LimitKept s.ui.flipX s.ui.cutX (recomputeAfterZ e s).ui.cutX
        (boundingBoxWith e e.BoxXName (s.doc.recomputeFeature e.CutZName true)).min.x
        (boundingBoxWith e e.BoxXName (s.doc.recomputeFeature e.CutZName true)).max.x) ∧
    (s.hasBoxY = true → (s.doc.getObject e.BoxYName).isSome = true →
      (s.hasBoxX = true → (s.doc.getObject e.BoxXName).isSome = true) →
      (boundingBoxWith e e.BoxYName (if s.hasBoxX
        then shownAndHidden e.BoxXName (s.doc.recomputeFeature e.CutZName true)
        else s.doc.recomputeFeature e.CutZName true)).isEmpty = false →
      LimitKept s.ui.flipY s.ui.cutY (recomputeAfterZ e s).ui.cutY
        (boundingBoxWith e e.BoxYName (if s.hasBoxX
          then shownAndHidden e.BoxXName (s.doc.recomputeFeature e.CutZName true)
          else s.doc.recomputeFeature e.CutZName true)).min.y
        (boundingBoxWith e e.BoxYName (if s.hasBoxX
          then shownAndHidden e.BoxXName (s.doc.recomputeFeature e.CutZName true)
          else s.doc.recomputeFeature e.CutZName true)).max.y) := by
  unfold recomputeAfterZ
  lift_lets
  intro s1
  have hX1 : s1.hasBoxX = s.hasBoxX := rfl
  have hY1 : s1.hasBoxY = s.hasBoxY := rfl
  have hd1 : s1.doc = s.doc.recomputeFeature e.CutZName true := rfl
  have hu1 : s1.ui = s.ui := rfl
  have hbX : (s1.doc.getObject e.BoxXName).isSome = (s.doc.getObject e.BoxXName).isSome :=
    isSome_getObject_recomputeFeature _ _ _ _
  have hbY : (s1.doc.getObject e.BoxYName).isSome = (s.doc.getObject e.BoxYName).isSome :=
    isSome_getObject_recomputeFeature _ _ _ _
  rw [← hd1, ← hu1, ← hX1, ← hY1, ← hbX, ← hbY]
  clear_value s1
  clear hX1 hY1 hd1 hu1 hbX hbY
  constructor
  · intro hX hbx hbb
    obtain ⟨s2, h2, -, -, -, -, -, hk⟩ := refreshXLimits_spec e s1 hbx
    rw [hX, if_pos rfl, h2]
    simp only []
    split
    · exact limitKept_congr _ _ _ _ _ _ (refreshYLimits_cutX e s2).1 (refreshYLimits_cutX e s2).2
        (hk hbb)
    · exact hk hbb
  · intro hY hby hbx hbb
    cases hX : s1.hasBoxX with
    | true =>
      obtain ⟨s2, h2, h2d, h2Y, h2f, h2m, h2M, -⟩ := refreshXLimits_spec e s1 (hbx hX)
      rw [hX] at hbb
      simp only [if_true] at hbb ⊢
      rw [h2]
      simp only []
      rw [h2Y, hY, if_pos rfl]
      have hby2 : (s2.doc.getObject e.BoxYName).isSome = true := by
        rw [h2d]
        unfold shownAndHidden
        rw [← hby]
        unfold Document.setVisibility
        rw [isSome_getObject_modify, isSome_getObject_modify]
        · intro _
          rfl
        · intro _
          rfl
      obtain ⟨s3, h3, -, -, -, -, -, hk⟩ := refreshYLimits_spec e s2 hby2
      rw [h3]
      rw [h2d] at hk
      have hk2 := hk hbb
      rw [h2f] at hk2
      unfold LimitKept at hk2 ⊢
      rw [h2m, h2M] at hk2
      exact hk2
    | false =>
      rw [hX] at hbb
      simp only [Bool.false_eq_true, if_false] at hbb ⊢
      rw [hY, if_pos rfl]
      obtain ⟨s3, h3, -, -, -, -, -, hk⟩ := refreshYLimits_spec e s1 hby
      rw [h3]
      exact hk hbb

theorem recomputeAfterY_limits (e : Env) (s : State) (hZ : s.hasBoxZ = false)
    (hX : s.hasBoxX = true) (hbx : (s.doc.getObject e.BoxXName).isSome = true)
    (hbb : (boundingBoxWith e e.BoxXName
      (s.doc.recomputeFeature e.CutYName true)).isEmpty = false) :
    LimitKept s.ui.flipX s.ui.cutX (recomputeAfterY e s).ui.cutX
      (boundingBoxWith e e.BoxXName (s.doc.recomputeFeature e.CutYName true)).min.x
      (boundingBoxWith e e.BoxXName (s.doc.recomputeFeature e.CutYName true)).max.x := by
  unfold recomputeAfterY
  rw [hZ, if_neg Bool.false_ne_true]
  lift_lets
  intro bb s1 s2
  have hd1 : s1.doc = s.doc := refreshCutRanges_doc _ _ _ _ _ _ _ _ _
  have hd2 : s2.doc = s.doc.recomputeFeature e.CutYName true := by
    show s1.doc.recomputeFeature e.CutYName true = _
    rw [hd1]
  have hX2 : s2.hasBoxX = true := by
    show s1.hasBoxX = true
    rw [(refreshCutRanges_hasBox _ _ _ _ _ _ _ _ _).1]
    exact hX
  have hf2 : s2.ui.flipX = s.ui.flipX :=
    (refreshCutRanges_buttons e bb false false true false false true s).2.2.2.1
  have hk2 : s2.ui.cutX.minimum = s.ui.cutX.minimum ∧ s2.ui.cutX.maximum = s.ui.cutX.maximum := by
    show s1.ui.cutX.minimum = _ ∧ s1.ui.cutX.maximum = _
    show (refreshCutRanges e bb false false true false false true s).ui.cutX.minimum = _ ∧
      (refreshCutRanges e bb false false true false false true s).ui.cutX.maximum = _
    unfold refreshCutRanges
    split
    · obtain ⟨k1, k2, -⟩ := refreshCutWidgets_kept_X e bb false true false true s.ui
      exact ⟨k1, k2⟩
    · exact ⟨rfl, rfl⟩
  have hbx2 : (s2.doc.getObject e.BoxXName).isSome = true := by
    rw [hd2, isSome_getObject_recomputeFeature]
    exact hbx
  clear_value s2
  rw [hX2, if_pos rfl]
  obtain ⟨s3, h3, -, -, -, -, -, hk⟩ := refreshXLimits_spec e s2 hbx2
  rw [h3]
  rw [hd2] at hk
  have hk3 := hk hbb
  rw [hf2] at hk3
  unfold LimitKept at hk3 ⊢
  rw [hk2.1, hk2.2] at hk3
  exact hk3

/-! ### The cut a handler recomputes -/

theorem sameRecomputed_refl (s : State) : SameRecomputed s s := rfl

theorem sameRecomputed_trans {a b c : State} (h1 : SameRecomputed a b)
    (h2 : SameRecomputed b c) : SameRecomputed a c :=
  Eq.trans h2 h1

theorem sameRecomputed_setVisibility (s : State) (n : String) (v : Bool) :
    SameRecomputed s { s with doc := s.doc.setVisibility n v } := rfl

theorem sameRecomputed_refresh (e : Env) (bb : SbBox3f) (fxv fyv fzv fxr fyr fzr : Bool)
    (s : State) : SameRecomputed s (refreshCutRanges e bb fxv fyv fzv fxr fyr fzr s) := by
  unfold SameRecomputed
  rw [refreshCutRanges_doc]

theorem sameRecomputed_ite (s a b : State) (c : Prop) [Decidable c]
    (h1 : SameRecomputed s a) (h2 : SameRecomputed s b) :
    SameRecomputed s (if c then a else b) := by
  split
  · exact h1
  · exact h2

theorem pointer_eq_some {d : Document} {n x : String} (h : d.pointer n = some x) : x = n := by
  rw [pointer_eq] at h
  split at h
  · exact (Option.some.inj h).symm
  · cases h

theorem sameRecomputed_refreshXLimits (e : Env) (s : State) :
    SameRecomputed s (refreshXLimits e s).state := by
  unfold refreshXLimits
  split
  · exact sameRecomputed_refl _
  · lift_lets
    intro storedX s1 bb s2 s3
    have k1 : SameRecomputed s s1 := sameRecomputed_setVisibility _ _ _
    have k2 : SameRecomputed s1 s2 := sameRecomputed_refresh _ _ _ _ _ _ _ _ _
    have k3 : SameRecomputed s2 s3 := sameRecomputed_setVisibility _ _ _
    have k : SameRecomputed s s3 := sameRecomputed_trans (sameRecomputed_trans k1 k2) k3
    split_ifs <;> exact k

theorem sameRecomputed_refreshYLimits (e : Env) (s : State) :
    SameRecomputed s (refreshYLimits e s).state := by
  unfold refreshYLimits
  split
  · exact sameRecomputed_refl _
  · lift_lets
    intro storedY s1 bb s2 s3
    have k1 : SameRecomputed s s1 := sameRecomputed_setVisibility _ _ _
    have k2 : SameRecomputed s1 s2 := sameRecomputed_refresh _ _ _ _ _ _ _ _ _
    have k3 : SameRecomputed s2 s3 := sameRecomputed_setVisibility _ _ _
    have k : SameRecomputed s s3 := sameRecomputed_trans (sameRecomputed_trans k1 k2) k3
    split_ifs <;> exact k

theorem recomputed_of_same {s s1 : State} (n : String) (h : SameRecomputed s s1) :
    ({ s1 with doc := s1.doc.recomputeFeature n true } : State).doc.recomputed =
      s.doc.recomputed ++ [(n, true)] := by
  show s1.doc.recomputed ++ [(n, true)] = _
  rw [h]

theorem recomputeAfterX_recomputed (e : Env) (s : State)
    (hy : s.hasBoxY = true → s.hasBoxZ = false → (s.doc.getObject e.CutYName).isSome = true)
    (hz : s.hasBoxZ = true → (s.doc.getObject e.CutZName).isSome = true) :
    (recomputeAfterX e s).doc.recomputed = s.doc.recomputed ++
      [(if s.hasBoxZ then e.CutZName else if s.hasBoxY then e.CutYName else e.CutXName,
        true)] := by
  generalize ht : (if s.hasBoxZ = true then e.CutZName
    else if s.hasBoxY = true then e.CutYName else e.CutXName) = top
  unfold recomputeAfterX
  split
  · rename_i h
    simp only [Bool.and_eq_true, Bool.not_eq_true'] at h
    have htop : top = e.CutYName := by
      rw [← ht, h.2, h.1]
      rfl
    rw [htop]
    split
    · rename_i hp
      have := pointer_isSome s.doc e.CutYName
      rw [hp, hy h.1 h.2] at this
      cases this
    · rename_i x hp
      have hx := pointer_eq_some hp
      subst hx
      lift_lets
      intro s1 s2 bb s3 s4 s5 s6
      have k1 : SameRecomputed s s1 := sameRecomputed_setVisibility _ _ _
      have k2 : SameRecomputed s1 s2 := sameRecomputed_setVisibility _ _ _
      have k3 : SameRecomputed s2 s3 := sameRecomputed_refresh _ _ _ _ _ _ _ _ _
      have k4 : SameRecomputed s3 s4 :=
        sameRecomputed_ite _ _ _ _ (sameRecomputed_refresh _ _ _ _ _ _ _ _ _)
          (sameRecomputed_refl _)
      have k5 : SameRecomputed s4 s5 := sameRecomputed_setVisibility _ _ _
      have k6 : SameRecomputed s5 s6 := sameRecomputed_setVisibility _ _ _
      exact recomputed_of_same _ (sameRecomputed_trans (sameRecomputed_trans
        (sameRecomputed_trans (sameRecomputed_trans (sameRecomputed_trans k1 k2) k3) k4) k5) k6)
  · rename_i h
    split
    · rename_i hZ
      have htop : top = e.CutZName := by
        rw [← ht, hZ]
        rfl
      rw [htop]
      split
      · rename_i hp
        have := pointer_isSome s.doc e.CutZName
        rw [hp, hz hZ] at this
        cases this
      · rename_i x hp
        have hx := pointer_eq_some hp
        subst hx
        lift_lets
        intro s1 s2 bb t1 t2 u1 s3 s4 s5
        have k1 : SameRecomputed s s1 := sameRecomputed_setVisibility _ _ _
        have k2 : SameRecomputed s1 s2 := sameRecomputed_setVisibility _ _ _
        have j1 : SameRecomputed s2 t1 := sameRecomputed_refresh _ _ _ _ _ _ _ _ _
        have j2 : SameRecomputed t1 t2 :=
          sameRecomputed_ite _ _ _ _ (sameRecomputed_refresh _ _ _ _ _ _ _ _ _)
            (sameRecomputed_refl _)
        have j3 : SameRecomputed s2 u1 := sameRecomputed_refresh _ _ _ _ _ _ _ _ _
        have k3 : SameRecomputed s2 s3 :=
          sameRecomputed_ite _ _ _ _
            (sameRecomputed_trans (sameRecomputed_trans j1 j2)
              (sameRecomputed_ite _ _ _ _ (sameRecomputed_refresh _ _ _ _ _ _ _ _ _)
                (sameRecomputed_refl _)))
            (sameRecomputed_trans j3
              (sameRecomputed_ite _ _ _ _ (sameRecomputed_refresh _ _ _ _ _ _ _ _ _)
                (sameRecomputed_refl _)))
        have k4 : SameRecomputed s3 s4 := sameRecomputed_setVisibility _ _ _
        have k5 : SameRecomputed s4 s5 := sameRecomputed_setVisibility _ _ _
        exact recomputed_of_same _ (sameRecomputed_trans (sameRecomputed_trans
          (sameRecomputed_trans (sameRecomputed_trans k1 k2) k3) k4) k5)
    · rename_i hZ
      have hZ0 : s.hasBoxZ = false := by
        cases hh : s.hasBoxZ with
        | false => rfl
        | true => exact absurd hh hZ
      have hY0 : s.hasBoxY = false := by
        cases hh : s.hasBoxY with
        | false => rfl
        | true =>
          rw [hh, hZ0] at h
          exact absurd rfl h
      have htop : top = e.CutXName := by
        rw [← ht, hZ0, hY0]
        rfl
      rw [htop]
      lift_lets
      intro bb s1
      exact recomputed_of_same _ (sameRecomputed_refresh _ _ _ _ _ _ _ _ _)

theorem recomputeAfterY_recomputed (e : Env) (s : State)
    (hz : s.hasBoxZ = true → (s.doc.getObject e.CutZName).isSome = true) :
    (recomputeAfterY e s).doc.recomputed = s.doc.recomputed ++
      [(if s.hasBoxZ then e.CutZName else e.CutYName, true)] := by
  generalize ht : (if s.hasBoxZ = true then e.CutZName else e.CutYName) = top
  unfold recomputeAfterY
  split
  · rename_i hZ
    have htop : top = e.CutZName := by
      rw [← ht, hZ]
      rfl
    rw [htop]
    split
    · rename_i hp
      have := pointer_isSome s.doc e.CutZName
      rw [hp, hz hZ] at this
      cases this
    · rename_i x hp
      have hx := pointer_eq_some hp
      subst hx
      lift_lets
      intro s1 s2 bb s3 s4 s5 s6
      have k1 : SameRecomputed s s1 := sameRecomputed_setVisibility _ _ _
      have k2 : SameRecomputed s1 s2 := sameRecomputed_setVisibility _ _ _
      have k3 : SameRecomputed s2 s3 := sameRecomputed_refresh _ _ _ _ _ _ _ _ _
      have k4 : SameRecomputed s3 s4 :=
        sameRecomputed_ite _ _ _ _ (sameRecomputed_refresh _ _ _ _ _ _ _ _ _)
          (sameRecomputed_refl _)
      have k5 : SameRecomputed s4 s5 := sameRecomputed_setVisibility _ _ _
      have k6 : SameRecomputed s5 s6 := sameRecomputed_setVisibility _ _ _
      exact recomputed_of_same _ (sameRecomputed_trans (sameRecomputed_trans
        (sameRecomputed_trans (sameRecomputed_trans (sameRecomputed_trans k1 k2) k3) k4) k5) k6)
  · rename_i hZ
    have hZ0 : s.hasBoxZ = false := by
      cases hh : s.hasBoxZ with
      | false => rfl
      | true => exact absurd hh hZ
    have htop : top = e.CutYName := by
      rw [← ht, hZ0]
      rfl
    rw [htop]
    lift_lets
    intro bb s1 s2
    have k2 : s2.doc.recomputed = s.doc.recomputed ++ [(e.CutYName, true)] :=
      recomputed_of_same _ (sameRecomputed_refresh _ _ _ _ _ _ _ _ _)
    split
    · exact (sameRecomputed_refreshXLimits e s2).trans k2
    · exact k2

theorem recomputeAfterZ_recomputed (e : Env) (s : State) :
    (recomputeAfterZ e s).doc.recomputed = s.doc.recomputed ++ [(e.CutZName, true)] := by
  unfold recomputeAfterZ
  lift_lets
  intro s1
  have k1 : s1.doc.recomputed = s.doc.recomputed ++ [(e.CutZName, true)] := rfl
  have k2 : SameRecomputed s1
      (if s1.hasBoxX = true then refreshXLimits e s1 else Flow.running s1).state := by
    split
    · exact sameRecomputed_refreshXLimits e s1
    · exact sameRecomputed_refl _
  cases hf : (if s1.hasBoxX = true then refreshXLimits e s1 else Flow.running s1) with
  | returned s2 =>
    rw [hf] at k2
    exact k2.trans k1
  | running s2 =>
    rw [hf] at k2
    simp only []
    split
    · exact ((sameRecomputed_refreshYLimits e s2).trans k2).trans k1
    · exact k2.trans k1

theorem onFlipXclicked_recomputed (e : Env) (s : State) (b : DocumentObject)
    (ha : s.activeDocument = true) (hd : s.docIsActive = true)
    (hb : s.doc.getObject e.BoxXName = some b)
    (hc : (s.doc.getObject e.CutXName).isSome = true)
    (hy : s.hasBoxY = true → s.hasBoxZ = false → (s.doc.getObject e.CutYName).isSome = true)
    (hz : s.hasBoxZ = true → (s.doc.getObject e.CutZName).isSome = true) :
    (onFlipXclicked e s).doc.recomputed = s.doc.recomputed ++
      [(if s.hasBoxZ then e.CutZName else if s.hasBoxY then e.CutYName else e.CutXName, true)] := by
  unfold onFlipXclicked
  simp only [ha, hd, Bool.not_true, Bool.false_eq_true, if_false, hb]
  generalize hd1 : s.doc.modify e.BoxXName (fun o => { o with Placement :=
    if s.ui.flipX = true then { b.Placement with x := b.Placement.x + b.Length }
    else { b.Placement with x := b.Placement.x - b.Length } }) = d1
  have hrec : d1.recomputed = s.doc.recomputed := by
    rw [← hd1]
    rfl
  have hiso : ∀ m, (d1.getObject m).isSome = (s.doc.getObject m).isSome := by
    intro m
    rw [← hd1]
    apply isSome_getObject_modify
    intro _
    rfl
  clear hd1
  cases hcx : d1.getObject e.CutXName with
  | none =>
    have := hiso e.CutXName
    rw [hcx, hc] at this
    cases this
  | some cx =>
    simp only []
    cases hY : s.hasBoxY <;> cases hZ : s.hasBoxZ <;>
      simp only [Bool.false_eq_true, if_false, if_true, Bool.not_true, Bool.not_false,
        Bool.and_true, Bool.and_false, Bool.false_and, Bool.true_and, Bool.or_false,
        Bool.or_true, Bool.or_self, Bool.and_self, pointer_eq, hiso,
        hy, hz, hY, hZ, Document.recomputeFeature, hrec]

theorem onFlipYclicked_recomputed (e : Env) (s : State) (b : DocumentObject)
    (ha : s.activeDocument = true) (hd : s.docIsActive = true)
    (hb : s.doc.getObject e.BoxYName = some b)
    (hc : (s.doc.getObject e.CutYName).isSome = true)
    (hz : s.hasBoxZ = true → (s.doc.getObject e.CutZName).isSome = true) :
    (onFlipYclicked e s).doc.recomputed = s.doc.recomputed ++
      [(if s.hasBoxZ then e.CutZName else e.CutYName, true)] := by
  unfold onFlipYclicked
  simp only [ha, hd, Bool.not_true, Bool.false_eq_true, if_false, hb]
  generalize hd1 : s.doc.modify e.BoxYName (fun o => { o with Placement :=
    if s.ui.flipY = true then { b.Placement with y := b.Placement.y + b.Width }
    else { b.Placement with y := b.Placement.y - b.Width } }) = d1
  have hrec : d1.recomputed = s.doc.recomputed := by
    rw [← hd1]
    rfl
  have hiso : ∀ m, (d1.getObject m).isSome = (s.doc.getObject m).isSome := by
    intro m
    rw [← hd1]
    apply isSome_getObject_modify
    intro _
    rfl
  clear hd1
  cases hcx : d1.getObject e.CutYName with
  | none =>
    have := hiso e.CutYName
    rw [hcx, hc] at this
    cases this
  | some cx =>
    simp only []
    cases hZ : s.hasBoxZ <;>
      simp only [Bool.false_eq_true, if_false, if_true, Bool.not_true, Bool.not_false,
        Bool.and_true, Bool.and_false, Bool.false_and, Bool.true_and, Bool.or_false,
        Bool.or_true, Bool.or_self, Bool.and_self, pointer_eq, hiso,
        hz, hZ, Document.recomputeFeature, hrec]

theorem onFlipZclicked_recomputed (e : Env) (s : State) (b : DocumentObject)
    (ha : s.activeDocument = true) (hd : s.docIsActive = true)
    (hb : s.doc.getObject e.BoxZName = some b)
    (hc : (s.doc.getObject e.CutZName).isSome = true) :
    (onFlipZclicked e s).doc.recomputed = s.doc.recomputed ++
      [(e.CutZName, true)] := by
  unfold onFlipZclicked
  simp only [ha, hd, Bool.not_true, Bool.false_eq_true, if_false, hb]
  generalize hd1 : s.doc.modify e.BoxZName (fun o => { o with Placement :=
    if s.ui.flipZ = true then { b.Placement with z := b.Placement.z + b.Height }
    else { b.Placement with z := b.Placement.z - b.Height } }) = d1
  have hrec : d1.recomputed = s.doc.recomputed := by
    rw [← hd1]
    rfl
  have hiso : ∀ m, (d1.getObject m).isSome = (s.doc.getObject m).isSome := by
    intro m
    rw [← hd1]
    apply isSome_getObject_modify
    intro _
    rfl
  clear hd1
  cases hcx : d1.getObject e.CutZName with
  | none =>
    have := hiso e.CutZName
    rw [hcx, hc] at this
    cases this
  | some cx =>
    simp only [Document.recomputeFeature, hrec]

/-! ### The sort-out step -/

theorem isBooleanLike_iff (e : Env) (o : DocumentObject) :
    isBooleanLike e o = true ↔
      (e.isDerivedFrom o.typeId "Part::Boolean" = true ∨
        e.isDerivedFrom o.typeId "Part::MultiCommon" = true ∨
        e.isDerivedFrom o.typeId "Part::MultiFuse" = true ∨
        e.isDerivedFrom o.typeId "Part::Thickness" = true ∨
        e.isDerivedFrom o.typeId "Part::FilletBase" = true) := by
  unfold isBooleanLike
  simp only [Bool.or_eq_true, or_assoc]

theorem eraseAll_spec (out l : List String) (hnd : l.Nodup) :
    (out.foldl (fun cut it2 => cut.erase it2) l).Sublist l ∧
    (out.foldl (fun cut it2 => cut.erase it2) l).Nodup ∧
    ∀ x, x ∈ out.foldl (fun cut it2 => cut.erase it2) l ↔ x ∈ l ∧ x ∉ out := by
  induction out generalizing l with
  | nil => exact ⟨List.Sublist.refl _, hnd, fun x => by simp⟩
  | cons a out ih =>
    rw [List.foldl_cons]
    obtain ⟨h1, h2, h3⟩ := ih (l.erase a) (hnd.erase a)
    refine ⟨h1.trans (List.erase_sublist a l), h2, fun x => ?_⟩
    rw [h3, hnd.mem_erase_iff, List.mem_cons, not_or]
    tauto

theorem sortOutStep_spec (e : Env) (d : Document) (l : List String) (it : String)
    (hnd : l.Nodup) :
    (sortOutStep e d l it).Sublist l ∧ (sortOutStep e d l it).Nodup ∧
    ∀ x, x ∈ sortOutStep e d l it ↔
      x ∈ l ∧ ¬ ∃ o, d.getObject it = some o ∧ isBooleanLike e o = true ∧ x ∈ o.getOutList := by
  unfold sortOutStep
  cases hg : d.getObject it with
  | none => exact ⟨List.Sublist.refl _, hnd, fun x => by simp⟩
  | some o =>
    simp only []
    by_cases hb : isBooleanLike e o = true
    · rw [if_pos hb]
      obtain ⟨h1, h2, h3⟩ := eraseAll_spec o.getOutList l hnd
      refine ⟨h1, h2, fun x => ?_⟩
      rw [h3]
      constructor
      · rintro ⟨hx, hn⟩
        exact ⟨hx, fun ⟨o1, ho1, _, hm⟩ => hn (by cases ho1; exact hm)⟩
      · rintro ⟨hx, hn⟩
        exact ⟨hx, fun hm => hn ⟨o, rfl, hb, hm⟩⟩
    · rw [if_neg hb]
      refine ⟨List.Sublist.refl _, hnd, fun x => ?_⟩
      constructor
      · intro hx
        exact ⟨hx, fun ⟨o1, ho1, hb1, _⟩ => hb (by cases ho1; exact hb1)⟩
      · exact fun h => h.1

theorem sortOutLoop_spec (e : Env) (d : Document) (vis l : List String) (hnd : l.Nodup) :
    (vis.foldl (sortOutStep e d) l).Sublist l ∧
    ∀ x, x ∈ vis.foldl (sortOutStep e d) l ↔
      x ∈ l ∧ ¬ ∃ it ∈ vis, ∃ o, d.getObject it = some o ∧ isBooleanLike e o = true ∧
        x ∈ o.getOutList := by
  induction vis generalizing l with
  | nil => exact ⟨List.Sublist.refl _, fun x => by simp⟩
  | cons a vis ih =>
    rw [List.foldl_cons]
    obtain ⟨s1, s2, s3⟩ := sortOutStep_spec e d l a hnd
    obtain ⟨h1, h2⟩ := ih (sortOutStep e d l a) s2
    refine ⟨h1.trans s1, fun x => ?_⟩
    rw [h2, s3]
    constructor
    · rintro ⟨⟨hx, hna⟩, hnv⟩
      refine ⟨hx, ?_⟩
      rintro ⟨it, hit, o, ho, hb, hm⟩
      rcases List.mem_cons.mp hit with h | h
      · subst h
        exact hna ⟨o, ho, hb, hm⟩
      · exact hnv ⟨it, h, o, ho, hb, hm⟩
    · rintro ⟨hx, hn⟩
      exact ⟨⟨hx, fun ⟨o, ho, hb, hm⟩ => hn ⟨a, List.mem_cons_self _ _, o, ho, hb, hm⟩⟩,
        fun ⟨it, hit, o, ho, hb, hm⟩ => hn ⟨it, List.mem_cons_of_mem _ hit, o, ho, hb, hm⟩⟩

/-! ### No null pointer is dereferenced in `startCutting` -/

theorem removeGenerated_nullDeref (n : String) (p : State × Option String) :
    (removeGenerated n p).1.nullDeref = p.1.nullDeref := by
  unfold removeGenerated
  split
  · cases p.1
    rfl
  · rfl

theorem eraseVisible_nullDeref (a : Option String) (s : State) :
    (eraseVisible a s).nullDeref = s.nullDeref := by
  cases a <;> rfl

theorem removeLinks_nullDeref (links : List String) (s : State) :
    (links.foldl (fun s it =>
      let s := if (s.doc.getObject it).isSome then eraseVisible (some it) s else s
      { s with doc := s.doc.removeObject it }) s).nullDeref = s.nullDeref := by
  induction links generalizing s with
  | nil => rfl
  | cons a l ih =>
    rw [List.foldl_cons, ih]
    simp only []
    split <;> rfl

theorem removeCompound_nullDeref (e : Env) (p : State × Option String) :
    (removeCompound e p).nullDeref = p.1.nullDeref := by
  unfold removeCompound
  split
  · rfl
  · rw [removeLinks_nullDeref]
    simp only [eraseVisible_nullDeref]

theorem cleanup_nullDeref (e : Env) (s : State) :
    (cleanup e s).nullDeref = s.nullDeref := by
  unfold cleanup
  simp only [removeCompound_nullDeref, removeGenerated_nullDeref]

theorem onRefreshCutPBclicked_nullDeref (e : Env) (s : State) (ha : s.activeDocument = true) :
    (onRefreshCutPBclicked e s).nullDeref = s.nullDeref := by
  cases hx : (s.doc.getObject e.CutXName).isSome <;>
    cases hy : (s.doc.getObject e.CutYName).isSome <;>
    cases hz : (s.doc.getObject e.CutZName).isSome <;>
    (unfold onRefreshCutPBclicked blockSignals State.log
     simp only [ha, hx, hy, hz, Bool.not_true, Bool.false_eq_true, if_false, if_true,
       Bool.or_self, Bool.or_true, Bool.true_or]
     split <;> rfl)

theorem restoreVisibilityFrom_nullDeref (e : Env) (fuel i : Nat) (s : State)
    (ha : s.activeDocument = true) :
    (restoreVisibilityFrom e fuel i s).nullDeref = s.nullDeref := by
  induction fuel generalizing i s with
  | zero => rfl
  | succ k ih =>
    unfold restoreVisibilityFrom
    split
    · rfl
    · have key : ∀ s1 : State, s1.activeDocument = true → s1.nullDeref = s.nullDeref →
          (restoreVisibilityFrom e k (i + 1) s1).nullDeref = s.nullDeref :=
        fun s1 h1 h3 => (ih _ _ h1).trans h3
      apply key
      · split
        · exact ha
        · exact (onRefreshCutPBclicked_activeDocument e s).trans ha
      · split
        · rfl
        · exact onRefreshCutPBclicked_nullDeref e s ha

theorem restoreVisibility_nullDeref (e : Env) (s : State) (ha : s.activeDocument = true) :
    (restoreVisibility e s).nullDeref = s.nullDeref :=
  restoreVisibilityFrom_nullDeref e _ _ s ha

theorem collectStep_nullDeref (e : Env) (p : List String × State) (it : String) :
    (collectStep e p it).2.nullDeref = p.2.nullDeref := by
  unfold collectStep
  split
  · rfl
  · simp only []
    split_ifs <;> rfl

theorem collect_foldl_nullDeref (e : Env) (l : List String) (p : List String × State) :
    (l.foldl (collectStep e) p).2.nullDeref = p.2.nullDeref := by
  induction l generalizing p with
  | nil => rfl
  | cons a l ih =>
    rw [List.foldl_cons, ih, collectStep_nullDeref]

theorem collectObjectsListCut_nullDeref (e : Env) (s : State) :
    (collectObjectsListCut e s).2.nullDeref = s.nullDeref :=
  collect_foldl_nullDeref e _ _

theorem enableSliders_nullDeref (s : State) :
    (enableSliders s).nullDeref = s.nullDeref := rfl

theorem collectCutList_nullDeref (e : Env) (s : State) (ha : s.activeDocument = true) :
    (collectCutList e s).2.nullDeref = s.nullDeref := by
  have a1 : (if (!s.docIsActive) = true then onRefreshCutPBclicked e s else s).activeDocument
      = true := (refreshed_activeDocument e s).trans ha
  unfold collectCutList
  simp only []
  rw [collectObjectsListCut_nullDeref, enableSliders_nullDeref,
    restoreVisibility_nullDeref _ _ ((cleanup_activeDocument e _).trans a1), cleanup_nullDeref]
  split
  · exact onRefreshCutPBclicked_nullDeref e s ha
  · rfl

theorem fillCompound_nullDeref (e : Env) (c : String) (l : List String) (i : Nat) (s : State) :
    (fillCompound e c l i s).state.nullDeref = s.nullDeref := by
  induction l generalizing i s with
  | nil => rfl
  | cons a l ih =>
    unfold fillCompound
    simp only []
    split
    · rfl
    · rw [ih]

theorem refreshCutRanges_nullDeref (e : Env) (bb : SbBox3f) (fxv fyv fzv fxr fyr fzr : Bool)
    (s : State) : (refreshCutRanges e bb fxv fyv fzv fxr fyr fzr s).nullDeref = s.nullDeref := by
  obtain ⟨u, hu, -⟩ := refreshCutRanges_frame e bb fxv fyv fzv fxr fyr fzr s
  rw [hu]

theorem buildCompound_nullDeref (e : Env) (l : List String) (s : State) :
    (buildCompound e l s).state.nullDeref = s.nullDeref := by
  unfold buildCompound
  simp only []
  split
  · rfl
  · rename_i c d _
    have h := fillCompound_nullDeref e c l 0 { s with ui.RefreshCutPB := false, doc := d }
    revert h
    cases fillCompound e c l 0 { s with ui.RefreshCutPB := false, doc := d } with
    | returned s1 => exact fun h => h
    | running s1 =>
      intro h
      simp only []
      split <;> exact h

theorem cutAxisX_nullDeref (e : Env) (c : String) (size origin : Vector3d) (pos : ℚ)
    (s : State) : (cutAxisX e c size origin pos s).state.nullDeref = s.nullDeref := by
  unfold cutAxisX Document.addObject State.log
  simp only []
  split_ifs <;> rfl

theorem cutAxisY_nullDeref (e : Env) (c : String) (size origin : Vector3d) (pos : ℚ)
    (s : State) : (cutAxisY e c size origin pos s).state.nullDeref = s.nullDeref := by
  unfold cutAxisY
  split
  · lift_lets
    intro s1
    have h1 : s1.nullDeref = s.nullDeref := by
      show (if s.hasBoxX = true then _ else s).nullDeref = _
      split
      · exact refreshCutRanges_nullDeref _ _ _ _ _ _ _ _ _
      · rfl
    clear_value s1
    cases hb : s1.doc.addObject e "Part::Box" e.BoxYName with
    | none => exact h1
    | some p =>
      obtain ⟨n, d⟩ := p
      dsimp only []
      split <;> exact h1
  · rfl

theorem cutAxisZ_nullDeref (e : Env) (c : String) (size origin : Vector3d) (pos : ℚ)
    (s : State) : (cutAxisZ e c size origin pos s).state.nullDeref = s.nullDeref := by
  unfold cutAxisZ
  split
  · lift_lets
    intro s1
    have h1 : s1.nullDeref = s.nullDeref := by
      show (if (s.hasBoxX || s.hasBoxY) = true then _ else s).nullDeref = _
      split
      · exact refreshCutRanges_nullDeref _ _ _ _ _ _ _ _ _
      · rfl
    clear_value s1
    cases hb : s1.doc.addObject e "Part::Box" e.BoxZName with
    | none => exact h1
    | some p =>
      obtain ⟨n, d⟩ := p
      dsimp only []
      split <;> exact h1
  · rfl

theorem createCuts_nullDeref (e : Env) (c : String) (bb : SbBox3f) (s : State) :
    (createCuts e c bb s).nullDeref = s.nullDeref := by
  unfold createCuts
  lift_lets
  intro px py pz s1 size origin s2
  have h2 : s2.nullDeref = s.nullDeref := refreshCutRanges_nullDeref _ _ _ _ _ _ _ _ _
  have hx := cutAxisX_nullDeref e c size origin px s2
  cases hfx : cutAxisX e c size origin px s2 with
  | returned t => rw [hfx] at hx; exact hx.trans h2
  | running t =>
    rw [hfx] at hx
    simp only []
    have hy := cutAxisY_nullDeref e c size origin py t
    cases hfy : cutAxisY e c size origin py t with
    | returned u => rw [hfy] at hy; exact (hy.trans hx).trans h2
    | running u =>
      rw [hfy] at hy
      simp only []
      have hz := cutAxisZ_nullDeref e c size origin pz u
      cases hfz : cutAxisZ e c size origin pz u with
      | returned v => rw [hfz] at hz; exact ((hz.trans hy).trans hx).trans h2
      | running v => rw [hfz] at hz; exact ((hz.trans hy).trans hx).trans h2

theorem startCutting_nullDeref (e : Env) (isInitial : Bool) (s : State) :
    (startCutting e isInitial s).nullDeref = s.nullDeref := by
  unfold startCutting prepareCompound
  cases ha : s.activeDocument with
  | false => rfl
  | true =>
    simp only [Bool.not_true, Bool.false_eq_true, if_false]
    have hc := collectCutList_nullDeref e s ha
    revert hc
    generalize collectCutList e s = p
    intro hc
    split_ifs
    · cases isInitial <;> exact hc
    · exact hc
    · have hb := buildCompound_nullDeref e p.1 p.2
      cases hbc : buildCompound e p.1 p.2 with
      | returned t => rw [hbc] at hb; exact hb.trans hc
      | compound c bb t =>
        rw [hbc] at hb
        exact (createCuts_nullDeref e c bb t).trans (hb.trans hc)

/-! ### No null pointer is dereferenced in the handlers -/

theorem sameNull_refl (s : State) : SameNull s s := rfl

theorem sameNull_trans {a b c : State} (h1 : SameNull a b) (h2 : SameNull b c) :
    SameNull a c :=
  Eq.trans h2 h1

theorem sameNull_setVisibility (s : State) (n : String) (v : Bool) :
    SameNull s { s with doc := s.doc.setVisibility n v } := rfl

theorem sameNull_recomputeFeature (s : State) (n : String) (r : Bool) :
    SameNull s { s with doc := s.doc.recomputeFeature n r } := rfl

theorem sameNull_log (s : State) (msg : String) : SameNull s (s.log msg) := rfl

theorem sameNull_refresh (e : Env) (bb : SbBox3f) (fxv fyv fzv fxr fyr fzr : Bool)
    (s : State) : SameNull s (refreshCutRanges e bb fxv fyv fzv fxr fyr fzr s) :=
  refreshCutRanges_nullDeref _ _ _ _ _ _ _ _ _

theorem sameNull_ite (s a b : State) (c : Prop) [Decidable c]
    (h1 : SameNull s a) (h2 : SameNull s b) : SameNull s (if c then a else b) := by
  split
  · exact h1
  · exact h2

theorem sameNull_startCutting (e : Env) (isInitial : Bool) (s : State) (msg : String) :
    SameNull s (startCutting e isInitial (s.log msg)) :=
  startCutting_nullDeref e isInitial (s.log msg)

theorem sameNull_refreshXLimits (e : Env) (s : State) :
    SameNull s (refreshXLimits e s).state := by
  unfold refreshXLimits
  split
  · exact sameNull_refl _
  · lift_lets
    intro storedX s1 bb s2 s3
    have k1 : SameNull s s1 := sameNull_setVisibility _ _ _
    have k2 : SameNull s1 s2 := sameNull_refresh _ _ _ _ _ _ _ _ _
    have k3 : SameNull s2 s3 := sameNull_setVisibility _ _ _
    have k : SameNull s s3 := sameNull_trans (sameNull_trans k1 k2) k3
    split_ifs <;> exact k

theorem sameNull_refreshYLimits (e : Env) (s : State) :
    SameNull s (refreshYLimits e s).state := by
  unfold refreshYLimits
  split
  · exact sameNull_refl _
  · lift_lets
    intro storedY s1 bb s2 s3
    have k1 : SameNull s s1 := sameNull_setVisibility _ _ _
    have k2 : SameNull s1 s2 := sameNull_refresh _ _ _ _ _ _ _ _ _
    have k3 : SameNull s2 s3 := sameNull_setVisibility _ _ _
    have k : SameNull s s3 := sameNull_trans (sameNull_trans k1 k2) k3
    split_ifs <;> exact k

theorem sameNull_recomputeAfterX (e : Env) (s : State) :
    SameNull s (recomputeAfterX e s) := by
  unfold recomputeAfterX
  split
  · split
    · exact sameNull_startCutting _ _ _ _
    · lift_lets
      intro s1 s2 bb s3 s4 s5 s6
      have k1 : SameNull s s1 := sameNull_setVisibility _ _ _
      have k2 : SameNull s1 s2 := sameNull_setVisibility _ _ _
      have k3 : SameNull s2 s3 := sameNull_refresh _ _ _ _ _ _ _ _ _
      have k4 : SameNull s3 s4 :=
        sameNull_ite _ _ _ _ (sameNull_refresh _ _ _ _ _ _ _ _ _) (sameNull_refl _)
      have k5 : SameNull s4 s5 := sameNull_setVisibility _ _ _
      have k6 : SameNull s5 s6 := sameNull_setVisibility _ _ _
      exact sameNull_trans (sameNull_trans (sameNull_trans (sameNull_trans (sameNull_trans
        (sameNull_trans k1 k2) k3) k4) k5) k6) (sameNull_recomputeFeature _ _ _)
  · split
    · split
      · exact sameNull_log _ _
      · lift_lets
        intro s1 s2 bb t1 t2 u1 s3 s4 s5
        have k1 : SameNull s s1 := sameNull_setVisibility _ _ _
        have k2 : SameNull s1 s2 := sameNull_setVisibility _ _ _
        have j1 : SameNull s2 t1 := sameNull_refresh _ _ _ _ _ _ _ _ _
        have j2 : SameNull t1 t2 :=
          sameNull_ite _ _ _ _ (sameNull_refresh _ _ _ _ _ _ _ _ _) (sameNull_refl _)
        have j3 : SameNull s2 u1 := sameNull_refresh _ _ _ _ _ _ _ _ _
        have k3 : SameNull s2 s3 :=
          sameNull_ite _ _ _ _
            (sameNull_trans (sameNull_trans j1 j2)
              (sameNull_ite _ _ _ _ (sameNull_refresh _ _ _ _ _ _ _ _ _) (sameNull_refl _)))
            (sameNull_trans j3
              (sameNull_ite _ _ _ _ (sameNull_refresh _ _ _ _ _ _ _ _ _) (sameNull_refl _)))
        have k4 : SameNull s3 s4 := sameNull_setVisibility _ _ _
        have k5 : SameNull s4 s5 := sameNull_setVisibility _ _ _
        exact sameNull_trans (sameNull_trans (sameNull_trans (sameNull_trans
          (sameNull_trans k1 k2) k3) k4) k5) (sameNull_recomputeFeature _ _ _)
    · lift_lets
      intro bb s1
      have k1 : SameNull s s1 := sameNull_refresh _ _ _ _ _ _ _ _ _
      exact sameNull_trans k1 (sameNull_recomputeFeature _ _ _)

theorem sameNull_recomputeAfterY (e : Env) (s : State) :
    SameNull s (recomputeAfterY e s) := by
  unfold recomputeAfterY
  split
  · split
    · exact sameNull_log _ _
    · lift_lets
      intro s1 s2 bb s3 s4 s5 s6
      have k1 : SameNull s s1 := sameNull_setVisibility _ _ _
      have k2 : SameNull s1 s2 := sameNull_setVisibility _ _ _
      have k3 : SameNull s2 s3 := sameNull_refresh _ _ _ _ _ _ _ _ _
      have k4 : SameNull s3 s4 :=
        sameNull_ite _ _ _ _ (sameNull_refresh _ _ _ _ _ _ _ _ _) (sameNull_refl _)
      have k5 : SameNull s4 s5 := sameNull_setVisibility _ _ _
      have k6 : SameNull s5 s6 := sameNull_setVisibility _ _ _
      exact sameNull_trans (sameNull_trans (sameNull_trans (sameNull_trans (sameNull_trans
        (sameNull_trans k1 k2) k3) k4) k5) k6) (sameNull_recomputeFeature _ _ _)
  · lift_lets
    intro bb s1 s2
    have k1 : SameNull s s1 := sameNull_refresh _ _ _ _ _ _ _ _ _
    have k2 : SameNull s1 s2 := sameNull_recomputeFeature _ _ _
    refine sameNull_trans (sameNull_trans k1 k2) ?_
    exact sameNull_ite _ _ _ _ (sameNull_refreshXLimits e s2) (sameNull_refl _)

theorem sameNull_recomputeAfterZ (e : Env) (s : State) :
    SameNull s (recomputeAfterZ e s) := by
  unfold recomputeAfterZ
  lift_lets
  intro s1
  have k1 : SameNull s s1 := sameNull_recomputeFeature _ _ _
  have k2 : SameNull s1
      (if s1.hasBoxX = true then refreshXLimits e s1 else Flow.running s1).state := by
    split
    · exact sameNull_refreshXLimits e s1
    · exact sameNull_refl _
  cases hf : (if s1.hasBoxX = true then refreshXLimits e s1 else Flow.running s1) with
  | returned s2 =>
    rw [hf] at k2
    exact sameNull_trans k1 k2
  | running s2 =>
    rw [hf] at k2
    exact sameNull_trans (sameNull_trans k1 k2)
      (sameNull_ite _ _ _ _ (sameNull_refreshYLimits e s2) (sameNull_refl _))

theorem onCutXvalueChanged_nullDeref (e : Env) (val : ℚ) (s : State) :
    (onCutXvalueChanged e val s).nullDeref = s.nullDeref := by
  cases ha : s.activeDocument with
  | false =>
    unfold onCutXvalueChanged
    rw [ha]
    rfl
  | true =>
    cases hd : s.docIsActive with
    | false =>
      unfold onCutXvalueChanged
      simp only [ha, hd, Bool.not_true, Bool.not_false, Bool.false_eq_true, if_false, if_true]
      exact onRefreshCutPBclicked_nullDeref e s ha
    | true =>
      unfold onCutXvalueChanged
      simp only [ha, hd, Bool.not_true, Bool.false_eq_true, if_false]
      repeat' first
        | exact (startCutting_nullDeref _ _ _).trans rfl
        | exact (sameNull_recomputeAfterX e _).trans rfl
        | with_reducible rfl
        | split

theorem onCutYvalueChanged_nullDeref (e : Env) (val : ℚ) (s : State) :
    (onCutYvalueChanged e val s).nullDeref = s.nullDeref := by
  cases ha : s.activeDocument with
  | false =>
    unfold onCutYvalueChanged
    rw [ha]
    rfl
  | true =>
    cases hd : s.docIsActive with
    | false =>
      unfold onCutYvalueChanged
      simp only [ha, hd, Bool.not_true, Bool.not_false, Bool.false_eq_true, if_false, if_true]
      exact onRefreshCutPBclicked_nullDeref e s ha
    | true =>
      unfold onCutYvalueChanged
      simp only [ha, hd, Bool.not_true, Bool.false_eq_true, if_false]
      repeat' first
        | exact (startCutting_nullDeref _ _ _).trans rfl
        | exact (sameNull_recomputeAfterY e _).trans rfl
        | with_reducible rfl
        | split

theorem onCutZvalueChanged_nullDeref (e : Env) (val : ℚ) (s : State) :
    (onCutZvalueChanged e val s).nullDeref = s.nullDeref := by
  cases ha : s.activeDocument with
  | false =>
    unfold onCutZvalueChanged
    rw [ha]
    rfl
  | true =>
    cases hd : s.docIsActive with
    | false =>
      unfold onCutZvalueChanged
      simp only [ha, hd, Bool.not_true, Bool.not_false, Bool.false_eq_true, if_false, if_true]
      exact onRefreshCutPBclicked_nullDeref e s ha
    | true =>
      unfold onCutZvalueChanged
      simp only [ha, hd, Bool.not_true, Bool.false_eq_true, if_false]
      repeat' first
        | exact (startCutting_nullDeref _ _ _).trans rfl
        | exact (sameNull_recomputeAfterZ e _).trans rfl
        | with_reducible rfl
        | split

theorem onFlipXclicked_nullDeref (e : Env) (s : State) :
    (onFlipXclicked e s).nullDeref = s.nullDeref := by
  cases ha : s.activeDocument with
  | false =>
    unfold onFlipXclicked
    rw [ha]
    rfl
  | true =>
    cases hd : s.docIsActive with
    | false =>
      unfold onFlipXclicked
      simp only [ha, hd, Bool.not_true, Bool.not_false, Bool.false_eq_true, if_false, if_true]
      exact onRefreshCutPBclicked_nullDeref e s ha
    | true =>
      unfold onFlipXclicked
      simp only [ha, hd, Bool.not_true, Bool.false_eq_true, if_false]
      repeat' first
        | exact (startCutting_nullDeref _ _ _).trans rfl
        | with_reducible rfl
        | split

theorem onFlipZclicked_nullDeref (e : Env) (s : State) :
    (onFlipZclicked e s).nullDeref = s.nullDeref := by
  cases ha : s.activeDocument with
  | false =>
    unfold onFlipZclicked
    rw [ha]
    rfl
  | true =>
    cases hd : s.docIsActive with
    | false =>
      unfold onFlipZclicked
      simp only [ha, hd, Bool.not_true, Bool.not_false, Bool.false_eq_true, if_false, if_true]
      exact onRefreshCutPBclicked_nullDeref e s ha
    | true =>
      unfold onFlipZclicked
      simp only [ha, hd, Bool.not_true, Bool.false_eq_true, if_false]
      repeat' first
        | exact (startCutting_nullDeref _ _ _).trans rfl
        | with_reducible rfl
        | split

theorem onFlipYclicked_nullDeref (e : Env) (s : State) :
    (onFlipYclicked e s).nullDeref = (s.nullDeref || (s.activeDocument && s.docIsActive &&
      (s.doc.getObject e.BoxYName).isSome && (s.doc.getObject e.CutYName).isSome &&
      s.hasBoxZ && !(s.doc.getObject e.CutZName).isSome)) := by
  cases ha : s.activeDocument with
  | false =>
    unfold onFlipYclicked
    rw [ha]
    simp only [Bool.false_and, Bool.or_false]
    rfl
  | true =>
    cases hd : s.docIsActive with
    | false =>
      unfold onFlipYclicked
      simp only [ha, hd, Bool.not_true, Bool.not_false, Bool.false_eq_true, if_false, if_true,
        Bool.false_and, Bool.and_false, Bool.or_false]
      exact onRefreshCutPBclicked_nullDeref e s ha
    | true =>
      cases hb : s.doc.getObject e.BoxYName with
      | none =>
        unfold onFlipYclicked
        simp only [ha, hd, Bool.not_true, Bool.false_eq_true, if_false, hb, Option.isSome_none,
          Bool.false_and, Bool.and_false, Bool.or_false]
        exact (startCutting_nullDeref _ _ _).trans rfl
      | some b =>
        unfold onFlipYclicked
        simp only [ha, hd, Bool.not_true, Bool.false_eq_true, if_false, hb, Option.isSome_some,
          Bool.true_and]
        generalize hd1 : s.doc.modify e.BoxYName (fun o => { o with Placement :=
          if s.ui.flipY = true then { b.Placement with y := b.Placement.y + b.Width }
          else { b.Placement with y := b.Placement.y - b.Width } }) = d1
        have hiso : ∀ m, (d1.getObject m).isSome = (s.doc.getObject m).isSome := by
          intro m
          rw [← hd1]
          apply isSome_getObject_modify
          intro _
          rfl
        clear hd1
        rw [← hiso e.CutYName, ← hiso e.CutZName]
        cases hcy : d1.getObject e.CutYName with
        | none =>
          simp only [Option.isSome_none, Bool.false_and, Bool.and_false, Bool.or_false]
          exact (startCutting_nullDeref _ _ _).trans rfl
        | some cy =>
          simp only [Option.isSome_some, Bool.true_and]
          cases hZ : s.hasBoxZ with
          | false =>
            simp only [Bool.false_eq_true, if_false, Bool.false_and, Bool.or_false]
          | true =>
            simp only [if_true, Bool.true_and, pointer_eq]
            cases hcz : (d1.getObject e.CutZName).isSome with
            | false => simp
            | true => simp

/-! ### The flags after the boxes and cuts have been created -/

theorem cutAxisX_flags (e : Env) (c : String) (size origin : Vector3d) (pos : ℚ) (s : State)
    (hb : s.doc.getObject e.BoxXName = none) (hc : s.doc.getObject e.CutXName = none)
    (hne : e.BoxXName ≠ e.CutXName) (h0 : s.hasBoxX = false) :
    ((cutAxisX e c size origin pos s).state.hasBoxX = true ↔
      ((cutAxisX e c size origin pos s).state.doc.getObject e.BoxXName).isSome = true ∧
      ((cutAxisX e c size origin pos s).state.doc.getObject e.CutXName).isSome = true) ∧
    (cutAxisX e c size origin pos s).state.hasBoxY = s.hasBoxY ∧
    (cutAxisX e c size origin pos s).state.hasBoxZ = s.hasBoxZ := by
  have hne2 : e.CutXName ≠ e.BoxXName := fun h => hne h.symm
  unfold cutAxisX
  by_cases hg : s.ui.groupBoxX = true
  · simp only [hg, if_true]
    rw [addObject_of_free e s.doc _ _ hb]
    by_cases hcb : e.canCreate "Part::Box" = true
    · simp only [hcb, if_true]
      rw [addObject_of_free]
      · by_cases hcc : e.canCreate "Part::Cut" = true
        · simp only [hcc, if_true, Flow.state, getObject_recomputeFeature]
          simp [getObject_modify, getObject_mk_push, getObject_eta, hb, hc, hne, hne2]
        · have hcc2 : e.canCreate "Part::Cut" = false := by simpa using hcc
          simp only [hcc2, Bool.false_eq_true, if_false, Flow.state, State.log]
          simp [getObject_modify, getObject_mk_push, getObject_eta, hb, hc, hne, hne2, h0]
      · simp [getObject_modify, getObject_mk_push, getObject_eta, hc, hne, hne2]
    · have hcb2 : e.canCreate "Part::Box" = false := by simpa using hcb
      simp only [hcb2, Bool.false_eq_true, if_false, Flow.state, State.log]
      simp [hb, hc, h0]
  · have hg2 : s.ui.groupBoxX = false := by simpa using hg
    simp only [hg2, Bool.false_eq_true, if_false, Flow.state]
    simp [hb, hc, h0]

theorem cutAxisY_flags (e : Env) (c : String) (size origin : Vector3d) (pos : ℚ) (s : State)
    (hb : s.doc.getObject e.BoxYName = none) (hc : s.doc.getObject e.CutYName = none)
    (hne : e.BoxYName ≠ e.CutYName) (h0 : s.hasBoxY = false) :
    ((cutAxisY e c size origin pos s).state.hasBoxY = true ↔
      ((cutAxisY e c size origin pos s).state.doc.getObject e.BoxYName).isSome = true ∧
      ((cutAxisY e c size origin pos s).state.doc.getObject e.CutYName).isSome = true) ∧
    (cutAxisY e c size origin pos s).state.hasBoxX = s.hasBoxX ∧
    (cutAxisY e c size origin pos s).state.hasBoxZ = s.hasBoxZ := by
  have hne2 : e.CutYName ≠ e.BoxYName := fun h => hne h.symm
  unfold cutAxisY
  by_cases hg : s.ui.groupBoxY = true
  · simp only [hg, if_true]
    generalize hs1 : (if s.hasBoxX = true then
      refreshCutRanges e (getViewBoundingBox e s) false false false false true false s
      else s) = s1
    have hU : UiOnly s s1 := by
      rw [← hs1]
      split
      · exact refreshCutRanges_frame _ _ _ _ _ _ _ _ _
      · exact uiOnly_refl s
    obtain ⟨u, hu, hbtn⟩ := hU
    subst hu
    clear hs1
    simp only []
    rw [addObject_of_free e s.doc _ _ hb]
    by_cases hcb : e.canCreate "Part::Box" = true
    · simp only [hcb, if_true]
      rw [addObject_of_free]
      · by_cases hcc : e.canCreate "Part::Cut" = true
        · simp only [hcc, if_true, Flow.state, getObject_recomputeFeature]
          by_cases hx : s.hasBoxX = true
          · simp only [hx, if_true]
            simp [getObject_modify, getObject_mk_push, getObject_eta, hb, hc, hne, hne2]
          · have hx2 : s.hasBoxX = false := by simpa using hx
            simp only [hx2, Bool.false_eq_true, if_false]
            simp [getObject_modify, getObject_mk_push, getObject_eta, hb, hc, hne, hne2]
        · have hcc2 : e.canCreate "Part::Cut" = false := by simpa using hcc
          simp only [hcc2, Bool.false_eq_true, if_false, Flow.state, State.log]
          simp [getObject_modify, getObject_mk_push, getObject_eta, hb, hc, hne, hne2, h0]
      · simp [getObject_modify, getObject_mk_push, getObject_eta, hc, hne, hne2]
    · have hcb2 : e.canCreate "Part::Box" = false := by simpa using hcb
      simp only [hcb2, Bool.false_eq_true, if_false, Flow.state, State.log]
      simp [hb, hc, h0]
  · have hg2 : s.ui.groupBoxY = false := by simpa using hg
    simp only [hg2, Bool.false_eq_true, if_false, Flow.state]
    simp [hb, hc, h0]

theorem cutAxisZ_flags (e : Env) (c : String) (size origin : Vector3d) (pos : ℚ) (s : State)
    (hb : s.doc.getObject e.BoxZName = none) (hc : s.doc.getObject e.CutZName = none)
    (hne : e.BoxZName ≠ e.CutZName) (h0 : s.hasBoxZ = false) :
    ((cutAxisZ e c size origin pos s).state.hasBoxZ = true ↔
      ((cutAxisZ e c size origin pos s).state.doc.getObject e.BoxZName).isSome = true ∧
      ((cutAxisZ e c size origin pos s).state.doc.getObject e.CutZName).isSome = true) ∧
    (cutAxisZ e c size origin pos s).state.hasBoxX = s.hasBoxX ∧
    (cutAxisZ e c size origin pos s).state.hasBoxY = s.hasBoxY := by
  have hne2 : e.CutZName ≠ e.BoxZName := fun h => hne h.symm
  unfold cutAxisZ
  by_cases hg : s.ui.groupBoxZ = true
  · simp only [hg, if_true]
    generalize hs1 : (if (s.hasBoxX || s.hasBoxY) = true then
      refreshCutRanges e (getViewBoundingBox e s) false false false false false true s
      else s) = s1
    have hU : UiOnly s s1 := by
      rw [← hs1]
      split
      · exact refreshCutRanges_frame _ _ _ _ _ _ _ _ _
      · exact uiOnly_refl s
    obtain ⟨u, hu, hbtn⟩ := hU
    subst hu
    clear hs1
    simp only []
    rw [addObject_of_free e s.doc _ _ hb]
    by_cases hcb : e.canCreate "Part::Box" = true
    · simp only [hcb, if_true]
      rw [addObject_of_free]
      · by_cases hcc : e.canCreate "Part::Cut" = true
        · simp only [hcc, if_true, Flow.state, getObject_recomputeFeature]
          cases hx : s.hasBoxX <;> cases hy : s.hasBoxY <;>
            simp [getObject_modify, getObject_mk_push, getObject_eta, hb, hc, hne, hne2]
        · have hcc2 : e.canCreate "Part::Cut" = false := by simpa using hcc
          simp only [hcc2, Bool.false_eq_true, if_false, Flow.state, State.log]
          simp [getObject_modify, getObject_mk_push, getObject_eta, hb, hc, hne, hne2, h0]
      · simp [getObject_modify, getObject_mk_push, getObject_eta, hc, hne, hne2]
    · have hcb2 : e.canCreate "Part::Box" = false := by simpa using hcb
      simp only [hcb2, Bool.false_eq_true, if_false, Flow.state, State.log]
      simp [hb, hc, h0]
  · have hg2 : s.ui.groupBoxZ = false := by simpa using hg
    simp only [hg2, Bool.false_eq_true, if_false, Flow.state]
    simp [hb, hc, h0]

theorem iff_of_false_none {b : Bool} {x y : Option DocumentObject} (hb : b = false)
    (hx : x = none) : b = true ↔ x.isSome = true ∧ y.isSome = true := by
  rw [hb, hx]
  simp

theorem flagsExact_of_flows (e : Env) (c : String) (size origin : Vector3d) (s0 : State)
    (px py pz : ℚ)
    (hd : e.cutNames.Nodup) (hfree : ∀ n ∈ e.cutNames, s0.doc.getObject n = none)
    (hX0 : s0.hasBoxX = false) (hY0 : s0.hasBoxY = false) (hZ0 : s0.hasBoxZ = false) :
    FlagsExact e
      (match cutAxisX e c size origin px s0 with
      | Flow.returned s => s
      | Flow.running s1 =>
        match cutAxisY e c size origin py s1 with
        | Flow.returned s => s
        | Flow.running s2 =>
          match cutAxisZ e c size origin pz s2 with
          | Flow.returned s => s
          | Flow.running s => s) := by
  simp only [Env.cutNames, List.nodup_cons, List.mem_cons, List.mem_singleton, not_or,
    List.not_mem_nil, not_false_eq_true, List.nodup_nil, and_true] at hd
  obtain ⟨⟨n12, n13, n14, n15, n16⟩, ⟨n23, n24, n25, n26⟩, ⟨n34, n35, n36⟩, ⟨n45, n46⟩, n56⟩ := hd
  have f1 := hfree e.BoxXName (by simp [Env.cutNames])
  have f2 := hfree e.CutXName (by simp [Env.cutNames])
  have f3 := hfree e.BoxYName (by simp [Env.cutNames])
  have f4 := hfree e.CutYName (by simp [Env.cutNames])
  have f5 := hfree e.BoxZName (by simp [Env.cutNames])
  have f6 := hfree e.CutZName (by simp [Env.cutNames])
  obtain ⟨ix, xY, xZ⟩ := cutAxisX_flags e c size origin px s0 f1 f2 n12 hX0
  have frX := (cutAxisX_spec e c size origin px s0 f1 f2 n12).1
  cases hfx : cutAxisX e c size origin px s0 with
  | returned r1 =>
    rw [hfx] at ix xY xZ frX
    simp only [Flow.state] at ix xY xZ frX ⊢
    exact ⟨ix,
      iff_of_false_none (xY.trans hY0) ((frX _ (Ne.symm n13) (Ne.symm n23)).trans f3),
      iff_of_false_none (xZ.trans hZ0) ((frX _ (Ne.symm n15) (Ne.symm n25)).trans f5)⟩
  | running r1 =>
    rw [hfx] at ix xY xZ frX
    simp only [Flow.state] at ix xY xZ frX ⊢
    have g3 := (frX _ (Ne.symm n13) (Ne.symm n23)).trans f3
    have g4 := (frX _ (Ne.symm n14) (Ne.symm n24)).trans f4
    have g5 := (frX _ (Ne.symm n15) (Ne.symm n25)).trans f5
    have g6 := (frX _ (Ne.symm n16) (Ne.symm n26)).trans f6
    obtain ⟨iy, yX, yZ⟩ := cutAxisY_flags e c size origin py r1 g3 g4 n34 (xY.trans hY0)
    have frY := (cutAxisY_spec e c size origin py r1 g3 g4 n34 n23 n24).1
    cases hfy : cutAxisY e c size origin py r1 with
    | returned r2 =>
      rw [hfy] at iy yX yZ frY
      simp only [Flow.state] at iy yX yZ frY ⊢
      refine ⟨?_, iy,
        iff_of_false_none (yZ.trans (xZ.trans hZ0)) ((frY _ (Ne.symm n35) (Ne.symm n45)).trans g5)⟩
      rw [yX, frY _ n13 n14, frY _ n23 n24]
      exact ix
    | running r2 =>
      rw [hfy] at iy yX yZ frY
      simp only [Flow.state] at iy yX yZ frY ⊢
      have k5 := (frY _ (Ne.symm n35) (Ne.symm n45)).trans g5
      have k6 := (frY _ (Ne.symm n36) (Ne.symm n46)).trans g6
      obtain ⟨iz, zX, zY⟩ := cutAxisZ_flags e c size origin pz r2 k5 k6 n56
        (yZ.trans (xZ.trans hZ0))
      have frZ := (cutAxisZ_spec e c size origin pz r2 k5 k6 n56 n25 n26 n45 n46).1
      have hfin : FlagsExact e (cutAxisZ e c size origin pz r2).state := by
        refine ⟨?_, ?_, iz⟩
        · rw [zX, frZ _ n15 n16, frZ _ n25 n26, yX, frY _ n13 n14, frY _ n23 n24]
          exact ix
        · rw [zY, frZ _ n35 n36, frZ _ n45 n46]
          exact iy
      cases hfz : cutAxisZ e c size origin pz r2 with
      | returned r3 =>
        rw [hfz] at hfin
        exact hfin
      | running r3 =>
        rw [hfz] at hfin
        exact hfin

theorem createCuts_flags (e : Env) (c : String) (bb : SbBox3f) (s : State)
    (hd : e.cutNames.Nodup) (hfree : ∀ n ∈ e.cutNames, s.doc.getObject n = none) :
    FlagsExact e (createCuts e c bb s) := by
  unfold createCuts
  obtain ⟨u, hu, -⟩ := refreshCutRanges_frame e bb true true true true true true s
  simp only []
  rw [hu]
  exact flagsExact_of_flows e c bb.getSize bb.getOrigin _ _ _ _ hd hfree rfl rfl rfl

theorem noCutEnv_wellNamed : noCutEnv.WellNamed := demoEnv_wellNamed

/-! ### The list of the visible objects through the cleanup -/

theorem removeGenerated_list (n : String) (p : State × Option String) :
    (removeGenerated n p).1.ObjectsListVisible =
      (if (p.1.doc.getObject n).isSome then p.1.ObjectsListVisible.erase n
        else p.1.ObjectsListVisible) ∧
    (removeGenerated n p).2 = (if (p.1.doc.getObject n).isSome then some n else p.2) := by
  unfold removeGenerated
  split <;> exact ⟨rfl, rfl⟩

theorem removeGenerated_fold_spec (ns : List String) (p : State × Option String) :
    (ns.foldl (fun p n => removeGenerated n p) p).1.ObjectsListVisible.Sublist
      p.1.ObjectsListVisible ∧
    (∀ m, m ∉ ns → (m ∈ (ns.foldl (fun p n => removeGenerated n p) p).1.ObjectsListVisible ↔
      m ∈ p.1.ObjectsListVisible)) ∧
    (∀ m, m ∉ ns →
      (ns.foldl (fun p n => removeGenerated n p) p).1.doc.getObject m = p.1.doc.getObject m) ∧
    ((ns.foldl (fun p n => removeGenerated n p) p).2 = p.2 ∨
      ∃ n ∈ ns, (ns.foldl (fun p n => removeGenerated n p) p).2 = some n) ∧
    (p.1.ObjectsListVisible.Nodup → ns.Nodup → ∀ n ∈ ns, (p.1.doc.getObject n).isSome = true →
      n ∉ (ns.foldl (fun p n => removeGenerated n p) p).1.ObjectsListVisible) := by
  induction ns generalizing p with
  | nil =>
    exact ⟨List.Sublist.refl _, fun _ _ => Iff.rfl, fun _ _ => rfl, Or.inl rfl,
      fun _ _ n hn => absurd hn (List.not_mem_nil n)⟩
  | cons a ns ih =>
    rw [List.foldl_cons]
    obtain ⟨i1, i2, i3, i4, i5⟩ := ih (removeGenerated a p)
    obtain ⟨hl, hs⟩ := removeGenerated_list a p
    have hsub : (removeGenerated a p).1.ObjectsListVisible.Sublist p.1.ObjectsListVisible := by
      rw [hl]
      split
      · exact List.erase_sublist _ _
      · exact List.Sublist.refl _
    have hmem : ∀ m, m ≠ a → (m ∈ (removeGenerated a p).1.ObjectsListVisible ↔
        m ∈ p.1.ObjectsListVisible) := by
      intro m hm
      rw [hl]
      split
      · exact List.mem_erase_of_ne hm
      · exact Iff.rfl
    refine ⟨i1.trans hsub, ?_, ?_, ?_, ?_⟩
    · intro m hm
      rw [List.mem_cons, not_or] at hm
      exact (i2 m hm.2).trans (hmem m hm.1)
    · intro m hm
      rw [List.mem_cons, not_or] at hm
      exact (i3 m hm.2).trans (removeGenerated_getObject a m p hm.1)
    · rcases i4 with h | ⟨n, hn, h⟩
      · rw [h, hs]
        split
        · exact Or.inr ⟨a, List.mem_cons_self _ _, rfl⟩
        · exact Or.inl rfl
      · exact Or.inr ⟨n, List.mem_cons_of_mem _ hn, h⟩
    · intro hnd hns n hn hsome
      rw [List.nodup_cons] at hns
      rcases List.mem_cons.mp hn with h | h
      · subst h
        intro hm
        have h1 := (i2 n hns.1).mp hm
        rw [hl, hsome] at h1
        simp only [if_true] at h1
        exact (hnd.mem_erase_iff.mp h1).1 rfl
      · have hne : n ≠ a := fun h2 => hns.1 (h2 ▸ h)
        exact i5 (hnd.sublist hsub) hns.2 n h
          ((congrArg Option.isSome (removeGenerated_getObject a n p hne)).trans hsome)

theorem eraseVisible_list (a : Option String) (s : State) :
    (eraseVisible a s).ObjectsListVisible.Sublist s.ObjectsListVisible ∧
    ∀ m, some m ≠ a → (m ∈ (eraseVisible a s).ObjectsListVisible ↔ m ∈ s.ObjectsListVisible) := by
  cases a with
  | none => exact ⟨List.Sublist.refl _, fun _ _ => Iff.rfl⟩
  | some n =>
    refine ⟨List.erase_sublist _ _, fun m hm => ?_⟩
    exact List.mem_erase_of_ne (fun h => hm (congrArg some h))

theorem removeLinks_list_spec (links : List String) (s : State) :
    (links.foldl (fun s it =>
      let s := if (s.doc.getObject it).isSome then eraseVisible (some it) s else s
      { s with doc := s.doc.removeObject it }) s).ObjectsListVisible.Sublist
        s.ObjectsListVisible ∧
    (∀ m, m ∉ links → (m ∈ (links.foldl (fun s it =>
      let s := if (s.doc.getObject it).isSome then eraseVisible (some it) s else s
      { s with doc := s.doc.removeObject it }) s).ObjectsListVisible ↔
        m ∈ s.ObjectsListVisible)) ∧
    (s.ObjectsListVisible.Nodup → ∀ l ∈ links, (s.doc.getObject l).isSome = true →
      l ∉ (links.foldl (fun s it =>
        let s := if (s.doc.getObject it).isSome then eraseVisible (some it) s else s
        { s with doc := s.doc.removeObject it }) s).ObjectsListVisible) := by
  induction links generalizing s with
  | nil =>
    exact ⟨List.Sublist.refl _, fun _ _ => Iff.rfl, fun _ l hl => absurd hl (List.not_mem_nil l)⟩
  | cons a links ih =>
    rw [List.foldl_cons]
    generalize hs1 : (let s1 := if (s.doc.getObject a).isSome = true
        then eraseVisible (some a) s else s
      ({ s1 with doc := s1.doc.removeObject a } : State)) = s1
    have hl : s1.ObjectsListVisible = (if (s.doc.getObject a).isSome = true
        then s.ObjectsListVisible.erase a else s.ObjectsListVisible) := by
      rw [← hs1]
      simp only []
      split <;> rfl
    have hdoc : s1.doc = s.doc.removeObject a := by
      rw [← hs1]
      simp only []
      split <;> rfl
    clear hs1
    obtain ⟨i1, i2, i3⟩ := ih s1
    have hsub : s1.ObjectsListVisible.Sublist s.ObjectsListVisible := by
      rw [hl]
      split
      · exact List.erase_sublist _ _
      · exact List.Sublist.refl _
    refine ⟨i1.trans hsub, ?_, ?_⟩
    · intro m hm
      rw [List.mem_cons, not_or] at hm
      refine (i2 m hm.2).trans ?_
      rw [hl]
      split
      · exact List.mem_erase_of_ne hm.1
      · exact Iff.rfl
    · intro hnd l hlm hsome
      by_cases hla : l = a
      · subst hla
        intro hm
        have h1 := i1.subset hm
        rw [hl, hsome] at h1
        simp only [if_true] at h1
        exact (hnd.mem_erase_iff.mp h1).1 rfl
      · rcases List.mem_cons.mp hlm with h | h
        · exact absurd h hla
        · refine i3 (hnd.sublist hsub) l h ?_
          rw [hdoc, getObject_removeObject _ _ _ hla]
          exact hsome

theorem cleanup_eq_fold (e : Env) (s : State) :
    cleanup e s = removeCompound e
      ([e.CutZName, e.BoxZName, e.CutYName, e.BoxYName, e.CutXName, e.BoxXName].foldl
        (fun p n => removeGenerated n p) (s, none)) := by
  unfold cleanup
  simp only [List.foldl_cons, List.foldl_nil]

theorem six_of_cutNames (e : Env) (hw : (e.CompoundName :: e.cutNames).Nodup) :
    [e.CutZName, e.BoxZName, e.CutYName, e.BoxYName, e.CutXName, e.BoxXName].Nodup ∧
    e.CompoundName ∉ [e.CutZName, e.BoxZName, e.CutYName, e.BoxYName, e.CutXName, e.BoxXName] ∧
    ∀ n, n ∈ [e.CutZName, e.BoxZName, e.CutYName, e.BoxYName, e.CutXName, e.BoxXName] ↔
      n ∈ e.cutNames := by
  simp only [Env.cutNames, List.nodup_cons, List.mem_cons, List.mem_singleton, not_or,
    List.not_mem_nil, not_false_eq_true, List.nodup_nil, and_true, or_false] at hw ⊢
  obtain ⟨⟨c1, c2, c3, c4, c5, c6⟩, ⟨n12, n13, n14, n15, n16⟩, ⟨n23, n24, n25, n26⟩,
    ⟨n34, n35, n36⟩, ⟨n45, n46⟩, n56⟩ := hw
  refine ⟨⟨⟨Ne.symm n56, Ne.symm n46, Ne.symm n36, Ne.symm n26, Ne.symm n16⟩,
    ⟨Ne.symm n45, Ne.symm n35, Ne.symm n25, Ne.symm n15⟩, ⟨Ne.symm n34, Ne.symm n24, Ne.symm n14⟩,
    ⟨Ne.symm n23, Ne.symm n13⟩, Ne.symm n12⟩, ⟨c6, c5, c4, c3, c2, c1⟩, fun n => ?_⟩
  tauto

/-! ### The order of the cleanup -/

theorem removeGeneratedCall_fold (ns : List String) (p : List (String × Document) × Document) :
    ns.foldl (fun p n => removeGeneratedCall n p) p =
      (p.1 ++ blockCalls ns p.2, blockDoc ns p.2) := by
  induction ns generalizing p with
  | nil => simp [blockCalls, blockDoc]
  | cons a ns ih =>
    rw [List.foldl_cons, ih]
    unfold removeGeneratedCall
    by_cases h : (p.2.getObject a).isSome = true
    · simp [h, blockCalls, blockDoc]
    · simp [h, blockCalls, blockDoc]

theorem cleanupCalls_eq (e : Env) (d : Document) :
    cleanupCalls e d =
      blockCalls [e.CutZName, e.BoxZName, e.CutYName, e.BoxYName, e.CutXName, e.BoxXName] d ++
      (match (blockDoc [e.CutZName, e.BoxZName, e.CutYName, e.BoxYName, e.CutXName,
          e.BoxXName] d).getObject e.CompoundName with
       | none => []
       | some c => (e.CompoundName, blockDoc [e.CutZName, e.BoxZName, e.CutYName, e.BoxYName,
            e.CutXName, e.BoxXName] d) ::
          removeLinksCalls c.Links ((blockDoc [e.CutZName, e.BoxZName, e.CutYName, e.BoxYName,
            e.CutXName, e.BoxXName] d).removeObject e.CompoundName)) := by
  have h := removeGeneratedCall_fold
    [e.CutZName, e.BoxZName, e.CutYName, e.BoxYName, e.CutXName, e.BoxXName] ([], d)
  simp only [List.foldl_cons, List.foldl_nil, List.nil_append] at h
  unfold cleanupCalls
  simp only []
  rw [h]
  simp only []
  split <;> simp

theorem getObject_removeObject_self (d : Document) (n : String) :
    (d.removeObject n).getObject n = none := by
  rw [getObject_eq_none_iff, getObjects_removeObject]
  intro h
  simpa using (List.mem_filter.mp h).2

theorem getObject_removeObject_some {d : Document} {n m : String} {o : DocumentObject}
    (h : (d.removeObject n).getObject m = some o) : d.getObject m = some o := by
  by_cases hm : m = n
  · subst hm
    rw [getObject_removeObject_self] at h
    cases h
  · rw [getObject_removeObject _ _ _ hm] at h
    exact h

theorem getObject_removeObject_none {d : Document} {n m : String}
    (h : d.getObject m = none) : (d.removeObject n).getObject m = none := by
  cases hh : (d.removeObject n).getObject m with
  | none => rfl
  | some o =>
    rw [getObject_removeObject_some hh] at h
    cases h

theorem blockDoc_spec (ns : List String) (d : Document) :
    (∀ n ∈ ns, (blockDoc ns d).getObject n = none) ∧
    (∀ m, m ∉ ns → (blockDoc ns d).getObject m = d.getObject m) ∧
    (∀ m, d.getObject m = none → (blockDoc ns d).getObject m = none) := by
  induction ns generalizing d with
  | nil => exact ⟨fun n hn => absurd hn (List.not_mem_nil n), fun _ _ => rfl, fun _ h => h⟩
  | cons a ns ih =>
    unfold blockDoc
    by_cases h : (d.getObject a).isSome = true
    · rw [if_pos h]
      obtain ⟨i1, i2, i3⟩ := ih (d.removeObject a)
      refine ⟨fun n hn => ?_, fun m hm => ?_, fun m hm => i3 m (getObject_removeObject_none hm)⟩
      · rcases List.mem_cons.mp hn with h1 | h1
        · subst h1
          exact i3 _ (getObject_removeObject_self d n)
        · exact i1 n h1
      · rw [List.mem_cons, not_or] at hm
        rw [i2 m hm.2, getObject_removeObject _ _ _ hm.1]
    · rw [if_neg h]
      obtain ⟨i1, i2, i3⟩ := ih d
      have hn0 : d.getObject a = none := by
        cases hh : d.getObject a with
        | none => rfl
        | some o => simp [hh] at h
      refine ⟨fun n hn => ?_, fun m hm => ?_, i3⟩
      · rcases List.mem_cons.mp hn with h1 | h1
        · subst h1
          exact i3 _ hn0
        · exact i1 n h1
      · rw [List.mem_cons, not_or] at hm
        exact i2 m hm.2

theorem blockCalls_names (ns : List String) (d : Document) (hnd : ns.Nodup) :
    (blockCalls ns d).map Prod.fst = ns.filter (fun n => (d.getObject n).isSome) := by
  induction ns generalizing d with
  | nil => rfl
  | cons a ns ih =>
    rw [List.nodup_cons] at hnd
    unfold blockCalls
    rw [List.filter_cons]
    by_cases h : (d.getObject a).isSome = true
    · rw [if_pos h, if_pos h, List.map_cons, ih _ hnd.2]
      congr 1
      apply List.filter_congr
      intro n hn
      have hne : n ≠ a := fun h2 => hnd.1 (h2 ▸ hn)
      rw [getObject_removeObject _ _ _ hne]
    · rw [if_neg h, if_neg h, ih _ hnd.2]

theorem blockCalls_spec (r : String → Nat) (ns : List String) (d : Document) (k : Nat)
    (hr : ns.map r = List.range' k ns.length)
    (hinj : ∀ m a, a ∈ ns → r m = r a → m = a)
    (h0 : ∀ m, r m < k → d.getObject m = none) :
    ∀ c ∈ blockCalls ns d,
      (∀ m, r m < r c.1 → c.2.getObject m = none) ∧
      (∀ g o, c.2.getObject g = some o → d.getObject g = some o) := by
  induction ns generalizing d k with
  | nil => exact fun c hc => absurd hc (List.not_mem_nil c)
  | cons a ns ih =>
    simp only [List.map_cons, List.length_cons, List.range'_succ, List.cons.injEq] at hr
    have hinj2 : ∀ m b, b ∈ ns → r m = r b → m = b :=
      fun m b hb => hinj m b (List.mem_cons_of_mem _ hb)
    unfold blockCalls
    by_cases h : (d.getObject a).isSome = true
    · rw [if_pos h]
      intro c hc
      rcases List.mem_cons.mp hc with h1 | h1
      · subst h1
        exact ⟨fun m hm => h0 m (hr.1 ▸ hm), fun g o hg => hg⟩
      · have h1k : ∀ m, r m < k + 1 → (d.removeObject a).getObject m = none := by
          intro m hm
          rcases Nat.lt_succ_iff_lt_or_eq.mp hm with h2 | h2
          · exact getObject_removeObject_none (h0 m h2)
          · have hma : m = a := hinj m a (List.mem_cons_self _ _) (h2.trans hr.1.symm)
            rw [hma]
            exact getObject_removeObject_self d a
        obtain ⟨j1, j2⟩ := ih (d.removeObject a) (k + 1) hr.2 hinj2 h1k c h1
        exact ⟨j1, fun g o hg => getObject_removeObject_some (j2 g o hg)⟩
    · rw [if_neg h]
      have hn0 : d.getObject a = none := by
        cases hh : d.getObject a with
        | none => rfl
        | some o => simp [hh] at h
      have h1k : ∀ m, r m < k + 1 → d.getObject m = none := by
        intro m hm
        rcases Nat.lt_succ_iff_lt_or_eq.mp hm with h2 | h2
        · exact h0 m h2
        · have hma : m = a := hinj m a (List.mem_cons_self _ _) (h2.trans hr.1.symm)
          rw [hma]
          exact hn0
      exact ih d (k + 1) hr.2 hinj2 h1k

theorem removeLinksCalls_spec (links : List String) (d : Document) :
    (removeLinksCalls links d).map Prod.fst = links ∧
    ∀ c ∈ removeLinksCalls links d, c.1 ∈ links ∧
      (∀ m, d.getObject m = none → c.2.getObject m = none) ∧
      (∀ g o, c.2.getObject g = some o → d.getObject g = some o) := by
  induction links generalizing d with
  | nil => exact ⟨rfl, fun c hc => absurd hc (List.not_mem_nil c)⟩
  | cons a links ih =>
    unfold removeLinksCalls
    obtain ⟨i1, i2⟩ := ih (d.removeObject a)
    refine ⟨by rw [List.map_cons, i1], fun c hc => ?_⟩
    rcases List.mem_cons.mp hc with h1 | h1
    · subst h1
      exact ⟨List.mem_cons_self _ _, fun m hm => hm, fun g o hg => hg⟩
    · obtain ⟨j1, j2, j3⟩ := i2 c h1
      exact ⟨List.mem_cons_of_mem _ j1, fun m hm => j2 m (getObject_removeObject_none hm),
        fun g o hg => getObject_removeObject_some (j3 g o hg)⟩


theorem blockDoc_some {ns : List String} {d : Document} {g : String} {o : DocumentObject}
    (h : (blockDoc ns d).getObject g = some o) : d.getObject g = some o := by
  by_cases hg : g ∈ ns
  · rw [(blockDoc_spec ns d).1 g hg] at h
    cases h
  · rw [(blockDoc_spec ns d).2.1 g hg] at h
    exact h

theorem blockDoc_eq_foldl (ns : List String) (d : Document) :
    blockDoc ns d = ((blockCalls ns d).map Prod.fst).foldl Document.removeObject d ∧
    blockCalls ns d = removeLinksCalls ((blockCalls ns d).map Prod.fst) d := by
  induction ns generalizing d with
  | nil => exact ⟨rfl, rfl⟩
  | cons a ns ih =>
    unfold blockDoc blockCalls
    by_cases h : (d.getObject a).isSome = true
    · rw [if_pos h, if_pos h, List.map_cons, List.foldl_cons]
      refine ⟨(ih _).1, ?_⟩
      unfold removeLinksCalls
      rw [← (ih _).2]
    · rw [if_neg h, if_neg h]
      exact ih d

theorem removeLinksCalls_append (a b : List String) (d : Document) :
    removeLinksCalls (a ++ b) d =
      removeLinksCalls a d ++ removeLinksCalls b (a.foldl Document.removeObject d) := by
  induction a generalizing d with
  | nil => rfl
  | cons x a ih =>
    simp only [List.cons_append, removeLinksCalls, List.foldl_cons, List.append_eq, ih]

theorem removeGenerated_fold_doc (ns : List String) (p : State × Option String) :
    (ns.foldl (fun p n => removeGenerated n p) p).1.doc = blockDoc ns p.1.doc := by
  induction ns generalizing p with
  | nil => rfl
  | cons a ns ih =>
    rw [List.foldl_cons, ih]
    cases h : (p.1.doc.getObject a).isSome <;>
      simp only [removeGenerated, blockDoc, h, if_true, eraseVisible_doc, Bool.false_eq_true,
        if_false]

theorem removeLinks_fold_doc (links : List String) (s : State) :
    (links.foldl (fun s it =>
      let s := if (s.doc.getObject it).isSome then eraseVisible (some it) s else s
      { s with doc := s.doc.removeObject it }) s).doc =
        links.foldl Document.removeObject s.doc := by
  induction links generalizing s with
  | nil => rfl
  | cons a links ih =>
    rw [List.foldl_cons, List.foldl_cons, ih]
    congr 1
    cases h : (s.doc.getObject a).isSome <;>
      simp only [h, if_true, eraseVisible_doc, Bool.false_eq_true, if_false]

theorem cleanup_doc_eq_calls (e : Env) (s : State) :
    (cleanup e s).doc = ((cleanupCalls e s.doc).map Prod.fst).foldl Document.removeObject s.doc ∧
    cleanupCalls e s.doc = removeLinksCalls ((cleanupCalls e s.doc).map Prod.fst) s.doc := by
  rw [cleanup_eq_fold, cleanupCalls_eq]
  generalize hns : [e.CutZName, e.BoxZName, e.CutYName, e.BoxYName, e.CutXName,
    e.BoxXName] = ns
  have hd := removeGenerated_fold_doc ns (s, none)
  have hb := blockDoc_eq_foldl ns s.doc
  generalize hp : ns.foldl (fun p n => removeGenerated n p) (s, none) = p at hd
  simp only [] at hd
  unfold removeCompound
  rw [hd]
  cases hc : (blockDoc ns s.doc).getObject e.CompoundName with
  | none =>
    simp only [List.append_nil]
    exact ⟨hd.trans hb.1, hb.2⟩
  | some c =>
    simp only [List.map_append, List.map_cons, List.foldl_append, List.foldl_cons,
      (removeLinksCalls_spec _ _).1, removeLinks_fold_doc, eraseVisible_doc, hd]
    rw [← hb.1]
    refine ⟨rfl, ?_⟩
    rw [removeLinksCalls_append, ← hb.2, ← hb.1]
    rfl

theorem cleanupCalls_names (e : Env) (d : Document)
    (hw : (e.CompoundName :: e.cutNames).Nodup) :
    (cleanupCalls e d).map Prod.fst =
      [e.CutZName, e.BoxZName, e.CutYName, e.BoxYName, e.CutXName, e.BoxXName].filter
        (fun n => (d.getObject n).isSome) ++
      (match d.getObject e.CompoundName with
       | none => []
       | some c => e.CompoundName :: c.Links) := by
  obtain ⟨hnd, hc, _⟩ := six_of_cutNames e hw
  rw [cleanupCalls_eq, List.map_append, blockCalls_names _ _ hnd,
    (blockDoc_spec _ d).2.1 _ hc]
  congr 1
  cases d.getObject e.CompoundName with
  | none => rfl
  | some c => simp only [List.map_cons, (removeLinksCalls_spec _ _).1]


theorem cleanupRank_facts (e : Env) (hw : (e.CompoundName :: e.cutNames).Nodup) :
    cleanupRank e e.CutZName = 0 ∧ cleanupRank e e.BoxZName = 1 ∧
    cleanupRank e e.CutYName = 2 ∧ cleanupRank e e.BoxYName = 3 ∧
    cleanupRank e e.CutXName = 4 ∧ cleanupRank e e.BoxXName = 5 ∧
    cleanupRank e e.CompoundName = 6 := by
  simp only [Env.cutNames, List.nodup_cons, List.mem_cons, List.mem_singleton, not_or,
    List.not_mem_nil, not_false_eq_true, List.nodup_nil, and_true, or_false] at hw
  obtain ⟨⟨c1, c2, c3, c4, c5, c6⟩, ⟨n12, n13, n14, n15, n16⟩, ⟨n23, n24, n25, n26⟩,
    ⟨n34, n35, n36⟩, ⟨n45, n46⟩, n56⟩ := hw
  simp [cleanupRank, *]

theorem cleanupRank_inv (e : Env) (m : String) :
    (cleanupRank e m = 0 → m = e.CutZName) ∧ (cleanupRank e m = 1 → m = e.BoxZName) ∧
    (cleanupRank e m = 2 → m = e.CutYName) ∧ (cleanupRank e m = 3 → m = e.BoxYName) ∧
    (cleanupRank e m = 4 → m = e.CutXName) ∧ (cleanupRank e m = 5 → m = e.BoxXName) ∧
    (cleanupRank e m = 6 → m = e.CompoundName) ∧ cleanupRank e m ≤ 7 ∧
    (m ∉ e.CompoundName :: e.cutNames → cleanupRank e m = 7) := by
  unfold cleanupRank Env.cutNames
  split_ifs <;> simp_all

theorem cleanupRank_lt (e : Env) (m : String) :
    (cleanupRank e m < 6 →
      m ∈ [e.CutZName, e.BoxZName, e.CutYName, e.BoxYName, e.CutXName, e.BoxXName]) ∧
    (cleanupRank e m < 7 →
      m ∈ [e.CutZName, e.BoxZName, e.CutYName, e.BoxYName, e.CutXName, e.BoxXName] ∨
        m = e.CompoundName) := by
  unfold cleanupRank
  split_ifs <;> simp_all

theorem allAt_some {d : Document} {n : String} {o : DocumentObject} {p : DocumentObject → Bool}
    (hg : d.getObject n = some o) (h : d.allAt n p = true) : p o = true := by
  unfold Document.allAt at h
  rw [hg] at h
  exact h

theorem refersToNone_refersTo {o : DocumentObject} (h : o.refersToNone = true) (n : String) :
    o.refersTo n = false := by
  simp only [DocumentObject.refersToNone, Bool.and_eq_true, beq_iff_eq,
    List.isEmpty_iff] at h
  simp [DocumentObject.refersTo, h.1.1, h.1.2, h.2]

theorem refersTo_rank (e : Env) (d : Document) (hw : (e.CompoundName :: e.cutNames).Nodup)
    (hs : GeneratedStructure e d = true) (g : String) (hgm : g ∈ generatedNames e d)
    (o : DocumentObject) (hg : d.getObject g = some o) (n : String)
    (hr : o.refersTo n = true) : cleanupRank e g < cleanupRank e n := by
  obtain ⟨r0, r1, r2, r3, r4, r5, r6⟩ := cleanupRank_facts e hw
  simp only [GeneratedStructure, Bool.and_eq_true] at hs
  obtain ⟨⟨⟨⟨⟨⟨sz, sy⟩, sx⟩, bz⟩, bY⟩, bx⟩, sc⟩ := hs
  have leaf : ∀ {P : Prop}, o.refersToNone = true → P := by
    intro P h
    rw [refersToNone_refersTo h n] at hr
    cases hr
  simp only [generatedNames, List.mem_append, List.mem_cons, List.mem_singleton,
    List.not_mem_nil, or_false] at hgm
  rcases hgm with (h | h | h | h | h | h | h) | h
  · rw [h] at hg ⊢
    have h1 := allAt_some hg sz
    simp only [Bool.and_eq_true, Bool.or_eq_true, beq_iff_eq, List.isEmpty_iff] at h1
    obtain ⟨⟨ht, hb⟩, hl⟩ := h1
    simp only [DocumentObject.refersTo, Bool.or_eq_true, beq_iff_eq, hl, ht,
      List.contains_nil, Bool.false_eq_true, or_false, Option.some.injEq] at hr
    rcases hr with hr | hr
    · rcases hb with (hb | hb) | hb <;> rw [hb, Option.some.injEq] at hr <;> rw [← hr] <;> omega
    · rw [← hr]
      omega
  · rw [h] at hg
    exact leaf (allAt_some hg bz)
  · rw [h] at hg ⊢
    have h1 := allAt_some hg sy
    simp only [Bool.and_eq_true, Bool.or_eq_true, beq_iff_eq, List.isEmpty_iff] at h1
    obtain ⟨⟨ht, hb⟩, hl⟩ := h1
    simp only [DocumentObject.refersTo, Bool.or_eq_true, beq_iff_eq, hl, ht,
      List.contains_nil, Bool.false_eq_true, or_false, Option.some.injEq] at hr
    rcases hr with hr | hr
    · rcases hb with hb | hb <;> rw [hb, Option.some.injEq] at hr <;> rw [← hr] <;> omega
    · rw [← hr]
      omega
  · rw [h] at hg
    exact leaf (allAt_some hg bY)
  · rw [h] at hg ⊢
    have h1 := allAt_some hg sx
    simp only [Bool.and_eq_true, beq_iff_eq, List.isEmpty_iff] at h1
    obtain ⟨⟨ht, hb⟩, hl⟩ := h1
    simp only [DocumentObject.refersTo, Bool.or_eq_true, beq_iff_eq, hl, ht, hb,
      List.contains_nil, Bool.false_eq_true, or_false, Option.some.injEq] at hr
    rcases hr with hr | hr <;> rw [← hr] <;> omega
  · rw [h] at hg
    exact leaf (allAt_some hg bx)
  · rw [h] at hg ⊢
    have h1 := allAt_some hg sc
    simp only [Bool.and_eq_true, beq_iff_eq, List.all_eq_true, Bool.not_eq_true,
      Bool.not_eq_eq_eq_not, Bool.not_true] at h1
    obtain ⟨⟨hb, ht⟩, hl⟩ := h1
    simp only [DocumentObject.refersTo, Bool.or_eq_true, beq_iff_eq, hb, ht,
      false_or, reduceCtorEq] at hr
    have hr2 : n ∈ o.Links := by simpa using hr
    have hn := (hl n hr2).1
    have hn2 : n ∉ e.CompoundName :: e.cutNames := by
      intro hm
      have h3 : (e.CompoundName :: e.cutNames).contains n = true := by simpa using hm
      rw [hn] at h3
      cases h3
    rw [r6, (cleanupRank_inv e n).2.2.2.2.2.2.2.2 hn2]
    omega
  · cases hc : d.getObject e.CompoundName with
    | none =>
      rw [hc] at h
      exact absurd h (List.not_mem_nil g)
    | some c =>
      rw [hc] at h
      have h1 := allAt_some hc sc
      simp only [Bool.and_eq_true, List.all_eq_true] at h1
      exact leaf (allAt_some hg (h1.2 g h).2)

theorem cleanupCalls_spec (e : Env) (d : Document)
    (hw : (e.CompoundName :: e.cutNames).Nodup) :
    ∀ c ∈ cleanupCalls e d,
      (∀ m, cleanupRank e m < cleanupRank e c.1 → c.2.getObject m = none) ∧
      (∀ g o, c.2.getObject g = some o → d.getObject g = some o) := by
  obtain ⟨r0, r1, r2, r3, r4, r5, r6⟩ := cleanupRank_facts e hw
  have hinj : ∀ m a, a ∈ [e.CutZName, e.BoxZName, e.CutYName, e.BoxYName, e.CutXName,
      e.BoxXName] → cleanupRank e m = cleanupRank e a → m = a := by
    intro m a ha hm
    obtain ⟨i0, i1, i2, i3, i4, i5, _⟩ := cleanupRank_inv e m
    simp only [List.mem_cons, List.mem_singleton, List.not_mem_nil, or_false] at ha
    rcases ha with h | h | h | h | h | h <;> rw [h] at hm ⊢
    · exact i0 (hm.trans r0)
    · exact i1 (hm.trans r1)
    · exact i2 (hm.trans r2)
    · exact i3 (hm.trans r3)
    · exact i4 (hm.trans r4)
    · exact i5 (hm.trans r5)
  have hb := blockCalls_spec (cleanupRank e)
    [e.CutZName, e.BoxZName, e.CutYName, e.BoxYName, e.CutXName, e.BoxXName] d 0
    (by simp [r0, r1, r2, r3, r4, r5, List.range'])
    hinj (fun m hm => absurd hm (Nat.not_lt_zero _))
  rw [cleanupCalls_eq]
  generalize hns : [e.CutZName, e.BoxZName, e.CutYName, e.BoxYName, e.CutXName,
    e.BoxXName] = ns at hb hinj
  intro c hc
  rcases List.mem_append.mp hc with h | h
  · exact hb c h
  · have hsix : ∀ m, cleanupRank e m < 6 → (blockDoc ns d).getObject m = none :=
      fun m hm => (blockDoc_spec ns d).1 m (hns ▸ (cleanupRank_lt e m).1 hm)
    cases hc : (blockDoc ns d).getObject e.CompoundName with
    | none =>
      rw [hc] at h
      exact absurd h (List.not_mem_nil c)
    | some c0 =>
      rw [hc] at h
      rcases List.mem_cons.mp h with h1 | h1
      · rw [h1]
        exact ⟨fun m hm => hsix m (r6 ▸ hm), fun g o hg => blockDoc_some hg⟩
      · obtain ⟨_, j2, j3⟩ := (removeLinksCalls_spec _ _).2 c h1
        refine ⟨fun m hm => j2 m ?_, fun g o hg => blockDoc_some
          (getObject_removeObject_some (j3 g o hg))⟩
        have h7 : cleanupRank e m < 7 :=
          Nat.lt_of_lt_of_le hm (cleanupRank_inv e c.1).2.2.2.2.2.2.2.1
        by_cases h6 : cleanupRank e m < 6
        · exact getObject_removeObject_none (hsix m h6)
        · have hm6 : m = e.CompoundName := (cleanupRank_inv e m).2.2.2.2.2.2.1 (by omega)
          rw [hm6]
          exact getObject_removeObject_self _ _

/-! ### The slots called by the reset of the group boxes -/

theorem setCheckedGroupBoxY_called (k : Toolkit) (run : Slot → State → State) (b : Bool)
    (r : Run) : ∃ l, (setCheckedGroupBoxY k run b r).called = r.called ++ l := by
  unfold setCheckedGroupBoxY emitToggled
  simp only []
  split
  · exact ⟨[Slot.onGroupBoxYtoggled], rfl⟩
  · exact ⟨[], (List.append_nil _).symm⟩

theorem setCheckedGroupBoxZ_called (k : Toolkit) (run : Slot → State → State) (b : Bool)
    (r : Run) : ∃ l, (setCheckedGroupBoxZ k run b r).called = r.called ++ l := by
  unfold setCheckedGroupBoxZ emitToggled
  simp only []
  split
  · exact ⟨[Slot.onGroupBoxZtoggled], rfl⟩
  · exact ⟨[], (List.append_nil _).symm⟩

theorem nothingToCutToggled_called (k : Toolkit) (run : Slot → State → State)
    (isInitial : Bool) (s : State) (hk : k.dialogBlocksChildren = false) :
    ((nothingToCutToggled k run isInitial s).called = [] ↔
      (s.ui.groupBoxX = false ∧ s.ui.groupBoxY = false ∧ s.ui.groupBoxZ = false)) ∧
    (s.ui.groupBoxX = true →
      (nothingToCutToggled k run isInitial s).called.head? = some Slot.onGroupBoxXtoggled) := by
  have hc : ∃ s2 : State, s2.ui = s.ui ∧
      (nothingToCutToggled k run isInitial s).called =
        (setCheckedGroupBoxZ k run false (setCheckedGroupBoxY k run false
          (setCheckedGroupBoxX k run false { state := s2 }))).called := by
    refine ⟨blockSignals true (if isInitial
      then s.log "SectionCut error: there are no visible objects to be cut\n"
      else s.log "SectionCut error: there are no objects in the document that can be cut\n"),
      ?_, rfl⟩
    cases isInitial <;> rfl
  obtain ⟨s2, hu, hc⟩ := hc
  rw [hc, ← hu]
  clear hc hu
  cases hx : s2.ui.groupBoxX with
  | true =>
    have h1 : (setCheckedGroupBoxX k run false { state := s2 }).called =
        [Slot.onGroupBoxXtoggled] := by
      simp [setCheckedGroupBoxX, emitToggled, hk, hx]
    obtain ⟨l1, h2⟩ := setCheckedGroupBoxY_called k run false
      (setCheckedGroupBoxX k run false { state := s2 })
    obtain ⟨l2, h3⟩ := setCheckedGroupBoxZ_called k run false
      (setCheckedGroupBoxY k run false (setCheckedGroupBoxX k run false { state := s2 }))
    rw [h3, h2, h1]
    simp
  | false =>
    have h1 : setCheckedGroupBoxX k run false { state := s2 } =
        { state := { s2 with ui.groupBoxX := false } } := by
      simp [setCheckedGroupBoxX, emitToggled, hx]
    rw [h1]
    cases hy : s2.ui.groupBoxY with
    | true =>
      have h2 : (setCheckedGroupBoxY k run false
          { state := { s2 with ui.groupBoxX := false } }).called =
            [Slot.onGroupBoxYtoggled] := by
        simp [setCheckedGroupBoxY, emitToggled, hk, hy]
      obtain ⟨l2, h3⟩ := setCheckedGroupBoxZ_called k run false
        (setCheckedGroupBoxY k run false { state := { s2 with ui.groupBoxX := false } })
      rw [h3, h2]
      simp
    | false =>
      have h2 : setCheckedGroupBoxY k run false
          { state := { s2 with ui.groupBoxX := false } } =
            { state := { s2 with ui.groupBoxX := false, ui.groupBoxY := false } } := by
        simp [setCheckedGroupBoxY, emitToggled, hy]
      rw [h2]
      cases hz : s2.ui.groupBoxZ <;> simp [setCheckedGroupBoxZ, emitToggled, hk, hz]

/-! ### The refresh and the `toggled` signals of the group boxes -/

theorem onRefreshCutPBclicked_list (e : Env) (s : State)
    (ha : s.activeDocument = true) (hne : s.doc.objects ≠ []) :
    (onRefreshCutPBclicked e s).doc = s.doc ∧
    (onRefreshCutPBclicked e s).ObjectsListVisible =
      (s.doc.objects.filter (fun o => o.Visibility)).map (fun o => o.name) ∧
    ∀ n ∈ (onRefreshCutPBclicked e s).ObjectsListVisible,
      n ∈ (onRefreshCutPBclicked e s).doc.getObjects := by
  have hl : (onRefreshCutPBclicked e s).ObjectsListVisible =
      (s.doc.objects.filter (fun o => o.Visibility)).map (fun o => o.name) := by
    unfold onRefreshCutPBclicked blockSignals
    have hemp : s.doc.objects.isEmpty = false := by
      cases h : s.doc.objects with
      | nil => exact absurd h hne
      | cons a l => rfl
    simp only [ha, Bool.not_true, Bool.false_eq_true, if_false, hemp]
    split_ifs <;> rfl
  refine ⟨onRefreshCutPBclicked_doc e s, hl, ?_⟩
  intro n hn
  rw [hl] at hn
  rw [onRefreshCutPBclicked_doc]
  obtain ⟨o, ho, rfl⟩ := List.mem_map.mp hn
  exact List.mem_map.mpr ⟨o, (List.mem_filter.mp ho).1, rfl⟩

theorem onRefreshCutPBclicked_refreshedFlags (e : Env) (s : State)
    (ha : s.activeDocument = true) (hne : s.doc.objects ≠ []) :
    RefreshedFlags e s (onRefreshCutPBclicked e s) := by
  have hemp : s.doc.objects.isEmpty = false := by
    cases h : s.doc.objects with
    | nil => exact absurd h hne
    | cons a l => rfl
  unfold RefreshedFlags
  rw [onRefreshCutPBclicked_doc e s]
  refine ⟨rfl, ?_⟩
  cases hx : (s.doc.getObject e.CutXName).isSome <;>
    cases hy : (s.doc.getObject e.CutYName).isSome <;>
    cases hz : (s.doc.getObject e.CutZName).isSome <;>
    (unfold onRefreshCutPBclicked blockSignals; simp [ha, hemp, hx, hy, hz])

theorem onRefreshCutPBclickedToggled_eq (k : Toolkit) (run : Slot → State → State) (e : Env)
    (s : State) (h : k.dialogBlocksChildren = true ∨ CutsAlreadyChecked e s) :
    onRefreshCutPBclickedToggled k run e s =
      { state := onRefreshCutPBclicked e s, called := [] } := by
  rcases h with hk | ⟨cx, cy, cz⟩
  · cases ha : s.activeDocument <;> cases hemp : s.doc.objects.isEmpty <;>
      cases hx : (s.doc.getObject e.CutXName).isSome <;>
      cases hy : (s.doc.getObject e.CutYName).isSome <;>
      cases hz : (s.doc.getObject e.CutZName).isSome <;>
      simp [onRefreshCutPBclickedToggled, onRefreshCutPBclicked, refreshGroupBoxX,
        refreshGroupBoxY, refreshGroupBoxZ, setCheckedGroupBoxX, setCheckedGroupBoxY,
        setCheckedGroupBoxZ, emitToggled, blockSignals, State.log, ha, hemp, hx, hy, hz, hk]
  · cases ha : s.activeDocument <;> cases hemp : s.doc.objects.isEmpty <;>
      cases hx : (s.doc.getObject e.CutXName).isSome <;>
      cases hy : (s.doc.getObject e.CutYName).isSome <;>
      cases hz : (s.doc.getObject e.CutZName).isSome <;>
      simp only [hx, hy, hz, true_implies, Bool.false_eq_true, false_implies] at cx cy cz <;>
      simp [onRefreshCutPBclickedToggled, onRefreshCutPBclicked, refreshGroupBoxX,
        refreshGroupBoxY, refreshGroupBoxZ, setCheckedGroupBoxX, setCheckedGroupBoxY,
        setCheckedGroupBoxZ, emitToggled, blockSignals, State.log, ha, hemp, hx, hy, hz, *]


theorem setCheckedGroupBoxX_called (k : Toolkit) (run : Slot → State → State) (b : Bool)
    (r : Run) : ∃ l, (setCheckedGroupBoxX k run b r).called = r.called ++ l := by
  unfold setCheckedGroupBoxX emitToggled
  simp only []
  split
  · exact ⟨[Slot.onGroupBoxXtoggled], rfl⟩
  · exact ⟨[], (List.append_nil _).symm⟩

theorem refreshGroupBoxX_called (k : Toolkit) (run : Slot → State → State) (e : Env)
    (r : Run) : ∃ l, (refreshGroupBoxX k run e r).called = r.called ++ l := by
  unfold refreshGroupBoxX
  split
  · exact setCheckedGroupBoxX_called k run true _
  · exact ⟨[], (List.append_nil _).symm⟩

theorem refreshGroupBoxY_called (k : Toolkit) (run : Slot → State → State) (e : Env)
    (r : Run) : ∃ l, (refreshGroupBoxY k run e r).called = r.called ++ l := by
  unfold refreshGroupBoxY
  split
  · exact setCheckedGroupBoxY_called k run true _
  · exact ⟨[], (List.append_nil _).symm⟩

theorem refreshGroupBoxZ_emits (k : Toolkit) (run : Slot → State → State) (e : Env) (r : Run)
    (hk : k.dialogBlocksChildren = false)
    (hc : (r.state.doc.getObject e.CutZName).isSome = true)
    (hg : r.state.ui.groupBoxZ = false) :
    (refreshGroupBoxZ k run e r).called = r.called ++ [Slot.onGroupBoxZtoggled] := by
  simp [refreshGroupBoxZ, setCheckedGroupBoxZ, emitToggled, blockSignals, hk, hc, hg]

theorem refreshGroupBoxY_emits (k : Toolkit) (run : Slot → State → State) (e : Env) (r : Run)
    (hk : k.dialogBlocksChildren = false)
    (hc : (r.state.doc.getObject e.CutYName).isSome = true)
    (hg : r.state.ui.groupBoxY = false) :
    (refreshGroupBoxY k run e r).called = r.called ++ [Slot.onGroupBoxYtoggled] := by
  simp [refreshGroupBoxY, setCheckedGroupBoxY, emitToggled, blockSignals, hk, hc, hg]

theorem refreshGroupBoxX_emits (k : Toolkit) (run : Slot → State → State) (e : Env) (r : Run)
    (hk : k.dialogBlocksChildren = false)
    (hc : (r.state.doc.getObject e.CutXName).isSome = true)
    (hg : r.state.ui.groupBoxX = false) :
    (refreshGroupBoxX k run e r).called = r.called ++ [Slot.onGroupBoxXtoggled] := by
  simp [refreshGroupBoxX, setCheckedGroupBoxX, emitToggled, blockSignals, hk, hc, hg]

theorem refreshGroupBoxZ_quiet (k : Toolkit) (run : Slot → State → State) (e : Env) (r : Run)
    (h : (r.state.doc.getObject e.CutZName).isSome = true → r.state.ui.groupBoxZ = true) :
    (refreshGroupBoxZ k run e r).called = r.called ∧
    (refreshGroupBoxZ k run e r).state.doc = r.state.doc ∧
    (refreshGroupBoxZ k run e r).state.ui.groupBoxX = r.state.ui.groupBoxX ∧
    (refreshGroupBoxZ k run e r).state.ui.groupBoxY = r.state.ui.groupBoxY := by
  cases hc : (r.state.doc.getObject e.CutZName).isSome
  · simp [refreshGroupBoxZ, hc]
  · simp [refreshGroupBoxZ, setCheckedGroupBoxZ, emitToggled, blockSignals, hc, h hc]

theorem refreshGroupBoxY_quiet (k : Toolkit) (run : Slot → State → State) (e : Env) (r : Run)
    (h : (r.state.doc.getObject e.CutYName).isSome = true → r.state.ui.groupBoxY = true) :
    (refreshGroupBoxY k run e r).called = r.called ∧
    (refreshGroupBoxY k run e r).state.doc = r.state.doc ∧
    (refreshGroupBoxY k run e r).state.ui.groupBoxX = r.state.ui.groupBoxX := by
  cases hc : (r.state.doc.getObject e.CutYName).isSome
  · simp [refreshGroupBoxY, hc]
  · simp [refreshGroupBoxY, setCheckedGroupBoxY, emitToggled, blockSignals, hc, h hc]

theorem onRefreshCutPBclickedToggled_called (k : Toolkit) (run : Slot → State → State)
    (e : Env) (s : State) (ha : s.activeDocument = true) (hne : s.doc.objects ≠ [])
    (hk : k.dialogBlocksChildren = false) :
    (onRefreshCutPBclickedToggled k run e s).called = [] ↔ CutsAlreadyChecked e s := by
  constructor
  swap
  · intro h
    rw [onRefreshCutPBclickedToggled_eq k run e s (Or.inr h)]
  intro h0
  have hemp : s.doc.objects.isEmpty = false := by
    cases h : s.doc.objects with
    | nil => exact absurd h hne
    | cons a l => rfl
  have hc : ∃ s0 : State, s0.doc = s.doc ∧ s0.ui = s.ui ∧
      (onRefreshCutPBclickedToggled k run e s).called =
        (refreshGroupBoxX k run e (refreshGroupBoxY k run e
          (refreshGroupBoxZ k run e { state := s0 }))).called := by
    refine ⟨
        { s with docIsActive := true,
                 ObjectsListVisible := (s.doc.objects.filter (fun o : DocumentObject =>
                   o.Visibility)).map (fun o : DocumentObject => o.name),
                 hasBoxX := false, hasBoxY := false, hasBoxZ := false },
        rfl, rfl, ?_⟩
    unfold onRefreshCutPBclickedToggled
    simp only [ha, Bool.not_true, Bool.false_eq_true, if_false, hemp]
    split <;> rfl
  obtain ⟨s0, hd, hu, hc⟩ := hc
  rw [hc] at h0
  clear hc
  unfold CutsAlreadyChecked
  rw [← hd, ← hu]
  generalize hr0 : ({ state := s0 } : Run) = r0 at h0
  have hr0c : r0.called = [] := by rw [← hr0]
  have hr0s : r0.state = s0 := by rw [← hr0]
  rw [← hr0s]
  clear hr0 hr0s hd hu
  obtain ⟨l1, h1⟩ := refreshGroupBoxY_called k run e (refreshGroupBoxZ k run e r0)
  obtain ⟨l2, h2⟩ := refreshGroupBoxX_called k run e
    (refreshGroupBoxY k run e (refreshGroupBoxZ k run e r0))
  by_cases hz : (r0.state.doc.getObject e.CutZName).isSome = true → r0.state.ui.groupBoxZ = true
  swap
  · exfalso
    have hz1 : (r0.state.doc.getObject e.CutZName).isSome = true := by
      by_contra hn
      exact hz (fun h => absurd h hn)
    have hz2 : r0.state.ui.groupBoxZ = false := by
      cases hg : r0.state.ui.groupBoxZ with
      | false => rfl
      | true => exact absurd (fun _ => hg) hz
    rw [h2, h1, refreshGroupBoxZ_emits k run e r0 hk hz1 hz2] at h0
    simp at h0
  obtain ⟨qc, qd, qx, qy⟩ := refreshGroupBoxZ_quiet k run e r0 hz
  by_cases hy : (r0.state.doc.getObject e.CutYName).isSome = true → r0.state.ui.groupBoxY = true
  swap
  · exfalso
    have hy1 : (r0.state.doc.getObject e.CutYName).isSome = true := by
      by_contra hn
      exact hy (fun h => absurd h hn)
    have hy2 : r0.state.ui.groupBoxY = false := by
      cases hg : r0.state.ui.groupBoxY with
      | false => rfl
      | true => exact absurd (fun _ => hg) hy
    rw [h2, refreshGroupBoxY_emits k run e _ hk (by rw [qd]; exact hy1)
      (by rw [qy]; exact hy2)] at h0
    simp at h0
  have hy3 : ((refreshGroupBoxZ k run e r0).state.doc.getObject e.CutYName).isSome = true →
      (refreshGroupBoxZ k run e r0).state.ui.groupBoxY = true := by
    rw [qd, qy]
    exact hy
  obtain ⟨pc, pd, px⟩ := refreshGroupBoxY_quiet k run e _ hy3
  by_cases hx : (r0.state.doc.getObject e.CutXName).isSome = true → r0.state.ui.groupBoxX = true
  swap
  · exfalso
    have hx1 : (r0.state.doc.getObject e.CutXName).isSome = true := by
      by_contra hn
      exact hx (fun h => absurd h hn)
    have hx2 : r0.state.ui.groupBoxX = false := by
      cases hg : r0.state.ui.groupBoxX with
      | false => rfl
      | true => exact absurd (fun _ => hg) hx
    rw [refreshGroupBoxX_emits k run e _ hk (by rw [pd, qd]; exact hx1)
      (by rw [px, qx]; exact hx2)] at h0
    simp at h0
  exact ⟨hx, hy, hz⟩

/-! ### The range that `refreshCutRanges` sets -/

theorem refreshCutRanges_rangeIsExtent (e : Env) (BoundingBox : SbBox3f)
    (forXValue forYValue forZValue forXRange forYRange forZRange : Bool) (s : State)
    (hb : BoundingBox.isEmpty = false) :
    (forXRange = true →
      RangeIsExtent (refreshCutRanges e BoundingBox forXValue forYValue forZValue
          forXRange forYRange forZRange s).ui.cutX
        BoundingBox.getCenter.x BoundingBox.getSize.x BoundingBox.min.x BoundingBox.max.x) ∧
    (forYRange = true →
      RangeIsExtent (refreshCutRanges e BoundingBox forXValue forYValue forZValue
          forXRange forYRange forZRange s).ui.cutY
        BoundingBox.getCenter.y BoundingBox.getSize.y BoundingBox.min.y BoundingBox.max.y) ∧
    (forZRange = true →
      RangeIsExtent (refreshCutRanges e BoundingBox forXValue forYValue forZValue
          forXRange forYRange forZRange s).ui.cutZ
        BoundingBox.getCenter.z BoundingBox.getSize.z BoundingBox.min.z BoundingBox.max.z) := by
  rw [refreshCutRanges_of_nonempty e BoundingBox forXValue forYValue forZValue
      forXRange forYRange forZRange s hb]
  unfold refreshCutWidgets
  have hx : (BoundingBox.min.x + BoundingBox.max.x) / 2
      - (BoundingBox.max.x - BoundingBox.min.x) / 2 = BoundingBox.min.x := by ring
  have hx2 : (BoundingBox.min.x + BoundingBox.max.x) / 2
      + (BoundingBox.max.x - BoundingBox.min.x) / 2 = BoundingBox.max.x := by ring
  have hy : (BoundingBox.min.y + BoundingBox.max.y) / 2
      - (BoundingBox.max.y - BoundingBox.min.y) / 2 = BoundingBox.min.y := by ring
  have hy2 : (BoundingBox.min.y + BoundingBox.max.y) / 2
      + (BoundingBox.max.y - BoundingBox.min.y) / 2 = BoundingBox.max.y := by ring
  have hz : (BoundingBox.min.z + BoundingBox.max.z) / 2
      - (BoundingBox.max.z - BoundingBox.min.z) / 2 = BoundingBox.min.z := by ring
  have hz2 : (BoundingBox.min.z + BoundingBox.max.z) / 2
      + (BoundingBox.max.z - BoundingBox.min.z) / 2 = BoundingBox.max.z := by ring
  cases forXValue <;> cases forYValue <;> cases forZValue <;>
    cases forXRange <;> cases forYRange <;> cases forZRange <;>
    refine ⟨?_, ?_, ?_⟩ <;> intro h <;>
    first
      | exact absurd h (by decide)
      | exact ⟨rfl, rfl, hx, hx2⟩
      | exact ⟨rfl, rfl, hy, hy2⟩
      | exact ⟨rfl, rfl, hz, hz2⟩

theorem floatRange_of_exact (fl : ℚ → ℚ) (lo hi : ℚ)
    (h1 : fl (hi + lo) = hi + lo) (h2 : fl ((hi + lo) * (1 / 2)) = (hi + lo) * (1 / 2))
    (h3 : fl (hi - lo) = hi - lo) (h4 : fl ((hi - lo) / 2) = (hi - lo) / 2)
    (h5 : fl lo = lo) (h6 : fl hi = hi) :
    floatRange fl (floatCenter fl lo hi) (floatSize fl lo hi) = (lo, hi) := by
  unfold floatRange floatCenter floatSize
  rw [h1, h2, h3, h4]
  have e1 : (hi + lo) * (1 / 2) - (hi - lo) / 2 = lo := by ring
  have e2 : (hi + lo) * (1 / 2) + (hi - lo) / 2 = hi := by ring
  rw [e1, e2, h5, h6]

/-! ## The claims -/

/-- Claim C5, amended: when the range is wider than 0.1, or the stored cut
position already lies strictly inside the range, the cut position after the
reset step of `startCutting` lies strictly between the minimum and the
maximum of the spin box. -/
theorem resetCutPos_strictly_inside (CutPos maximum minimum : ℚ)
    (h : 0.1 < maximum - minimum ∨ (minimum < CutPos ∧ CutPos < maximum)) :
    minimum < resetCutPos CutPos maximum minimum ∧
      resetCutPos CutPos maximum minimum < maximum := by
  unfold resetCutPos
  split_ifs with h1 h2
  · rcases h with h | h
    · have e1 : (0.1 : ℚ) = 1 / 10 := by norm_num
      rw [e1] at h ⊢
      constructor <;> linarith
    · exact absurd h.2 (not_lt.mpr h1)
  · rcases h with h | h
    · have e1 : (0.1 : ℚ) = 1 / 10 := by norm_num
      rw [e1] at h ⊢
      constructor <;> linarith
    · exact absurd h.1 (not_lt.mpr h2)
  · exact ⟨not_le.mp h2, not_le.mp h1⟩

theorem resetCutPos_strictly_inside_witness :
    ((0.1 : ℚ) < 10 - 0 ∨ ((0 : ℚ) < 12 ∧ (12 : ℚ) < 10)) ∧
      ((0 : ℚ) < resetCutPos 12 10 0 ∧ resetCutPos 12 10 0 < 10) :=
  ⟨Or.inl (by norm_num), resetCutPos_strictly_inside 12 10 0 (Or.inl (by norm_num))⟩

/-- Claim C5 as stated fails for a range no wider than 0.1: the range
`[0, 0.05]` has minimum < maximum, and the stored position 1 is reset to
`0.05 - 0.1`, below the minimum. -/
theorem resetCutPos_narrow_range :
    (0 : ℚ) < 1 / 20 ∧ resetCutPos 1 (1 / 20) 0 = -(1 / 20) ∧
      ¬ ((0 : ℚ) < resetCutPos 1 (1 / 20) 0 ∧ resetCutPos 1 (1 / 20) 0 < 1 / 20) := by
  decide!

/-- Claim C7: the slider handlers of X, Y and Z. For `val` equal to the
maximum of the slider the slider is set to maximum - singleStep, otherwise
for `val` equal to its minimum to minimum + singleStep, and in both cases the
value of the cut spin box stays as it is; for every other `val` the cut value
is set to min + val/100 * (max - min), which for 0 < val < 100 and min < max
lies strictly between min and max. -/
theorem sliderMoved_never_at_limit (e : Env) (val : ℤ) (s : State) :
    SliderMovedSpec s.ui.cutXHS s.ui.cutX val
      (onCutXHSsliderMoved e val s).ui.cutXHS (onCutXHSsliderMoved e val s).ui.cutX ∧
    SliderMovedSpec s.ui.cutYHS s.ui.cutY val
      (onCutYHSsliderMoved e val s).ui.cutYHS (onCutYHSsliderMoved e val s).ui.cutY ∧
    SliderMovedSpec s.ui.cutZHS s.ui.cutZ val
      (onCutZHSsliderMoved e val s).ui.cutZHS (onCutZHSsliderMoved e val s).ui.cutZ := by
  refine ⟨⟨?_, ?_, ?_⟩, ⟨?_, ?_, ?_⟩, ⟨?_, ?_, ?_⟩⟩
  · intro h
    unfold onCutXHSsliderMoved
    rw [if_pos h]
    exact ⟨rfl, rfl⟩
  · intro h1 h2
    unfold onCutXHSsliderMoved
    rw [if_neg h1, if_pos h2]
    exact ⟨rfl, rfl⟩
  · intro h1 h2
    have hv : (onCutXHSsliderMoved e val s).ui.cutX.value =
        s.ui.cutX.minimum + val / 100 * (s.ui.cutX.maximum - s.ui.cutX.minimum) := by
      simp only [onCutXHSsliderMoved, if_neg h1, if_neg h2]
      norm_num
    refine ⟨hv, fun h0 h100 hr => ?_⟩
    rw [hv]
    exact percent_inside _ _ val h0 h100 hr
  · intro h
    unfold onCutYHSsliderMoved
    rw [if_pos h]
    exact ⟨rfl, rfl⟩
  · intro h1 h2
    unfold onCutYHSsliderMoved
    rw [if_neg h1, if_pos h2]
    exact ⟨rfl, rfl⟩
  · intro h1 h2
    have hv : (onCutYHSsliderMoved e val s).ui.cutY.value =
        s.ui.cutY.minimum + val / 100 * (s.ui.cutY.maximum - s.ui.cutY.minimum) := by
      simp only [onCutYHSsliderMoved, if_neg h1, if_neg h2]
      norm_num
    refine ⟨hv, fun h0 h100 hr => ?_⟩
    rw [hv]
    exact percent_inside _ _ val h0 h100 hr
  · intro h
    unfold onCutZHSsliderMoved
    rw [if_pos h]
    exact ⟨rfl, rfl⟩
  · intro h1 h2
    unfold onCutZHSsliderMoved
    rw [if_neg h1, if_pos h2]
    exact ⟨rfl, rfl⟩
  · intro h1 h2
    have hv : (onCutZHSsliderMoved e val s).ui.cutZ.value =
        s.ui.cutZ.minimum + val / 100 * (s.ui.cutZ.maximum - s.ui.cutZ.minimum) := by
      simp only [onCutZHSsliderMoved, if_neg h1, if_neg h2]
      norm_num
    refine ⟨hv, fun h0 h100 hr => ?_⟩
    rw [hv]
    exact percent_inside _ _ val h0 h100 hr

theorem sliderMoved_never_at_limit_witness :
    ((onCutXHSsliderMoved demoEnv 100 sliderState).ui.cutXHS.value = 99 ∧
      (onCutXHSsliderMoved demoEnv 100 sliderState).ui.cutX.value = 7) ∧
    ((onCutYHSsliderMoved demoEnv 0 sliderState).ui.cutYHS.value = 1 ∧
      (onCutYHSsliderMoved demoEnv 0 sliderState).ui.cutY.value = 7) ∧
    ((0 : ℚ) < (onCutZHSsliderMoved demoEnv 25 sliderState).ui.cutZ.value ∧
      (onCutZHSsliderMoved demoEnv 25 sliderState).ui.cutZ.value < 40) :=
  ⟨(sliderMoved_never_at_limit demoEnv 100 sliderState).1.1 (by decide!),
   (sliderMoved_never_at_limit demoEnv 0 sliderState).2.1.2.1 (by decide!) (by decide!),
   ((sliderMoved_never_at_limit demoEnv 25 sliderState).2.2.2.2 (by decide!) (by decide!)).2
      (by decide) (by decide) (by decide!)⟩

/-- Claim C6: `onCutXvalueChanged`, `onCutYvalueChanged` and
`onCutZvalueChanged`, on the document the dialog works on, never place a cut
at the edge of the range. When the value of the spin box equals its maximum
the handler sets it to maximum - 0.1 and returns; otherwise, when it equals
its minimum, the handler sets it to minimum + 0.1 and returns; in both cases
the handler changes no box placement and recomputes no cut, so the placement
of a box is changed only when the value differs from both limits. -/
theorem valueChanged_never_at_edge (e : Env) (val : ℚ) (s : State)
    (ha : s.activeDocument = true) (hd : s.docIsActive = true) :
    EdgeValueSpec s.ui.cutX s.doc
      (onCutXvalueChanged e val s).ui.cutX (onCutXvalueChanged e val s).doc ∧
    EdgeValueSpec s.ui.cutY s.doc
      (onCutYvalueChanged e val s).ui.cutY (onCutYvalueChanged e val s).doc ∧
    EdgeValueSpec s.ui.cutZ s.doc
      (onCutZvalueChanged e val s).ui.cutZ (onCutZvalueChanged e val s).doc := by
  refine ⟨?_, ?_, ?_⟩ <;> apply edgeValueSpec_of
  · intro h
    simp [onCutXvalueChanged, ha, hd, h]
  · intro h1 h2
    have hne : s.ui.cutX.minimum ≠ s.ui.cutX.maximum := h2 ▸ h1
    simp [onCutXvalueChanged, ha, hd, h2, hne]
  · intro h
    simp [onCutYvalueChanged, ha, hd, h]
  · intro h1 h2
    have hne : s.ui.cutY.minimum ≠ s.ui.cutY.maximum := h2 ▸ h1
    simp [onCutYvalueChanged, ha, hd, h2, hne]
  · intro h
    simp [onCutZvalueChanged, ha, hd, h]
  · intro h1 h2
    have hne : s.ui.cutZ.minimum ≠ s.ui.cutZ.maximum := h2 ▸ h1
    simp [onCutZvalueChanged, ha, hd, h2, hne]

theorem valueChanged_never_at_edge_witness :
    (edgeState.activeDocument = true ∧ edgeState.docIsActive = true) ∧
    ((onCutXvalueChanged demoEnv 40 edgeState).ui.cutX.value = 40 - 0.1 ∧
      (onCutXvalueChanged demoEnv 40 edgeState).doc = demoDoc) ∧
    ((onCutYvalueChanged demoEnv 0 edgeState).ui.cutY.value = 0 + 0.1 ∧
      (onCutYvalueChanged demoEnv 0 edgeState).doc = demoDoc) :=
  ⟨⟨rfl, rfl⟩,
   (valueChanged_never_at_edge demoEnv 40 edgeState rfl rfl).1.1 (by decide!),
   (valueChanged_never_at_edge demoEnv 0 edgeState rfl rfl).2.1.2.1 (by decide!) (by decide!)⟩

/-- Claim C1: whenever `startCutting` gets as far as creating cut boxes, each
cut it creates has the box of its own axis as `Tool`, and its `Base` follows
the chain X, Y, Z: the compound for the X cut; the X cut if X is checked and
the compound otherwise for the Y cut; the Y cut if Y is checked, otherwise the
X cut if X is checked, otherwise the compound, for the Z cut. The objects so
referred to are in the document, and if boxes and cuts can be created, the cut
of every checked axis is created. -/
theorem startCutting_base_chain (e : Env) (isInitial : Bool) (s s1 : State) (c : String)
    (bb : SbBox3f) (hw : e.WellNamed)
    (hp : prepareCompound e isInitial s = Prepared.compound c bb s1) :
    (startCutting e isInitial s).doc.HasType c "Part::Compound" ∧
    CutChain e c (startCutting e isInitial s) ∧
    (e.canCreate "Part::Box" = true → e.canCreate "Part::Cut" = true →
      CutsCreated e (startCutting e isInitial s)) := by
  have post := startCutting_cutsPost e isInitial s s1 c bb hw hp
  obtain ⟨hc, _, _⟩ := prepareCompound_free e isInitial s s1 c bb hp hw
  have hcomp := prepareCompound_hasType e isInitial s s1 c bb hp
  have gX : (startCutting e isInitial s).ui.groupBoxX = s1.ui.groupBoxX := post.buttons.1
  have gY : (startCutting e isInitial s).ui.groupBoxY = s1.ui.groupBoxY := post.buttons.2.1
  have gZ : (startCutting e isInitial s).ui.groupBoxZ = s1.ui.groupBoxZ := post.buttons.2.2.1
  have tX : (((startCutting e isInitial s).doc.getObject e.CutXName).isSome = true) →
      (startCutting e isInitial s).doc.HasType e.CutXName "Part::Cut" :=
    fun hs => hasType_of_isSome hs (fun o h => (post.cutX o h).2.2.2.1)
  have tY : (((startCutting e isInitial s).doc.getObject e.CutYName).isSome = true) →
      (startCutting e isInitial s).doc.HasType e.CutYName "Part::Cut" :=
    fun hs => hasType_of_isSome hs (fun o h => (post.cutY o h).2.2.2.1)
  have tZ : (((startCutting e isInitial s).doc.getObject e.CutZName).isSome = true) →
      (startCutting e isInitial s).doc.HasType e.CutZName "Part::Cut" :=
    fun hs => hasType_of_isSome hs (fun o h => (post.cutZ o h).2.2.2.1)
  refine ⟨?_, ⟨?_, ?_, ?_⟩, ?_⟩
  · obtain ⟨co, h1, h2⟩ := hcomp
    refine ⟨co, ?_, h2⟩
    rw [post.frame c ?_]
    · exact h1
    · rw [hc]
      exact (List.nodup_cons.mp hw.1).1
  · intro o h
    obtain ⟨_, h2, h3, h4, h5⟩ := post.cutX o h
    exact ⟨h4, h2, h3, hasType_of_isSome h5 (fun b hb => (post.boxX b hb).1)⟩
  · intro o h
    obtain ⟨_, h2, h3, h4, h5, h6⟩ := post.cutY o h
    rw [gX]
    exact ⟨h4, h2, h3, hasType_of_isSome h5 (fun b hb => (post.boxY b hb).1),
      fun hg => tX (h6 hg)⟩
  · intro o h
    obtain ⟨_, h2, h3, h4, h5, h6, h7⟩ := post.cutZ o h
    rw [gX, gY]
    exact ⟨h4, h2, h3, hasType_of_isSome h5 (fun b hb => (post.boxZ b hb).1),
      fun hg => tY (h6 hg), fun hg => tX (h7 hg)⟩
  · intro hb hcc
    obtain ⟨p1, p2, p3⟩ := post.progress hb hcc
    rw [CutsCreated, gX, gY, gZ]
    exact ⟨fun hg => tX (p1 hg), fun hg => tY (p2 hg), fun hg => tZ (p3 hg)⟩


theorem startCutting_base_chain_witness :
    demoEnv.WellNamed ∧
    prepareCompound demoEnv false chainState =
      Prepared.compound "SectionCutCompound" demoBox
        (prepareCompound demoEnv false chainState).state ∧
    CutChain demoEnv "SectionCutCompound" (startCutting demoEnv false chainState) ∧
    CutsCreated demoEnv (startCutting demoEnv false chainState) :=
  ⟨demoEnv_wellNamed, by decide!,
   (startCutting_base_chain demoEnv false chainState _ _ _ demoEnv_wellNamed
      (by decide! : prepareCompound demoEnv false chainState =
        Prepared.compound "SectionCutCompound" demoBox
          (prepareCompound demoEnv false chainState).state)).2.1,
   (startCutting_base_chain demoEnv false chainState _ _ _ demoEnv_wellNamed
      (by decide! : prepareCompound demoEnv false chainState =
        Prepared.compound "SectionCutCompound" demoBox
          (prepareCompound demoEnv false chainState).state)).2.2 rfl rfl⟩

/-- Claim C2 at a failing input: with the Z axis checked, the flip button of
Z checked and the flip button of Y unchecked, `startCutting` uses the cut
position 15 and places the Z box at `15 - (30 + 1.0)` on z, the position for
an unflipped box, where the claim has the cut position 15. -/
theorem startCutting_Z_box_follows_flipY :
    flipZState.ui.groupBoxZ = true ∧ flipZState.ui.flipZ = true ∧
    flipZState.ui.flipY = false ∧
    (startCutting demoEnv false flipZState).ui.cutZ.value = 15 ∧
    ((startCutting demoEnv false flipZState).doc.getObject "SectionCutBoxZ").map
      (fun b => (b.Height, b.Placement.z)) = some (30 + 1.0, 15 - (30 + 1.0)) := by
  decide!

/-- Claim C4: every cut box `startCutting` creates has `Length`, `Width` and
`Height` equal to the size of the bounding box of the compound on x, y and z
plus 1.0, and on the two axes perpendicular to its cut axis it is placed at
the origin of the bounding box minus 0.5, so that on each of those axes it
extends exactly 0.5 beyond the bounding box on both sides. -/
theorem startCutting_box_size (e : Env) (isInitial : Bool) (s s1 : State) (c : String)
    (bb : SbBox3f) (hw : e.WellNamed)
    (hp : prepareCompound e isInitial s = Prepared.compound c bb s1) :
    CutBoxes e bb (startCutting e isInitial s) := by
  have post := startCutting_cutsPost e isInitial s s1 c bb hw hp
  have e1 : (1.0 : ℚ) = 1 := by norm_num
  refine ⟨?_, ?_, ?_⟩
  · intro b hb
    obtain ⟨_, h1, h2, h3, h4, h5⟩ := post.boxX b hb
    exact ⟨⟨by rw [h1, e1], by rw [h2, e1], by rw [h3, e1]⟩,
      extendsHalf_of _ _ _ _ h4 h2, extendsHalf_of _ _ _ _ h5 h3⟩
  · intro b hb
    obtain ⟨_, h1, h2, h3, h4, h5⟩ := post.boxY b hb
    exact ⟨⟨by rw [h1, e1], by rw [h2, e1], by rw [h3, e1]⟩,
      extendsHalf_of _ _ _ _ h4 h1, extendsHalf_of _ _ _ _ h5 h3⟩
  · intro b hb
    obtain ⟨_, h1, h2, h3, h4, h5⟩ := post.boxZ b hb
    exact ⟨⟨by rw [h1, e1], by rw [h2, e1], by rw [h3, e1]⟩,
      extendsHalf_of _ _ _ _ h4 h1, extendsHalf_of _ _ _ _ h5 h2⟩


theorem startCutting_box_size_witness :
    demoEnv.WellNamed ∧
    prepareCompound demoEnv false chainState =
      Prepared.compound "SectionCutCompound" demoBox
        (prepareCompound demoEnv false chainState).state ∧
    CutBoxes demoEnv demoBox (startCutting demoEnv false chainState) ∧
    ((startCutting demoEnv false chainState).doc.getObject "SectionCutBoxY").isSome = true :=
  ⟨demoEnv_wellNamed, by decide!,
   startCutting_box_size demoEnv false chainState _ _ _ demoEnv_wellNamed
      (by decide! : prepareCompound demoEnv false chainState =
        Prepared.compound "SectionCutCompound" demoBox
          (prepareCompound demoEnv false chainState).state),
   by decide!⟩

/-- Claim C3, amended: when the document is the active one, the axis box
exists and the cuts the handler looks up exist (the cut of the axis, and for
X the Y cut if there is a Y but no Z box, the Z cut if there is a Z box),
`onFlipXclicked`, `onFlipYclicked` and `onFlipZclicked` move the box along
its own axis by exactly its `Length`, `Width`, `Height`: by plus that
dimension when the flip button is checked and by minus it when unchecked;
nothing else of the box changes. -/
theorem flip_moves_box_by_its_size (e : Env) (s : State)
    (ha : s.activeDocument = true) (hd : s.docIsActive = true) :
    (∀ b, s.doc.getObject e.BoxXName = some b →
      (s.doc.getObject e.CutXName).isSome = true →
      (s.hasBoxY = true → s.hasBoxZ = false → (s.doc.getObject e.CutYName).isSome = true) →
      (s.hasBoxZ = true → (s.doc.getObject e.CutZName).isSome = true) →
      (onFlipXclicked e s).doc.getObject e.BoxXName = some { b with Placement :=
        { b.Placement with x := if s.ui.flipX then b.Placement.x + b.Length
            else b.Placement.x - b.Length } }) ∧
    (∀ b, s.doc.getObject e.BoxYName = some b →
      (s.doc.getObject e.CutYName).isSome = true →
      (onFlipYclicked e s).doc.getObject e.BoxYName = some { b with Placement :=
        { b.Placement with y := if s.ui.flipY then b.Placement.y + b.Width
            else b.Placement.y - b.Width } }) ∧
    (∀ b, s.doc.getObject e.BoxZName = some b →
      (s.doc.getObject e.CutZName).isSome = true →
      (onFlipZclicked e s).doc.getObject e.BoxZName = some { b with Placement :=
        { b.Placement with z := if s.ui.flipZ then b.Placement.z + b.Height
            else b.Placement.z - b.Height } }) := by
  refine ⟨?_, ?_, ?_⟩
  · intro b hb hc hy hz
    unfold onFlipXclicked
    simp only [ha, hd, Bool.not_true, Bool.false_eq_true, if_false, hb]
    generalize hd1 : s.doc.modify e.BoxXName (fun o => { o with Placement :=
      if s.ui.flipX = true then { b.Placement with x := b.Placement.x + b.Length }
      else { b.Placement with x := b.Placement.x - b.Length } }) = d1
    have hb1 : d1.getObject e.BoxXName = some { b with Placement :=
        { b.Placement with x := if s.ui.flipX then b.Placement.x + b.Length
            else b.Placement.x - b.Length } } := by
      rw [← hd1, getObject_modify, hb]
      · cases s.ui.flipX <;> simp
      · intro _
        rfl
    have hiso : ∀ m, (d1.getObject m).isSome = (s.doc.getObject m).isSome := by
      intro m
      rw [← hd1]
      apply isSome_getObject_modify
      intro _
      rfl
    clear hd1
    cases hcx : d1.getObject e.CutXName with
    | none =>
      have := hiso e.CutXName
      rw [hcx, hc] at this
      cases this
    | some cx =>
      simp only []
      cases hY : s.hasBoxY <;> cases hZ : s.hasBoxZ <;>
        simp only [Bool.false_eq_true, if_false, if_true, Bool.not_true, Bool.not_false,
          Bool.and_true, Bool.and_false, Bool.false_and, Bool.true_and, Bool.or_false,
          Bool.or_true, Bool.or_self, Bool.and_self, pointer_eq, hiso,
          hy, hz, hY, hZ, getObject_recomputeFeature, hb1]
  · intro b hb hc
    unfold onFlipYclicked
    simp only [ha, hd, Bool.not_true, Bool.false_eq_true, if_false, hb]
    generalize hd1 : s.doc.modify e.BoxYName (fun o => { o with Placement :=
      if s.ui.flipY = true then { b.Placement with y := b.Placement.y + b.Width }
      else { b.Placement with y := b.Placement.y - b.Width } }) = d1
    have hb1 : d1.getObject e.BoxYName = some { b with Placement :=
        { b.Placement with y := if s.ui.flipY then b.Placement.y + b.Width
            else b.Placement.y - b.Width } } := by
      rw [← hd1, getObject_modify, hb]
      · cases s.ui.flipY <;> simp
      · intro _
        rfl
    have hiso : ∀ m, (d1.getObject m).isSome = (s.doc.getObject m).isSome := by
      intro m
      rw [← hd1]
      apply isSome_getObject_modify
      intro _
      rfl
    clear hd1
    cases hcx : d1.getObject e.CutYName with
    | none =>
      have := hiso e.CutYName
      rw [hcx, hc] at this
      cases this
    | some cx =>
      simp only []
      cases hZ : s.hasBoxZ
      · simp only [Bool.false_eq_true, if_false, getObject_recomputeFeature, hb1]
      · simp only [if_true]
        cases d1.pointer e.CutZName <;>
          simp only [getObject_recomputeFeature, hb1]
  · intro b hb hc
    unfold onFlipZclicked
    simp only [ha, hd, Bool.not_true, Bool.false_eq_true, if_false, hb]
    generalize hd1 : s.doc.modify e.BoxZName (fun o => { o with Placement :=
      if s.ui.flipZ = true then { b.Placement with z := b.Placement.z + b.Height }
      else { b.Placement with z := b.Placement.z - b.Height } }) = d1
    have hb1 : d1.getObject e.BoxZName = some { b with Placement :=
        { b.Placement with z := if s.ui.flipZ then b.Placement.z + b.Height
            else b.Placement.z - b.Height } } := by
      rw [← hd1, getObject_modify, hb]
      · cases s.ui.flipZ <;> simp
      · intro _
        rfl
    have hiso : ∀ m, (d1.getObject m).isSome = (s.doc.getObject m).isSome := by
      intro m
      rw [← hd1]
      apply isSome_getObject_modify
      intro _
      rfl
    clear hd1
    cases hcx : d1.getObject e.CutZName with
    | none =>
      have := hiso e.CutZName
      rw [hcx, hc] at this
      cases this
    | some cx =>
      simp only [getObject_recomputeFeature, hb1]

theorem flip_moves_box_by_its_size_witness :
    (cutState.activeDocument = true ∧ cutState.docIsActive = true) ∧
    (cutState.ui.flipX = true ∧
      (onFlipXclicked demoEnv cutState).doc.getObject demoEnv.BoxXName = some
        { name := "SectionCutBoxX", typeId := "Part::Box", hasShape := true,
          Length := 11, Width := 21, Height := 31, Placement := ⟨-6 + 11, -1 / 2, -1 / 2⟩ }) ∧
    (cutState.ui.flipY = false ∧
      (onFlipYclicked demoEnv cutState).doc.getObject demoEnv.BoxYName = some
        { name := "SectionCutBoxY", typeId := "Part::Box", hasShape := true,
          Length := 11, Width := 21, Height := 31, Placement := ⟨-1 / 2, -16 - 21, -1 / 2⟩ }) ∧
    (cutState.ui.flipZ = false ∧
      (onFlipZclicked demoEnv cutState).doc.getObject demoEnv.BoxZName = some
        { name := "SectionCutBoxZ", typeId := "Part::Box", hasShape := true,
          Length := 11, Width := 21, Height := 31, Placement := ⟨-1 / 2, -1 / 2, -26 - 31⟩ }) :=
  ⟨⟨rfl, rfl⟩,
    ⟨rfl, ((flip_moves_box_by_its_size demoEnv cutState rfl rfl).1
      { name := "SectionCutBoxX", typeId := "Part::Box", hasShape := true,
        Length := 11, Width := 21, Height := 31, Placement := ⟨-6, -1 / 2, -1 / 2⟩ }
      (by decide!) (by decide!) (by decide!) (by decide!)).trans (by decide!)⟩,
    ⟨rfl, ((flip_moves_box_by_its_size demoEnv cutState rfl rfl).2.1
      { name := "SectionCutBoxY", typeId := "Part::Box", hasShape := true,
        Length := 11, Width := 21, Height := 31, Placement := ⟨-1 / 2, -16, -1 / 2⟩ }
      (by decide!) (by decide!)).trans (by decide!)⟩,
    ⟨rfl, ((flip_moves_box_by_its_size demoEnv cutState rfl rfl).2.2
      { name := "SectionCutBoxZ", typeId := "Part::Box", hasShape := true,
        Length := 11, Width := 21, Height := 31, Placement := ⟨-1 / 2, -1 / 2, -26⟩ }
      (by decide!) (by decide!)).trans (by decide!)⟩⟩

/-- Claim C3 as stated fails when the X cut is missing: the document is the
active one and the X box exists, of length 5 at x = 4, and the flip button
is checked, but `onFlipXclicked` falls back to `startCutting`, which removes
the box and creates a new one, of length 11 at x = 3, not 4 + 5. -/
theorem flip_without_cut_rebuilds_box :
    boxOnlyState.activeDocument = true ∧ boxOnlyState.docIsActive = true ∧
    boxOnlyState.ui.flipX = true ∧
    (boxOnlyState.doc.getObject "SectionCutBoxX").map
      (fun b => (b.Placement.x, b.Length)) = some (4, 5) ∧
    ((onFlipXclicked demoEnv boxOnlyState).doc.getObject "SectionCutBoxX").map
      (fun b => (b.Placement.x, b.Length)) = some (3, 11) ∧
    ((onFlipXclicked demoEnv boxOnlyState).doc.getObject "SectionCutBoxX").map
      (fun b => (b.Placement.x, b.Length)) ≠ some (4 + 5, 5) := by
  decide!

/-- Claim C9, amended: when there is an active document and either it is
the document of the dialog or it has no object under the name of a cut, and
`startCutting` is called with none of the three group boxes checked, then on
return the document has no object named `CutXName`, `CutYName`, `CutZName`,
`BoxXName`, `BoxYName`, `BoxZName` or `CompoundName` and none of the objects
that were in the `Links` of the compound, no object has been added, and the
Refresh button is enabled. This holds whether or not an object that can be
cut is left. -/
theorem startCutting_unchecked_removes_all (e : Env) (isInitial : Bool) (s : State)
    (hc : e.CompoundName ∉ e.cutNames) (ha : s.activeDocument = true)
    (hd : s.docIsActive = false → s.doc.NoCuts e) (hg : s.ui.noneChecked) :
    (∀ n ∈ e.CompoundName :: e.cutNames, (startCutting e isInitial s).doc.getObject n = none) ∧
    (∀ c, s.doc.getObject e.CompoundName = some c →
      ∀ l ∈ c.Links, (startCutting e isInitial s).doc.getObject l = none) ∧
    (startCutting e isInitial s).doc.getObjects.Sublist s.doc.getObjects ∧
    (startCutting e isInitial s).ui.RefreshCutPB = true := by
  have hb := collectCutList_buttons e s ha hd
  obtain ⟨b1, b2, b3, -⟩ := hb
  obtain ⟨g1, g2, g3⟩ := hg
  obtain ⟨hdoc, hr⟩ := startCutting_of_noneChecked e isInitial s ha
    ⟨b1.trans g1, b2.trans g2, b3.trans g3⟩
  refine ⟨?_, ?_, ?_, hr⟩
  · intro n hn
    rw [hdoc, getObject_eq_none_iff]
    exact collectCutList_free e s n hn
  · intro c hcs l hl
    rw [hdoc, getObject_eq_none_iff]
    exact collectCutList_links e s c hc hcs l hl
  · rw [hdoc]
    exact collectCutList_sublist e s

theorem startCutting_unchecked_removes_all_witness :
    (demoEnv.CompoundName ∉ demoEnv.cutNames ∧ uncheckedState.activeDocument = true ∧
      uncheckedState.ui.noneChecked) ∧
    (startCutting demoEnv false uncheckedState).doc.getObjects = ["Box"] ∧
    (startCutting demoEnv false uncheckedState).ui.RefreshCutPB = true :=
  ⟨⟨by decide!, rfl, rfl, rfl, rfl⟩, by decide!,
    (startCutting_unchecked_removes_all demoEnv false uncheckedState (by decide!) rfl
      (fun h => by cases h) ⟨rfl, rfl, rfl⟩).2.2.2⟩

/-- Claim C9 as stated fails when the document has been changed: the new
document has a solid and an X cut, no group box is checked, and
`startCutting` first refreshes the dialog, which checks the X group box for
the cut it finds; the cut is removed and then created again with a box and a
compound, and the Refresh button is disabled. -/
theorem startCutting_unchecked_after_document_change :
    staleState.activeDocument = true ∧ staleState.ui.groupBoxX = false ∧
    staleState.ui.groupBoxY = false ∧ staleState.ui.groupBoxZ = false ∧
    staleState.doc.getObjects = ["Box", "SectionCutX"] ∧
    (startCutting demoEnv false staleState).doc.getObjects =
      ["Box", "SectionCutCompound", "Box_CutLink", "SectionCutBoxX", "SectionCutX"] ∧
    (startCutting demoEnv false staleState).ui.RefreshCutPB = false := by
  decide!

/-- Claim C10: the shape filter of `startCutting` puts an object into the
cut list if and only if it is a visible object that has a `Shape` property,
derives from `Part::Feature` and from none of `Part::Part2DObject`,
`Part::Datum`, `PartDesign::Feature`, `Part::Compound` and is not `App::Part`,
or it is a member of exact type `App::Link` of the `Group` of a visible
object of type `App::Part`; nothing else is put into the list. -/
theorem collectObjectsListCut_mem (e : Env) (s : State) (x : String) :
    x ∈ (collectObjectsListCut e s).1 ↔ InCutList e s x := by
  unfold collectObjectsListCut
  rw [collect_foldl_fst]
  simp only [List.nil_append, List.mem_flatMap, mem_cutCandidates, InCutList]
  constructor
  · rintro ⟨it, hit, o, ho, h | h⟩
    · exact Or.inr ⟨it, hit, o, ho, h⟩
    · left
      obtain ⟨hx, hc⟩ := h
      subst hx
      refine ⟨hit, o, ho, ?_⟩
      simpa [isCuttable, and_assoc] using hc
  · rintro (⟨hx, o, ho, hc⟩ | ⟨p, hp, po, hpo, h⟩)
    · refine ⟨x, hx, o, ho, Or.inr ⟨rfl, ?_⟩⟩
      simpa [isCuttable, and_assoc] using hc
    · exact ⟨p, hp, po, hpo, Or.inl h⟩

/-- Claim C12: when the cut list is empty after the filter and the sort-out,
`startCutting` returns from the branch of lines 387 to 400: the document is
the one the cleanup has left, so no object has been added and there is no
compound, box or cut, the three group boxes are unchecked and the Refresh
button is enabled. With `isInitial` true and false the results differ in the
message written to the console only. -/
theorem startCutting_nothing_to_cut (e : Env) (isInitial : Bool) (s : State)
    (ha : s.activeDocument = true) (hl : (collectCutList e s).1 = []) :
    (startCutting e isInitial s).doc = (collectCutList e s).2.doc ∧
    (startCutting e isInitial s).doc.getObjects.Sublist s.doc.getObjects ∧
    (∀ n ∈ e.CompoundName :: e.cutNames,
      (startCutting e isInitial s).doc.getObject n = none) ∧
    (startCutting e isInitial s).ui.noneChecked ∧
    (startCutting e isInitial s).ui.RefreshCutPB = true ∧
    startCutting e true s = { startCutting e false s with
      console := (collectCutList e s).2.console ++
        ["SectionCut error: there are no visible objects to be cut\n"] } ∧
    (startCutting e false s).console = (collectCutList e s).2.console ++
      ["SectionCut error: there are no objects in the document that can be cut\n"] := by
  have hdoc : ∀ b, (startCutting e b s).doc = (collectCutList e s).2.doc := by
    intro b
    rw [startCutting_of_empty e b s ha hl, nothingToCut_doc]
  refine ⟨hdoc _, ?_, ?_, ?_, ?_, ?_, ?_⟩
  · rw [hdoc]
    exact collectCutList_sublist e s
  · intro n hn
    rw [hdoc, getObject_eq_none_iff]
    exact collectCutList_free e s n hn
  · rw [startCutting_of_empty e isInitial s ha hl]
    exact (nothingToCut_ui _ _).1
  · rw [startCutting_of_empty e isInitial s ha hl]
    exact (nothingToCut_ui _ _).2
  · rw [startCutting_of_empty e true s ha hl, startCutting_of_empty e false s ha hl]
    exact (nothingToCut_console _).1
  · rw [startCutting_of_empty e false s ha hl]
    exact (nothingToCut_console _).2

theorem startCutting_nothing_to_cut_witness :
    (sketchState.activeDocument = true ∧ (collectCutList demoEnv sketchState).1 = []) ∧
    (startCutting demoEnv true sketchState).doc.getObjects = ["Sketch"] ∧
    (startCutting demoEnv true sketchState).ui.groupBoxX = false ∧
    (startCutting demoEnv true sketchState).ui.RefreshCutPB = true :=
  ⟨⟨rfl, by decide!⟩, by decide!,
    (startCutting_nothing_to_cut demoEnv true sketchState rfl (by decide!)).2.2.2.1.1,
    (startCutting_nothing_to_cut demoEnv true sketchState rfl (by decide!)).2.2.2.2.1⟩

/-- Claim C14: the destructor with an active document. With the
keep-only-cut check box unchecked every object of `ObjectsListVisible` that
is valid has `Visibility` true afterwards and is otherwise as before, every
other object is as before and no object is added or removed; with the check
box checked the state is as before. -/
theorem deleteSectionCut_visibility (s : State) (ha : s.activeDocument = true) :
    (s.ui.keepOnlyCutCB = false →
      (∀ n ∈ s.ObjectsListVisible, s.doc.isValid n = true →
        ∃ o, s.doc.getObject n = some o ∧
          (deleteSectionCut s).doc.getObject n = some { o with Visibility := true }) ∧
      (∀ n, ¬ (n ∈ s.ObjectsListVisible ∧ s.doc.isValid n = true) →
        (deleteSectionCut s).doc.getObject n = s.doc.getObject n) ∧
      (deleteSectionCut s).doc.getObjects = s.doc.getObjects) ∧
    (s.ui.keepOnlyCutCB = true → deleteSectionCut s = s) := by
  unfold deleteSectionCut
  simp only [ha, Bool.not_true, Bool.false_eq_true, if_false]
  constructor
  · intro hk
    simp only [hk, Bool.not_false, if_true]
    refine ⟨?_, ?_, showValid_getObjects _ _⟩
    · intro n hn hv
      rw [showValid_getObject, if_pos ⟨hn, hv⟩]
      unfold Document.isValid at hv
      cases h : s.doc.getObject n with
      | none => simp [h] at hv
      | some o => exact ⟨o, rfl, rfl⟩
    · intro n hn
      rw [showValid_getObject, if_neg hn]
  · intro hk
    simp only [hk, Bool.not_true, Bool.false_eq_true, if_false]

theorem deleteSectionCut_visibility_witness :
    closingState.activeDocument = true ∧ closingState.ui.keepOnlyCutCB = false ∧
    ((deleteSectionCut closingState).doc.objects.map (fun o => (o.name, o.Visibility))) =
      [("Box", true), ("Hidden", false), ("SectionCutX", true)] ∧
    (deleteSectionCut closingState).doc.getObjects = closingState.doc.getObjects :=
  ⟨rfl, rfl, by decide!, ((deleteSectionCut_visibility closingState rfl).1 rfl).2.2⟩

/-- Claim C15 against the code: the constructor sets the spin box of an axis
to the size of the box on that axis minus the absolute value of its
position, lines 116, 126 and 136. For a box that was placed unflipped for
the cut value `v`, at `v` minus its size, this is `v` if and only if `v` is
at most the size of the box; for a larger `v` the value read back is twice
the size minus `v`. -/
theorem constructor_reads_back_iff (e : Env) (s : State) (v : ℚ) :
    (∀ b, s.doc.getObject e.BoxZName = some b → b.Placement.z = v - b.Height →
      (readCutBoxes e s).ui.cutZ.value = b.Height - fabs b.Placement.z ∧
      ((readCutBoxes e s).ui.cutZ.value = v ↔ v ≤ b.Height) ∧
      (b.Height < v → (readCutBoxes e s).ui.cutZ.value = 2 * b.Height - v)) ∧
    (∀ b, s.doc.getObject e.BoxYName = some b → b.Placement.y = v - b.Width →
      (readCutBoxes e s).ui.cutY.value = b.Width - fabs b.Placement.y ∧
      ((readCutBoxes e s).ui.cutY.value = v ↔ v ≤ b.Width) ∧
      (b.Width < v → (readCutBoxes e s).ui.cutY.value = 2 * b.Width - v)) ∧
    (∀ b, s.doc.getObject e.BoxXName = some b → b.Placement.x = v - b.Length →
      (readCutBoxes e s).ui.cutX.value = b.Length - fabs b.Placement.x ∧
      ((readCutBoxes e s).ui.cutX.value = v ↔ v ≤ b.Length) ∧
      (b.Length < v → (readCutBoxes e s).ui.cutX.value = 2 * b.Length - v)) := by
  refine ⟨?_, ?_, ?_⟩
  · intro b hb hp
    have hv : (readCutBoxes e s).ui.cutZ.value = b.Height - fabs b.Placement.z := by
      unfold readCutBoxes
      rw [readBoxX_cutZ, readBoxY_cutZ, readBoxZ_value e s b hb]
    refine ⟨hv, ?_, ?_⟩
    · rw [hv, hp]
      exact readBack_eq_iff v b.Height
    · intro hlt
      rw [hv, hp, fabs_eq_abs, abs_of_pos (by linarith)]
      ring
  · intro b hb hp
    have hv : (readCutBoxes e s).ui.cutY.value = b.Width - fabs b.Placement.y := by
      unfold readCutBoxes
      rw [readBoxX_cutY, readBoxY_value e _ b (by rw [readBoxZ_doc]; exact hb)]
    refine ⟨hv, ?_, ?_⟩
    · rw [hv, hp]
      exact readBack_eq_iff v b.Width
    · intro hlt
      rw [hv, hp, fabs_eq_abs, abs_of_pos (by linarith)]
      ring
  · intro b hb hp
    have hv : (readCutBoxes e s).ui.cutX.value = b.Length - fabs b.Placement.x := by
      unfold readCutBoxes
      rw [readBoxX_value e _ b (by rw [readBoxY_doc, readBoxZ_doc]; exact hb)]
    refine ⟨hv, ?_, ?_⟩
    · rw [hv, hp]
      exact readBack_eq_iff v b.Length
    · intro hlt
      rw [hv, hp, fabs_eq_abs, abs_of_pos (by linarith)]
      ring

theorem constructor_reads_back_iff_witness :
    (startCutting farEnv false farState).ui.cutZ.value = 105 ∧
    ((startCutting farEnv false farState).doc.getObject farEnv.BoxZName).map
      (fun b => (b.Height, b.Placement.z)) = some (11, 105 - 11) ∧
    (readCutBoxes farEnv
      (freshState (deleteSectionCut (startCutting farEnv false farState)).doc)).ui.cutZ.value
      = -83 ∧
    (newSectionCut farEnv
      (freshState (deleteSectionCut (startCutting farEnv false farState)).doc)).ui.cutZ.value
      = 100 + 0.1 := by
  refine ⟨by decide!, by decide!, ?_, by decide!⟩
  have h := ((constructor_reads_back_iff farEnv
    (freshState (deleteSectionCut (startCutting farEnv false farState)).doc) 105).1
    { name := "SectionCutBoxZ", typeId := "Part::Box", hasShape := true,
      Length := 11, Width := 21, Height := 11, Placement := ⟨-1 / 2, -1 / 2, 94⟩ }
    (by decide!) (by decide!)).2.2 (by decide!)
  rw [h]
  decide!

/-- Claim C18: for a cut range with minimum below maximum and every integer
`val`, the slider position of lines 737 to 739, `int((v - min) / (max - min)
* 100)`, of the value `v = min + val / 100 * (max - min)` is `val` again;
and for a `val` that is not at a limit of the slider this `v` is the value
`onCutXHSsliderMoved` stores in the spin box, whose range it leaves as it
is. Likewise for Y and Z. -/
theorem slider_and_spin_box_inverse (e : Env) (s : State) (val : ℤ) :
    (s.ui.cutX.minimum < s.ui.cutX.maximum →
      sliderPosition (s.ui.cutX.minimum + val / 100.0 * (s.ui.cutX.maximum - s.ui.cutX.minimum))
        s.ui.cutX.minimum s.ui.cutX.maximum = val ∧
      (val ≠ s.ui.cutXHS.maximum → val ≠ s.ui.cutXHS.minimum →
        sliderPosition (onCutXHSsliderMoved e val s).ui.cutX.value
          (onCutXHSsliderMoved e val s).ui.cutX.minimum
          (onCutXHSsliderMoved e val s).ui.cutX.maximum = val)) ∧
    (s.ui.cutY.minimum < s.ui.cutY.maximum →
      sliderPosition (s.ui.cutY.minimum + val / 100.0 * (s.ui.cutY.maximum - s.ui.cutY.minimum))
        s.ui.cutY.minimum s.ui.cutY.maximum = val ∧
      (val ≠ s.ui.cutYHS.maximum → val ≠ s.ui.cutYHS.minimum →
        sliderPosition (onCutYHSsliderMoved e val s).ui.cutY.value
          (onCutYHSsliderMoved e val s).ui.cutY.minimum
          (onCutYHSsliderMoved e val s).ui.cutY.maximum = val)) ∧
    (s.ui.cutZ.minimum < s.ui.cutZ.maximum →
      sliderPosition (s.ui.cutZ.minimum + val / 100.0 * (s.ui.cutZ.maximum - s.ui.cutZ.minimum))
        s.ui.cutZ.minimum s.ui.cutZ.maximum = val ∧
      (val ≠ s.ui.cutZHS.maximum → val ≠ s.ui.cutZHS.minimum →
        sliderPosition (onCutZHSsliderMoved e val s).ui.cutZ.value
          (onCutZHSsliderMoved e val s).ui.cutZ.minimum
          (onCutZHSsliderMoved e val s).ui.cutZ.maximum = val)) := by
  refine ⟨?_, ?_, ?_⟩
  · intro hr
    refine ⟨sliderPosition_of_percent _ _ val hr, ?_⟩
    intro h1 h2
    unfold onCutXHSsliderMoved
    rw [if_neg h1, if_neg h2]
    exact sliderPosition_of_percent _ _ val hr
  · intro hr
    refine ⟨sliderPosition_of_percent _ _ val hr, ?_⟩
    intro h1 h2
    unfold onCutYHSsliderMoved
    rw [if_neg h1, if_neg h2]
    exact sliderPosition_of_percent _ _ val hr
  · intro hr
    refine ⟨sliderPosition_of_percent _ _ val hr, ?_⟩
    intro h1 h2
    unfold onCutZHSsliderMoved
    rw [if_neg h1, if_neg h2]
    exact sliderPosition_of_percent _ _ val hr

theorem slider_and_spin_box_inverse_witness :
    sliderState.ui.cutX.minimum < sliderState.ui.cutX.maximum ∧
    (onCutXHSsliderMoved demoEnv 37 sliderState).ui.cutX.value = 14 + 4 / 5 ∧
    sliderPosition (onCutXHSsliderMoved demoEnv 37 sliderState).ui.cutX.value
      (onCutXHSsliderMoved demoEnv 37 sliderState).ui.cutX.minimum
      (onCutXHSsliderMoved demoEnv 37 sliderState).ui.cutX.maximum = 37 :=
  ⟨by decide!, by decide!,
    ((slider_and_spin_box_inverse demoEnv sliderState 37).1 (by decide!)).2
      (by decide!) (by decide!)⟩

/-- Claim C19 against the code: for a value within a range with minimum
below maximum the slider position of lines 737 to 739 is defined and lies
between 0 and 100; for a range with minimum equal to maximum the divisor is
zero and there is no slider position. -/
theorem sliderPosition_defined_iff (val minimum maximum : ℚ) (hr : minimum ≤ maximum)
    (h1 : minimum ≤ val) (h2 : val ≤ maximum) :
    (minimum < maximum →
      sliderPosition? val minimum maximum = some (sliderPosition val minimum maximum) ∧
      0 ≤ sliderPosition val minimum maximum ∧ sliderPosition val minimum maximum ≤ 100) ∧
    (minimum = maximum → sliderPosition? val minimum maximum = none) ∧
    ((sliderPosition? val minimum maximum).isSome = true ↔ minimum < maximum) := by
  have hsome : minimum < maximum →
      sliderPosition? val minimum maximum = some (sliderPosition val minimum maximum) := by
    intro hlt
    unfold sliderPosition?
    rw [if_neg]
    intro h
    linarith
  have hnone : minimum = maximum → sliderPosition? val minimum maximum = none := by
    intro heq
    unfold sliderPosition?
    rw [if_pos]
    rw [heq]
    ring
  refine ⟨fun hlt => ⟨hsome hlt, sliderPosition_bounds val minimum maximum hlt h1 h2⟩,
    hnone, ?_⟩
  constructor
  · intro h
    rcases lt_or_eq_of_le hr with hlt | heq
    · exact hlt
    · rw [hnone heq] at h
      cases h
  · intro hlt
    rw [hsome hlt]
    rfl

theorem sliderPosition_defined_iff_witness :
    flatBox.isEmpty = false ∧
    (refreshCutRanges demoEnv flatBox true true true true true true sliderState).ui.cutZ =
      { minimum := 5, maximum := 5, value := 5, singleStep := 1, decimals := 2 } ∧
    sliderPosition? 5 5 5 = none :=
  ⟨by decide!, by decide!,
    (sliderPosition_defined_iff 5 5 5 (by decide!) (by decide!) (by decide!)).2.1 rfl⟩

/-- Claim C20: `refreshCutRanges` changes nothing for an empty bounding box.
For a bounding box that is not empty it changes widgets only, and no check
box or button; an axis whose range flag and value flag are both false keeps
minimum, maximum, single step and value of its spin box and the position of
its slider; an axis whose value flag is set has the value of its spin box at
the centre of the bounding box on that axis and its slider at 50. -/
theorem refreshCutRanges_touches_selected (e : Env) (bb : SbBox3f)
    (fxv fyv fzv fxr fyr fzr : Bool) (s : State) :
    (bb.isEmpty = true → refreshCutRanges e bb fxv fyv fzv fxr fyr fzr s = s) ∧
    (bb.isEmpty = false →
      UiOnly s (refreshCutRanges e bb fxv fyv fzv fxr fyr fzr s) ∧
      (fxr = false → fxv = false →
        AxisKept s.ui.cutX (refreshCutRanges e bb fxv fyv fzv fxr fyr fzr s).ui.cutX
          s.ui.cutXHS (refreshCutRanges e bb fxv fyv fzv fxr fyr fzr s).ui.cutXHS) ∧
      (fyr = false → fyv = false →
        AxisKept s.ui.cutY (refreshCutRanges e bb fxv fyv fzv fxr fyr fzr s).ui.cutY
          s.ui.cutYHS (refreshCutRanges e bb fxv fyv fzv fxr fyr fzr s).ui.cutYHS) ∧
      (fzr = false → fzv = false →
        AxisKept s.ui.cutZ (refreshCutRanges e bb fxv fyv fzv fxr fyr fzr s).ui.cutZ
          s.ui.cutZHS (refreshCutRanges e bb fxv fyv fzv fxr fyr fzr s).ui.cutZHS) ∧
      (fxv = true →
        AxisCentred bb.getCenter.x (refreshCutRanges e bb fxv fyv fzv fxr fyr fzr s).ui.cutX
          (refreshCutRanges e bb fxv fyv fzv fxr fyr fzr s).ui.cutXHS) ∧
      (fyv = true →
        AxisCentred bb.getCenter.y (refreshCutRanges e bb fxv fyv fzv fxr fyr fzr s).ui.cutY
          (refreshCutRanges e bb fxv fyv fzv fxr fyr fzr s).ui.cutYHS) ∧
      (fzv = true →
        AxisCentred bb.getCenter.z (refreshCutRanges e bb fxv fyv fzv fxr fyr fzr s).ui.cutZ
          (refreshCutRanges e bb fxv fyv fzv fxr fyr fzr s).ui.cutZHS)) := by
  constructor
  · intro hb
    unfold refreshCutRanges
    rw [hb]
    rfl
  · intro hb
    refine ⟨refreshCutRanges_frame e bb fxv fyv fzv fxr fyr fzr s, ?_⟩
    rw [refreshCutRanges_of_nonempty e bb fxv fyv fzv fxr fyr fzr s hb]
    refine ⟨?_, ?_, ?_, ?_, ?_, ?_⟩
    · intro h1 h2
      subst h1
      subst h2
      exact refreshCutWidgets_kept_X e bb _ _ _ _ s.ui
    · intro h1 h2
      subst h1
      subst h2
      exact refreshCutWidgets_kept_Y e bb _ _ _ _ s.ui
    · intro h1 h2
      subst h1
      subst h2
      exact refreshCutWidgets_kept_Z e bb _ _ _ _ s.ui
    · intro h
      subst h
      exact refreshCutWidgets_centred_X e bb _ _ _ _ _ s.ui
    · intro h
      subst h
      exact refreshCutWidgets_centred_Y e bb _ _ _ _ _ s.ui
    · intro h
      subst h
      exact refreshCutWidgets_centred_Z e bb _ _ _ _ _ s.ui

theorem refreshCutRanges_touches_selected_witness :
    (demoBox.isEmpty = false ∧ demoBox.getCenter.y = 10) ∧
    AxisKept sliderState.ui.cutX
      (refreshCutRanges demoEnv demoBox false true false false true false sliderState).ui.cutX
      sliderState.ui.cutXHS
      (refreshCutRanges demoEnv demoBox false true false false true false sliderState).ui.cutXHS ∧
    AxisCentred demoBox.getCenter.y
      (refreshCutRanges demoEnv demoBox false true false false true false sliderState).ui.cutY
      (refreshCutRanges demoEnv demoBox false true false false true false sliderState).ui.cutYHS :=
  ⟨⟨by decide!, by decide!⟩,
    ((refreshCutRanges_touches_selected demoEnv demoBox false true false false true false
      sliderState).2 (by decide!)).2.1 rfl rfl,
    ((refreshCutRanges_touches_selected demoEnv demoBox false true false false true false
      sliderState).2 (by decide!)).2.2.2.2.2.1 rfl⟩

/-- Claim C16, amended: when the document is the active one, the box of the
axis exists and the cuts the handler looks up exist, the flip handlers agree
with the value-changed handlers. If before the flip button was toggled the
box was where the cut value `v` puts it under the previous flip state, then
after `onFlipXclicked` the box is at `v` when the button is checked and at
`v` minus its length when unchecked, with its size and its other two
coordinates as before, which is where `onCutXvalueChanged` puts it for a `v`
that is at neither limit of the range; so the relation between box and
value holds again after the flip, and it holds after every
`onCutXvalueChanged` with the value at neither limit. Likewise for Y with
the width and for Z with the height. -/
theorem flip_agrees_with_valueChanged (e : Env) (s : State)
    (ha : s.activeDocument = true) (hd : s.docIsActive = true) :
    (∀ b, s.doc.getObject e.BoxXName = some b →
      (s.doc.getObject e.CutXName).isSome = true →
      (s.hasBoxY = true → s.hasBoxZ = false → (s.doc.getObject e.CutYName).isSome = true) →
      (s.hasBoxZ = true → (s.doc.getObject e.CutZName).isSome = true) →
      (FollowsX e { s with ui.flipX := !s.ui.flipX } →
        (onFlipXclicked e s).doc.geometry e.BoxXName =
          some ({ b.Placement with x := if s.ui.flipX then s.ui.cutX.value
                    else s.ui.cutX.value - b.Length }, b.Length, b.Width, b.Height) ∧
        FollowsX e (onFlipXclicked e s) ∧
        (s.ui.cutX.value ≠ s.ui.cutX.maximum → s.ui.cutX.value ≠ s.ui.cutX.minimum →
          ∀ val, (onCutXvalueChanged e val s).doc.geometry e.BoxXName =
            (onFlipXclicked e s).doc.geometry e.BoxXName)) ∧
      (s.ui.cutX.value ≠ s.ui.cutX.maximum → s.ui.cutX.value ≠ s.ui.cutX.minimum →
        ∀ val, ((onCutXvalueChanged e val s).doc.geometry e.BoxXName).isSome = true ∧
          FollowsX e (onCutXvalueChanged e val s))) ∧
    (∀ b, s.doc.getObject e.BoxYName = some b →
      (s.doc.getObject e.CutYName).isSome = true →
      (FollowsY e { s with ui.flipY := !s.ui.flipY } →
        (onFlipYclicked e s).doc.geometry e.BoxYName =
          some ({ b.Placement with y := if s.ui.flipY then s.ui.cutY.value
                    else s.ui.cutY.value - b.Width }, b.Length, b.Width, b.Height) ∧
        FollowsY e (onFlipYclicked e s) ∧
        (s.ui.cutY.value ≠ s.ui.cutY.maximum → s.ui.cutY.value ≠ s.ui.cutY.minimum →
          ∀ val, (onCutYvalueChanged e val s).doc.geometry e.BoxYName =
            (onFlipYclicked e s).doc.geometry e.BoxYName)) ∧
      (s.ui.cutY.value ≠ s.ui.cutY.maximum → s.ui.cutY.value ≠ s.ui.cutY.minimum →
        ∀ val, ((onCutYvalueChanged e val s).doc.geometry e.BoxYName).isSome = true ∧
          FollowsY e (onCutYvalueChanged e val s))) ∧
    (∀ b, s.doc.getObject e.BoxZName = some b →
      (s.doc.getObject e.CutZName).isSome = true →
      (FollowsZ e { s with ui.flipZ := !s.ui.flipZ } →
        (onFlipZclicked e s).doc.geometry e.BoxZName =
          some ({ b.Placement with z := if s.ui.flipZ then s.ui.cutZ.value
                    else s.ui.cutZ.value - b.Height }, b.Length, b.Width, b.Height) ∧
        FollowsZ e (onFlipZclicked e s) ∧
        (s.ui.cutZ.value ≠ s.ui.cutZ.maximum → s.ui.cutZ.value ≠ s.ui.cutZ.minimum →
          ∀ val, (onCutZvalueChanged e val s).doc.geometry e.BoxZName =
            (onFlipZclicked e s).doc.geometry e.BoxZName)) ∧
      (s.ui.cutZ.value ≠ s.ui.cutZ.maximum → s.ui.cutZ.value ≠ s.ui.cutZ.minimum →
        ∀ val, ((onCutZvalueChanged e val s).doc.geometry e.BoxZName).isSome = true ∧
          FollowsZ e (onCutZvalueChanged e val s))) := by
  refine ⟨?_, ?_, ?_⟩
  · intro b hb hc hy hz
    obtain ⟨fb, fu⟩ := onFlipXclicked_box e s b ha hd hb hc hy hz
    have hval : s.ui.cutX.value ≠ s.ui.cutX.maximum → s.ui.cutX.value ≠ s.ui.cutX.minimum →
        ∀ val, (onCutXvalueChanged e val s).doc.geometry e.BoxXName =
          some ({ b.Placement with x := if s.ui.flipX then s.ui.cutX.value
                    else s.ui.cutX.value - b.Length }, b.Length, b.Width, b.Height) ∧
        FollowsX e (onCutXvalueChanged e val s) := by
      intro hmax hmin val
      obtain ⟨vg, vv, vb⟩ := onCutXvalueChanged_box e val s b ha hd hmax hmin hb hc hy
      refine ⟨vg, ?_⟩
      intro p l w h hg
      rw [vg] at hg
      simp only [Option.some.injEq, Prod.mk.injEq] at hg
      obtain ⟨hp, hl, hw, hh⟩ := hg
      rw [vv, vb.2.2.2.1, ← hp, ← hl]
    constructor
    · intro hprev
      have hpos : b.Placement.x = if (!s.ui.flipX) = true then s.ui.cutX.value
          else s.ui.cutX.value - b.Length :=
        hprev b.Placement b.Length b.Width b.Height
          (by unfold Document.geometry; exact congrArg _ hb)
      have hg : (onFlipXclicked e s).doc.geometry e.BoxXName =
          some ({ b.Placement with x := if s.ui.flipX then s.ui.cutX.value
                    else s.ui.cutX.value - b.Length }, b.Length, b.Width, b.Height) := by
        unfold Document.geometry
        rw [fb]
        cases hf : s.ui.flipX <;> simp [hf, DocumentObject.geometry] at hpos ⊢ <;> (rw [hpos]; try ring)
      refine ⟨hg, ?_, ?_⟩
      · intro p l w h hg2
        rw [hg] at hg2
        simp only [Option.some.injEq, Prod.mk.injEq] at hg2
        obtain ⟨hp, hl, hw, hh⟩ := hg2
        rw [fu, ← hp, ← hl]
      · intro hmax hmin val
        rw [hg]
        exact (hval hmax hmin val).1
    · intro hmax hmin val
      refine ⟨?_, (hval hmax hmin val).2⟩
      rw [(hval hmax hmin val).1]
      rfl
  · intro b hb hc
    obtain ⟨fb, fu⟩ := onFlipYclicked_box e s b ha hd hb hc
    have hval : s.ui.cutY.value ≠ s.ui.cutY.maximum → s.ui.cutY.value ≠ s.ui.cutY.minimum →
        ∀ val, (onCutYvalueChanged e val s).doc.geometry e.BoxYName =
          some ({ b.Placement with y := if s.ui.flipY then s.ui.cutY.value
                    else s.ui.cutY.value - b.Width }, b.Length, b.Width, b.Height) ∧
        FollowsY e (onCutYvalueChanged e val s) := by
      intro hmax hmin val
      obtain ⟨vg, vv, vb⟩ := onCutYvalueChanged_box e val s b ha hd hmax hmin hb hc
      refine ⟨vg, ?_⟩
      intro p l w h hg
      rw [vg] at hg
      simp only [Option.some.injEq, Prod.mk.injEq] at hg
      obtain ⟨hp, hl, hw, hh⟩ := hg
      rw [vv, vb.2.2.2.2.1, ← hp, ← hw]
    constructor
    · intro hprev
      have hpos : b.Placement.y = if (!s.ui.flipY) = true then s.ui.cutY.value
          else s.ui.cutY.value - b.Width :=
        hprev b.Placement b.Length b.Width b.Height
          (by unfold Document.geometry; exact congrArg _ hb)
      have hg : (onFlipYclicked e s).doc.geometry e.BoxYName =
          some ({ b.Placement with y := if s.ui.flipY then s.ui.cutY.value
                    else s.ui.cutY.value - b.Width }, b.Length, b.Width, b.Height) := by
        unfold Document.geometry
        rw [fb]
        cases hf : s.ui.flipY <;> simp [hf, DocumentObject.geometry] at hpos ⊢ <;> (rw [hpos]; try ring)
      refine ⟨hg, ?_, ?_⟩
      · intro p l w h hg2
        rw [hg] at hg2
        simp only [Option.some.injEq, Prod.mk.injEq] at hg2
        obtain ⟨hp, hl, hw, hh⟩ := hg2
        rw [fu, ← hp, ← hw]
      · intro hmax hmin val
        rw [hg]
        exact (hval hmax hmin val).1
    · intro hmax hmin val
      refine ⟨?_, (hval hmax hmin val).2⟩
      rw [(hval hmax hmin val).1]
      rfl
  · intro b hb hc
    obtain ⟨fb, fu⟩ := onFlipZclicked_box e s b ha hd hb hc
    have hval : s.ui.cutZ.value ≠ s.ui.cutZ.maximum → s.ui.cutZ.value ≠ s.ui.cutZ.minimum →
        ∀ val, (onCutZvalueChanged e val s).doc.geometry e.BoxZName =
          some ({ b.Placement with z := if s.ui.flipZ then s.ui.cutZ.value
                    else s.ui.cutZ.value - b.Height }, b.Length, b.Width, b.Height) ∧
        FollowsZ e (onCutZvalueChanged e val s) := by
      intro hmax hmin val
      obtain ⟨vg, vv, vb⟩ := onCutZvalueChanged_box e val s b ha hd hmax hmin hb hc
      refine ⟨vg, ?_⟩
      intro p l w h hg
      rw [vg] at hg
      simp only [Option.some.injEq, Prod.mk.injEq] at hg
      obtain ⟨hp, hl, hw, hh⟩ := hg
      rw [vv, vb.2.2.2.2.2.1, ← hp, ← hh]
    constructor
    · intro hprev
      have hpos : b.Placement.z = if (!s.ui.flipZ) = true then s.ui.cutZ.value
          else s.ui.cutZ.value - b.Height :=
        hprev b.Placement b.Length b.Width b.Height
          (by unfold Document.geometry; exact congrArg _ hb)
      have hg : (onFlipZclicked e s).doc.geometry e.BoxZName =
          some ({ b.Placement with z := if s.ui.flipZ then s.ui.cutZ.value
                    else s.ui.cutZ.value - b.Height }, b.Length, b.Width, b.Height) := by
        unfold Document.geometry
        rw [fb]
        cases hf : s.ui.flipZ <;> simp [hf, DocumentObject.geometry] at hpos ⊢ <;> (rw [hpos]; try ring)
      refine ⟨hg, ?_, ?_⟩
      · intro p l w h hg2
        rw [hg] at hg2
        simp only [Option.some.injEq, Prod.mk.injEq] at hg2
        obtain ⟨hp, hl, hw, hh⟩ := hg2
        rw [fu, ← hp, ← hh]
      · intro hmax hmin val
        rw [hg]
        exact (hval hmax hmin val).1
    · intro hmax hmin val
      refine ⟨?_, (hval hmax hmin val).2⟩
      rw [(hval hmax hmin val).1]
      rfl
theorem flip_agrees_with_valueChanged_witness :
    (cutState.activeDocument = true ∧ cutState.docIsActive = true ∧
      cutState.ui.flipX = true ∧ cutState.ui.cutX.value = 5 ∧
      cutState.doc.geometry demoEnv.BoxXName = some (⟨5 - 11, -1 / 2, -1 / 2⟩, 11, 21, 31)) ∧
    (onFlipXclicked demoEnv cutState).doc.geometry demoEnv.BoxXName =
      some (⟨5, -1 / 2, -1 / 2⟩, 11, 21, 31) ∧
    (onCutXvalueChanged demoEnv 5 cutState).doc.geometry demoEnv.BoxXName =
      (onFlipXclicked demoEnv cutState).doc.geometry demoEnv.BoxXName := by
  have hprev : FollowsX demoEnv { cutState with ui.flipX := !cutState.ui.flipX } := by
    intro p l w h hg
    have hc : Document.geometry { cutState with ui.flipX := !cutState.ui.flipX }.doc
        demoEnv.BoxXName = some (⟨5 - 11, -1 / 2, -1 / 2⟩, 11, 21, 31) := by decide!
    rw [hc] at hg
    simp only [Option.some.injEq, Prod.mk.injEq] at hg
    obtain ⟨hp, hl, -, -⟩ := hg
    rw [← hp, ← hl]
    decide!
  have h := ((flip_agrees_with_valueChanged demoEnv cutState rfl rfl).1
    { name := "SectionCutBoxX", typeId := "Part::Box", hasShape := true,
      Length := 11, Width := 21, Height := 31, Placement := ⟨-6, -1 / 2, -1 / 2⟩ }
    (by decide!) (by decide!) (by decide!) (by decide!)).1 hprev
  exact ⟨⟨rfl, rfl, rfl, rfl, by decide!⟩, h.1.trans (by decide!),
    h.2.2 (by decide!) (by decide!) 5⟩

/-- Claim C16 as stated fails when the cut is missing: the X box, of length
41, is where the cut value 20 puts it unflipped, at 20 minus 41, the user has
deleted the X cut and then checks the flip button of X. `onFlipXclicked`
moves the box to 20, finds no cut and calls `startCutting`, which removes the
box and creates a new one from the scene as it now is, `[0, 10]` on x: the
cut value is reset to 9.9 and the new box, of length 11, is at 9.9, not at
20 where `onCutXvalueChanged` puts the box for the value 20. -/
theorem flip_without_cut_resets_value :
    lostCutState.activeDocument = true ∧ lostCutState.docIsActive = true ∧
    lostCutState.ui.flipX = true ∧ lostCutState.ui.cutX.value = 20 ∧
    lostCutState.doc.geometry "SectionCutBoxX" =
      some (⟨20 - 41, -1 / 2, -1 / 2⟩, 41, 21, 31) ∧
    lostCutState.doc.getObject "SectionCutX" = none ∧
    (onFlipXclicked demoEnv lostCutState).ui.flipX = true ∧
    (onFlipXclicked demoEnv lostCutState).ui.cutX.value = 10 - 0.1 ∧
    (onFlipXclicked demoEnv lostCutState).doc.geometry "SectionCutBoxX" =
      some (⟨10 - 0.1, -1 / 2, -1 / 2⟩, 11, 21, 31) ∧
    (onFlipXclicked demoEnv lostCutState).doc.geometry "SectionCutBoxX" ≠
      some (⟨20, -1 / 2, -1 / 2⟩, 41, 21, 31) := by
  decide!

/-- Claim C17 against the code: for a bounding box that spans `[o, o + s]`
on the cut axis and a cut position `p` in it, the box that the X block of
`startCutting` creates and the box that `onCutXvalueChanged` places cover
the side of `p` chosen by the flip button of X: unflipped `[p - (s + 1), p]`,
which contains `[o, p]`, flipped `[p, p + s + 1]`, which contains
`[p, o + s]`. Likewise for the Y block, `onCutYvalueChanged` and
`onCutZvalueChanged` with the flip button of their axis. The box of the Z
block covers one of the two sides as well, but the side is chosen by the
flip button of Y, line 633, not by that of Z. -/
theorem cut_box_covers_side (e : Env) (c : String) (size origin : Vector3d) (pos : ℚ)
    (s : State) (o : ℚ) :
    (s.doc.getObject e.BoxXName = none → s.doc.getObject e.CutXName = none →
      e.BoxXName ≠ e.CutXName →
      ∀ s1, cutAxisX e c size origin pos s = Flow.running s1 →
        ∀ b, s1.doc.getObject e.BoxXName = some b →
          o ≤ s1.ui.cutX.value → s1.ui.cutX.value ≤ o + size.x →
          CoversSide s1.ui.flipX o size.x s1.ui.cutX.value b.Placement.x b.Length) ∧
    (s.doc.getObject e.BoxYName = none → s.doc.getObject e.CutYName = none →
      e.BoxYName ≠ e.CutYName →
      ∀ s1, cutAxisY e c size origin pos s = Flow.running s1 →
        ∀ b, s1.doc.getObject e.BoxYName = some b →
          o ≤ s1.ui.cutY.value → s1.ui.cutY.value ≤ o + size.y →
          CoversSide s1.ui.flipY o size.y s1.ui.cutY.value b.Placement.y b.Width) ∧
    (s.doc.getObject e.BoxZName = none → s.doc.getObject e.CutZName = none →
      e.BoxZName ≠ e.CutZName →
      ∀ s1, cutAxisZ e c size origin pos s = Flow.running s1 →
        ∀ b, s1.doc.getObject e.BoxZName = some b →
          o ≤ s1.ui.cutZ.value → s1.ui.cutZ.value ≤ o + size.z →
          CoversSide s1.ui.flipY o size.z s1.ui.cutZ.value b.Placement.z b.Height) ∧
    (s.activeDocument = true → s.docIsActive = true →
      (∀ b, s.doc.getObject e.BoxXName = some b → b.Length = size.x + 1 →
        (s.doc.getObject e.CutXName).isSome = true →
        (s.hasBoxY = true → s.hasBoxZ = false → (s.doc.getObject e.CutYName).isSome = true) →
        s.ui.cutX.value ≠ s.ui.cutX.maximum → s.ui.cutX.value ≠ s.ui.cutX.minimum →
        o ≤ s.ui.cutX.value → s.ui.cutX.value ≤ o + size.x →
        ∀ val, ∃ p, (onCutXvalueChanged e val s).doc.geometry e.BoxXName =
            some (p, b.Length, b.Width, b.Height) ∧
          CoversSide (onCutXvalueChanged e val s).ui.flipX o size.x
            (onCutXvalueChanged e val s).ui.cutX.value p.x b.Length) ∧
      (∀ b, s.doc.getObject e.BoxYName = some b → b.Width = size.y + 1 →
        (s.doc.getObject e.CutYName).isSome = true →
        s.ui.cutY.value ≠ s.ui.cutY.maximum → s.ui.cutY.value ≠ s.ui.cutY.minimum →
        o ≤ s.ui.cutY.value → s.ui.cutY.value ≤ o + size.y →
        ∀ val, ∃ p, (onCutYvalueChanged e val s).doc.geometry e.BoxYName =
            some (p, b.Length, b.Width, b.Height) ∧
          CoversSide (onCutYvalueChanged e val s).ui.flipY o size.y
            (onCutYvalueChanged e val s).ui.cutY.value p.y b.Width) ∧
      (∀ b, s.doc.getObject e.BoxZName = some b → b.Height = size.z + 1 →
        (s.doc.getObject e.CutZName).isSome = true →
        s.ui.cutZ.value ≠ s.ui.cutZ.maximum → s.ui.cutZ.value ≠ s.ui.cutZ.minimum →
        o ≤ s.ui.cutZ.value → s.ui.cutZ.value ≤ o + size.z →
        ∀ val, ∃ p, (onCutZvalueChanged e val s).doc.geometry e.BoxZName =
            some (p, b.Length, b.Width, b.Height) ∧
          CoversSide (onCutZvalueChanged e val s).ui.flipZ o size.z
            (onCutZvalueChanged e val s).ui.cutZ.value p.z b.Height)) := by
  refine ⟨?_, ?_, ?_, ?_⟩
  · intro hb hc hne s1 h1 b hb1 ho1 ho2
    obtain ⟨hl, hp, -⟩ := cutAxisX_position e c size origin pos s hb hc hne s1 h1 b hb1
    exact coversSide_of _ _ _ _ _ _ hl hp ho1 ho2
  · intro hb hc hne s1 h1 b hb1 ho1 ho2
    obtain ⟨hl, hp, -⟩ := cutAxisY_position e c size origin pos s hb hc hne s1 h1 b hb1
    exact coversSide_of _ _ _ _ _ _ hl hp ho1 ho2
  · intro hb hc hne s1 h1 b hb1 ho1 ho2
    obtain ⟨hl, hp, -⟩ := cutAxisZ_position e c size origin pos s hb hc hne s1 h1 b hb1
    exact coversSide_of _ _ _ _ _ _ hl hp ho1 ho2
  · intro ha hd
    refine ⟨?_, ?_, ?_⟩
    · intro b hb hl hc hy hmax hmin ho1 ho2 val
      obtain ⟨vg, vv, vb⟩ := onCutXvalueChanged_box e val s b ha hd hmax hmin hb hc hy
      refine ⟨_, vg, ?_⟩
      rw [vv, vb.2.2.2.1]
      exact coversSide_of _ _ _ _ _ _ hl (by rw [hl]) ho1 ho2
    · intro b hb hl hc hmax hmin ho1 ho2 val
      obtain ⟨vg, vv, vb⟩ := onCutYvalueChanged_box e val s b ha hd hmax hmin hb hc
      refine ⟨_, vg, ?_⟩
      rw [vv, vb.2.2.2.2.1]
      exact coversSide_of _ _ _ _ _ _ hl (by rw [hl]) ho1 ho2
    · intro b hb hl hc hmax hmin ho1 ho2 val
      obtain ⟨vg, vv, vb⟩ := onCutZvalueChanged_box e val s b ha hd hmax hmin hb hc
      refine ⟨_, vg, ?_⟩
      rw [vv, vb.2.2.2.2.2.1]
      exact coversSide_of _ _ _ _ _ _ hl (by rw [hl]) ho1 ho2

theorem cut_box_covers_side_witness :
    ((startCutting demoEnv false yFlippedState).ui.flipZ = false ∧
      (startCutting demoEnv false yFlippedState).ui.flipY = true ∧
      (startCutting demoEnv false yFlippedState).ui.cutZ.value = 15 ∧
      (startCutting demoEnv false yFlippedState).doc.geometry "SectionCutBoxZ" =
        some (⟨-1 / 2, -1 / 2, 15⟩, 11, 21, 31)) ∧
    CoversSide true 0 30 15 15 31 ∧ ¬ CoversSide false 0 30 15 15 31 := by
  have h := (cut_box_covers_side demoEnv "SectionCutCompound" ⟨10, 20, 30⟩ ⟨0, 0, 0⟩ 15
    yFlippedState 0).2.2.1 (by decide!) (by decide!) (by decide!)
    (cutAxisZ demoEnv "SectionCutCompound" ⟨10, 20, 30⟩ ⟨0, 0, 0⟩ 15 yFlippedState).state
    (by decide!)
    { name := "SectionCutBoxZ", typeId := "Part::Box", hasShape := true,
      Length := 11, Width := 21, Height := 31, Placement := ⟨-1 / 2, -1 / 2, 15⟩ }
    (by decide!) (by decide!) (by decide!)
  have e1 : (cutAxisZ demoEnv "SectionCutCompound" ⟨10, 20, 30⟩ ⟨0, 0, 0⟩ 15
      yFlippedState).state.ui.flipY = true := by decide!
  have e2 : (cutAxisZ demoEnv "SectionCutCompound" ⟨10, 20, 30⟩ ⟨0, 0, 0⟩ 15
      yFlippedState).state.ui.cutZ.value = 15 := by decide!
  rw [e1, e2] at h
  refine ⟨⟨by decide!, by decide!, by decide!, by decide!⟩, h, ?_⟩
  unfold CoversSide
  norm_num

/-- Claim C11, amended: when `startCutting` builds the compound (active
document, cut list not empty, an axis checked, compound and links can be
created), and the cut list holds no object twice and after the cleanup the
document has no object under the name of an object of the cut list followed
by `_CutLink`, then after lines 416 to 457 the `Links` of the compound are
the names of the cut-list objects followed by `_CutLink`, in the order of the
cut list; under each of these names the document has an `App::Link` with the
cut-list object as `LinkedObject` and `LinkTransform` true; the compound has
been recomputed; and every object of the cut list and of
`ObjectsListVisible` has `Visibility` false. -/
theorem startCutting_fills_compound (e : Env) (isInitial : Bool) (s : State)
    (hw : e.WellNamed) (ha : s.activeDocument = true)
    (hne : (collectCutList e s).1 ≠ [])
    (hg : ¬ (collectCutList e s).2.ui.noneChecked)
    (hcc : e.canCreate "Part::Compound" = true) (hcl : e.canCreate "App::Link" = true)
    (hnd : (collectCutList e s).1.Nodup)
    (hfree : ∀ it ∈ (collectCutList e s).1,
      (collectCutList e s).2.doc.getObject (it ++ "_CutLink") = none) :
    (∃ c, (prepareCompound e isInitial s).state.doc.getObject e.CompoundName = some c ∧
      c.typeId = "Part::Compound" ∧
      c.Links = (collectCutList e s).1.map (fun it => it ++ "_CutLink")) ∧
    (∀ it ∈ (collectCutList e s).1, ∃ k,
      (prepareCompound e isInitial s).state.doc.getObject (it ++ "_CutLink") = some k ∧
      k.typeId = "App::Link" ∧ k.LinkedObject = some it ∧ k.LinkTransform = true) ∧
    (prepareCompound e isInitial s).state.doc.recomputed =
      (collectCutList e s).2.doc.recomputed ++ [(e.CompoundName, false)] ∧
    (∀ n, n ∈ (collectCutList e s).1 ∨ n ∈ (collectCutList e s).2.ObjectsListVisible →
      ∀ o, (prepareCompound e isInitial s).state.doc.getObject n = some o →
        o.Visibility = false) := by
  rw [prepareCompound_of_checked e isInitial s ha hne hg]
  exact buildCompound_links e _ _ hw hcc hcl
    ((getObject_eq_none_iff _ _).mpr (collectCutList_free e s _ (List.mem_cons_self _ _)))
    hnd hfree (collectCutList_exists e s)

theorem startCutting_fills_compound_witness :
    (twoSolidsState.activeDocument = true ∧
      (collectCutList demoEnv twoSolidsState).1 = ["Box", "Cylinder"] ∧
      twoSolidsState.ui.groupBoxX = true) ∧
    (((prepareCompound demoEnv false twoSolidsState).state.doc.getObject
        "SectionCutCompound").map (fun c => c.Links) =
        some ["Box_CutLink", "Cylinder_CutLink"]) ∧
    (prepareCompound demoEnv false twoSolidsState).state.doc.recomputed =
      [("SectionCutCompound", false)] := by
  have hl : (collectCutList demoEnv twoSolidsState).1 = ["Box", "Cylinder"] := by decide!
  have h := startCutting_fills_compound demoEnv false twoSolidsState demoEnv_wellNamed rfl
    (by rw [hl]; exact fun h => by cases h)
    (by
      intro h
      have : (collectCutList demoEnv twoSolidsState).2.ui.groupBoxX = true := by decide!
      rw [h.1] at this
      cases this)
    rfl rfl (by rw [hl]; decide)
    (by
      rw [hl]
      intro it hit
      simp only [List.mem_cons, List.mem_singleton, List.not_mem_nil, or_false] at hit
      rcases hit with h | h <;> subst h <;> decide!)
  exact ⟨⟨rfl, hl, rfl⟩, by decide!, h.2.2.1.trans (by decide!)⟩

/-- Claim C11 as stated fails when a name is taken: the document has a
solid `Box` and an object `Box_CutLink` that is in no compound, the X axis is
checked and every object can be created. `startCutting` asks for a link
named `Box_CutLink`, the document gives it the unique name `Box_CutLink001`,
and this is the name in the `Links` of the compound, while `Box_CutLink` is
the old object, which links to nothing. -/
theorem startCutting_link_name_taken :
    strayLinkState.activeDocument = true ∧ strayLinkState.ui.groupBoxX = true ∧
    (collectCutList demoEnv strayLinkState).1 = ["Box"] ∧
    ((prepareCompound demoEnv false strayLinkState).state.doc.getObject
      "SectionCutCompound").map (fun c => c.Links) = some ["Box_CutLink001"] ∧
    ((prepareCompound demoEnv false strayLinkState).state.doc.getObject
      "Box_CutLink").map (fun k => (k.LinkedObject, k.LinkTransform)) = some (none, false) ∧
    ((prepareCompound demoEnv false strayLinkState).state.doc.getObject
      "Box_CutLink001").map (fun k => (k.LinkedObject, k.LinkTransform)) =
      some (some "Box", true) := by
  decide!

/-- Claim C28: on the path of `onCutZvalueChanged` that recomputes the Z cut
(document active, value not at a limit, Z box and Z cut there), when there is
an X box and the bounding box taken with the X box shown is not empty, the
limit of the X range on the side of the box is not relaxed: with the flip
button of X unchecked the minimum after the handler is the larger of the
minimum before and the minimum of the bounding box, with the button checked
the maximum after is the smaller of the maximum before and the maximum of the
bounding box. The same holds for the Y range in `onCutZvalueChanged`, and for
the X range in `onCutYvalueChanged` when there is no Z cut. -/
theorem box_side_limit_never_relaxed (e : Env) (val : ℚ) (s : State) (b : DocumentObject)
    (ha : s.activeDocument = true) (hd : s.docIsActive = true) :
    (s.ui.cutZ.value ≠ s.ui.cutZ.maximum → s.ui.cutZ.value ≠ s.ui.cutZ.minimum →
      s.doc.getObject e.BoxZName = some b → (s.doc.getObject e.CutZName).isSome = true →
      (s.hasBoxX = true → (s.doc.getObject e.BoxXName).isSome = true →
        (boundingBoxWith e e.BoxXName
          ((placedZ e val s b).doc.recomputeFeature e.CutZName true)).isEmpty = false →
        LimitKept s.ui.flipX s.ui.cutX (onCutZvalueChanged e val s).ui.cutX
          (boundingBoxWith e e.BoxXName
            ((placedZ e val s b).doc.recomputeFeature e.CutZName true)).min.x
          (boundingBoxWith e e.BoxXName
            ((placedZ e val s b).doc.recomputeFeature e.CutZName true)).max.x) ∧
      (s.hasBoxY = true → (s.doc.getObject e.BoxYName).isSome = true →
        (s.hasBoxX = true → (s.doc.getObject e.BoxXName).isSome = true) →
        (boundingBoxWith e e.BoxYName (if s.hasBoxX
          then shownAndHidden e.BoxXName
            ((placedZ e val s b).doc.recomputeFeature e.CutZName true)
          else (placedZ e val s b).doc.recomputeFeature e.CutZName true)).isEmpty = false →
        LimitKept s.ui.flipY s.ui.cutY (onCutZvalueChanged e val s).ui.cutY
          (boundingBoxWith e e.BoxYName (if s.hasBoxX
            then shownAndHidden e.BoxXName
              ((placedZ e val s b).doc.recomputeFeature e.CutZName true)
            else (placedZ e val s b).doc.recomputeFeature e.CutZName true)).min.y
          (boundingBoxWith e e.BoxYName (if s.hasBoxX
            then shownAndHidden e.BoxXName
              ((placedZ e val s b).doc.recomputeFeature e.CutZName true)
            else (placedZ e val s b).doc.recomputeFeature e.CutZName true)).max.y)) ∧
    (s.ui.cutY.value ≠ s.ui.cutY.maximum → s.ui.cutY.value ≠ s.ui.cutY.minimum →
      s.doc.getObject e.BoxYName = some b → (s.doc.getObject e.CutYName).isSome = true →
      s.hasBoxZ = false → s.hasBoxX = true → (s.doc.getObject e.BoxXName).isSome = true →
      (boundingBoxWith e e.BoxXName
        ((placedY e val s b).doc.recomputeFeature e.CutYName true)).isEmpty = false →
      LimitKept s.ui.flipX s.ui.cutX (onCutYvalueChanged e val s).ui.cutX
        (boundingBoxWith e e.BoxXName
          ((placedY e val s b).doc.recomputeFeature e.CutYName true)).min.x
        (boundingBoxWith e e.BoxXName
          ((placedY e val s b).doc.recomputeFeature e.CutYName true)).max.x) := by
  have hz : ∀ m, ((placedZ e val s b).doc.getObject m).isSome = (s.doc.getObject m).isSome := by
    intro m
    unfold placedZ
    simp only []
    rw [isSome_getObject_modify]
    intro _
    rfl
  have hy : ∀ m, ((placedY e val s b).doc.getObject m).isSome = (s.doc.getObject m).isSome := by
    intro m
    unfold placedY
    simp only []
    rw [isSome_getObject_modify]
    intro _
    rfl
  constructor
  · intro hmax hmin hb hc
    rw [onCutZvalueChanged_eq e val s b ha hd hmax hmin hb hc]
    obtain ⟨h1, h2⟩ := recomputeAfterZ_limits e (placedZ e val s b)
    constructor
    · intro hX hbx hbb
      exact h1 hX ((hz _).trans hbx) hbb
    · intro hY hby hbx hbb
      exact h2 hY ((hz _).trans hby) (fun h => (hz _).trans (hbx h)) hbb
  · intro hmax hmin hb hc hZ hX hbx hbb
    rw [onCutYvalueChanged_eq e val s b ha hd hmax hmin hb hc]
    exact recomputeAfterY_limits e (placedY e val s b) hZ hX ((hy _).trans hbx) hbb

theorem box_side_limit_never_relaxed_witness :
    (limitState.ui.flipX = false ∧ limitState.ui.cutX.minimum = 4 ∧
      limitState.ui.flipY = true ∧ limitState.ui.cutY.maximum = 15) ∧
    LimitKept false limitState.ui.cutX (onCutZvalueChanged tightEnv 5 limitState).ui.cutX 2 8 ∧
    LimitKept true limitState.ui.cutY (onCutZvalueChanged tightEnv 5 limitState).ui.cutY 3 17 ∧
    (onCutZvalueChanged tightEnv 5 limitState).ui.cutX.minimum = 4 ∧
    (onCutZvalueChanged tightEnv 5 limitState).ui.cutX.maximum = 8 ∧
    (onCutZvalueChanged tightEnv 5 limitState).ui.cutY.minimum = 3 ∧
    (onCutZvalueChanged tightEnv 5 limitState).ui.cutY.maximum = 15 := by
  have h := (box_side_limit_never_relaxed tightEnv 5 limitState
    { name := "SectionCutBoxZ", typeId := "Part::Box", hasShape := true,
      Length := 11, Width := 21, Height := 31, Placement := ⟨-1 / 2, -1 / 2, -26⟩ }
    rfl rfl).1 (by decide!) (by decide!) (by decide!) (by decide!)
  have hx := h.1 rfl (by decide!) (by decide!)
  have hy := h.2 rfl (by decide!) (fun _ => by decide!) (by decide!)
  exact ⟨⟨rfl, by decide!, rfl, by decide!⟩, hx, hy, by decide!, by decide!, by decide!,
    by decide!⟩

/-- Claim C26: on the path on which the box and the cuts the handler looks up
are there (document active, and for a value-changed handler the cut value not
at a limit of its range), each handler adds exactly one call of
`recomputeFeature(true)` to those made so far, on the cut at the top of the
chain: for `onCutXvalueChanged` and `onFlipXclicked` the Z cut if `hasBoxZ`,
otherwise the Y cut if `hasBoxY`, otherwise the X cut; for
`onCutYvalueChanged` and `onFlipYclicked` the Z cut if `hasBoxZ` and otherwise
the Y cut; for `onCutZvalueChanged` and `onFlipZclicked` the Z cut. -/
theorem handlers_recompute_top_of_chain (e : Env) (val : ℚ) (s : State)
    (ha : s.activeDocument = true) (hd : s.docIsActive = true) :
    ((s.doc.getObject e.BoxXName).isSome = true → (s.doc.getObject e.CutXName).isSome = true →
      (s.hasBoxY = true → s.hasBoxZ = false → (s.doc.getObject e.CutYName).isSome = true) →
      (s.hasBoxZ = true → (s.doc.getObject e.CutZName).isSome = true) →
      (s.ui.cutX.value ≠ s.ui.cutX.maximum → s.ui.cutX.value ≠ s.ui.cutX.minimum →
        (onCutXvalueChanged e val s).doc.recomputed = s.doc.recomputed ++
          [(if s.hasBoxZ then e.CutZName else if s.hasBoxY then e.CutYName
            else e.CutXName, true)]) ∧
      (onFlipXclicked e s).doc.recomputed = s.doc.recomputed ++
        [(if s.hasBoxZ then e.CutZName else if s.hasBoxY then e.CutYName
          else e.CutXName, true)]) ∧
    ((s.doc.getObject e.BoxYName).isSome = true → (s.doc.getObject e.CutYName).isSome = true →
      (s.hasBoxZ = true → (s.doc.getObject e.CutZName).isSome = true) →
      (s.ui.cutY.value ≠ s.ui.cutY.maximum → s.ui.cutY.value ≠ s.ui.cutY.minimum →
        (onCutYvalueChanged e val s).doc.recomputed = s.doc.recomputed ++
          [(if s.hasBoxZ then e.CutZName else e.CutYName, true)]) ∧
      (onFlipYclicked e s).doc.recomputed = s.doc.recomputed ++
        [(if s.hasBoxZ then e.CutZName else e.CutYName, true)]) ∧
    ((s.doc.getObject e.BoxZName).isSome = true → (s.doc.getObject e.CutZName).isSome = true →
      (s.ui.cutZ.value ≠ s.ui.cutZ.maximum → s.ui.cutZ.value ≠ s.ui.cutZ.minimum →
        (onCutZvalueChanged e val s).doc.recomputed = s.doc.recomputed ++
          [(e.CutZName, true)]) ∧
      (onFlipZclicked e s).doc.recomputed = s.doc.recomputed ++ [(e.CutZName, true)]) := by
  refine ⟨?_, ?_, ?_⟩
  · intro hb hc hy hz
    obtain ⟨b, hb⟩ := Option.isSome_iff_exists.mp hb
    refine ⟨fun hmax hmin => ?_, onFlipXclicked_recomputed e s b ha hd hb hc hy hz⟩
    rw [onCutXvalueChanged_eq e val s b ha hd hmax hmin hb hc]
    have hi : ∀ m, ((placedX e val s b).doc.getObject m).isSome = (s.doc.getObject m).isSome := by
      intro m
      unfold placedX
      simp only []
      rw [isSome_getObject_modify]
      intro _
      rfl
    exact recomputeAfterX_recomputed e (placedX e val s b)
      (fun h1 h2 => (hi _).trans (hy h1 h2)) (fun h1 => (hi _).trans (hz h1))
  · intro hb hc hz
    obtain ⟨b, hb⟩ := Option.isSome_iff_exists.mp hb
    refine ⟨fun hmax hmin => ?_, onFlipYclicked_recomputed e s b ha hd hb hc hz⟩
    rw [onCutYvalueChanged_eq e val s b ha hd hmax hmin hb hc]
    have hi : ∀ m, ((placedY e val s b).doc.getObject m).isSome = (s.doc.getObject m).isSome := by
      intro m
      unfold placedY
      simp only []
      rw [isSome_getObject_modify]
      intro _
      rfl
    exact recomputeAfterY_recomputed e (placedY e val s b) (fun h1 => (hi _).trans (hz h1))
  · intro hb hc
    obtain ⟨b, hb⟩ := Option.isSome_iff_exists.mp hb
    refine ⟨fun hmax hmin => ?_, onFlipZclicked_recomputed e s b ha hd hb hc⟩
    rw [onCutZvalueChanged_eq e val s b ha hd hmax hmin hb hc]
    exact recomputeAfterZ_recomputed e (placedZ e val s b)

theorem handlers_recompute_top_of_chain_witness :
    (cutState.hasBoxZ = true ∧ cutState.doc.recomputed = []) ∧
    (onCutXvalueChanged demoEnv 5 cutState).doc.recomputed = [("SectionCutZ", true)] ∧
    (onFlipXclicked demoEnv cutState).doc.recomputed = [("SectionCutZ", true)] ∧
    (onCutYvalueChanged demoEnv 5 cutState).doc.recomputed = [("SectionCutZ", true)] ∧
    (onFlipZclicked demoEnv cutState).doc.recomputed = [("SectionCutZ", true)] := by
  have h := handlers_recompute_top_of_chain demoEnv 5 cutState rfl rfl
  have hx := h.1 (by decide!) (by decide!) (fun _ _ => by decide!) (fun _ => by decide!)
  have hy := h.2.1 (by decide!) (by decide!) (fun _ => by decide!)
  have hz := h.2.2 (by decide!) (by decide!)
  exact ⟨⟨rfl, rfl⟩, hx.1 (by decide!) (by decide!), hx.2, hy.1 (by decide!) (by decide!), hz.2⟩

/-- Claim C21: the cut list of `startCutting` is what the sort-out step makes
of the list the shape filter has collected. When the collected list holds no
object twice, the cut list after the sort-out step is a sublist of it, so the
objects kept are in their original order, and an object of the collected list
is kept exactly when it is in the out-list of no visible object whose type
derives from `Part::Boolean`, `Part::MultiCommon`, `Part::MultiFuse`,
`Part::Thickness` or `Part::FilletBase`. -/
theorem sortOut_removes_parts (e : Env) (s : State) :
    collectCutList e s =
      (sortOut e (collectObjectsListCut e (beforeCollect e s)).2
        (collectObjectsListCut e (beforeCollect e s)).1,
       (collectObjectsListCut e (beforeCollect e s)).2) ∧
    ∀ cut : List String, cut.Nodup →
      (sortOut e s cut).Sublist cut ∧
      (∀ x, PartOfBoolean e s x → x ∉ sortOut e s cut) ∧
      (∀ x, x ∈ cut → ¬ PartOfBoolean e s x → x ∈ sortOut e s cut) := by
  refine ⟨rfl, fun cut hnd => ?_⟩
  unfold sortOut
  obtain ⟨h1, h2⟩ := sortOutLoop_spec e s.doc s.ObjectsListVisible cut hnd
  refine ⟨h1, fun x hp hx => ?_, fun x hx hp => ?_⟩
  · obtain ⟨it, hit, o, ho, hb, hm⟩ := hp
    exact ((h2 x).mp hx).2 ⟨it, hit, o, ho, (isBooleanLike_iff e o).mpr hb, hm⟩
  · refine (h2 x).mpr ⟨hx, ?_⟩
    rintro ⟨it, hit, o, ho, hb, hm⟩
    exact hp ⟨it, hit, o, ho, (isBooleanLike_iff e o).mp hb, hm⟩

theorem sortOut_removes_parts_witness :
    (collectObjectsListCut demoEnv (beforeCollect demoEnv booleanState)).1
      = ["A", "B", "Cut", "C"] ∧
    (collectCutList demoEnv booleanState).1 = ["Cut", "C"] ∧
    "A" ∉ sortOut demoEnv booleanState ["A", "B", "Cut", "C"] ∧
    "C" ∈ sortOut demoEnv booleanState ["A", "B", "Cut", "C"] := by
  have h := (sortOut_removes_parts demoEnv booleanState).2 ["A", "B", "Cut", "C"] (by decide)
  exact ⟨by decide!, by decide!,
    h.2.1 "A" ⟨"Cut", by decide, _, rfl, Or.inl (by decide!), by decide⟩, by decide!⟩

/-- Claim C27 against the code: the value-changed handlers, `onFlipXclicked`
and `onFlipZclicked` dereference no null pointer, whatever the document and
the flags are: an object they look up and do not find is not used.
`onFlipYclicked` dereferences a null pointer exactly when the document is the
active one, the Y box and the Y cut are there, `hasBoxZ` is set and the
document has no Z cut: lines 1287 to 1289 recompute the Z cut without a test
whether it was found. -/
theorem missing_object_never_used (e : Env) (val : ℚ) (s : State)
    (h0 : s.nullDeref = false) :
    (onCutXvalueChanged e val s).nullDeref = false ∧
    (onCutYvalueChanged e val s).nullDeref = false ∧
    (onCutZvalueChanged e val s).nullDeref = false ∧
    (onFlipXclicked e s).nullDeref = false ∧
    (onFlipZclicked e s).nullDeref = false ∧
    ((onFlipYclicked e s).nullDeref = true ↔
      s.activeDocument = true ∧ s.docIsActive = true ∧
      (s.doc.getObject e.BoxYName).isSome = true ∧ (s.doc.getObject e.CutYName).isSome = true ∧
      s.hasBoxZ = true ∧ s.doc.getObject e.CutZName = none) := by
  refine ⟨(onCutXvalueChanged_nullDeref e val s).trans h0,
    (onCutYvalueChanged_nullDeref e val s).trans h0,
    (onCutZvalueChanged_nullDeref e val s).trans h0,
    (onFlipXclicked_nullDeref e s).trans h0, (onFlipZclicked_nullDeref e s).trans h0, ?_⟩
  rw [onFlipYclicked_nullDeref, h0]
  simp only [Bool.false_or, Bool.and_eq_true, Bool.not_eq_true', and_assoc]
  have hn : (s.doc.getObject e.CutZName).isSome = false ↔ s.doc.getObject e.CutZName = none := by
    cases s.doc.getObject e.CutZName <;> simp
  rw [hn]

theorem missing_object_never_used_witness :
    (lostZState.nullDeref = false ∧ lostZState.hasBoxZ = true ∧
      lostZState.doc.getObject "SectionCutZ" = none) ∧
    (onFlipYclicked demoEnv lostZState).nullDeref = true ∧
    (onFlipXclicked demoEnv lostZState).nullDeref = false ∧
    (onCutYvalueChanged demoEnv 5 lostZState).nullDeref = false ∧
    (onCutYvalueChanged demoEnv 5 lostZState).console =
      ["SectionCut error: there is no SectionCutZ\n"] := by
  have h := missing_object_never_used demoEnv 5 lostZState rfl
  exact ⟨⟨rfl, rfl, by decide!⟩,
    h.2.2.2.2.2.mpr ⟨rfl, rfl, by decide!, by decide!, rfl, by decide!⟩, h.2.2.2.1, h.2.1,
    by decide!⟩

/-- Claim C25, amended: when `startCutting` has built the compound and its
bounding box is not empty, so that lines 486 to 489 reset the flags, then in
the state in which it returns, whether from the end of the function or after
a box or a cut could not be added, for each axis the flag `hasBox` is true
exactly when the document contains both the box and the cut of the axis. -/
theorem startCutting_flags_exact (e : Env) (isInitial : Bool) (s s1 : State) (c : String)
    (bb : SbBox3f) (hw : e.WellNamed)
    (hp : prepareCompound e isInitial s = Prepared.compound c bb s1) :
    FlagsExact e (startCutting e isInitial s) := by
  unfold startCutting
  rw [hp]
  exact createCuts_flags e c bb s1 (wellNamed_cutNames hw)
    (prepareCompound_free e isInitial s s1 c bb hp hw).2.2

theorem startCutting_flags_exact_witness :
    (noCutEnv.WellNamed ∧
      prepareCompound noCutEnv false chainState =
        Prepared.compound "SectionCutCompound" demoBox
          (prepareCompound noCutEnv false chainState).state) ∧
    FlagsExact noCutEnv (startCutting noCutEnv false chainState) ∧
    (startCutting noCutEnv false chainState).hasBoxX = false ∧
    (startCutting noCutEnv false chainState).doc.getObjects =
      ["Box", "SectionCutCompound", "Box_CutLink", "SectionCutBoxX"] ∧
    (startCutting noCutEnv false chainState).console =
      ["SectionCut error: SectionCutX could not be added\n"] :=
  ⟨⟨noCutEnv_wellNamed, by decide!⟩,
    startCutting_flags_exact noCutEnv false chainState _ _ _ noCutEnv_wellNamed
      (by decide! : prepareCompound noCutEnv false chainState =
        Prepared.compound "SectionCutCompound" demoBox
          (prepareCompound noCutEnv false chainState).state),
    by decide!, by decide!, by decide!⟩

/-- Claim C25 as stated fails on the return of lines 409 to 414: the document
has the box and the cut of X from an earlier run, `hasBoxX` is set and no
group box is checked. `startCutting` removes the box and the cut and returns
before the flags are reset, so `hasBoxX` is still set while the document has
neither the X box nor the X cut. -/
theorem startCutting_early_return_keeps_flag :
    uncheckedState.activeDocument = true ∧ uncheckedState.docIsActive = true ∧
    uncheckedState.hasBoxX = true ∧
    (startCutting demoEnv false uncheckedState).hasBoxX = true ∧
    (startCutting demoEnv false uncheckedState).doc.getObject "SectionCutBoxX" = none ∧
    (startCutting demoEnv false uncheckedState).doc.getObject "SectionCutX" = none ∧
    (startCutting demoEnv false uncheckedState).doc.getObjects = ["Box"] := by
  decide!

/-- Claim C22 against the code: when the names of the seven generated objects
differ from each other and the list of the visible objects holds no object
twice, the cleanup of `startCutting` only erases from the list, and
afterwards the list holds none of the boxes and cuts that were in the
document and none of the links of the compound that were in the document.
The compound itself is removed from the document but stays in the list if it
was in it: the loop of lines 283 to 288 compares with `anObject`, which is
never the compound. -/
theorem cleanup_keeps_compound_in_list (e : Env) (s : State)
    (hw : (e.CompoundName :: e.cutNames).Nodup) (hnd : s.ObjectsListVisible.Nodup) :
    (cleanup e s).ObjectsListVisible.Sublist s.ObjectsListVisible ∧
    (∀ n ∈ e.cutNames, (s.doc.getObject n).isSome = true →
      n ∉ (cleanup e s).ObjectsListVisible) ∧
    (∀ c, s.doc.getObject e.CompoundName = some c →
      (∀ l ∈ c.Links, l ≠ e.CompoundName → (s.doc.getObject l).isSome = true →
        l ∉ (cleanup e s).ObjectsListVisible) ∧
      (e.CompoundName ∉ c.Links →
        (cleanup e s).doc.getObject e.CompoundName = none ∧
        (e.CompoundName ∈ (cleanup e s).ObjectsListVisible ↔
          e.CompoundName ∈ s.ObjectsListVisible))) := by
  obtain ⟨h6, hc6, hm6⟩ := six_of_cutNames e hw
  have hfree : (cleanup e s).doc.getObject e.CompoundName = none :=
    (getObject_eq_none_iff _ _).mpr (cleanup_free e s _ (List.mem_cons_self _ _))
  rw [cleanup_eq_fold] at hfree ⊢
  obtain ⟨f1, f2, f3, f4, f5⟩ := removeGenerated_fold_spec
    [e.CutZName, e.BoxZName, e.CutYName, e.BoxYName, e.CutXName, e.BoxXName] (s, none)
  revert hfree
  generalize [e.CutZName, e.BoxZName, e.CutYName, e.BoxYName, e.CutXName, e.BoxXName].foldl
    (fun p n => removeGenerated n p) (s, none) = p6 at f1 f2 f3 f4 f5 ⊢
  intro hfree
  simp only [] at f1 f2 f3 f4 f5
  have f5n : ∀ n ∈ e.cutNames, (s.doc.getObject n).isSome = true →
      n ∉ p6.1.ObjectsListVisible := fun n hn => f5 hnd h6 n ((hm6 n).mpr hn)
  have hp2 : some e.CompoundName ≠ p6.2 := by
    rcases f4 with h | ⟨n, hn, h⟩
    · rw [h]
      exact fun h2 => by cases h2
    · rw [h]
      intro h2
      exact hc6 ((Option.some.inj h2) ▸ hn)
  unfold removeCompound at hfree ⊢
  cases hg : p6.1.doc.getObject e.CompoundName with
  | none =>
    simp only []
    refine ⟨f1, f5n, fun c hc => ?_⟩
    rw [f3 _ hc6, hc] at hg
    cases hg
  | some c1 =>
    rw [hg] at hfree
    simp only [] at hfree ⊢
    obtain ⟨e1, e2⟩ := eraseVisible_list p6.2 p6.1
    obtain ⟨g1, g2, g3⟩ := removeLinks_list_spec c1.Links
      { eraseVisible p6.2 p6.1 with
        doc := (eraseVisible p6.2 p6.1).doc.removeObject e.CompoundName }
    have hsub := (g1.trans e1).trans f1
    refine ⟨hsub, fun n hn hs hm => f5n n hn hs ((g1.trans e1).subset hm), fun c hc => ?_⟩
    have hcc : c1 = c := by
      rw [f3 _ hc6, hc] at hg
      exact (Option.some.inj hg).symm
    subst hcc
    refine ⟨fun l hl hne hs => ?_, fun hnl => ⟨hfree, ?_⟩⟩
    · by_cases hl6 : l ∈ [e.CutZName, e.BoxZName, e.CutYName, e.BoxYName, e.CutXName,
        e.BoxXName]
      · exact fun hm => f5 hnd h6 l hl6 hs ((g1.trans e1).subset hm)
      · refine g3 ((hnd.sublist f1).sublist e1) l hl ?_
        show (((eraseVisible p6.2 p6.1).doc.removeObject e.CompoundName).getObject l).isSome = true
        rw [getObject_removeObject _ _ _ hne, eraseVisible_doc, f3 _ hl6]
        exact hs
    · exact ((g2 _ hnl).trans (e2 _ hp2)).trans (f2 _ hc6)

theorem cleanup_keeps_compound_in_list_witness :
    (visibleCompoundState.ObjectsListVisible =
      (visibleCompoundState.doc.objects.filter (fun o => o.Visibility)).map (fun o => o.name) ∧
     visibleCompoundState.ObjectsListVisible = ["SectionCutCompound", "SectionCutX"]) ∧
    (cleanup demoEnv visibleCompoundState).doc.getObjects = ["Box"] ∧
    (cleanup demoEnv visibleCompoundState).doc.getObject "SectionCutCompound" = none ∧
    "SectionCutCompound" ∈ (cleanup demoEnv visibleCompoundState).ObjectsListVisible ∧
    (cleanup demoEnv visibleCompoundState).ObjectsListVisible = ["SectionCutCompound"] := by
  have h := (cleanup_keeps_compound_in_list demoEnv visibleCompoundState demoEnv_wellNamed.1
    (by decide)).2.2
    { name := "SectionCutCompound", typeId := "Part::Compound", hasShape := true,
      Links := ["Box_CutLink"] } (by decide!)
  exact ⟨⟨by decide!, rfl⟩, by decide!, (h.2 (by decide)).1, (h.2 (by decide)).2.mpr (by decide),
    by decide!⟩

/-- Claim C23: the cleanup of `startCutting` calls `removeObject` for the
generated objects that the document has in the order Z cut, Z box, Y cut, Y
box, X cut, X box, compound, links of the compound, each call on the
document the calls before have left, and the document after the cleanup is
the one after these calls; and for every document whose generated objects
have the dependency structure that `startCutting` creates, at no call does
the document still hold a generated object that refers to the object being
removed as `Base`, as `Tool` or in its `Links`. -/
theorem cleanup_order_respects_references (e : Env) (s : State)
    (hw : (e.CompoundName :: e.cutNames).Nodup) :
    (cleanupCalls e s.doc).map Prod.fst =
      [e.CutZName, e.BoxZName, e.CutYName, e.BoxYName, e.CutXName, e.BoxXName].filter
        (fun n => (s.doc.getObject n).isSome) ++
      (match s.doc.getObject e.CompoundName with
       | none => []
       | some c => e.CompoundName :: c.Links) ∧
    cleanupCalls e s.doc = removeLinksCalls ((cleanupCalls e s.doc).map Prod.fst) s.doc ∧
    (cleanup e s).doc =
      ((cleanupCalls e s.doc).map Prod.fst).foldl Document.removeObject s.doc ∧
    (GeneratedStructure e s.doc = true →
      ∀ c ∈ cleanupCalls e s.doc, ∀ g ∈ generatedNames e s.doc, ∀ o,
        c.2.getObject g = some o → o.refersTo c.1 = false) := by
  refine ⟨cleanupCalls_names e s.doc hw, (cleanup_doc_eq_calls e s).2,
    (cleanup_doc_eq_calls e s).1, fun hs c hc g hg o ho => ?_⟩
  obtain ⟨h1, h2⟩ := cleanupCalls_spec e s.doc hw c hc
  cases hr : o.refersTo c.1 with
  | false => rfl
  | true =>
    have hlt := refersTo_rank e s.doc hw hs g hg o (h2 g o ho) c.1 hr
    rw [h1 g hlt] at ho
    cases ho

theorem cleanup_order_respects_references_witness :
    (demoEnv.CompoundName :: demoEnv.cutNames).Nodup ∧
    GeneratedStructure demoEnv (startCutting demoEnv false chainState).doc = true ∧
    (cleanupCalls demoEnv (startCutting demoEnv false chainState).doc).map Prod.fst =
      ["SectionCutZ", "SectionCutBoxZ", "SectionCutY", "SectionCutBoxY", "SectionCutX",
        "SectionCutBoxX", "SectionCutCompound", "Box_CutLink"] ∧
    (cleanup demoEnv (startCutting demoEnv false chainState)).doc.getObjects = ["Box"] ∧
    ∀ c ∈ cleanupCalls demoEnv (startCutting demoEnv false chainState).doc,
      ∀ g ∈ generatedNames demoEnv (startCutting demoEnv false chainState).doc, ∀ o,
        c.2.getObject g = some o → o.refersTo c.1 = false :=
  ⟨by decide, by decide!, by decide!, by decide!,
    (cleanup_order_respects_references demoEnv (startCutting demoEnv false chainState)
      (by decide)).2.2.2 (by decide!)⟩

/-- Claim C29: when `startCutting` finds no object that can be cut it
returns from the branch of lines 387 to 399, which resets the three group
boxes. If `blockSignals` of the dialog blocks the signals of its child
widgets, the reset calls no slot and leaves the dialog as the branch without
signals does. If it blocks the signals of the dialog only, the group boxes,
whose `blockSignals` is never called, emit `toggled`: the reset calls no
slot exactly when no group box was checked, and with the X group box checked
the first slot called is `onGroupBoxXtoggled`. -/
theorem reset_calls_toggled_handler (k : Toolkit) (run : Slot → State → State) (e : Env)
    (isInitial : Bool) (s : State)
    (ha : s.activeDocument = true) (hl : (collectCutList e s).1 = []) :
    startCutting e isInitial s = nothingToCut isInitial (collectCutList e s).2 ∧
    (k.dialogBlocksChildren = true →
      nothingToCutToggled k run isInitial (collectCutList e s).2 =
        { state := nothingToCut isInitial (collectCutList e s).2, called := [] }) ∧
    (k.dialogBlocksChildren = false →
      ((nothingToCutToggled k run isInitial (collectCutList e s).2).called = [] ↔
        ((collectCutList e s).2.ui.groupBoxX = false ∧
          (collectCutList e s).2.ui.groupBoxY = false ∧
          (collectCutList e s).2.ui.groupBoxZ = false)) ∧
      ((collectCutList e s).2.ui.groupBoxX = true →
        (nothingToCutToggled k run isInitial (collectCutList e s).2).called.head? =
          some Slot.onGroupBoxXtoggled)) := by
  refine ⟨startCutting_of_empty e isInitial s ha hl, ?_, ?_⟩
  · intro hk
    generalize (collectCutList e s).2 = s1
    cases isInitial <;> cases hx : s1.ui.groupBoxX <;> cases hy : s1.ui.groupBoxY <;>
      cases hz : s1.ui.groupBoxZ <;>
      simp [nothingToCutToggled, nothingToCut, setCheckedGroupBoxX, setCheckedGroupBoxY,
        setCheckedGroupBoxZ, emitToggled, blockSignals, State.log, hk, hx, hy, hz]
  · intro hk
    exact nothingToCutToggled_called k run isInitial _ hk

theorem reset_calls_toggled_handler_witness :
    (sketchState.activeDocument = true ∧ (collectCutList demoEnv sketchState).1 = [] ∧
      (collectCutList demoEnv sketchState).2.ui.groupBoxX = true) ∧
    (nothingToCutToggled ⟨false⟩ (fun _ => startCutting demoEnv false) false
      (collectCutList demoEnv sketchState).2).called = [Slot.onGroupBoxXtoggled] ∧
    (nothingToCutToggled ⟨false⟩ (fun _ => startCutting demoEnv false) false
      (collectCutList demoEnv sketchState).2).state.console =
        ["SectionCut error: there are no objects in the document that can be cut\n",
          "SectionCut error: there are no objects in the document that can be cut\n"] ∧
    (nothingToCutToggled ⟨false⟩ (fun _ => startCutting demoEnv false) false
      (collectCutList demoEnv sketchState).2).called.head? = some Slot.onGroupBoxXtoggled :=
  ⟨⟨rfl, by decide!, by decide!⟩, by decide!, by decide!,
    (reset_calls_toggled_handler ⟨false⟩ (fun _ => startCutting demoEnv false) demoEnv false
      sketchState rfl (by decide!)).2.2 rfl |>.2 (by decide!)⟩

/-- Claim C13, amended: for an active document with at least one object in
which every cut that exists has its group box checked already, so that the
refresh changes no group box (or with a toolkit in which the block of the
dialog reaches the group boxes), `onRefreshCutPBclicked` calls no slot,
leaves the document as it is and makes `ObjectsListVisible` the objects of
the document whose `Visibility` is true, in the order of the document; every
entry is an object of the document. -/
theorem onRefreshCutPBclicked_lists_visible (k : Toolkit) (run : Slot → State → State)
    (e : Env) (s : State)
    (ha : s.activeDocument = true) (hne : s.doc.objects ≠ [])
    (hc : k.dialogBlocksChildren = true ∨ CutsAlreadyChecked e s) :
    (onRefreshCutPBclickedToggled k run e s).called = [] ∧
    (onRefreshCutPBclickedToggled k run e s).state.doc = s.doc ∧
    (onRefreshCutPBclickedToggled k run e s).state.ObjectsListVisible =
      (s.doc.objects.filter (fun o => o.Visibility)).map (fun o => o.name) ∧
    ∀ n ∈ (onRefreshCutPBclickedToggled k run e s).state.ObjectsListVisible,
      n ∈ (onRefreshCutPBclickedToggled k run e s).state.doc.getObjects := by
  rw [onRefreshCutPBclickedToggled_eq k run e s hc]
  exact ⟨rfl, onRefreshCutPBclicked_list e s ha hne⟩

theorem onRefreshCutPBclicked_lists_visible_witness :
    (cutState.activeDocument = true ∧ cutState.doc.objects ≠ [] ∧
      CutsAlreadyChecked demoEnv cutState) ∧
    (onRefreshCutPBclickedToggled ⟨false⟩ (fun _ => startCutting demoEnv false) demoEnv
      cutState).called = [] ∧
    (onRefreshCutPBclickedToggled ⟨false⟩ (fun _ => startCutting demoEnv false) demoEnv
      cutState).state.ObjectsListVisible =
        ["SectionCutBoxX", "SectionCutX", "SectionCutBoxY", "SectionCutY", "SectionCutBoxZ",
          "SectionCutZ"] :=
  ⟨⟨rfl, by decide!, fun _ => rfl, fun _ => rfl, fun _ => rfl⟩,
    (onRefreshCutPBclicked_lists_visible ⟨false⟩ (fun _ => startCutting demoEnv false) demoEnv
      cutState rfl (by decide!) (Or.inr ⟨fun _ => rfl, fun _ => rfl, fun _ => rfl⟩)).1,
    (onRefreshCutPBclicked_lists_visible ⟨false⟩ (fun _ => startCutting demoEnv false) demoEnv
      cutState rfl (by decide!) (Or.inr ⟨fun _ => rfl, fun _ => rfl, fun _ => rfl⟩)).2.2.1.trans
      (by decide!)⟩

/-- Claim C13 as stated fails in two ways. For a document without objects:
all objects of the document have been deleted and the dialog still lists
`Box` as visible; `onRefreshCutPBclicked` writes an error and returns before
the list is cleared, so the list keeps an object that is not in the document.
For a document with a solid and the cuts of Y and Z, all visible, and the Z
group box unchecked: `setChecked(true)` of line 1375 emits `toggled`, the
slot runs `startCutting`, and when the refresh returns the list holds `Box`
only, while the visible objects of the document it was called on were `Box`
and the two cuts. -/
theorem onRefreshCutPBclicked_keeps_stale_list :
    (emptiedState.activeDocument = true ∧ emptiedState.doc.objects = [] ∧
      (onRefreshCutPBclickedToggled ⟨false⟩ (fun _ => startCutting demoEnv false) demoEnv
        emptiedState).state.ObjectsListVisible = ["Box"] ∧
      (onRefreshCutPBclickedToggled ⟨false⟩ (fun _ => startCutting demoEnv false) demoEnv
        emptiedState).state.doc.getObjects = [] ∧
      (onRefreshCutPBclickedToggled ⟨false⟩ (fun _ => startCutting demoEnv false) demoEnv
        emptiedState).state.console =
          ["SectionCut error: there are no objects in the document\n"]) ∧
    (refreshState.activeDocument = true ∧
      (refreshState.doc.objects.filter (fun o => o.Visibility)).map (fun o => o.name) =
        ["Box", "SectionCutY", "SectionCutZ"] ∧
      refreshState.ui.groupBoxZ = false ∧
      (onRefreshCutPBclickedToggled ⟨false⟩ (fun _ => startCutting demoEnv false) demoEnv
        refreshState).called = [Slot.onGroupBoxZtoggled] ∧
      (onRefreshCutPBclickedToggled ⟨false⟩ (fun _ => startCutting demoEnv false) demoEnv
        refreshState).state.ObjectsListVisible = ["Box"] ∧
      (onRefreshCutPBclickedToggled ⟨false⟩ (fun _ => startCutting demoEnv false) demoEnv
        refreshState).state.doc.getObjects =
          ["Box", "SectionCutCompound", "Box_CutLink", "SectionCutBoxX", "SectionCutX",
            "SectionCutBoxZ", "SectionCutZ"]) := by
  decide!

/-- Claim C24 against the code: for an active document with at least one
object, when the refresh changes no group box because every cut that exists
has its group box checked already (or with a toolkit in which the block of
the dialog reaches the group boxes), `onRefreshCutPBclicked` calls no slot
and leaves the document as it is; for each axis the flag `hasBox` is true
exactly when the document has the cut of that axis; the group box of an axis
whose cut exists is checked and a group box that was checked stays checked;
and the Refresh button is disabled if one of the three cuts exists and
otherwise is as it was. When `blockSignals` of the dialog blocks the signals
of the dialog only, a slot is called exactly when a cut exists whose group
box is not checked: `setChecked(true)` emits `toggled` and `startCutting`
runs inside the refresh. -/
theorem onRefreshCutPBclicked_flags (k : Toolkit) (run : Slot → State → State) (e : Env)
    (s : State) (ha : s.activeDocument = true) (hne : s.doc.objects ≠ []) :
    ((k.dialogBlocksChildren = true ∨ CutsAlreadyChecked e s) →
      (onRefreshCutPBclickedToggled k run e s).called = [] ∧
      RefreshedFlags e s (onRefreshCutPBclickedToggled k run e s).state) ∧
    (k.dialogBlocksChildren = false →
      ((onRefreshCutPBclickedToggled k run e s).called = [] ↔ CutsAlreadyChecked e s)) := by
  refine ⟨fun hc => ?_, fun hk => onRefreshCutPBclickedToggled_called k run e s ha hne hk⟩
  rw [onRefreshCutPBclickedToggled_eq k run e s hc]
  exact ⟨rfl, onRefreshCutPBclicked_refreshedFlags e s ha hne⟩

theorem onRefreshCutPBclicked_flags_witness :
    (keptCutState.activeDocument = true ∧ keptCutState.doc.objects ≠ [] ∧
      (keptCutState.doc.getObject "SectionCutZ").isSome = true ∧
      keptCutState.ui.groupBoxZ = false ∧ keptCutState.ui.RefreshCutPB = true) ∧
    ¬ CutsAlreadyChecked demoEnv keptCutState ∧
    (onRefreshCutPBclickedToggled ⟨false⟩ (fun _ => startCutting demoEnv false) demoEnv
      keptCutState).called ≠ [] ∧
    (onRefreshCutPBclickedToggled ⟨false⟩ (fun _ => startCutting demoEnv false) demoEnv
      keptCutState).called = [Slot.onGroupBoxZtoggled] ∧
    (onRefreshCutPBclickedToggled ⟨false⟩ (fun _ => startCutting demoEnv false) demoEnv
      keptCutState).state.hasBoxZ = true ∧
    (onRefreshCutPBclickedToggled ⟨false⟩ (fun _ => startCutting demoEnv false) demoEnv
      keptCutState).state.doc.getObjects = ["Box"] ∧
    (onRefreshCutPBclickedToggled ⟨false⟩ (fun _ => startCutting demoEnv false) demoEnv
      keptCutState).state.ui.groupBoxZ = false ∧
    (onRefreshCutPBclickedToggled ⟨false⟩ (fun _ => startCutting demoEnv false) demoEnv
      keptCutState).state.ui.RefreshCutPB = false :=
  have hn : ¬ CutsAlreadyChecked demoEnv keptCutState :=
    fun h => absurd (h.2.2 (by decide!)) (by decide)
  ⟨⟨rfl, by decide!, by decide!, rfl, rfl⟩, hn,
    fun h0 => hn (((onRefreshCutPBclicked_flags ⟨false⟩ (fun _ => startCutting demoEnv false)
      demoEnv keptCutState rfl (by decide!)).2 rfl).mp h0),
    by decide!, by decide!, by decide!, by decide!, by decide!⟩

/-- Claim C8, amended: in exact arithmetic, for a bounding box that is not
empty, `refreshCutRanges` with the range flag of an axis set gives the spin
box of that axis the range `[centre - length/2, centre + length/2]`, which is
the minimum and the maximum coordinate of the bounding box on that axis. In
`float`, the limits computed by lines 1425 and 1426 from the centre and the
length are the minimum and the maximum of the bounding box whenever no
operation rounds: the sum, its half, the difference and its half are values of
`float`, as are the minimum and the maximum themselves. -/
theorem refreshCutRanges_range_is_extent (e : Env) (BoundingBox : SbBox3f)
    (forXValue forYValue forZValue forXRange forYRange forZRange : Bool) (s : State)
    (hb : BoundingBox.isEmpty = false) :
    ((forXRange = true →
        RangeIsExtent (refreshCutRanges e BoundingBox forXValue forYValue forZValue
            forXRange forYRange forZRange s).ui.cutX
          BoundingBox.getCenter.x BoundingBox.getSize.x BoundingBox.min.x BoundingBox.max.x) ∧
      (forYRange = true →
        RangeIsExtent (refreshCutRanges e BoundingBox forXValue forYValue forZValue
            forXRange forYRange forZRange s).ui.cutY
          BoundingBox.getCenter.y BoundingBox.getSize.y BoundingBox.min.y BoundingBox.max.y) ∧
      (forZRange = true →
        RangeIsExtent (refreshCutRanges e BoundingBox forXValue forYValue forZValue
            forXRange forYRange forZRange s).ui.cutZ
          BoundingBox.getCenter.z BoundingBox.getSize.z BoundingBox.min.z BoundingBox.max.z)) ∧
    (∀ (fl : ℚ → ℚ) (lo hi : ℚ),
      fl (hi + lo) = hi + lo → fl ((hi + lo) * (1 / 2)) = (hi + lo) * (1 / 2) →
      fl (hi - lo) = hi - lo → fl ((hi - lo) / 2) = (hi - lo) / 2 →
      fl lo = lo → fl hi = hi →
      floatRange fl (floatCenter fl lo hi) (floatSize fl lo hi) = (lo, hi)) ∧
    (floatRange id (floatCenter id BoundingBox.min.x BoundingBox.max.x)
        (floatSize id BoundingBox.min.x BoundingBox.max.x) =
      (BoundingBox.getCenter.x - BoundingBox.getSize.x / 2,
        BoundingBox.getCenter.x + BoundingBox.getSize.x / 2)) :=
  ⟨refreshCutRanges_rangeIsExtent e BoundingBox forXValue forYValue forZValue
      forXRange forYRange forZRange s hb,
    floatRange_of_exact,
    by
      unfold floatRange floatCenter floatSize SbBox3f.getCenter SbBox3f.getSize
      simp only [id]
      congr 1 <;> ring⟩

theorem refreshCutRanges_range_is_extent_witness :
    demoBox.isEmpty = false ∧
      RangeIsExtent
        (refreshCutRanges demoEnv demoBox false false false false true false sliderState).ui.cutY
        demoBox.getCenter.y demoBox.getSize.y 0 20 ∧
      floatRange roundToFloat (floatCenter roundToFloat 0 20) (floatSize roundToFloat 0 20) =
        (0, 20) :=
  ⟨by decide!, (refreshCutRanges_range_is_extent demoEnv demoBox false false false
      false true false sliderState (by decide!)).1.2.1 rfl,
    (refreshCutRanges_range_is_extent demoEnv demoBox false false false
      false true false sliderState (by decide!)).2.1 roundToFloat 0 20 (by decide!) (by decide!)
      (by decide!) (by decide!) (by decide!) (by decide!)⟩

/-- Claim C8 as stated fails in the arithmetic of the source, which is
`float`. For a bounding box that reaches from -1 to 16777216 on the X axis,
both values of `float`, the length 16777217 is rounded to 16777216 and the
centre is 8388607.5, so lines 1425 and 1426 give the range
`[-0.5, 16777216]`: its minimum is not the minimum -1 of the bounding box.
Without rounding the same expressions give -1 and 16777216, the range of the
exact model. -/
theorem refreshCutRanges_float_range_differs :
    (roundToFloat (-1) = -1 ∧ roundToFloat 16777216 = 16777216 ∧
      roundToFloat 16777217 = 16777216 ∧ roundToFloat (1 / 10) = 13421773 / 134217728) ∧
    floatSize roundToFloat (-1) 16777216 = 16777216 ∧
    floatCenter roundToFloat (-1) 16777216 = 16777215 / 2 ∧
    floatRange roundToFloat (floatCenter roundToFloat (-1) 16777216)
      (floatSize roundToFloat (-1) 16777216) = (-1 / 2, 16777216) ∧
    floatRange id (floatCenter id (-1) 16777216) (floatSize id (-1) 16777216) =
      (-1, 16777216) ∧
    (refreshCutRanges demoEnv ⟨⟨-1, 0, 0⟩, ⟨16777216, 20, 30⟩⟩ false false false
      true false false sliderState).ui.cutX.minimum = -1 := by
  decide!

end SectionCut
